import Mathlib

/-!
# go-finance: the Newton-Raphson root finder and the formulas built on it

A shallow embedding of `fin/newton.go`, `fin/cashflow.go`, `fin/tvm.go`, `fin/bonds.go`,
`depreciation.go`, `rates.go` and, for the comparison of the two copies, the legacy
`bonds.go`.

## The number model

Go's `float64` is embedded as `F64 K`: a finite value taken from an ordered field `K`, the
two infinities, and NaN.  The arithmetic follows IEEE 754 wherever a non-finite value appears
or is produced (division by zero, `Inf - Inf`, `0 * Inf`, comparisons with NaN are false,
...), because the control flow of the solver depends on it.  The exact result of an operation
on finite values (`+`, `-`, `*`, `/`, `float64(n)`, `math.Pow` with an integer exponent, the
constant `1E-6`) is rounded by `Rounding.rnd`, a parameter of the arithmetic:

* `exactRounding` rounds nothing.  It is the arithmetic of every field that has no rounding
  of its own, `ℚ` and `ℝ` among them, and the one a theorem stated without a `Rounding`
  argument is about;
* `B64` is `ℚ` with the rounding `round64` of binary64: to the nearest `float64`, ties to
  even, with gradual underflow, and to an infinity from `2^1024` on.  An evaluation in `B64`
  proves each rounding from its certificate (`round64_cert`, `round64_of_dyadic`);
* a theorem with a `[Rounding K]` argument holds for every rounding.  There `Representable x`
  says that the exact result `x` is not rounded, and `KeepsSign K` that a rounded result has
  the sign of the exact one.

What is not modelled: the sign of zero (a quotient `x / 0` takes the sign of `x`), and the
error of `math.Pow`, which is taken to be correctly rounded.

Go's `int` is embedded as `Int`.  The integer arithmetic on `int` in the counter `numIt + 1`
below `MaxIterations`, in `len(values) - 1`, in the loop index of `interestAndPrincipal` and in
the 30/360 day counts on calendar fields cannot wrap.  The difference of two `int64`
timestamps and the expressions `life-per+1` and `life+1` of `DepreciationSYD` can wrap, and are
embedded with `wrapInt64`.

## Results

`newton`, `InternalRateOfReturn`, `ModifiedInternalRateOfReturn` and `Rate` return
`Except Err (F64 K)`.  The functions of `tvm.go` and `bonds.go` embedded after them return Go's
pair `(value, error)` as `F64 K × Option Err`, so that the value returned next to an error is
part of the model.

## Library functions

`math.Log`, `math.Sqrt` and `math.Pow` with an exponent that is not an integer, and the
calendar lookup `time.Unix(t, 0).Date()` (which depends on
the local time zone), are parameters of the functions that call them.  `utcDate` is that
lookup in the UTC zone, used where a definition is evaluated on the dates of the tests.
-/

namespace GoFinance

/-- A `float64`: finite (exact), `+Inf`, `-Inf` or NaN. -/
inductive F64 (K : Type) where
  | fin (x : K)
  | pinf
  | ninf
  | nan
deriving DecidableEq

/-- The rounding of the arithmetic: `rnd x` is the `float64` that stands for the exact result
`x` of an operation on finite values (the nearest `float64`; an infinity when `x` overflows,
zero when it underflows). -/
class Rounding (K : Type) where
  /-- The `float64` an exact result is rounded to. -/
  rnd : K → F64 K

/-- Exact arithmetic, in which no result is rounded: the arithmetic of every field that has
no rounding of its own. -/
instance (priority := low) exactRounding (K : Type) : Rounding K := ⟨F64.fin⟩

namespace F64

open Rounding (rnd)

variable {K : Type} [LinearOrderedField K] [Rounding K]

/-- Unary minus. -/
def neg : F64 K → F64 K
  | fin x => fin (-x)
  | pinf => ninf
  | ninf => pinf
  | nan => nan

/-- IEEE addition: `Inf + (-Inf)` is NaN. -/
def add : F64 K → F64 K → F64 K
  | fin x, fin y => rnd (x + y)
  | fin _, pinf => pinf
  | fin _, ninf => ninf
  | pinf, fin _ => pinf
  | pinf, pinf => pinf
  | ninf, fin _ => ninf
  | ninf, ninf => ninf
  | _, _ => nan

/-- IEEE subtraction, `x - y = x + (-y)`. -/
def sub (x y : F64 K) : F64 K := add x (neg y)

/-- The infinity with the sign of `s * t`, for `s` non-zero and `t` an infinity
(`posT` tells whether `t` is `+Inf`); NaN when `s = 0`. -/
def infTimes (s : K) (posT : Bool) : F64 K :=
  if s = 0 then nan
  else if (0 < s) = (posT = true) then pinf else ninf

/-- IEEE multiplication: `0 * Inf` is NaN. -/
def mul : F64 K → F64 K → F64 K
  | fin x, fin y => rnd (x * y)
  | fin x, pinf => infTimes x true
  | fin x, ninf => infTimes x false
  | pinf, fin y => infTimes y true
  | ninf, fin y => infTimes y false
  | pinf, pinf => pinf
  | ninf, ninf => pinf
  | pinf, ninf => ninf
  | ninf, pinf => ninf
  | _, _ => nan

/-- IEEE division: a finite non-zero value over zero is an infinity, `0 / 0` and
`Inf / Inf` are NaN, a finite value over an infinity is zero. -/
def div : F64 K → F64 K → F64 K
  | fin x, fin y =>
      if y = 0 then (if x = 0 then nan else if 0 < x then pinf else ninf) else rnd (x / y)
  | fin _, pinf => fin 0
  | fin _, ninf => fin 0
  | pinf, fin y => if 0 ≤ y then pinf else ninf
  | ninf, fin y => if 0 ≤ y then ninf else pinf
  | _, _ => nan

instance : Neg (F64 K) := ⟨neg⟩
instance : Add (F64 K) := ⟨add⟩
instance : Sub (F64 K) := ⟨sub⟩
instance : Mul (F64 K) := ⟨mul⟩
instance : Div (F64 K) := ⟨div⟩

/-- Go `math.Abs`. -/
def abs : F64 K → F64 K
  | fin x => fin |x|
  | pinf => pinf
  | ninf => pinf
  | nan => nan

/-- Go `x < y` on `float64`: false as soon as one side is NaN. -/
def lt : F64 K → F64 K → Bool
  | fin x, fin y => decide (x < y)
  | fin _, pinf => true
  | ninf, fin _ => true
  | ninf, pinf => true
  | _, _ => false

/-- Go `x <= y` on `float64`: false as soon as one side is NaN. -/
def le : F64 K → F64 K → Bool
  | fin x, fin y => decide (x ≤ y)
  | fin _, pinf => true
  | ninf, fin _ => true
  | ninf, pinf => true
  | pinf, pinf => true
  | ninf, ninf => true
  | _, _ => false

/-- Go `float64(n)` for an `int` value `n`. -/
def ofInt (n : Int) : F64 K := rnd (n : K)

/-- Go `math.Pow(x, float64(n))` for an integer exponent, with the special cases of the
standard library: `Pow(x, 0) = 1` for every `x` (NaN included), `Pow(1, y) = 1`,
`Pow(x, 1) = x`, `Pow(NaN, y) = NaN`,
`Pow(0, y) = Inf` for `y < 0`, `Pow(+Inf, y)` is `+Inf` for `y > 0` and `0` for `y < 0`,
`Pow(-Inf, y)` is `-Inf` for odd `y > 0`, `+Inf` for even `y > 0` and `0` for `y < 0`. -/
def powi (x : F64 K) (n : Int) : F64 K :=
  if n = 0 ∨ x = fin 1 then fin 1
  else if n = 1 then x
  else match x with
    | fin a => if a = 0 ∧ n < 0 then pinf else rnd (a ^ n)
    | pinf => if 0 < n then pinf else fin 0
    | ninf => if 0 < n then (if n % 2 = 1 then ninf else pinf) else fin 0
    | nan => nan

/-- Whether the value is finite. -/
def isFinite : F64 K → Bool
  | fin _ => true
  | _ => false

/-- The finite value carried, `0` for the infinities and NaN. -/
def toK : F64 K → K
  | fin x => x
  | _ => 0

end F64

open F64

open Rounding (rnd)

section Definitions

variable {K : Type} [LinearOrderedField K] [Rounding K]

/-- The errors the embedded functions return; in the source each is `errors.New` of a
message. -/
inductive Err where
  /-- Message: solution did not converge (`newton`). -/
  | didNotConverge
  /-- Message: the cash flow must contain at least one positive value and one negative
  value (`InternalRateOfReturn`, `ModifiedInternalRateOfReturn`). -/
  | cashFlowSign
  /-- Message: payment type must be PayEnd or PayBegin (`tvm.go`). -/
  | paymentType
  /-- Message: number of periods must be positive (`tvm.go`). -/
  | periodsNegative
  /-- Message: payment and present value cannot be both zero when the rate is not zero
  (`Periods`). -/
  | paymentAndPresentValueZero
  /-- Message: rate and payment cannot be both zero (`Periods`). -/
  | rateAndPaymentZero
  /-- Message: maturity must happen before settlement (`bonds.go`, returned when
  `settlement >= maturity`). -/
  | maturityBeforeSettlement
  /-- Message: maturity cannot be more than one year after settlement (`bonds.go`). -/
  | moreThanOneYear
  /-- The same message with a capital first letter, as the legacy `src/bonds.go` has it. -/
  | moreThanOneYearLegacy
  /-- Message: cost and life must be absolute positive numbers (`depreciation.go`). -/
  | costOrLifeNegative
  /-- Message: period must be greater or equal than one (`depreciation.go`). -/
  | periodBelowOne
  /-- Message: numPeriods must be strictly positive (`EffectiveRate`). -/
  | numPeriodsNotStrictlyPositive
  /-- Message: number of compounding payments per year must be strictly positive
  (`NominalRate`). -/
  | compoundingNotStrictlyPositive
  /-- The error of `ScheduledNetPresentValue` for value and date lists of different
  lengths. -/
  | lengthMismatch
deriving DecidableEq

/-- The constant `MaxIterations = 30` of `newton.go`. -/
def MaxIterations : Int := 30

/-- The constant `Precision = 1E-6` of `newton.go`, converted to `float64` where it is
compared. -/
def Precision : F64 K := rnd (1 / 1000000)

/-- The constant `math.MaxFloat64`, `2^1023 * (2 - 2^-52)`. -/
def MaxFloat64 : K := 2 ^ 1024 - 2 ^ 971

/-- The constants `PayEnd = iota` and `PayBegin` of `tvm.go`. -/
def PayEnd : Int := 0
/-- See `PayEnd`. -/
def PayBegin : Int := 1

/-- The function `newton` of `newton.go`: one update step, then the precision test, then the
iteration cap, then the recursive call. -/
def newton (guess : F64 K) (function derivative : F64 K → F64 K) (numIt : Int) :
    Except Err (F64 K) :=
  let x := guess - function guess / derivative guess
  if F64.lt (F64.abs (x - guess)) Precision then
    .ok x
  else if numIt ≥ MaxIterations then
    .error .didNotConverge
  else
    newton x function derivative (numIt + 1)
termination_by (MaxIterations - numIt).toNat
decreasing_by
  simp only [MaxIterations] at *
  omega

/-- The loop of `NetPresentValue`: `i` is the 1-based loop index, `npv` the accumulator and
`values` the flows `values[i-1], values[i], ...` still to be added. -/
def NetPresentValue.loop (rate : F64 K) : List (F64 K) → Int → F64 K → F64 K
  | [], _, npv => npv
  | v :: rest, i, npv => NetPresentValue.loop rate rest (i + 1) (npv + v / powi (fin 1 + rate) i)

/-- The function `NetPresentValue` of `cashflow.go`. -/
def NetPresentValue (rate : F64 K) (values : List (F64 K)) : F64 K :=
  NetPresentValue.loop rate values 1 (fin 0)

/-- The loop of `dNetPresentValue`, as `NetPresentValue.loop`. -/
def dNetPresentValue.loop (rate : F64 K) : List (F64 K) → Int → F64 K → F64 K
  | [], _, dnpv => dnpv
  | v :: rest, i, dnpv =>
      dNetPresentValue.loop rate rest (i + 1)
        (dnpv + v * ofInt (-i) * powi (fin 1 + rate) (i - 1) / powi (fin 1 + rate) (2 * i))

/-- The function `dNetPresentValue` of `cashflow.go`. -/
def dNetPresentValue (rate : F64 K) (values : List (F64 K)) : F64 K :=
  dNetPresentValue.loop rate values 1 (fin 0)

/-- The function `minMaxSlice` of `cashflow.go`; the pair is `(min, max)`, started at
`(MaxFloat64, -MaxFloat64)`. -/
def minMaxSlice (values : List (F64 K)) : F64 K × F64 K :=
  values.foldl
    (fun mm value =>
      let max := if F64.lt mm.2 value then value else mm.2
      let min := if F64.lt value mm.1 then value else mm.1
      (min, max))
    (fin MaxFloat64, -(fin MaxFloat64))

/-- The function `InternalRateOfReturn` of `cashflow.go`. -/
def InternalRateOfReturn (values : List (F64 K)) (guess : F64 K) : Except Err (F64 K) :=
  let mm := minMaxSlice values
  if F64.le (fin 0) (mm.1 * mm.2) then
    .error .cashFlowSign
  else
    newton guess (fun rate => NetPresentValue rate values)
      (fun rate => dNetPresentValue rate values) 0

/-- The function `ModifiedInternalRateOfReturn` of `cashflow.go`.  The outer `math.Pow`, whose
exponent `1/float64(nper-1)` is not an integer in general, is the parameter `rpow`. -/
def ModifiedInternalRateOfReturn (rpow : F64 K → F64 K → F64 K) (values : List (F64 K))
    (financeRate reinvestRate : F64 K) : Except Err (F64 K) :=
  let mm := minMaxSlice values
  if F64.le (fin 0) (mm.1 * mm.2) then
    .error .cashFlowSign
  else
    let positiveFlows := values.map (fun value => if F64.le (fin 0) value then value else fin 0)
    let negativeFlows := values.map (fun value => if F64.le (fin 0) value then fin 0 else value)
    let nper : Int := values.length
    .ok (rpow
          (-(NetPresentValue reinvestRate positiveFlows) * powi (fin 1 + reinvestRate) nper
            / NetPresentValue financeRate negativeFlows / (fin 1 + financeRate))
          (fin 1 / ofInt (nper - 1))
        - fin 1)

/-- The function `f` of `tvm.go`, the left-hand side of the annuity equation. -/
def f (rate : F64 K) (numPeriods : Int) (pmt pv fv : F64 K) (paymentType : Int) : F64 K :=
  let compounded := powi (fin 1 + rate) numPeriods
  pv * compounded + pmt * (fin 1 + rate * ofInt paymentType) * ((compounded - fin 1) / rate) + fv

/-- The function `df` of `tvm.go`. -/
def df (rate : F64 K) (numPeriods : Int) (pmt pv _fv : F64 K) (paymentType : Int) : F64 K :=
  let compounded1 := powi (fin 1 + rate) numPeriods
  let compounded2 := powi (fin 1 + rate) (numPeriods - 1)
  ofInt numPeriods * pv * compounded2
    + pmt * (ofInt paymentType * (compounded1 - fin 1) / rate
        + (fin 1 + rate * ofInt paymentType)
            * (ofInt numPeriods * rate * compounded2 - compounded1 + fin 1) / powi rate 2)

/-- The function `Rate` of `tvm.go`. -/
def Rate (numPeriods : Int) (pmt pv fv : F64 K) (paymentType : Int) (guess : F64 K) :
    Except Err (F64 K) :=
  if paymentType ≠ PayEnd ∧ paymentType ≠ PayBegin then
    .error .paymentType
  else
    newton guess (fun rate => f rate numPeriods pmt pv fv paymentType)
      (fun rate => df rate numPeriods pmt pv fv paymentType) 0

/-! ## `tvm.go`: the closed-form annuity functions -/

/-- Go `x == y` on `float64`: false as soon as one side is NaN. -/
def F64.eq : F64 K → F64 K → Bool
  | fin x, fin y => decide (x = y)
  | pinf, pinf => true
  | ninf, ninf => true
  | _, _ => false

/-- The function `PresentValue` of `tvm.go`. -/
def PresentValue (rate : F64 K) (numPeriods : Int) (pmt fv : F64 K) (paymentType : Int) :
    F64 K × Option Err :=
  if numPeriods < 0 then
    (fin 0, some .periodsNegative)
  else if paymentType ≠ PayEnd ∧ paymentType ≠ PayBegin then
    (fin 0, some .paymentType)
  else if F64.eq rate (fin 0) = false then
    (((-pmt) * (fin 1 + rate * ofInt paymentType)
          * ((powi (fin 1 + rate) numPeriods - fin 1) / rate) - fv)
        / powi (fin 1 + rate) numPeriods, none)
  else
    ((-fv) - pmt * ofInt numPeriods, none)

/-- The function `FutureValue` of `tvm.go`. -/
def FutureValue (rate : F64 K) (numPeriods : Int) (pmt pv : F64 K) (paymentType : Int) :
    F64 K × Option Err :=
  if numPeriods < 0 then
    (fin 0, some .periodsNegative)
  else if paymentType ≠ PayEnd ∧ paymentType ≠ PayBegin then
    (fin 0, some .paymentType)
  else if F64.eq rate (fin 0) = false then
    ((-pv) * powi (fin 1 + rate) numPeriods
        - pmt * (fin 1 + rate * ofInt paymentType) * (powi (fin 1 + rate) numPeriods - fin 1)
            / rate, none)
  else
    ((-pv) - pmt * ofInt numPeriods, none)

/-- The function `Payment` of `tvm.go`. -/
def Payment (rate : F64 K) (numPeriods : Int) (pv fv : F64 K) (paymentType : Int) :
    F64 K × Option Err :=
  if numPeriods < 0 then
    (fin 0, some .periodsNegative)
  else if paymentType ≠ PayEnd ∧ paymentType ≠ PayBegin then
    (fin 0, some .paymentType)
  else if F64.eq rate (fin 0) = false then
    (((-fv) - pv * powi (fin 1 + rate) numPeriods) / (fin 1 + rate * ofInt paymentType)
        / ((powi (fin 1 + rate) numPeriods - fin 1) / rate), none)
  else
    (((-pv) - fv) / ofInt numPeriods, none)

/-- The function `Periods` of `tvm.go`; `log` is `math.Log`. -/
def Periods (log : F64 K → F64 K) (rate pmt pv fv : F64 K) (paymentType : Int) :
    F64 K × Option Err :=
  if paymentType ≠ PayEnd ∧ paymentType ≠ PayBegin then
    (fin 0, some .paymentType)
  else if F64.eq rate (fin 0) = false then
    if F64.eq pmt (fin 0) = true ∧ F64.eq pv (fin 0) = true then
      (fin 0, some .paymentAndPresentValueZero)
    else
      (log ((pmt * (fin 1 + rate * ofInt paymentType) / rate - fv)
              / (pv + pmt * (fin 1 + rate * ofInt paymentType) / rate))
          / log (fin 1 + rate), none)
  else
    if F64.eq pmt (fin 0) = true then
      (fin 0, some .rateAndPaymentZero)
    else
      (((-pv) - fv) / pmt, none)

/-- The loop of `interestAndPrincipal`: the first argument counts the iterations still to
run, `i` is the loop index, then come `capital`, `interest` and `principal`; the result is
`(interest, principal)`. -/
def interestAndPrincipal.loop (rate pmt : F64 K) (paymentType : Int) :
    Nat → Int → F64 K → F64 K → F64 K → F64 K × F64 K
  | 0, _, _, interest, principal => (interest, principal)
  | k + 1, i, capital, _, _ =>
      interestAndPrincipal.loop rate pmt paymentType k (i + 1)
        (capital + (pmt - (if paymentType = 1 ∧ i = 1 then fin 0 else (-capital) * rate)))
        (if paymentType = 1 ∧ i = 1 then fin 0 else (-capital) * rate)
        (pmt - (if paymentType = 1 ∧ i = 1 then fin 0 else (-capital) * rate))

/-- The function `interestAndPrincipal` of `tvm.go`; the loop `for i := 1; i <= period; i++`
runs `period` times, and not at all when `period < 1`. -/
def interestAndPrincipal (rate : F64 K) (period numPeriods : Int) (pv fv : F64 K)
    (paymentType : Int) : F64 K × F64 K × Option Err :=
  match (Payment rate numPeriods pv fv paymentType).2 with
  | some err => (fin 0, fin 0, some err)
  | none =>
      let r := interestAndPrincipal.loop rate (Payment rate numPeriods pv fv paymentType).1
        paymentType period.toNat 1 pv (fin 0) (fin 0)
      (r.1, r.2, none)

/-- The function `InterestPayment` of `tvm.go`. -/
def InterestPayment (rate : F64 K) (period numPeriods : Int) (pv fv : F64 K)
    (paymentType : Int) : F64 K × Option Err :=
  if paymentType ≠ PayEnd ∧ paymentType ≠ PayBegin then
    (fin 0, some .paymentType)
  else
    match (interestAndPrincipal rate period numPeriods pv fv paymentType).2.2 with
    | some err => (fin 0, some err)
    | none => ((interestAndPrincipal rate period numPeriods pv fv paymentType).1, none)

/-- The function `PrincipalPayment` of `tvm.go`. -/
def PrincipalPayment (rate : F64 K) (period numPeriods : Int) (pv fv : F64 K)
    (paymentType : Int) : F64 K × Option Err :=
  if paymentType ≠ PayEnd ∧ paymentType ≠ PayBegin then
    (fin 0, some .paymentType)
  else
    match (interestAndPrincipal rate period numPeriods pv fv paymentType).2.2 with
    | some err => (fin 0, some err)
    | none => ((interestAndPrincipal rate period numPeriods pv fv paymentType).2.1, none)

/-! ## `bonds.go` -/

/-- The value an `int64` computation leaves when the exact result is `x`: the representative
of `x` modulo `2^64` in `[-2^63, 2^63)`. -/
def wrapInt64 (x : Int) : Int := (x + 2 ^ 63) % 2 ^ 64 - 2 ^ 63

/-- The constants `CountNasd = iota`, ... of `bonds.go`. -/
def CountNasd : Int := 0
/-- See `CountNasd`. -/
def CountActualActual : Int := 1
/-- See `CountNasd`. -/
def CountActual360 : Int := 2
/-- See `CountNasd`. -/
def CountActual365 : Int := 3
/-- See `CountNasd`. -/
def CountEuropean : Int := 4

/-- The function `isLeap` of `bonds.go`; Go `%` is the truncated remainder. -/
def isLeap (year : Int) : Bool :=
  Int.tmod year 4 == 0 && (Int.tmod year 100 != 0 || Int.tmod year 400 == 0)

/-- The function `DaysDifference` of `bonds.go`; `date t` is `time.Unix(t, 0).Date()` as
`(year, month, day)`.  The `int64` quotient `(date2 - date1) / 86400` truncates toward
zero. -/
def DaysDifference (date : Int → Int × Int × Int) (date1 date2 : Int) (basis : Int) : Int :=
  let y1 := (date date1).1
  let m1 := (date date1).2.1
  let d1 := (date date1).2.2
  let y2 := (date date2).1
  let m2 := (date date2).2.1
  let d2 := (date date2).2.2
  if basis = CountNasd then
    (y2 - y1) * 360 + (m2 - m1) * 30
      + (if d2 = 31 ∧ (d1 = 30 ∨ d1 = 31) then 30 else d2) - (if d1 = 31 then 30 else d1)
  else if basis = CountActualActual ∨ basis = CountActual360 ∨ basis = CountActual365 then
    Int.tdiv (wrapInt64 (date2 - date1)) 86400
  else if basis = CountEuropean then
    (y2 - y1) * 360 + (m2 - m1) * 30 + d2 - d1
  else
    0

/-- The function `TBillYield` of `bonds.go`. -/
def TBillYield (settlement maturity : Int) (price : F64 K) : F64 K × Option Err :=
  if settlement ≥ maturity then
    (fin 0, some .maturityBeforeSettlement)
  else if F64.lt (fin 360 : F64 K)
      (ofInt (wrapInt64 (maturity - settlement)) / ofInt 86400) = true then
    (fin 0, some .moreThanOneYear)
  else
    ((fin 100 - price) * fin 360 / price
        / (ofInt (wrapInt64 (maturity - settlement)) / ofInt 86400), none)

/-- The function `TBillEquivalentYield` of `bonds.go`; `sqrt` is `math.Sqrt` and `date` is as
in `DaysDifference`.  The constant expression `365/2` is the integer `182`. -/
def TBillEquivalentYield (date : Int → Int × Int × Int) (sqrt : F64 K → F64 K)
    (settlement maturity : Int) (discount : F64 K) : F64 K × Option Err :=
  if settlement ≥ maturity then
    (fin 0, some .maturityBeforeSettlement)
  else
    let dsm : F64 K := ofInt (DaysDifference date settlement maturity CountActual365)
    let ySettlement := (date settlement).1
    let mSettlement := (date settlement).2.1
    let yMaturity := (date maturity).1
    if F64.le dsm (fin 182) = true then
      (fin 365 * discount / (fin 360 - discount * dsm), none)
    else if F64.eq dsm (fin 366) = true
        ∧ ((mSettlement ≤ 2 ∧ isLeap ySettlement = true)
          ∨ (mSettlement > 2 ∧ isLeap yMaturity = true)) then
      (fin 2 * (sqrt (fin 1 - discount * fin 366 / (discount * fin 366 - fin 360)) - fin 1), none)
    else if F64.lt (fin 365) dsm = true then
      (fin 0, some .moreThanOneYear)
    else
      (((-dsm) + sqrt (powi dsm 2
            - (fin 2 * dsm - fin 365) * discount * dsm * fin 365 / (discount * dsm - fin 360)))
          / (dsm - fin 182), none)

/-- Go `time.Unix(t, 0).Date()` in the UTC zone, as `(year, month, day)`: the day number
`t / 86400` (rounded down) is converted to the proleptic Gregorian calendar, in 400-year
eras that start on 1 March. -/
def utcDate (t : Int) : Int × Int × Int :=
  let z := t / 86400 + 719468
  let era := z / 146097
  let doe := z - era * 146097
  let yoe := (doe - doe / 1460 + doe / 36524 - doe / 146096) / 365
  let doy := doe - (365 * yoe + yoe / 4 - yoe / 100)
  let mp := (5 * doy + 2) / 153
  let d := doy - (153 * mp + 2) / 5 + 1
  let m := if mp < 10 then mp + 3 else mp - 9
  (if m ≤ 2 then yoe + era * 400 + 1 else yoe + era * 400, m, d)

/-! ## `depreciation.go` -/

/-- Go `math.Floor`. -/
def F64.floor [FloorRing K] : F64 K → F64 K
  | fin a => fin ((Int.floor a : Int) : K)
  | x => x

/-- Go `math.Ceil`. -/
def F64.ceil [FloorRing K] : F64 K → F64 K
  | fin a => fin ((Int.ceil a : Int) : K)
  | x => x

/-- The fractional part returned by Go `math.Modf`: the value minus its integer part, the
integer part being the value truncated toward zero; NaN for NaN and for the infinities. -/
def F64.modfFrac [FloorRing K] : F64 K → F64 K
  | fin a => if 0 ≤ a then fin (a - ((Int.floor a : Int) : K)) else fin (a - ((Int.ceil a : Int) : K))
  | _ => nan

/-- The function `round` of `depreciation.go`. -/
def round [FloorRing K] (x : F64 K) (prec : Int) : F64 K :=
  match x with
  | fin a =>
      if F64.le (fin (1 / 2))
          (F64.modfFrac ((if a < 0 then fin a * fin (-1) else fin a) * powi (fin 10) prec))
          = true then
        F64.ceil ((if a < 0 then fin a * fin (-1) else fin a) * powi (fin 10) prec)
          / powi (fin 10) prec * (if a < 0 then fin (-1) else fin 1)
      else
        F64.floor ((if a < 0 then fin a * fin (-1) else fin a) * powi (fin 10) prec)
          / powi (fin 10) prec * (if a < 0 then fin (-1) else fin 1)
  | _ => x

/-- The loop of `DepreciationFixedDeclining`: the first argument counts the iterations still
to run, `i` is the loop index, then come `accDepreciation` and `depreciationPeriod`. -/
def DepreciationFixedDeclining.loop (cost rate : F64 K) (life month : Int) :
    Nat → Int → F64 K → F64 K → F64 K
  | 0, _, _, depreciationPeriod => depreciationPeriod
  | k + 1, i, accDepreciation, _ =>
      DepreciationFixedDeclining.loop cost rate life month k (i + 1)
        (accDepreciation
          + (if i = 1 then cost * rate * ofInt month / fin 12
             else if i = life + 1 then
               (cost - accDepreciation) * rate * (fin 12 - ofInt month) / fin 12
             else (cost - accDepreciation) * rate))
        (if i = 1 then cost * rate * ofInt month / fin 12
         else if i = life + 1 then
           (cost - accDepreciation) * rate * (fin 12 - ofInt month) / fin 12
         else (cost - accDepreciation) * rate)

/-- The function `DepreciationFixedDeclining` of `depreciation.go`; `rpow` is `math.Pow`,
called with the exponent `1/float64(life)`. -/
def DepreciationFixedDeclining [FloorRing K] (rpow : F64 K → F64 K → F64 K)
    (cost salvage : F64 K) (life period month : Int) : F64 K × Option Err :=
  if F64.lt cost (fin 0) = true ∨ life < 0 then
    (fin 0, some .costOrLifeNegative)
  else if period < 1 then
    (fin 0, some .periodBelowOne)
  else
    (DepreciationFixedDeclining.loop cost
        (round (fin 1 - rpow (salvage / cost) (fin 1 / ofInt life)) 3) life month
        period.toNat 1 (fin 0) (fin 0), none)

/-- The function `EffectiveRate` of `rates.go`. -/
def EffectiveRate (nominal : F64 K) (numPeriods : Int) : F64 K × Option Err :=
  if numPeriods < 0 then
    (fin 0, some .numPeriodsNotStrictlyPositive)
  else
    (powi (fin 1 + nominal / ofInt numPeriods) numPeriods - fin 1, none)

/-! ## The scheduled net present value -/

/-- Modelled from the spec: the function `ScheduledNetPresentValue`, which is called by the
tests of `cashflow_test.go` but defined in none of the source files.  By the spec it fails
when `len(values) != len(dates)` and otherwise discounts each cash flow by `(1+rate)` raised
to the power `days/365`, with `days` the elapsed days from the first date.  Dates are
timestamps, `days a b` is the number of elapsed days from `a` to `b`, and `rpow` is the power
function. -/
def ScheduledNetPresentValue (rpow : F64 K → F64 K → F64 K) (days : Int → Int → F64 K)
    (rate : F64 K) (values : List (F64 K)) (dates : List Int) : F64 K × Option Err :=
  if values.length ≠ dates.length then
    (fin 0, some .lengthMismatch)
  else
    ((List.range values.length).foldl
        (fun acc i =>
          acc + values.getD i (fin 0)
            / rpow (fin 1 + rate) (days (dates.getD 0 0) (dates.getD i 0) / fin 365))
        (fin 0), none)

/-! ## The legacy copy `src/bonds.go` -/

namespace Legacy

/-- The constants `COUNT_NASD = iota`, ... of the legacy `bonds.go`. -/
def COUNT_NASD : Int := 0
/-- See `COUNT_NASD`. -/
def COUNT_ACTUAL_ACTUAL : Int := 1
/-- See `COUNT_NASD`. -/
def COUNT_ACTUAL_360 : Int := 2
/-- See `COUNT_NASD`. -/
def COUNT_ACTUAL_365 : Int := 3
/-- See `COUNT_NASD`. -/
def COUNT_EUROPEAN : Int := 4

/-- The function `isLeap` of the legacy `bonds.go`. -/
def isLeap (year : Int) : Bool :=
  Int.tmod year 4 == 0 && (Int.tmod year 100 != 0 || Int.tmod year 400 == 0)

/-- The function `DaysDifference` of the legacy `bonds.go`. -/
def DaysDifference (date : Int → Int × Int × Int) (date1 date2 : Int) (basis : Int) : Int :=
  let y1 := (date date1).1
  let m1 := (date date1).2.1
  let d1 := (date date1).2.2
  let y2 := (date date2).1
  let m2 := (date date2).2.1
  let d2 := (date date2).2.2
  if basis = COUNT_NASD then
    (y2 - y1) * 360 + (m2 - m1) * 30
      + (if d2 = 31 ∧ (d1 = 30 ∨ d1 = 31) then 30 else d2) - (if d1 = 31 then 30 else d1)
  else if basis = COUNT_ACTUAL_ACTUAL ∨ basis = COUNT_ACTUAL_360 ∨ basis = COUNT_ACTUAL_365 then
    Int.tdiv (wrapInt64 (date2 - date1)) 86400
  else if basis = COUNT_EUROPEAN then
    (y2 - y1) * 360 + (m2 - m1) * 30 + d2 - d1
  else
    0

/-- The function `TBillEquivalentYield` of the legacy `bonds.go`, an `if`/`else if`/`else`
chain whose last branch is the general formula. -/
def TBillEquivalentYield (date : Int → Int × Int × Int) (sqrt : F64 K → F64 K)
    (settlement maturity : Int) (discount : F64 K) : F64 K × Option Err :=
  if settlement ≥ maturity then
    (fin 0, some .maturityBeforeSettlement)
  else
    let dsm : F64 K := ofInt (DaysDifference date settlement maturity COUNT_ACTUAL_365)
    let ySettlement := (date settlement).1
    let mSettlement := (date settlement).2.1
    let yMaturity := (date maturity).1
    if F64.le dsm (fin 182) = true then
      (fin 365 * discount / (fin 360 - discount * dsm), none)
    else if F64.eq dsm (fin 366) = true
        ∧ ((mSettlement ≤ 2 ∧ isLeap ySettlement = true)
          ∨ (mSettlement > 2 ∧ isLeap yMaturity = true)) then
      (fin 2 * (sqrt (fin 1 - discount * fin 366 / (discount * fin 366 - fin 360)) - fin 1), none)
    else if F64.lt (fin 365) dsm = true then
      (fin 0, some .moreThanOneYearLegacy)
    else
      (((-dsm) + sqrt (powi dsm 2
            - (fin 2 * dsm - fin 365) * discount * dsm * fin 365 / (discount * dsm - fin 360)))
          / (dsm - fin 182), none)

end Legacy

/-! ## More of `bonds.go`, `rates.go` and `depreciation.go` -/

/-- The function `TBillPrice` of `bonds.go`. -/
def TBillPrice (settlement maturity : Int) (discount : F64 K) : F64 K × Option Err :=
  if settlement ≥ maturity then
    (fin 0, some .maturityBeforeSettlement)
  else if F64.lt (fin 360 : F64 K)
      (ofInt (wrapInt64 (maturity - settlement)) / ofInt 86400) = true then
    (fin 0, some .moreThanOneYear)
  else
    (fin 100 * (fin 1 - discount * (ofInt (wrapInt64 (maturity - settlement)) / ofInt 86400)
        / fin 360), none)

/-- One update `x - function(x)/derivative(x)`. -/
def newtonStep (function derivative : F64 K → F64 K) (x : F64 K) : F64 K :=
  x - function x / derivative x

/-- The Newton sequence `x_0 = guess`, `x_(k+1) = newtonStep x_k`. -/
def newtonSeq (function derivative : F64 K → F64 K) (guess : F64 K) : Nat → F64 K
  | 0 => guess
  | k + 1 => newtonStep function derivative (newtonSeq function derivative guess k)

/-- The precision test `|x_(k+1) - x_k| < Precision` on update step number `k` (counted
from 0) of the Newton sequence. -/
def stepConverges (function derivative : F64 K → F64 K) (guess : F64 K) (k : Nat) : Prop :=
  F64.lt (F64.abs (newtonSeq function derivative guess (k + 1)
    - newtonSeq function derivative guess k)) Precision = true

instance (function derivative : F64 K → F64 K) (guess : F64 K) (k : Nat) :
    Decidable (stepConverges function derivative guess k) := by
  unfold stepConverges
  infer_instance

/-- The test `min*max >= 0` that `InternalRateOfReturn` and `ModifiedInternalRateOfReturn`
make on the result of `minMaxSlice`. -/
def signGuard (values : List (F64 K)) : Bool :=
  F64.le (fin 0) ((minMaxSlice values).1 * (minMaxSlice values).2)

/-- The function `newton` with a count of its update steps: the same recursion, returning
next to the result the number of times the update `guess - function(guess)/derivative(guess)`
was computed. -/
def newtonCounted (guess : F64 K) (function derivative : F64 K → F64 K) (numIt : Int) :
    Except Err (F64 K) × Nat :=
  let x := guess - function guess / derivative guess
  if F64.lt (F64.abs (x - guess)) Precision then
    (.ok x, 1)
  else if numIt ≥ MaxIterations then
    (.error .didNotConverge, 1)
  else
    ((newtonCounted x function derivative (numIt + 1)).1,
      (newtonCounted x function derivative (numIt + 1)).2 + 1)
termination_by (MaxIterations - numIt).toNat
decreasing_by
  all_goals
    simp only [MaxIterations] at *
    omega

/-! ## Concrete inputs used by the evaluations below -/

/-- A value function that is `-1` below 30 and `0` from 30 on; with `slowDerivative` the
Newton sequence from 0 advances by exactly one for thirty steps and then rests at 30. -/
def slowFunction (x : F64 ℚ) : F64 ℚ := if F64.lt x (fin 30) then fin (-1) else fin 0

/-- The constant derivative `1`. -/
def slowDerivative (_ : F64 ℚ) : F64 ℚ := fin 1

end Definitions

variable {K : Type} [LinearOrderedField K]

/-! ## Results that are not rounded -/

/-- The exact result `x` is a `float64`: the rounding leaves it unchanged. -/
def Representable [Rounding K] (x : K) : Prop := rnd x = fin x

instance [Rounding K] (x : K) : Decidable (Representable x) :=
  inferInstanceAs (Decidable (rnd x = fin x))

/-- The rounding keeps the sign of a result: a result that is not negative is rounded to a
number that is not negative or to `+Inf`, one that is not positive to a number that is not
positive or to `-Inf`. -/
def KeepsSign (K : Type) [LinearOrderedField K] [Rounding K] : Prop :=
  ∀ x : K, (0 ≤ x → F64.le (fin 0) (rnd x) = true) ∧ (x ≤ 0 → F64.le (rnd x) (fin 0) = true)

/-! ## binary64 -/

set_option exponentiation.threshold 2048

/-- The carrier of the finite `float64` values and of the exact results of operations on
them: the rational numbers, with the arithmetic rounded as IEEE 754 binary64 does. -/
def B64 : Type := ℚ

instance : LinearOrderedField B64 := inferInstanceAs (LinearOrderedField ℚ)

instance : FloorRing B64 := inferInstanceAs (FloorRing ℚ)

instance (x y : B64) : Decidable (x ≤ y) := instDecidableLe_mathlib x y

/-- The integer nearest to `y`, the even one of the two when `y` is half-way. -/
def roundEven (y : B64) : Int :=
  if y - (⌊y⌋ : Int) < 1 / 2 then ⌊y⌋
  else if 1 / 2 < y - (⌊y⌋ : Int) then ⌊y⌋ + 1
  else if ⌊y⌋ % 2 = 0 then ⌊y⌋ else ⌊y⌋ + 1

/-- The exponent `e` of the binade `2^e <= |x| < 2^(e+1)` of `x`, and `-1022` for the
subnormal numbers. -/
def binade (x : B64) : Int := max (Int.log 2 |x|) (-1022)

/-- The multiple of the spacing `2^(e - 52)` nearest to `x`, ties to the even multiple, `e`
being the exponent of the binade of `x`: 53 significant bits, and the spacing `2^-1074` for
the subnormal numbers. -/
def nearest (x : B64) : B64 :=
  ((roundEven (x / (2 : B64) ^ (binade x - 52)) : Int) : B64) * (2 : B64) ^ (binade x - 52)

/-- IEEE 754 binary64 rounding to nearest, ties to even: the nearest multiple of the spacing,
and an infinity when that reaches `2^1024`. -/
def round64 (x : B64) : F64 B64 :=
  if (2 : B64) ^ (1024 : Nat) ≤ |nearest x| then (if 0 < x then pinf else ninf)
  else fin (nearest x)

instance : Rounding B64 := ⟨round64⟩

/-! ## The exact results of the operations of a formula

The lists below name, in the order the code computes them, the exact results of the
arithmetic operations of a formula; "no operation rounds" is the statement that each is
`Representable`. -/

/-- The operations of `Payment` at a non-zero rate:
`(-fv - pv*Pow(1+rate, n)) / (1 + rate*float64(type)) / ((Pow(1+rate, n) - 1) / rate)`. -/
def paymentSteps (r pv fv : K) (n t : Int) : List K :=
  [1 + r, (1 + r) ^ n, pv * (1 + r) ^ n, -fv - pv * (1 + r) ^ n, (t : K), r * (t : K),
    1 + r * (t : K), (-fv - pv * (1 + r) ^ n) / (1 + r * (t : K)), (1 + r) ^ n - 1,
    ((1 + r) ^ n - 1) / r,
    (-fv - pv * (1 + r) ^ n) / (1 + r * (t : K)) / (((1 + r) ^ n - 1) / r)]

/-- The capital with which period `j + 1` of the loop of `interestAndPrincipal` starts, in
exact arithmetic, for payments `p` at the end of the period and the first capital `c0`:
`c0*(1+r)^j + p*(1 + (1+r) + ... + (1+r)^(j-1))`. -/
def capitalAfter (r p c0 : K) (j : Nat) : K :=
  c0 * (1 + r) ^ j + p * ∑ m ∈ Finset.range j, (1 + r) ^ m

/-- The operations of one pass of the loop of `interestAndPrincipal` that starts with the
capital `c`, after the first period or with payments at the end: `interest = -capital*rate`,
`principal = pmt - interest`, `capital += principal`. -/
def periodSteps (r p c : K) : List K :=
  [-c * r, p - -c * r, c + (p - -c * r)]

theorem rnd_exact {α : Type} (x : α) : (rnd x : F64 α) = fin x := rfl

theorem newton_unfold [Rounding K] (guess : F64 K) (function derivative : F64 K → F64 K) (numIt : Int) :
    newton guess function derivative numIt =
      if F64.lt (F64.abs (newtonStep function derivative guess - guess)) Precision then
        .ok (newtonStep function derivative guess)
      else if numIt ≥ MaxIterations then .error .didNotConverge
      else newton (newtonStep function derivative guess) function derivative (numIt + 1) := by
  rw [newton]
  rfl

theorem newtonSeq_shift [Rounding K] (function derivative : F64 K → F64 K) (guess : F64 K) (k : Nat) :
    newtonSeq function derivative (newtonStep function derivative guess) k
      = newtonSeq function derivative guess (k + 1) := by
  induction k with
  | zero => rfl
  | succ k ih => simp only [newtonSeq, ih]

theorem stepConverges_shift [Rounding K] (function derivative : F64 K → F64 K) (guess : F64 K) (k : Nat) :
    stepConverges function derivative (newtonStep function derivative guess) k
      ↔ stepConverges function derivative guess (k + 1) := by
  unfold stepConverges
  rw [newtonSeq_shift, newtonSeq_shift]

theorem stepConverges_zero [Rounding K] (function derivative : F64 K → F64 K) (guess : F64 K) :
    stepConverges function derivative guess 0
      ↔ F64.lt (F64.abs (newtonStep function derivative guess - guess)) Precision = true :=
  Iff.rfl

/-- If step `k` is the first one that passes the precision test and the counter allows `k`
more recursive calls, `newton` returns `x_(k+1)`. -/
theorem newton_ok_of_first [Rounding K] (function derivative : F64 K → F64 K) (k : Nat) :
    ∀ (guess : F64 K) (numIt : Int), k ≤ (MaxIterations - numIt).toNat →
      (∀ j, j < k → ¬ stepConverges function derivative guess j) →
      stepConverges function derivative guess k →
      newton guess function derivative numIt
        = .ok (newtonSeq function derivative guess (k + 1)) := by
  induction k with
  | zero =>
    intro guess numIt _ _ hk
    rw [newton_unfold, if_pos ((stepConverges_zero _ _ _).1 hk)]
    rfl
  | succ k ih =>
    intro guess numIt hle hno hk
    have h0 : ¬ stepConverges function derivative guess 0 := hno 0 (Nat.succ_pos k)
    rw [newton_unfold, if_neg (fun h => h0 ((stepConverges_zero _ _ _).2 h))]
    have hlt : ¬ numIt ≥ MaxIterations := by omega
    rw [if_neg hlt, ih (newtonStep function derivative guess) (numIt + 1) (by omega)
      (fun j hj => fun h => hno (j + 1) (Nat.succ_lt_succ hj) ((stepConverges_shift _ _ _ _).1 h))
      ((stepConverges_shift _ _ _ _).2 hk), newtonSeq_shift]

/-- If none of the steps the counter allows passes the precision test, `newton` returns the
convergence error. -/
theorem newton_error_of_none [Rounding K] (function derivative : F64 K → F64 K) (m : Nat) :
    ∀ (guess : F64 K) (numIt : Int), (MaxIterations - numIt).toNat = m →
      (∀ j, j ≤ m → ¬ stepConverges function derivative guess j) →
      newton guess function derivative numIt = .error .didNotConverge := by
  induction m with
  | zero =>
    intro guess numIt hm hno
    have h0 : ¬ stepConverges function derivative guess 0 := hno 0 (Nat.le_refl 0)
    rw [newton_unfold, if_neg (fun h => h0 ((stepConverges_zero _ _ _).2 h))]
    have hge : numIt ≥ MaxIterations := by omega
    rw [if_pos hge]
  | succ m ih =>
    intro guess numIt hm hno
    have h0 : ¬ stepConverges function derivative guess 0 := hno 0 (Nat.zero_le _)
    rw [newton_unfold, if_neg (fun h => h0 ((stepConverges_zero _ _ _).2 h))]
    have hlt : ¬ numIt ≥ MaxIterations := by omega
    rw [if_neg hlt]
    exact ih (newtonStep function derivative guess) (numIt + 1) (by omega)
      (fun j hj => fun h => hno (j + 1) (Nat.succ_le_succ hj) ((stepConverges_shift _ _ _ _).1 h))

/-- What a successful return of `newton` is: the iterate after the first step that passes
the precision test, that step being one the counter allows. -/
theorem newton_ok_inv [Rounding K] (function derivative : F64 K → F64 K) (m : Nat) :
    ∀ (guess : F64 K) (numIt : Int) (v : F64 K), (MaxIterations - numIt).toNat = m →
      newton guess function derivative numIt = .ok v →
      ∃ k, k ≤ m ∧ v = newtonSeq function derivative guess (k + 1)
        ∧ stepConverges function derivative guess k
        ∧ ∀ j, j < k → ¬ stepConverges function derivative guess j := by
  induction m with
  | zero =>
    intro guess numIt v hm hv
    rw [newton_unfold] at hv
    by_cases hc : F64.lt (F64.abs (newtonStep function derivative guess - guess)) Precision = true
    · rw [if_pos hc] at hv
      refine ⟨0, Nat.le_refl 0, ?_, (stepConverges_zero _ _ _).2 hc, fun j hj => absurd hj (Nat.not_lt_zero j)⟩
      injection hv with hv
      exact hv.symm
    · have hge : numIt ≥ MaxIterations := by omega
      rw [if_neg hc, if_pos hge] at hv
      cases hv
  | succ m ih =>
    intro guess numIt v hm hv
    rw [newton_unfold] at hv
    by_cases hc : F64.lt (F64.abs (newtonStep function derivative guess - guess)) Precision = true
    · rw [if_pos hc] at hv
      refine ⟨0, Nat.zero_le _, ?_, (stepConverges_zero _ _ _).2 hc, fun j hj => absurd hj (Nat.not_lt_zero j)⟩
      injection hv with hv
      exact hv.symm
    · have hlt : ¬ numIt ≥ MaxIterations := by omega
      rw [if_neg hc, if_neg hlt] at hv
      obtain ⟨k, hk, hvk, hck, hfirst⟩ :=
        ih (newtonStep function derivative guess) (numIt + 1) v (by omega) hv
      refine ⟨k + 1, Nat.succ_le_succ hk, ?_, (stepConverges_shift _ _ _ _).1 hck, ?_⟩
      · rw [hvk, newtonSeq_shift]
      · intro j hj
        cases j with
        | zero => exact fun h => hc ((stepConverges_zero _ _ _).1 h)
        | succ j =>
          exact fun h => hfirst j (Nat.lt_of_succ_lt_succ hj) ((stepConverges_shift _ _ _ _).2 h)

/-! ### Arithmetic of `F64` -/

theorem F64.fin_add_fin (a b : K) : (fin a + fin b : F64 K) = fin (a + b) := rfl

theorem F64.fin_sub_fin (a b : K) : (fin a - fin b : F64 K) = fin (a - b) := by
  show F64.add (fin a) (F64.neg (fin b)) = fin (a - b)
  simp only [F64.neg, F64.add, sub_eq_add_neg, rnd_exact]

theorem F64.fin_mul_fin (a b : K) : (fin a * fin b : F64 K) = fin (a * b) := rfl

theorem F64.fin_div_fin (a b : K) (hb : b ≠ 0) : (fin a / fin b : F64 K) = fin (a / b) := by
  show F64.div (fin a) (fin b) = fin (a / b)
  simp only [F64.div, if_neg hb, rnd_exact]

theorem F64.neg_fin (a : K) : (-(fin a) : F64 K) = fin (-a) := rfl

theorem F64.lt_fin_fin (a b : K) : F64.lt (fin a) (fin b) = decide (a < b) := rfl

theorem F64.le_fin_fin (a b : K) : F64.le (fin a) (fin b) = decide (a ≤ b) := rfl

theorem F64.abs_fin (a : K) : F64.abs (fin a) = fin |a| := rfl

/-- A difference whose left operand is not finite is not finite. -/
theorem F64.sub_not_finite_left [Rounding K] (x y : F64 K) (hx : F64.isFinite x = false) :
    F64.isFinite (x - y) = false := by
  show F64.isFinite (F64.add x (F64.neg y)) = false
  cases x <;> cases y <;> simp_all [F64.isFinite, F64.add, F64.neg]

/-- A difference whose right operand is not finite is not finite. -/
theorem F64.sub_not_finite_right [Rounding K] (x y : F64 K) (hy : F64.isFinite y = false) :
    F64.isFinite (x - y) = false := by
  show F64.isFinite (F64.add x (F64.neg y)) = false
  cases x <;> cases y <;> simp_all [F64.isFinite, F64.add, F64.neg]

/-- A quotient by zero is an infinity or NaN, whatever the numerator. -/
theorem F64.div_zero_not_finite [Rounding K] (x : F64 K) : F64.isFinite (x / fin 0) = false := by
  show F64.isFinite (F64.div x (fin 0)) = false
  cases x with
  | fin a =>
    by_cases ha : a = 0
    · simp [F64.div, F64.isFinite, ha]
    · by_cases hp : 0 < a <;> simp [F64.div, F64.isFinite, ha, hp]
  | pinf => simp [F64.div, F64.isFinite]
  | ninf => simp [F64.div, F64.isFinite]
  | nan => simp [F64.div, F64.isFinite]

/-- Only a finite value can have an absolute value below `Precision`. -/
theorem F64.not_lt_abs_of_not_finite (x p : F64 K) (hx : F64.isFinite x = false) :
    F64.lt (F64.abs x) p = false := by
  cases x <;> cases p <;> simp_all [F64.isFinite, F64.abs, F64.lt]

/-- A step out of a non-finite iterate, or onto a non-finite iterate, fails the precision
test. -/
theorem not_stepConverges_of_not_finite [Rounding K] (function derivative : F64 K → F64 K) (guess : F64 K)
    (k : Nat) (h : F64.isFinite (newtonSeq function derivative guess (k + 1)) = false) :
    ¬ stepConverges function derivative guess k := by
  unfold stepConverges
  rw [F64.not_lt_abs_of_not_finite _ _ (F64.sub_not_finite_left _ _ h)]
  exact Bool.false_ne_true

/-- Once an iterate is not finite, all later ones are not finite. -/
theorem newtonSeq_not_finite [Rounding K] (function derivative : F64 K → F64 K) (guess : F64 K) (k : Nat)
    (h : F64.isFinite (newtonSeq function derivative guess k) = false) :
    ∀ j, k ≤ j → F64.isFinite (newtonSeq function derivative guess j) = false := by
  intro j hj
  induction j, hj using Nat.le_induction with
  | base => exact h
  | succ j _ ih => exact F64.sub_not_finite_left _ _ ih

/-- The iterate computed from a zero derivative is not finite. -/
theorem newtonStep_not_finite_of_zero [Rounding K] (function derivative : F64 K → F64 K) (x : F64 K)
    (hz : derivative x = fin 0) : F64.isFinite (newtonStep function derivative x) = false := by
  unfold newtonStep
  rw [hz]
  exact F64.sub_not_finite_right _ _ (F64.div_zero_not_finite _)

/-- After a zero derivative at iterate `k` no step from `k` on passes the precision test. -/
theorem not_stepConverges_after_zero [Rounding K] (function derivative : F64 K → F64 K) (guess : F64 K)
    (k : Nat) (hz : derivative (newtonSeq function derivative guess k) = fin 0) :
    ∀ j, k ≤ j → ¬ stepConverges function derivative guess j := by
  intro j hj
  apply not_stepConverges_of_not_finite
  exact newtonSeq_not_finite function derivative guess (k + 1)
    (newtonStep_not_finite_of_zero function derivative _ hz) (j + 1) (Nat.succ_le_succ hj)

/-! ### `newton` either fails to converge or returns the first converged iterate -/

theorem newton_cases [Rounding K] (function derivative : F64 K → F64 K) (guess : F64 K) (numIt : Int) :
    newton guess function derivative numIt = .error .didNotConverge
      ∨ ∃ k : Nat, k ≤ (MaxIterations - numIt).toNat
          ∧ newton guess function derivative numIt
              = .ok (newtonSeq function derivative guess (k + 1))
          ∧ stepConverges function derivative guess k
          ∧ ∀ j, j < k → ¬ stepConverges function derivative guess j := by
  cases hres : newton guess function derivative numIt with
  | ok v =>
    right
    obtain ⟨k, hk, h1, h2, h3⟩ := newton_ok_inv function derivative _ guess numIt v rfl hres
    exact ⟨k, hk, by rw [h1], h2, h3⟩
  | error e =>
    left
    by_cases hex : ∃ j, j ≤ (MaxIterations - numIt).toNat ∧ stepConverges function derivative guess j
    · classical
      have hfind := Nat.find_spec hex
      have hmin : ∀ j, j < Nat.find hex → ¬ stepConverges function derivative guess j := by
        intro j hj hc
        exact Nat.find_min hex hj ⟨Nat.le_trans (Nat.le_of_lt hj) hfind.1, hc⟩
      rw [newton_ok_of_first function derivative (Nat.find hex) guess numIt hfind.1 hmin hfind.2]
        at hres
      cases hres
    · rw [newton_error_of_none function derivative _ guess numIt rfl
        (fun j hj hc => hex ⟨j, hj, hc⟩)] at hres
      exact hres.symm ▸ rfl

/-! ### `minMaxSlice` on finite values -/

theorem MaxFloat64_pos : (0 : K) < MaxFloat64 := by
  unfold MaxFloat64
  have h : (2 : K) ^ 971 < 2 ^ 1024 := pow_lt_pow_right₀ one_lt_two (by norm_num)
  linarith

theorem minMaxSlice_fin_aux (vs : List K) :
    ∀ a b : K,
      (vs.map fin).foldl
          (fun (mm : F64 K × F64 K) value =>
            ((if F64.lt value mm.1 then value else mm.1),
              (if F64.lt mm.2 value then value else mm.2)))
          (fin a, fin b)
        = (fin (vs.foldl min a), fin (vs.foldl max b)) := by
  induction vs with
  | nil => intro a b; rfl
  | cons v vs ih =>
    intro a b
    have hmin : (if F64.lt (fin v) (fin a) = true then fin v else fin a : F64 K) = fin (min a v) := by
      rw [F64.lt_fin_fin]
      by_cases h : v < a
      · simp [h, min_eq_right (le_of_lt h)]
      · simp [h, min_eq_left (le_of_not_lt h)]
    have hmax : (if F64.lt (fin b) (fin v) = true then fin v else fin b : F64 K) = fin (max b v) := by
      rw [F64.lt_fin_fin]
      by_cases h : b < v
      · simp [h, max_eq_right (le_of_lt h)]
      · simp [h, max_eq_left (le_of_not_lt h)]
    simp only [List.map_cons, List.foldl_cons, hmin, hmax]
    exact ih (min a v) (max b v)

/-- On a series of finite values `minMaxSlice` returns the least of `MaxFloat64` and the
values, and the greatest of `-MaxFloat64` and the values. -/
theorem minMaxSlice_fin (vs : List K) :
    minMaxSlice (vs.map fin)
      = (fin (vs.foldl min MaxFloat64), fin (vs.foldl max (-MaxFloat64))) :=
  minMaxSlice_fin_aux vs MaxFloat64 (-MaxFloat64)

theorem foldl_min_le (vs : List K) :
    ∀ a : K, vs.foldl min a ≤ a ∧ ∀ v ∈ vs, vs.foldl min a ≤ v := by
  induction vs with
  | nil => intro a; exact ⟨le_refl a, fun v hv => absurd hv (List.not_mem_nil v)⟩
  | cons w vs ih =>
    intro a
    obtain ⟨h1, h2⟩ := ih (min a w)
    refine ⟨le_trans h1 (min_le_left a w), ?_⟩
    intro v hv
    rcases List.mem_cons.1 hv with rfl | hv
    · exact le_trans h1 (min_le_right a v)
    · exact h2 v hv

theorem foldl_min_mem (vs : List K) :
    ∀ a : K, vs.foldl min a = a ∨ vs.foldl min a ∈ vs := by
  induction vs with
  | nil => intro a; exact Or.inl rfl
  | cons w vs ih =>
    intro a
    rcases ih (min a w) with h | h
    · rcases min_choice a w with hc | hc
      · left; rw [List.foldl_cons, h, hc]
      · right; rw [List.foldl_cons, h, hc]; exact List.mem_cons_self w vs
    · right; exact List.mem_cons_of_mem w h

theorem le_foldl_max (vs : List K) :
    ∀ b : K, b ≤ vs.foldl max b ∧ ∀ v ∈ vs, v ≤ vs.foldl max b := by
  induction vs with
  | nil => intro b; exact ⟨le_refl b, fun v hv => absurd hv (List.not_mem_nil v)⟩
  | cons w vs ih =>
    intro b
    obtain ⟨h1, h2⟩ := ih (max b w)
    refine ⟨le_trans (le_max_left b w) h1, ?_⟩
    intro v hv
    rcases List.mem_cons.1 hv with rfl | hv
    · exact le_trans (le_max_right b v) h1
    · exact h2 v hv

theorem foldl_max_mem (vs : List K) :
    ∀ b : K, vs.foldl max b = b ∨ vs.foldl max b ∈ vs := by
  induction vs with
  | nil => intro b; exact Or.inl rfl
  | cons w vs ih =>
    intro b
    rcases ih (max b w) with h | h
    · rcases max_choice b w with hc | hc
      · left; rw [List.foldl_cons, h, hc]
      · right; rw [List.foldl_cons, h, hc]; exact List.mem_cons_self w vs
    · right; exact List.mem_cons_of_mem w h

/-- On a non-empty series of finite values the guard `min*max >= 0` holds exactly when the
series has no strictly positive value or no strictly negative value. -/
theorem signGuard_iff (vs : List K) (hne : vs ≠ []) :
    signGuard (vs.map fin) = true
      ↔ (¬ (∃ p ∈ vs, 0 < p) ∨ ¬ (∃ n ∈ vs, n < 0)) := by
  unfold signGuard
  rw [minMaxSlice_fin, F64.fin_mul_fin, F64.le_fin_fin, decide_eq_true_eq]
  obtain ⟨hlo0, hlo⟩ := foldl_min_le vs (MaxFloat64 : K)
  obtain ⟨hhi0, hhi⟩ := le_foldl_max vs (-(MaxFloat64 : K))
  have hM : (0 : K) < MaxFloat64 := MaxFloat64_pos
  obtain ⟨w, hw⟩ := List.exists_mem_of_ne_nil vs hne
  constructor
  · intro hprod
    by_contra hboth
    push_neg at hboth
    obtain ⟨⟨p, hp, hp0⟩, ⟨n, hn, hn0⟩⟩ := hboth
    have h1 : vs.foldl min MaxFloat64 < 0 := lt_of_le_of_lt (hlo n hn) hn0
    have h2 : 0 < vs.foldl max (-MaxFloat64) := lt_of_lt_of_le hp0 (hhi p hp)
    have := mul_neg_of_neg_of_pos h1 h2
    linarith
  · rintro (hnp | hnn)
    · have hhi_le : vs.foldl max (-MaxFloat64) ≤ 0 := by
        rcases foldl_max_mem vs (-(MaxFloat64 : K)) with h | h
        · rw [h]; linarith
        · exact le_of_not_lt (fun hpos => hnp ⟨_, h, hpos⟩)
      have hlo_le : vs.foldl min MaxFloat64 ≤ 0 :=
        le_trans (hlo w hw) (le_of_not_lt (fun hpos => hnp ⟨w, hw, hpos⟩))
      exact mul_nonneg_of_nonpos_of_nonpos hlo_le hhi_le
    · have hlo_ge : 0 ≤ vs.foldl min MaxFloat64 := by
        rcases foldl_min_mem vs (MaxFloat64 : K) with h | h
        · rw [h]; exact le_of_lt hM
        · exact le_of_not_lt (fun hneg => hnn ⟨_, h, hneg⟩)
      have hhi_ge : 0 ≤ vs.foldl max (-MaxFloat64) :=
        le_trans (le_of_not_lt (fun hneg => hnn ⟨w, hw, hneg⟩)) (hhi w hw)
      exact mul_nonneg hlo_ge hhi_ge

/-- The empty series passes the sign guard: `MaxFloat64 * (-MaxFloat64)` is negative. -/
theorem signGuard_nil : signGuard ([] : List (F64 K)) = false := by
  unfold signGuard minMaxSlice
  simp only [List.foldl_nil, F64.neg_fin, F64.fin_mul_fin, F64.le_fin_fin, decide_eq_false_iff_not,
    not_le]
  have hM : (0 : K) < MaxFloat64 := MaxFloat64_pos
  nlinarith

/-! ### Evaluation on finite values -/

theorem F64.powi_fin (a : K) (n : Int) (ha : a ≠ 0) : F64.powi (fin a) n = fin (a ^ n) := by
  unfold F64.powi
  by_cases hn : n = 0
  · simp [hn]
  · simp only [hn, false_or, F64.fin.injEq, ha, false_and, if_false, rnd_exact]
    split_ifs with h1 h2
    · rw [h1, one_zpow]
    · rw [h2, zpow_one]
    · rfl

theorem F64.nan_div [Rounding K] (x : F64 K) : (nan / x : F64 K) = nan := by
  show F64.div nan x = nan
  cases x <;> rfl

theorem irr_unfold [Rounding K] (values : List (F64 K)) (guess : F64 K) :
    InternalRateOfReturn values guess
      = if signGuard values = true then .error .cashFlowSign
        else newton guess (fun rate => NetPresentValue rate values)
          (fun rate => dNetPresentValue rate values) 0 := rfl

theorem mirr_unfold [Rounding K] (rpow : F64 K → F64 K → F64 K) (values : List (F64 K))
    (financeRate reinvestRate : F64 K) :
    ModifiedInternalRateOfReturn rpow values financeRate reinvestRate
      = if signGuard values = true then .error .cashFlowSign
        else .ok (rpow
          (-(NetPresentValue reinvestRate
                (values.map (fun value => if F64.le (fin 0) value then value else fin 0)))
              * powi (fin 1 + reinvestRate) (values.length : Int)
            / NetPresentValue financeRate
                (values.map (fun value => if F64.le (fin 0) value then fin 0 else value))
            / (fin 1 + financeRate))
          (fin 1 / ofInt ((values.length : Int) - 1))
        - fin 1) := rfl

/-- A zero derivative at a reached iterate makes `newton` return the convergence error. -/
theorem newton_error_of_zero [Rounding K] (function derivative : F64 K → F64 K) (guess : F64 K) (k : Nat)
    (numIt : Int)
    (hreach : ∀ j, j < k → ¬ stepConverges function derivative guess j)
    (hzero : derivative (newtonSeq function derivative guess k) = fin 0) :
    newton guess function derivative numIt = .error .didNotConverge := by
  apply newton_error_of_none function derivative _ guess numIt rfl
  intro j _
  by_cases hj : j < k
  · exact hreach j hj
  · exact not_stepConverges_after_zero function derivative guess k hzero j (Nat.le_of_not_lt hj)

/-- The series `[-1, 1]` has a sign change and passes the guard. -/
theorem signGuard_pm_one : signGuard ([(-1 : ℚ), 1].map fin) = false := by
  have h := signGuard_iff [(-1 : ℚ), 1] (by simp)
  cases hg : signGuard ([(-1 : ℚ), 1].map fin) with
  | false => rfl
  | true =>
    rcases h.1 hg with h1 | h1
    · exact absurd ⟨1, by simp, by norm_num⟩ h1
    · exact absurd ⟨-1, by simp, by norm_num⟩ h1

/-- The derivative of the net present value of `[-1, 1]` vanishes at the rate 1. -/
theorem dnpv_pm_one : dNetPresentValue (fin (1 : ℚ)) ([(-1 : ℚ), 1].map fin) = fin 0 := by
  simp only [List.map, dNetPresentValue, dNetPresentValue.loop, F64.ofInt, rnd_exact, F64.fin_add_fin]
  norm_num [F64.powi_fin, F64.fin_mul_fin, F64.fin_div_fin, F64.fin_add_fin]

/-- With that series and the guess 1 the solver is entered and does not converge. -/
theorem irr_pm_one :
    InternalRateOfReturn ([(-1 : ℚ), 1].map fin) (fin 1) = .error .didNotConverge := by
  rw [irr_unfold, signGuard_pm_one]
  exact newton_error_of_zero _ _ (fin 1) 0 0 (fun j hj => absurd hj (Nat.not_lt_zero j))
    dnpv_pm_one

/-! ### Finite values of the net present value and of the annuity equation -/
theorem F64.powi_one_add (r : K) (n : Int) (h : 1 + r ≠ 0) :
    F64.powi (fin 1 + fin r) n = fin ((1 + r) ^ n) := by
  rw [F64.fin_add_fin, F64.powi_fin _ _ h]

/-- The loop of `NetPresentValue` on finite values, for a rate other than `-1`. -/
theorem npv_loop_fin (r : K) (h : 1 + r ≠ 0) (vs : List K) :
    ∀ (i : Int) (a : K),
      NetPresentValue.loop (fin r) (vs.map fin) i (fin a)
        = fin (a + ∑ j ∈ Finset.range vs.length, vs.getD j 0 / (1 + r) ^ (i + (j : Int))) := by
  induction vs with
  | nil => intro i a; simp [NetPresentValue.loop]
  | cons v vs ih =>
    intro i a
    rw [List.map_cons, NetPresentValue.loop, F64.powi_one_add r i h,
      F64.fin_div_fin _ _ (zpow_ne_zero i h), F64.fin_add_fin, ih, List.length_cons,
      Finset.sum_range_succ']
    congr 1
    simp only [List.getD_cons_succ, List.getD_cons_zero, Nat.cast_add, Nat.cast_one,
      Nat.cast_zero, add_zero]
    rw [add_assoc, add_comm (v / (1 + r) ^ i)]
    congr 2
    apply Finset.sum_congr rfl
    intro j _
    congr 2
    ring

/-- The loop of `dNetPresentValue` on finite values, for a rate other than `-1`. -/
theorem dnpv_loop_fin (r : K) (h : 1 + r ≠ 0) (vs : List K) :
    ∀ (i : Int) (a : K),
      dNetPresentValue.loop (fin r) (vs.map fin) i (fin a)
        = fin (a + ∑ j ∈ Finset.range vs.length,
            vs.getD j 0 * (-((i + (j : Int) : Int) : K)) * (1 + r) ^ (-(i + (j : Int) + 1))) := by
  induction vs with
  | nil => intro i a; simp [dNetPresentValue.loop]
  | cons v vs ih =>
    intro i a
    rw [List.map_cons, dNetPresentValue.loop, F64.powi_one_add r _ h, F64.powi_one_add r _ h,
      F64.ofInt, rnd_exact, F64.fin_mul_fin, F64.fin_mul_fin,
      F64.fin_div_fin _ _ (zpow_ne_zero _ h), F64.fin_add_fin, ih, List.length_cons,
      Finset.sum_range_succ']
    congr 1
    simp only [List.getD_cons_succ, List.getD_cons_zero, Nat.cast_add, Nat.cast_one,
      Nat.cast_zero, add_zero]
    have hpow : (1 + r) ^ (i - 1) / (1 + r) ^ (2 * i) = (1 + r) ^ (-(i + 1)) := by
      rw [← zpow_sub₀ h]
      congr 1
      ring
    rw [mul_div_assoc, hpow, add_assoc, add_comm (_ * (1 + r) ^ (-(i + 1)))]
    congr 2
    · apply Finset.sum_congr rfl
      intro j _
      congr 2
      · push_cast; ring
      · congr 1; ring
    · push_cast; ring

theorem hasDerivAt_one_add_zpow (m : Int) (r : ℝ) (h : 1 + r ≠ 0) :
    HasDerivAt (fun x : ℝ => (1 + x) ^ m) ((m : ℝ) * (1 + r) ^ (m - 1)) r := by
  have h1 : HasDerivAt (fun x : ℝ => 1 + x) 1 r := (hasDerivAt_id r).const_add 1
  have h2 := (hasDerivAt_zpow m (1 + r) (Or.inl h)).comp r h1
  simpa using h2

theorem eventually_one_add_ne (r : ℝ) (h : 1 + r ≠ 0) : ∀ᶠ x in nhds r, 1 + x ≠ 0 :=
  ContinuousAt.eventually_ne (continuous_const.add continuous_id).continuousAt h

/-- The value of `f` at finite arguments, for a rate that is neither `0` nor `-1`. -/
theorem f_fin (r : K) (n : Int) (pmt pv fv : K) (t : Int) (hr : r ≠ 0) (h : 1 + r ≠ 0) :
    f (fin r) n (fin pmt) (fin pv) (fin fv) t
      = fin (pv * (1 + r) ^ n + pmt * (1 + r * (t : K)) * (((1 + r) ^ n - 1) / r) + fv) := by
  simp only [f, F64.ofInt, rnd_exact, F64.powi_fin (1 + r) _ h, F64.fin_mul_fin, F64.fin_add_fin,
    F64.fin_sub_fin, F64.fin_div_fin _ _ hr]

/-- The value of `df` at finite arguments, for a rate that is neither `0` nor `-1`. -/
theorem df_fin (r : K) (n : Int) (pmt pv fv : K) (t : Int) (hr : r ≠ 0) (h : 1 + r ≠ 0) :
    df (fin r) n (fin pmt) (fin pv) (fin fv) t
      = fin ((n : K) * pv * (1 + r) ^ (n - 1)
          + pmt * ((t : K) * ((1 + r) ^ n - 1) / r
              + (1 + r * (t : K)) * ((n : K) * r * (1 + r) ^ (n - 1) - (1 + r) ^ n + 1)
                  / r ^ (2 : Int))) := by
  simp only [df, F64.ofInt, rnd_exact, F64.powi_fin (1 + r) _ h, F64.powi_fin r 2 hr, F64.fin_mul_fin,
    F64.fin_add_fin, F64.fin_sub_fin, F64.fin_div_fin _ _ hr,
    F64.fin_div_fin _ _ (zpow_ne_zero 2 hr)]

/-! ### The slow sequence -/

theorem slow_step (k : Nat) (hk : k < 30) :
    newtonStep slowFunction slowDerivative (fin (k : ℚ)) = fin ((k + 1 : Nat) : ℚ) := by
  have h : (k : ℚ) < 30 := by exact_mod_cast hk
  simp only [newtonStep, slowFunction, slowDerivative, F64.lt_fin_fin, h, decide_True, if_true]
  rw [F64.fin_div_fin _ _ one_ne_zero, F64.fin_sub_fin]
  congr 1
  push_cast
  ring

theorem slow_seq (k : Nat) (hk : k ≤ 30) :
    newtonSeq slowFunction slowDerivative (fin 0) k = fin (k : ℚ) := by
  induction k with
  | zero => simp [newtonSeq]
  | succ k ih => rw [newtonSeq, ih (Nat.le_of_succ_le hk), slow_step k hk]

theorem slow_seq_last : newtonSeq slowFunction slowDerivative (fin 0) 31 = fin 30 := by
  rw [newtonSeq, slow_seq 30 (Nat.le_refl 30)]
  simp only [newtonStep, slowFunction, slowDerivative, F64.lt_fin_fin]
  norm_num [F64.fin_div_fin, F64.fin_sub_fin]

theorem slow_not_converges (k : Nat) (hk : k < 30) :
    ¬ stepConverges slowFunction slowDerivative (fin 0) k := by
  unfold stepConverges
  rw [slow_seq (k + 1) hk, slow_seq k (Nat.le_of_lt hk), F64.fin_sub_fin, F64.abs_fin]
  simp only [Precision, rnd_exact, F64.lt_fin_fin]
  push_cast
  norm_num

theorem slow_converges_last : stepConverges slowFunction slowDerivative (fin 0) 30 := by
  unfold stepConverges
  rw [slow_seq_last, slow_seq 30 (Nat.le_refl 30), F64.fin_sub_fin, F64.abs_fin]
  simp only [Precision, rnd_exact, F64.lt_fin_fin]
  norm_num

theorem slow_newton : newton (fin 0) slowFunction slowDerivative 0 = .ok (fin 30) := by
  rw [newton_ok_of_first slowFunction slowDerivative 30 (fin 0) 0 (by decide)
    slow_not_converges slow_converges_last, slow_seq_last]

/-! ### The closed-form functions of `tvm.go` and `bonds.go` -/

/-- The loop of `NetPresentValue` adds the discounted flows from left to right. -/
theorem npv_loop_foldl [Rounding K] (rate : F64 K) (values : List (F64 K)) :
    ∀ (i : Int) (acc : F64 K),
      NetPresentValue.loop rate values i acc
        = (List.range values.length).foldl
            (fun a j => a + values.getD j (fin 0) / powi (fin 1 + rate) (i + (j : Int))) acc := by
  induction values with
  | nil => intro i acc; rfl
  | cons v vs ih =>
    intro i acc
    rw [NetPresentValue.loop, ih, List.length_cons, List.range_succ_eq_map, List.foldl_cons,
      List.foldl_map]
    simp only [List.getD_cons_zero, List.getD_cons_succ, Nat.cast_zero, add_zero, Nat.cast_succ]
    congr 1
    funext a j
    congr 3
    ring

theorem t_valid_cases (paymentType : Int) :
    ¬ (paymentType ≠ PayEnd ∧ paymentType ≠ PayBegin)
      ↔ (paymentType = PayEnd ∨ paymentType = PayBegin) := by
  constructor
  · intro h
    by_contra hc
    exact h ⟨fun h1 => hc (Or.inl h1), fun h2 => hc (Or.inr h2)⟩
  · rintro (h | h) ⟨h1, h2⟩
    · exact h1 h
    · exact h2 h

theorem F64.sub_fin_zero (x : F64 K) : x - fin 0 = x := by
  show F64.add x (F64.neg (fin 0)) = x
  cases x <;> simp [F64.add, F64.neg, rnd_exact]

theorem payment_no_error [Rounding K] (rate pv fv : F64 K) (numPeriods paymentType : Int)
    (hn : 0 ≤ numPeriods) (ht : paymentType = PayEnd ∨ paymentType = PayBegin) :
    (Payment rate numPeriods pv fv paymentType).2 = none := by
  simp only [Payment]
  rw [if_neg (not_lt.2 hn), if_neg ((t_valid_cases paymentType).2 ht)]
  split_ifs <;> rfl

theorem interestAndPrincipal_eq [Rounding K] (rate pv fv : F64 K) (period numPeriods paymentType : Int)
    (hn : 0 ≤ numPeriods) (ht : paymentType = PayEnd ∨ paymentType = PayBegin) :
    interestAndPrincipal rate period numPeriods pv fv paymentType
      = ((interestAndPrincipal.loop rate (Payment rate numPeriods pv fv paymentType).1
            paymentType period.toNat 1 pv (fin 0) (fin 0)).1,
          (interestAndPrincipal.loop rate (Payment rate numPeriods pv fv paymentType).1
            paymentType period.toNat 1 pv (fin 0) (fin 0)).2, none) := by
  simp only [interestAndPrincipal]
  rw [payment_no_error rate pv fv numPeriods paymentType hn ht]

theorem interestPayment_eq [Rounding K] (rate pv fv : F64 K) (period numPeriods paymentType : Int)
    (hn : 0 ≤ numPeriods) (ht : paymentType = PayEnd ∨ paymentType = PayBegin) :
    InterestPayment rate period numPeriods pv fv paymentType
      = ((interestAndPrincipal.loop rate (Payment rate numPeriods pv fv paymentType).1
            paymentType period.toNat 1 pv (fin 0) (fin 0)).1, none) := by
  simp only [InterestPayment]
  rw [if_neg ((t_valid_cases paymentType).2 ht),
    interestAndPrincipal_eq rate pv fv period numPeriods paymentType hn ht]

theorem principalPayment_eq [Rounding K] (rate pv fv : F64 K) (period numPeriods paymentType : Int)
    (hn : 0 ≤ numPeriods) (ht : paymentType = PayEnd ∨ paymentType = PayBegin) :
    PrincipalPayment rate period numPeriods pv fv paymentType
      = ((interestAndPrincipal.loop rate (Payment rate numPeriods pv fv paymentType).1
            paymentType period.toNat 1 pv (fin 0) (fin 0)).2, none) := by
  simp only [PrincipalPayment]
  rw [if_neg ((t_valid_cases paymentType).2 ht),
    interestAndPrincipal_eq rate pv fv period numPeriods paymentType hn ht]

theorem F64.powi_fin_nonneg (a : K) (n : Int) (hn : 0 ≤ n) : F64.powi (fin a) n = fin (a ^ n) := by
  unfold F64.powi
  by_cases h0 : n = 0
  · simp [h0]
  · have hlt : ¬ n < 0 := not_lt.2 hn
    simp only [h0, false_or, F64.fin.injEq, hlt, and_false, if_false, rnd_exact]
    split_ifs with h1 h2
    · rw [h1, one_zpow]
    · rw [h2, zpow_one]
    · rfl

theorem F64.eq_fin_zero (r : K) : F64.eq (fin r) (fin 0) = decide (r = 0) := rfl

theorem F64.add_def (x y : F64 K) : x + y = F64.add x y := rfl

theorem F64.sub_def (x y : F64 K) : x - y = F64.add x (F64.neg y) := rfl

theorem F64.mul_def (x y : F64 K) : x * y = F64.mul x y := rfl

theorem F64.div_def (x y : F64 K) : x / y = F64.div x y := rfl

theorem F64.neg_def (x : F64 K) : -x = F64.neg x := rfl

theorem F64.div_fin_fin (a b : K) :
    (fin a / fin b : F64 K)
      = if b = 0 then (if a = 0 then nan else if 0 < a then pinf else ninf) else fin (a / b) :=
  rfl

/-- The interest of one period on finite values. -/
theorem interest_fin (r c : K) (paymentType i : Int) :
    (if paymentType = 1 ∧ i = 1 then (fin 0 : F64 K) else (-(fin c)) * fin r)
      = fin (if paymentType = 1 ∧ i = 1 then 0 else (-c) * r) := by
  split_ifs <;> rfl

/-- On finite values every pass of the loop of `interestAndPrincipal` leaves an interest
and a principal that add up to the payment. -/
theorem interestAndPrincipal_loop_fin (r p : K) (paymentType : Int) (k : Nat) :
    ∀ (i : Int) (c x : K),
      ∃ y : K, interestAndPrincipal.loop (fin r) (fin p) paymentType k i (fin c) (fin x)
          (fin (p - x)) = (fin y, fin (p - y)) := by
  induction k with
  | zero => intro i c x; exact ⟨x, rfl⟩
  | succ k ih =>
    intro i c x
    rw [interestAndPrincipal.loop, interest_fin, F64.fin_sub_fin, F64.fin_add_fin]
    exact ih _ _ _

theorem interestAndPrincipal_loop_fin_pos (r p : K) (paymentType : Int) (k : Nat) (hk : 0 < k)
    (i : Int) (c : K) (a b : F64 K) :
    ∃ y : K, interestAndPrincipal.loop (fin r) (fin p) paymentType k i (fin c) a b
      = (fin y, fin (p - y)) := by
  cases k with
  | zero => exact absurd hk (Nat.lt_irrefl 0)
  | succ k =>
    rw [interestAndPrincipal.loop, interest_fin, F64.fin_sub_fin, F64.fin_add_fin]
    exact interestAndPrincipal_loop_fin r p paymentType k _ _ _

theorem not_invalid_of_valid {paymentType : Int}
    (ht : paymentType = PayEnd ∨ paymentType = PayBegin) :
    ¬ (paymentType ≠ PayEnd ∧ paymentType ≠ PayBegin) :=
  (t_valid_cases paymentType).2 ht

/-- The value of `PresentValue` on finite arguments, when neither division is by zero. -/
theorem presentValue_fin (r pmt fv : K) (n t : Int) (hn : 0 ≤ n)
    (ht : t = PayEnd ∨ t = PayBegin) (hr : r ≠ 0) (hc : (1 + r) ^ n ≠ 0) :
    PresentValue (fin r) n (fin pmt) (fin fv) t
      = (fin (((-pmt) * (1 + r * (t : K)) * (((1 + r) ^ n - 1) / r) - fv) / (1 + r) ^ n),
          none) := by
  simp only [PresentValue]
  rw [if_neg (not_lt.2 hn), if_neg (not_invalid_of_valid ht), F64.eq_fin_zero,
    decide_eq_false hr, if_pos rfl]
  simp only [F64.ofInt, rnd_exact, F64.fin_add_fin, F64.powi_fin_nonneg _ n hn, F64.fin_mul_fin,
    F64.fin_sub_fin, F64.neg_fin, F64.fin_div_fin _ _ hr, F64.fin_div_fin _ _ hc]

/-- The value of `FutureValue` on finite arguments at a non-zero rate. -/
theorem futureValue_fin (r pmt pv : K) (n t : Int) (hn : 0 ≤ n)
    (ht : t = PayEnd ∨ t = PayBegin) (hr : r ≠ 0) :
    FutureValue (fin r) n (fin pmt) (fin pv) t
      = (fin ((-pv) * (1 + r) ^ n - pmt * (1 + r * (t : K)) * ((1 + r) ^ n - 1) / r), none) := by
  simp only [FutureValue]
  rw [if_neg (not_lt.2 hn), if_neg (not_invalid_of_valid ht), F64.eq_fin_zero,
    decide_eq_false hr, if_pos rfl]
  simp only [F64.ofInt, rnd_exact, F64.fin_add_fin, F64.powi_fin_nonneg _ n hn, F64.fin_mul_fin,
    F64.fin_sub_fin, F64.neg_fin, F64.fin_div_fin _ _ hr]

/-- The value of `Payment` on finite arguments, when neither division is by zero. -/
theorem payment_fin (r pv fv : K) (n t : Int) (hn : 0 ≤ n)
    (ht : t = PayEnd ∨ t = PayBegin) (hr : r ≠ 0) (hc : (1 + r) ^ n ≠ 1)
    (h1 : 1 + r * (t : K) ≠ 0) :
    Payment (fin r) n (fin pv) (fin fv) t
      = (fin (((-fv) - pv * (1 + r) ^ n) / (1 + r * (t : K)) / (((1 + r) ^ n - 1) / r)),
          none) := by
  have hq : ((1 + r) ^ n - 1) / r ≠ 0 := div_ne_zero (sub_ne_zero.2 hc) hr
  simp only [Payment]
  rw [if_neg (not_lt.2 hn), if_neg (not_invalid_of_valid ht), F64.eq_fin_zero,
    decide_eq_false hr, if_pos rfl]
  simp only [F64.ofInt, rnd_exact, F64.fin_add_fin, F64.powi_fin_nonneg _ n hn, F64.fin_mul_fin,
    F64.fin_sub_fin, F64.neg_fin, F64.fin_div_fin _ _ hr, F64.fin_div_fin _ _ h1,
    F64.fin_div_fin _ _ hq]

/-- The value of `f` on finite arguments for a non-negative number of periods. -/
theorem f_fin_nonneg (r : K) (n : Int) (pmt pv fv : K) (t : Int) (hn : 0 ≤ n) (hr : r ≠ 0) :
    f (fin r) n (fin pmt) (fin pv) (fin fv) t
      = fin (pv * (1 + r) ^ n + pmt * (1 + r * (t : K)) * (((1 + r) ^ n - 1) / r) + fv) := by
  simp only [f, F64.ofInt, rnd_exact, F64.fin_add_fin, F64.powi_fin_nonneg _ n hn, F64.fin_mul_fin,
    F64.fin_sub_fin, F64.fin_div_fin _ _ hr]

/-- The value of `PresentValue` on finite arguments at the rate zero. -/
theorem presentValue_fin_zero (pmt fv : K) (n t : Int) (hn : 0 ≤ n)
    (ht : t = PayEnd ∨ t = PayBegin) :
    PresentValue (fin 0) n (fin pmt) (fin fv) t = (fin ((-fv) - pmt * (n : K)), none) := by
  simp only [PresentValue]
  rw [if_neg (not_lt.2 hn), if_neg (not_invalid_of_valid ht), F64.eq_fin_zero]
  simp only [decide_True, Bool.true_eq_false, if_false, F64.ofInt, rnd_exact, F64.neg_fin, F64.fin_mul_fin,
    F64.fin_sub_fin]

/-- A difference that fits in `int64` is left unchanged by `wrapInt64`. -/
theorem wrapInt64_of_fits (x : Int) (h1 : -2 ^ 63 ≤ x) (h2 : x < 2 ^ 63) : wrapInt64 x = x := by
  unfold wrapInt64
  have h : (x + 2 ^ 63) % 2 ^ 64 = x + 2 ^ 63 :=
    Int.emod_eq_of_lt (by omega) (by omega)
  rw [h]
  ring

/-- The test `dsm > 360` of `TBillYield` in whole seconds. -/
theorem tbill_span_test (w : Int) :
    (F64.lt (fin 360 : F64 K) (ofInt w / ofInt 86400) = true) ↔ 360 * 86400 < w := by
  have h86400 : ((86400 : Int) : K) ≠ 0 := by norm_num
  simp only [F64.ofInt, rnd_exact]
  rw [F64.fin_div_fin _ _ h86400, F64.lt_fin_fin, decide_eq_true_eq,
    lt_div_iff₀ (by norm_num : (0 : K) < ((86400 : Int) : K))]
  have : (360 : K) * ((86400 : Int) : K) = ((360 * 86400 : Int) : K) := by push_cast; ring
  rw [this, Int.cast_lt]

/-- The comparisons of `TBillEquivalentYield` on the whole-day count. -/
theorem ofInt_le_fin (d c : Int) : F64.le (ofInt d : F64 K) (fin (c : K)) = decide (d ≤ c) := by
  simp only [F64.ofInt, rnd_exact, F64.le_fin_fin, Int.cast_le]

theorem ofInt_lt_fin (c d : Int) : F64.lt (fin (c : K)) (ofInt d : F64 K) = decide (c < d) := by
  simp only [F64.ofInt, rnd_exact, F64.lt_fin_fin, Int.cast_lt]

theorem ofInt_eq_fin (d c : Int) : F64.eq (ofInt d : F64 K) (fin (c : K)) = decide (d = c) := by
  simp only [F64.ofInt, rnd_exact, F64.eq, Int.cast_inj]

/-- The third of 36 monthly periods at the rate `0.1/12` on 8000, payments at the end: the
interest and the principal are within `1e-6` of the values of the tests. -/
theorem interest_principal_third_period :
    ∃ i q : ℚ, InterestPayment (fin (1 / 120 : ℚ)) 3 36 (fin 8000) (fin 0) 0 = (fin i, none)
      ∧ PrincipalPayment (fin (1 / 120 : ℚ)) 3 36 (fin 8000) (fin 0) 0 = (fin q, none)
      ∧ |i - (-63462189 / 1000000)| ≤ 1 / 1000000
      ∧ |q - (-194675308 / 1000000)| ≤ 1 / 1000000 := by
  have hp := payment_fin (1 / 120 : ℚ) 8000 0 36 0 (by decide) (Or.inl rfl) (by norm_num)
    (by norm_num) (by norm_num)
  rw [interestPayment_eq (fin (1 / 120 : ℚ)) (fin 8000) (fin 0) 3 36 0 (by decide) (Or.inl rfl),
    principalPayment_eq (fin (1 / 120 : ℚ)) (fin 8000) (fin 0) 3 36 0 (by decide) (Or.inl rfl),
    hp]
  simp only [Int.toNat_ofNat, interestAndPrincipal.loop, interest_fin, F64.fin_sub_fin,
    F64.fin_add_fin]
  refine ⟨_, _, rfl, rfl, ?_, ?_⟩
  · rw [abs_le]
    constructor <;> norm_num
  · rw [abs_le]
    constructor <;> norm_num

/-! ### Day counts, depreciation and rates -/

theorem daysDifference_actual (date : Int → Int × Int × Int) (date1 date2 basis : Int)
    (hb : basis = CountActualActual ∨ basis = CountActual360 ∨ basis = CountActual365) :
    DaysDifference date date1 date2 basis = Int.tdiv (wrapInt64 (date2 - date1)) 86400 := by
  have h0 : basis ≠ CountNasd := by
    rcases hb with h | h | h <;> rw [h] <;> decide
  simp only [DaysDifference]
  rw [if_neg h0, if_pos hb]

theorem newtonCounted_unfold [Rounding K] (guess : F64 K) (function derivative : F64 K → F64 K)
    (numIt : Int) :
    newtonCounted guess function derivative numIt =
      if F64.lt (F64.abs (newtonStep function derivative guess - guess)) Precision then
        (.ok (newtonStep function derivative guess), 1)
      else if numIt ≥ MaxIterations then (.error .didNotConverge, 1)
      else ((newtonCounted (newtonStep function derivative guess) function derivative
              (numIt + 1)).1,
            (newtonCounted (newtonStep function derivative guess) function derivative
              (numIt + 1)).2 + 1) := by
  rw [newtonCounted]
  rfl

/-- The counted solver returns what `newton` returns, after at least one and at most
`(MaxIterations - numIt).toNat + 1` update steps. -/
theorem newtonCounted_spec [Rounding K] (function derivative : F64 K → F64 K) (m : Nat) :
    ∀ (guess : F64 K) (numIt : Int), (MaxIterations - numIt).toNat = m →
      (newtonCounted guess function derivative numIt).1 = newton guess function derivative numIt
        ∧ 1 ≤ (newtonCounted guess function derivative numIt).2
        ∧ (newtonCounted guess function derivative numIt).2 ≤ m + 1 := by
  induction m with
  | zero =>
    intro guess numIt hm
    have hge : numIt ≥ MaxIterations := by omega
    rw [newtonCounted_unfold, newton_unfold]
    split_ifs <;> simp
  | succ m ih =>
    intro guess numIt hm
    have hlt : ¬ numIt ≥ MaxIterations := by omega
    rw [newtonCounted_unfold, newton_unfold]
    by_cases hc : F64.lt (F64.abs (newtonStep function derivative guess - guess)) Precision = true
    · rw [if_pos hc, if_pos hc]
      simp
    · rw [if_neg hc, if_neg hc, if_neg hlt, if_neg hlt]
      obtain ⟨h1, h2, h3⟩ := ih (newtonStep function derivative guess) (numIt + 1) (by omega)
      exact ⟨h1, Nat.le_add_left 1 _, Nat.succ_le_succ h3⟩

/-- The non-negative sub-series of a series of finite values. -/
theorem positiveFlows_fin (vs : List K) :
    (vs.map fin).map (fun value : F64 K => if F64.le (fin 0) value then value else fin 0)
      = (vs.map (fun v => if 0 ≤ v then v else 0)).map fin := by
  rw [List.map_map, List.map_map]
  apply List.map_congr_left
  intro v _
  simp only [Function.comp, F64.le_fin_fin, decide_eq_true_eq]
  split_ifs <;> rfl

/-- The rate of the depreciation test, with `math.Pow(0.1, 1/6)` taken as `0.681292` (its
value to six digits): `round(1 - 0.681292, 3)` is `0.319`. -/
theorem round_test_rate :
    round (fin 1 - (fun _ _ => fin (681292 / 1000000) : F64 ℚ → F64 ℚ → F64 ℚ)
        (fin 100000 / fin 1000000) (fin 1 / ofInt 6)) 3 = fin (319 / 1000) := by
  have hfl : Int.floor (318708 / 1000 : ℚ) = 318 := by
    rw [Int.floor_eq_iff]
    constructor <;> norm_num
  have hce : Int.ceil (318708 / 1000 : ℚ) = 319 := by
    rw [Int.ceil_eq_iff]
    constructor <;> norm_num
  have h1 : (fin 1 - fin (681292 / 1000000) : F64 ℚ) = fin (318708 / 1000000) := by
    rw [F64.fin_sub_fin]
    norm_num
  have h2 : (318708 / 1000000 : ℚ) * 10 ^ (3 : Int) = 318708 / 1000 := by norm_num
  simp only [h1, round]
  have hneg : ¬ (318708 / 1000000 : ℚ) < 0 := by norm_num
  simp only [hneg, if_false]
  rw [F64.powi_fin _ _ (by norm_num), F64.fin_mul_fin, h2]
  simp only [F64.modfFrac, F64.ceil, F64.floor, hfl, hce]
  norm_num [F64.le_fin_fin, F64.fin_div_fin, F64.fin_mul_fin]

/-! ### Amortization schedules, Treasury bills and sum-of-years depreciation -/

/-- The two treasury-bill functions with the same guards return an error together. -/
theorem tbillPrice_error_iff (settlement maturity : Int) (discount : F64 K) :
    (TBillPrice settlement maturity discount).2 ≠ none
      ↔ (settlement ≥ maturity ∨ 360 * 86400 < wrapInt64 (maturity - settlement)) := by
  simp only [TBillPrice]
  by_cases h1 : settlement ≥ maturity
  · rw [if_pos h1]
    exact ⟨fun _ => Or.inl h1, fun _ => by simp⟩
  · rw [if_neg h1]
    by_cases h2 : 360 * 86400 < wrapInt64 (maturity - settlement)
    · rw [if_pos ((tbill_span_test _).2 h2)]
      exact ⟨fun _ => Or.inr h2, fun _ => by simp⟩
    · rw [if_neg (fun h => h2 ((tbill_span_test _).1 h))]
      exact ⟨fun h => absurd rfl h, fun h => h.elim (fun a => absurd a h1) (fun b => absurd b h2)⟩

theorem tbillYield_error_iff (settlement maturity : Int) (price : F64 K) :
    (TBillYield settlement maturity price).2 ≠ none
      ↔ (settlement ≥ maturity ∨ 360 * 86400 < wrapInt64 (maturity - settlement)) := by
  simp only [TBillYield]
  by_cases h1 : settlement ≥ maturity
  · rw [if_pos h1]
    exact ⟨fun _ => Or.inl h1, fun _ => by simp⟩
  · rw [if_neg h1]
    by_cases h2 : 360 * 86400 < wrapInt64 (maturity - settlement)
    · rw [if_pos ((tbill_span_test _).2 h2)]
      exact ⟨fun _ => Or.inr h2, fun _ => by simp⟩
    · rw [if_neg (fun h => h2 ((tbill_span_test _).1 h))]
      exact ⟨fun h => absurd rfl h, fun h => h.elim (fun a => absurd a h1) (fun b => absurd b h2)⟩

/-- With payments at the end of the period, the loop of `interestAndPrincipal` run `k + 1`
times from the capital `c0` returns the interest and the principal of a period that starts
with the capital `c0*(1+r)^k + p*(1 + (1+r) + ... + (1+r)^(k-1))`. -/
theorem interestAndPrincipal_loop_end (r p : K) (k : Nat) :
    ∀ (i : Int) (c0 : K) (a b : F64 K),
      interestAndPrincipal.loop (fin r) (fin p) PayEnd (k + 1) i (fin c0) a b
        = (fin (-(c0 * (1 + r) ^ k + p * ∑ j ∈ Finset.range k, (1 + r) ^ j) * r),
            fin (p + (c0 * (1 + r) ^ k + p * ∑ j ∈ Finset.range k, (1 + r) ^ j) * r)) := by
  have hend : ∀ i : Int, ¬ (PayEnd = 1 ∧ i = 1) := fun i h => absurd h.1 (by decide)
  induction k with
  | zero =>
    intro i c0 a b
    rw [interestAndPrincipal.loop, interest_fin, if_neg (hend i), F64.fin_sub_fin,
      F64.fin_add_fin, interestAndPrincipal.loop]
    simp only [pow_zero, mul_one, Finset.range_zero, Finset.sum_empty, mul_zero, add_zero]
    congr 2
    ring
  | succ k ih =>
    intro i c0 a b
    rw [interestAndPrincipal.loop, interest_fin, if_neg (hend i), F64.fin_sub_fin,
      F64.fin_add_fin, ih]
    have hcap : (c0 + (p - -c0 * r)) * (1 + r) ^ k + p * ∑ j ∈ Finset.range k, (1 + r) ^ j
        = c0 * (1 + r) ^ (k + 1) + p * ∑ j ∈ Finset.range (k + 1), (1 + r) ^ j := by
      rw [Finset.sum_range_succ]
      ring
    rw [hcap]

/-- The value of `EffectiveRate` on a finite rate, for at least one period. -/
theorem effectiveRate_fin (x : K) (n : Nat) (hn : 1 ≤ n) :
    EffectiveRate (fin x) n = (fin ((1 + x / n) ^ n - 1), none) := by
  have hn0 : (0 : K) < n := by exact_mod_cast hn
  have hcast : (((n : Nat) : Int) : K) = (n : K) := by norm_num
  simp only [EffectiveRate]
  rw [if_neg (by omega)]
  simp only [F64.ofInt, rnd_exact, hcast, F64.fin_div_fin _ _ (ne_of_gt hn0), F64.fin_add_fin,
    F64.powi_fin_nonneg _ _ (Int.natCast_nonneg n), zpow_natCast, F64.fin_sub_fin]

/-! ## binary64 and arithmetic under a rounding -/

/-! ### binary64 rounding -/

theorem rnd_B64 (x : B64) : (rnd x : F64 B64) = round64 x := rfl

theorem roundEven_of_abs_sub_lt (y : B64) (m : Int) (h : |y - (m : B64)| < 1 / 2) :
    roundEven y = m := by
  rw [abs_lt] at h
  obtain ⟨h1, h2⟩ := h
  unfold roundEven
  rcases le_or_lt (m : B64) y with hmy | hmy
  · have hf : ⌊y⌋ = m := Int.floor_eq_iff.2 ⟨hmy, by linarith⟩
    rw [hf, if_pos (by linarith)]
  · have hf : ⌊y⌋ = m - 1 := Int.floor_eq_iff.2 ⟨by push_cast; linarith, by push_cast; linarith⟩
    rw [hf, if_neg (by push_cast; linarith), if_pos (by push_cast; linarith)]
    ring

theorem roundEven_intCast (m : Int) : roundEven (m : B64) = m :=
  roundEven_of_abs_sub_lt _ m (by norm_num)

theorem roundEven_half_up (y : B64) (m : Int) (hm : m % 2 = 0) (h : y = (m : B64) - 1 / 2) :
    roundEven y = m := by
  unfold roundEven
  have hf : ⌊y⌋ = m - 1 := Int.floor_eq_iff.2 ⟨by rw [h]; push_cast; linarith,
    by rw [h]; push_cast; linarith⟩
  have hodd : ¬ (m - 1) % 2 = 0 := by omega
  rw [hf, if_neg (by rw [h]; push_cast; linarith), if_neg (by rw [h]; push_cast; linarith),
    if_neg hodd]
  ring

theorem roundEven_half_down (y : B64) (m : Int) (hm : m % 2 = 0) (h : y = (m : B64) + 1 / 2) :
    roundEven y = m := by
  unfold roundEven
  have hf : ⌊y⌋ = m := Int.floor_eq_iff.2 ⟨by rw [h]; linarith, by rw [h]; linarith⟩
  rw [hf, if_neg (by rw [h]; linarith), if_neg (by rw [h]; linarith), if_pos hm]

theorem abs_roundEven_sub_le (y : B64) : |(roundEven y : B64) - y| ≤ 1 / 2 := by
  have h1 := Int.floor_le y
  have h2 := Int.lt_floor_add_one y
  unfold roundEven
  rw [abs_le]
  split_ifs with ha hb hc
  · constructor <;> linarith
  · push_cast
    constructor <;> linarith
  · constructor <;> linarith
  · push_cast
    constructor <;> linarith

theorem binade_eq (x : B64) (e : Int) (hx : x ≠ 0) (he : -1022 ≤ e)
    (hlo : (2 : B64) ^ e ≤ |x| ∨ e = -1022) (hhi : |x| < (2 : B64) ^ (e + 1)) :
    binade x = e := by
  have hpos : 0 < |x| := abs_pos.2 hx
  have h2 : ((2 : Nat) : B64) = 2 := by norm_num
  have hlog_lt : Int.log 2 |x| < e + 1 := by
    rw [← Int.lt_zpow_iff_log_lt (by norm_num) hpos, h2]
    exact hhi
  unfold binade
  rcases hlo with hlo | hlo
  · have hle : e ≤ Int.log 2 |x| := by
      rw [← Int.zpow_le_iff_le_log (by norm_num) hpos, h2]
      exact hlo
    rw [max_eq_left (by omega)]
    omega
  · rw [max_eq_right (by omega)]
    omega

theorem binade_ge (x : B64) : -1022 ≤ binade x := le_max_right _ _

theorem nearest_zero : nearest 0 = 0 := by
  unfold nearest
  have h : roundEven ((0 : B64) / 2 ^ (binade 0 - 52)) = 0 := by
    rw [zero_div]
    exact_mod_cast roundEven_intCast 0
  rw [h]
  simp

theorem round64_zero : round64 0 = fin 0 := by
  unfold round64
  rw [nearest_zero, if_neg]
  norm_num

/-- Rounding by certificate: the binade `e` of `x` and the integer `m` that `x / 2^(e-52)`
rounds to give the `float64` value `m * 2^(e-52)`. -/
theorem round64_eq (x : B64) (e m : Int) (hx : x ≠ 0) (he : -1022 ≤ e)
    (hlo : (2 : B64) ^ e ≤ |x| ∨ e = -1022) (hhi : |x| < (2 : B64) ^ (e + 1))
    (hm : roundEven (x / 2 ^ (e - 52)) = m)
    (hfin : |(m : B64) * 2 ^ (e - 52)| < 2 ^ 1024) :
    round64 x = fin ((m : B64) * 2 ^ (e - 52)) := by
  have hn : nearest x = (m : B64) * 2 ^ (e - 52) := by
    unfold nearest
    rw [binade_eq x e hx he hlo hhi, hm]
  unfold round64
  rw [hn, if_neg (not_le.2 hfin)]

theorem round64_intCast (n : Int) (hn : |n| < 2 ^ 53) : round64 (n : B64) = fin (n : B64) := by
  by_cases h0 : n = 0
  · subst h0
    simpa using round64_zero
  have hx : (n : B64) ≠ 0 := by exact_mod_cast h0
  have hpos : 0 < |(n : B64)| := abs_pos.2 hx
  have h2 : ((2 : Nat) : B64) = 2 := by norm_num
  have habs : |(n : B64)| < 2 ^ (53 : Int) := by
    have : ((|n| : Int) : B64) < ((2 ^ 53 : Int) : B64) := Int.cast_lt.2 hn
    rw [Int.cast_abs] at this
    calc |(n : B64)| < ((2 ^ 53 : Int) : B64) := this
      _ = 2 ^ (53 : Int) := by norm_num
  have hb1 : binade (n : B64) ≤ 52 := by
    unfold binade
    have : Int.log 2 |(n : B64)| < 53 := by
      rw [← Int.lt_zpow_iff_log_lt (by norm_num) hpos, h2]
      exact habs
    exact max_le (by omega) (by norm_num)
  obtain ⟨k, hk⟩ : ∃ k : Nat, (52 : Int) - binade (n : B64) = k :=
    ⟨(52 - binade (n : B64)).toNat, by omega⟩
  have hu : (2 : B64) ^ (binade (n : B64) - 52) = ((2 : B64) ^ k)⁻¹ := by
    rw [← zpow_natCast, ← zpow_neg, ← hk]
    congr 1
    ring
  have hq : (n : B64) / 2 ^ (binade (n : B64) - 52) = ((n * 2 ^ k : Int) : B64) := by
    rw [hu, div_inv_eq_mul]
    push_cast
    ring
  have hr : nearest (n : B64) = n := by
    unfold nearest
    rw [hq, roundEven_intCast, hu]
    push_cast
    field_simp
  unfold round64
  rw [hr, if_neg]
  rw [not_le]
  calc |(n : B64)| < 2 ^ (53 : Int) := habs
    _ ≤ 2 ^ 1024 := by norm_num

theorem round64_dyadic (m k : Int) (hm : |m| < 2 ^ 53) (hk : -1074 ≤ k)
    (hfin : |(m : B64) * 2 ^ k| < 2 ^ (1024 : Nat)) :
    round64 ((m : B64) * 2 ^ k) = fin ((m : B64) * 2 ^ k) := by
  by_cases h0 : m = 0
  · subst h0
    simpa using round64_zero
  have h2pos : (0 : B64) < 2 ^ k := zpow_pos (by norm_num) k
  have hx : (m : B64) * 2 ^ k ≠ 0 :=
    mul_ne_zero (by exact_mod_cast h0) (ne_of_gt h2pos)
  have hpos : 0 < |(m : B64) * 2 ^ k| := abs_pos.2 hx
  have h2 : ((2 : Nat) : B64) = 2 := by norm_num
  have hmabs : |(m : B64)| < 2 ^ (53 : Int) := by
    have : ((|m| : Int) : B64) < ((2 ^ 53 : Int) : B64) := Int.cast_lt.2 hm
    rw [Int.cast_abs] at this
    calc |(m : B64)| < ((2 ^ 53 : Int) : B64) := this
      _ = 2 ^ (53 : Int) := by norm_num
  have habs : |(m : B64) * 2 ^ k| < 2 ^ (53 + k) := by
    rw [abs_mul, abs_of_pos h2pos, zpow_add₀ (by norm_num : (2 : B64) ≠ 0)]
    exact mul_lt_mul_of_pos_right hmabs h2pos
  have hb1 : binade ((m : B64) * 2 ^ k) ≤ 52 + k := by
    unfold binade
    have : Int.log 2 |(m : B64) * 2 ^ k| < 53 + k := by
      rw [← Int.lt_zpow_iff_log_lt (by norm_num) hpos, h2]
      exact habs
    exact max_le (by omega) (by omega)
  obtain ⟨j, hj⟩ : ∃ j : Nat, k - (binade ((m : B64) * 2 ^ k) - 52) = j :=
    ⟨(k - (binade ((m : B64) * 2 ^ k) - 52)).toNat, by omega⟩
  have hu : (2 : B64) ^ k = 2 ^ j * 2 ^ (binade ((m : B64) * 2 ^ k) - 52) := by
    rw [← zpow_natCast, ← zpow_add₀ (by norm_num : (2 : B64) ≠ 0), ← hj]
    congr 1
    ring
  have hupos : (0 : B64) < 2 ^ (binade ((m : B64) * 2 ^ k) - 52) := zpow_pos (by norm_num) _
  have hq : (m : B64) * 2 ^ k / 2 ^ (binade ((m : B64) * 2 ^ k) - 52)
      = ((m * 2 ^ j : Int) : B64) := by
    rw [div_eq_iff (ne_of_gt hupos)]
    push_cast
    nth_rewrite 1 [hu]
    ring
  have hr : nearest ((m : B64) * 2 ^ k) = (m : B64) * 2 ^ k := by
    unfold nearest
    rw [hq, roundEven_intCast]
    push_cast
    conv_rhs => rw [hu]
    ring
  unfold round64
  rw [hr, if_neg (not_le.2 hfin)]

/-- Rounding by certificate, with the inequalities in the form in which they are evaluated:
`e` is the exponent of the binade of `x` (or `-1022`), `m` the integer nearest to
`x / 2^(e-52)`, and `y = m * 2^(e-52)` the `float64` that `x` is rounded to. -/
theorem round64_cert (x y : B64) (e m : Int) (hy : y = (m : B64) * 2 ^ (e - 52))
    (he : -1022 ≤ e)
    (hlo : e = -1022 ∨ (2 : B64) ^ e ≤ x ∨ x ≤ -(2 : B64) ^ e)
    (hhi : -(2 : B64) ^ (e + 1) < x ∧ x < (2 : B64) ^ (e + 1))
    (hm : -(1 / 2) < x / 2 ^ (e - 52) - (m : B64) ∧ x / 2 ^ (e - 52) - (m : B64) < 1 / 2)
    (hfin : -(2 : B64) ^ (1024 : Nat) < y ∧ y < (2 : B64) ^ (1024 : Nat)) :
    round64 x = fin y := by
  have hround : roundEven (x / 2 ^ (e - 52)) = m :=
    roundEven_of_abs_sub_lt _ _ (abs_lt.2 hm)
  by_cases hx : x = 0
  · subst hx
    rw [zero_div] at hround
    have hm0 : m = 0 := by
      have h := roundEven_intCast 0
      rw [Int.cast_zero] at h
      rw [← hround, h]
    rw [hy, hm0, round64_zero]
    simp
  · subst hy
    refine round64_eq x e m hx he ?_ (abs_lt.2 hhi) hround (abs_lt.2 hfin)
    rcases hlo with h | h | h
    · exact Or.inr h
    · exact Or.inl (le_trans h (le_abs_self x))
    · exact Or.inl (le_trans (le_neg_of_le_neg h) (neg_le_abs x))

/-- A number `m * 2^k` with `|m| < 2^53` and `k >= -1074`, below `2^1024` in absolute value,
is a `float64`: rounding leaves it unchanged. -/
theorem round64_of_dyadic (x y : B64) (m k : Int) (hxy : x = y) (hy : y = (m : B64) * 2 ^ k)
    (hm : -2 ^ 53 < m ∧ m < 2 ^ 53) (hk : -1074 ≤ k)
    (hfin : -(2 : B64) ^ (1024 : Nat) < y ∧ y < (2 : B64) ^ (1024 : Nat)) :
    round64 x = fin y := by
  subst hxy
  subst hy
  exact round64_dyadic m k (abs_lt.2 hm) hk (abs_lt.2 hfin)

theorem B64.add_eq (a b y : B64) (h : round64 (a + b) = fin y) :
    (fin a + fin b : F64 B64) = fin y := h

theorem B64.sub_eq (a b y : B64) (h : round64 (a - b) = fin y) :
    (fin a - fin b : F64 B64) = fin y := by
  show round64 (a + -b) = fin y
  rw [← sub_eq_add_neg]
  exact h

theorem B64.mul_eq (a b y : B64) (h : round64 (a * b) = fin y) :
    (fin a * fin b : F64 B64) = fin y := h

theorem B64.div_eq (a b y : B64) (hb : b ≠ 0) (h : round64 (a / b) = fin y) :
    (fin a / fin b : F64 B64) = fin y := by
  show F64.div (fin a) (fin b) = fin y
  simp only [F64.div, if_neg hb]
  exact h

theorem B64.ofInt_eq (n : Int) (hn : -2 ^ 53 < n ∧ n < 2 ^ 53) :
    (F64.ofInt n : F64 B64) = fin (n : B64) :=
  round64_intCast n (abs_lt.2 hn)

theorem B64.powi_eq (a y : B64) (n : Int) (hn0 : n ≠ 0) (hn1 : n ≠ 1) (ha1 : a ≠ 1)
    (ha0 : a ≠ 0 ∨ 0 ≤ n) (h : round64 (a ^ n) = fin y) : F64.powi (fin a) n = fin y := by
  have hne : (fin a : F64 B64) ≠ fin 1 := fun h1 => ha1 (F64.fin.inj h1)
  have hz : ¬ (a = 0 ∧ n < 0) := by
    rintro ⟨h1, h2⟩
    rcases ha0 with h3 | h3
    · exact h3 h1
    · omega
  unfold F64.powi
  rw [if_neg (fun h1 => h1.elim hn0 hne), if_neg hn1]
  simp only []
  rw [if_neg hz]
  exact h

/-- The certificate of a rounding that is a tie: `x / 2^(e-52)` is half-way between two
integers and `m` is the even one. -/
theorem round64_cert_tie (x y : B64) (e m : Int) (hy : y = (m : B64) * 2 ^ (e - 52))
    (he : -1022 ≤ e)
    (hlo : e = -1022 ∨ (2 : B64) ^ e ≤ x ∨ x ≤ -(2 : B64) ^ e)
    (hhi : -(2 : B64) ^ (e + 1) < x ∧ x < (2 : B64) ^ (e + 1))
    (hm2 : m % 2 = 0)
    (hm : x / 2 ^ (e - 52) = (m : B64) - 1 / 2 ∨ x / 2 ^ (e - 52) = (m : B64) + 1 / 2)
    (hfin : -(2 : B64) ^ (1024 : Nat) < y ∧ y < (2 : B64) ^ (1024 : Nat)) :
    round64 x = fin y := by
  have hround : roundEven (x / 2 ^ (e - 52)) = m := by
    rcases hm with h | h
    · exact roundEven_half_up _ _ hm2 h
    · exact roundEven_half_down _ _ hm2 h
  have hx : x ≠ 0 := by
    intro hx
    rw [hx, zero_div] at hm
    have h2 : (2 : B64) * (m : B64) = 1 ∨ (2 : B64) * (m : B64) = -1 := by
      rcases hm with h | h
      · left; linarith
      · right; linarith
    rcases h2 with h | h
    · have h3 : (2 : Int) * m = 1 := by exact_mod_cast h
      omega
    · have h3 : (2 : Int) * m = -1 := by exact_mod_cast h
      omega
  subst hy
  refine round64_eq x e m hx he ?_ (abs_lt.2 hhi) hround (abs_lt.2 hfin)
  rcases hlo with h | h | h
  · exact Or.inr h
  · exact Or.inl (le_trans h (le_abs_self x))
  · exact Or.inl (le_trans (le_neg_of_le_neg h) (neg_le_abs x))

theorem B64.ofRat_eq (x y : B64) (h : round64 x = fin y) : (Rounding.rnd x : F64 B64) = fin y := h

theorem B64.floor_eq (a : B64) (n : Int) (h1 : (n : B64) ≤ a) (h2 : a < (n : B64) + 1) :
    F64.floor (fin a) = fin (n : B64) := by
  have h : Int.floor a = n := Int.floor_eq_iff.2 ⟨h1, h2⟩
  show fin ((Int.floor a : Int) : B64) = fin (n : B64)
  rw [h]

theorem B64.modfFrac_nonneg (a : B64) (n : Int) (h0 : 0 ≤ a) (h1 : (n : B64) ≤ a)
    (h2 : a < (n : B64) + 1) : F64.modfFrac (fin a) = fin (a - (n : B64)) := by
  have h : Int.floor a = n := Int.floor_eq_iff.2 ⟨h1, h2⟩
  show (if 0 ≤ a then fin (a - ((Int.floor a : Int) : B64))
    else fin (a - ((Int.ceil a : Int) : B64))) = fin (a - (n : B64))
  rw [if_pos h0, h]

theorem roundEven_nonneg (y : B64) (hy : 0 ≤ y) : 0 ≤ roundEven y := by
  have hf : 0 ≤ ⌊y⌋ := Int.floor_nonneg.2 hy
  unfold roundEven
  split_ifs <;> omega

theorem roundEven_nonpos (y : B64) (hy : y ≤ 0) : roundEven y ≤ 0 := by
  have h := abs_roundEven_sub_le y
  rw [abs_le] at h
  have h1 : (roundEven y : B64) < 1 := by linarith [h.2]
  have h2 : roundEven y < 1 := by exact_mod_cast h1
  omega

theorem nearest_nonneg (x : B64) (hx : 0 ≤ x) : 0 ≤ nearest x := by
  unfold nearest
  have hu : (0 : B64) < 2 ^ (binade x - 52) := zpow_pos (by norm_num) _
  have h := roundEven_nonneg (x / 2 ^ (binade x - 52)) (div_nonneg hx (le_of_lt hu))
  exact mul_nonneg (by exact_mod_cast h) (le_of_lt hu)

theorem nearest_nonpos (x : B64) (hx : x ≤ 0) : nearest x ≤ 0 := by
  unfold nearest
  have hu : (0 : B64) < 2 ^ (binade x - 52) := zpow_pos (by norm_num) _
  have h := roundEven_nonpos (x / 2 ^ (binade x - 52))
    (div_nonpos_of_nonpos_of_nonneg hx (le_of_lt hu))
  exact mul_nonpos_of_nonpos_of_nonneg (by exact_mod_cast h) (le_of_lt hu)

/-- binary64 rounding keeps the sign. -/
theorem keepsSign_B64 : KeepsSign B64 := by
  intro x
  constructor
  · intro hx
    show F64.le (fin 0) (round64 x) = true
    unfold round64
    split_ifs with h1 h2
    · rfl
    · exfalso
      have hx0 : x = 0 := le_antisymm (not_lt.1 h2) hx
      rw [hx0, nearest_zero, abs_zero] at h1
      exact absurd h1 (not_le.2 (by positivity))
    · simp only [F64.le, decide_eq_true_eq]
      exact nearest_nonneg x hx
  · intro hx
    show F64.le (round64 x) (fin 0) = true
    unfold round64
    split_ifs with h1 h2
    · exact absurd h2 (not_lt.2 hx)
    · rfl
    · simp only [F64.le, decide_eq_true_eq]
      exact nearest_nonpos x hx

/-- Exact arithmetic keeps the sign. -/
theorem keepsSign_exact : KeepsSign K := by
  intro x
  constructor
  · intro hx
    show F64.le (fin 0) (fin x) = true
    simp only [F64.le, decide_eq_true_eq]
    exact hx
  · intro hx
    show F64.le (fin x) (fin 0) = true
    simp only [F64.le, decide_eq_true_eq]
    exact hx

theorem representable_B64 (x : B64) (h : round64 x = fin x) : Representable x := h

/-- A number `m * 2^k` with `|m| < 2^53` and `k >= -1074`, below `2^1024` in absolute value,
is representable in binary64. -/
theorem representable_of_dyadic (x : B64) (m k : Int) (hx : x = (m : B64) * 2 ^ k)
    (hm : -2 ^ 53 < m ∧ m < 2 ^ 53) (hk : -1074 ≤ k)
    (hfin : -(2 : B64) ^ (1024 : Nat) < x ∧ x < (2 : B64) ^ (1024 : Nat)) :
    Representable x :=
  round64_of_dyadic x x m k rfl hx hm hk hfin

theorem binade_of_large (x : B64) (h : (2 : B64) ^ (1024 : Nat) ≤ |x|) :
    (2 : B64) ^ binade x ≤ |x| ∧ 1024 ≤ binade x := by
  have hpos : 0 < |x| := lt_of_lt_of_le (by positivity) h
  have h2 : ((2 : Nat) : B64) = 2 := by norm_num
  have hlog : (1024 : Int) ≤ Int.log 2 |x| := by
    rw [← Int.zpow_le_iff_le_log (by norm_num) hpos, h2]
    exact_mod_cast h
  have hb : binade x = Int.log 2 |x| := by
    unfold binade
    exact max_eq_left (by omega)
  rw [hb]
  refine ⟨?_, hlog⟩
  have := Int.zpow_log_le_self (b := 2) (r := |x|) (by norm_num) hpos
  rwa [h2] at this

theorem two_pow_le_of_binade (x : B64) (h : 1024 ≤ binade x) :
    (2 : B64) ^ (1024 : Nat) ≤ 2 ^ binade x := by
  rw [← zpow_natCast]
  exact zpow_le_zpow_right₀ (by norm_num) (by exact_mod_cast h)

theorem two_zpow_split (b : Int) :
    (2 : B64) ^ b = 4503599627370496 * 2 ^ (b - 52) := by
  have h52 : (4503599627370496 : B64) = 2 ^ (52 : Int) := by norm_num
  rw [h52, ← zpow_add₀ (by norm_num : (2 : B64) ≠ 0)]
  congr 1
  ring

/-- A result of at least `2^1024` overflows to `+Inf`. -/
theorem round64_of_ge (x : B64) (h : (2 : B64) ^ (1024 : Nat) ≤ x) : round64 x = pinf := by
  have hx0 : 0 < x := lt_of_lt_of_le (by positivity) h
  have habs : |x| = x := abs_of_pos hx0
  obtain ⟨hb1, hb2⟩ := binade_of_large x (by rw [habs]; exact h)
  rw [habs] at hb1
  have hu : (0 : B64) < 2 ^ (binade x - 52) := zpow_pos (by norm_num) _
  have hsplit := two_zpow_split (binade x)
  have hy : ((4503599627370496 : Int) : B64) ≤ x / 2 ^ (binade x - 52) := by
    rw [le_div_iff₀ hu]
    push_cast
    rw [← hsplit]
    exact hb1
  have hfl : (4503599627370496 : Int) ≤ ⌊x / 2 ^ (binade x - 52)⌋ := Int.le_floor.2 hy
  have hr : (4503599627370496 : Int) ≤ roundEven (x / 2 ^ (binade x - 52)) := by
    unfold roundEven
    split_ifs <;> omega
  have hn : (2 : B64) ^ (1024 : Nat) ≤ nearest x := by
    unfold nearest
    calc (2 : B64) ^ (1024 : Nat) ≤ 2 ^ binade x := two_pow_le_of_binade x hb2
      _ = ((4503599627370496 : Int) : B64) * 2 ^ (binade x - 52) := by
          rw [hsplit]
          push_cast
          ring
      _ ≤ (roundEven (x / 2 ^ (binade x - 52)) : B64) * 2 ^ (binade x - 52) :=
          mul_le_mul_of_nonneg_right (by exact_mod_cast hr) (le_of_lt hu)
  unfold round64
  rw [if_pos (le_trans hn (le_abs_self _)), if_pos hx0]

/-- A result of at most `-2^1024` overflows to `-Inf`. -/
theorem round64_of_le (x : B64) (h : x ≤ -(2 : B64) ^ (1024 : Nat)) : round64 x = ninf := by
  have hx0 : x < 0 := lt_of_le_of_lt h (neg_lt_zero.2 (by positivity))
  have habs : |x| = -x := abs_of_neg hx0
  obtain ⟨hb1, hb2⟩ := binade_of_large x (by rw [habs]; linarith)
  rw [habs] at hb1
  have hu : (0 : B64) < 2 ^ (binade x - 52) := zpow_pos (by norm_num) _
  have hsplit := two_zpow_split (binade x)
  have hy : x / 2 ^ (binade x - 52) ≤ -((4503599627370496 : Int) : B64) := by
    rw [div_le_iff₀ hu]
    push_cast
    rw [neg_mul, ← hsplit]
    linarith
  have hle := abs_roundEven_sub_le (x / 2 ^ (binade x - 52))
  rw [abs_le] at hle
  have hr1 : (roundEven (x / 2 ^ (binade x - 52)) : B64)
      < ((-4503599627370496 + 1 : Int) : B64) := by
    push_cast
    push_cast at hy
    linarith [hle.2]
  have hr : roundEven (x / 2 ^ (binade x - 52)) ≤ -4503599627370496 := by
    have := Int.cast_lt.1 hr1
    omega
  have hn : nearest x ≤ -(2 : B64) ^ (1024 : Nat) := by
    unfold nearest
    calc (roundEven (x / 2 ^ (binade x - 52)) : B64) * 2 ^ (binade x - 52)
        ≤ ((-4503599627370496 : Int) : B64) * 2 ^ (binade x - 52) :=
          mul_le_mul_of_nonneg_right (by exact_mod_cast hr) (le_of_lt hu)
      _ = -(2 : B64) ^ binade x := by
          rw [hsplit]
          push_cast
          ring
      _ ≤ -(2 : B64) ^ (1024 : Nat) := neg_le_neg (two_pow_le_of_binade x hb2)
  unfold round64
  rw [if_pos (le_trans (le_neg_of_le_neg hn) (neg_le_abs _)), if_neg (not_lt.2 (le_of_lt hx0))]

/-! ### Operations whose result is not rounded -/

theorem F64.add_of_representable [Rounding K] (a b : K) (h : Representable (a + b)) :
    (fin a + fin b : F64 K) = fin (a + b) := h

theorem F64.sub_of_representable [Rounding K] (a b : K) (h : Representable (a - b)) :
    (fin a - fin b : F64 K) = fin (a - b) := by
  show rnd (a + -b) = fin (a - b)
  rw [← sub_eq_add_neg]
  exact h

theorem F64.mul_of_representable [Rounding K] (a b : K) (h : Representable (a * b)) :
    (fin a * fin b : F64 K) = fin (a * b) := h

theorem F64.div_of_representable [Rounding K] (a b : K) (hb : b ≠ 0)
    (h : Representable (a / b)) : (fin a / fin b : F64 K) = fin (a / b) := by
  show F64.div (fin a) (fin b) = fin (a / b)
  simp only [F64.div, if_neg hb]
  exact h

theorem F64.ofInt_of_representable [Rounding K] (n : Int) (h : Representable (n : K)) :
    (F64.ofInt n : F64 K) = fin (n : K) := h

theorem F64.powi_of_representable [Rounding K] (a : K) (n : Int) (h0 : a ≠ 0 ∨ 0 ≤ n)
    (h : Representable (a ^ n)) : F64.powi (fin a) n = fin (a ^ n) := by
  unfold F64.powi
  by_cases hn : n = 0
  · simp [hn]
  · have hnot : ¬ (a = 0 ∧ n < 0) := by
      rintro ⟨ha, hneg⟩
      rcases h0 with h0 | h0
      · exact h0 ha
      · omega
    simp only [hn, false_or, F64.fin.injEq, hnot, if_false]
    split_ifs with h1 h2
    · rw [h1, one_zpow]
    · rw [h2, zpow_one]
    · exact h

theorem F64.neg_fin_any [Rounding K] (a : K) : (-(fin a) : F64 K) = fin (-a) := rfl

/-- `math.Pow(x, 1) = x`. -/
theorem F64.powi_one [Rounding K] (x : F64 K) : F64.powi x 1 = x := by
  unfold F64.powi
  by_cases h : x = fin 1
  · rw [if_pos (Or.inr h), h]
  · rw [if_neg (fun h1 => h1.elim (by decide) h), if_pos rfl]

/-- `math.Pow(x, 0) = 1`. -/
theorem F64.powi_zero [Rounding K] (x : F64 K) : F64.powi x 0 = fin 1 := by
  unfold F64.powi
  rw [if_pos (Or.inl rfl)]

/-- `math.Pow(1, y) = 1`. -/
theorem F64.powi_base_one [Rounding K] (n : Int) : F64.powi (fin (1 : K)) n = fin 1 := by
  unfold F64.powi
  rw [if_pos (Or.inr rfl)]

/-! ### The formulas of `tvm.go` when no operation rounds -/

/-- The value of `Payment` at a non-zero rate when no operation rounds and neither division
is by zero. -/
theorem payment_of_representable [Rounding K] (r pv fv : K) (n t : Int) (hn : 0 ≤ n)
    (ht : t = PayEnd ∨ t = PayBegin) (hr : r ≠ 0) (hc : (1 + r) ^ n ≠ 1)
    (h1 : 1 + r * (t : K) ≠ 0) (hex : ∀ y ∈ paymentSteps r pv fv n t, Representable y) :
    Payment (fin r) n (fin pv) (fin fv) t
      = (fin ((-fv - pv * (1 + r) ^ n) / (1 + r * (t : K)) / (((1 + r) ^ n - 1) / r)),
          none) := by
  have hq : ((1 + r) ^ n - 1) / r ≠ 0 := div_ne_zero (sub_ne_zero.2 hc) hr
  simp only [Payment]
  rw [if_neg (not_lt.2 hn), if_neg (not_invalid_of_valid ht), F64.eq_fin_zero,
    decide_eq_false hr, if_pos rfl,
    F64.add_of_representable _ _ (hex _ (by simp [paymentSteps])),
    F64.powi_of_representable _ _ (Or.inr hn) (hex _ (by simp [paymentSteps])),
    F64.mul_of_representable _ _ (hex _ (by simp [paymentSteps])), F64.neg_fin_any,
    F64.sub_of_representable _ _ (hex _ (by simp [paymentSteps])),
    F64.ofInt_of_representable _ (hex _ (by simp [paymentSteps])),
    F64.mul_of_representable _ _ (hex _ (by simp [paymentSteps])),
    F64.add_of_representable _ _ (hex _ (by simp [paymentSteps])),
    F64.div_of_representable _ _ h1 (hex _ (by simp [paymentSteps])),
    F64.sub_of_representable _ _ (hex _ (by simp [paymentSteps])),
    F64.div_of_representable _ _ hr (hex _ (by simp [paymentSteps])),
    F64.div_of_representable _ _ hq (hex _ (by simp [paymentSteps]))]

theorem capitalAfter_succ (r p c0 : K) (j : Nat) :
    capitalAfter r p (c0 + (p - -c0 * r)) j = capitalAfter r p c0 (j + 1) := by
  unfold capitalAfter
  rw [Finset.sum_range_succ]
  have hgeo : (∑ m ∈ Finset.range j, (1 + r) ^ m) * r = (1 + r) ^ j - 1 := by
    have h := geom_sum_mul (1 + r) j
    rwa [add_sub_cancel_left] at h
  have h2 : p * (∑ m ∈ Finset.range j, (1 + r) ^ m) * r = p * ((1 + r) ^ j - 1) := by
    rw [mul_assoc, hgeo]
  ring_nf
  ring_nf at h2
  linarith

/-- With payments at the end of the period, when no operation rounds, the loop of
`interestAndPrincipal` run `k + 1` times from the capital `c0` returns the interest and the
principal of the period that starts with the capital `capitalAfter r p c0 k`. -/
theorem interestAndPrincipal_loop_of_representable [Rounding K] (r p : K) (k : Nat) :
    ∀ (i : Int) (c0 : K) (a b : F64 K),
      (∀ j, j ≤ k → ∀ y ∈ periodSteps r p (capitalAfter r p c0 j), Representable y) →
      interestAndPrincipal.loop (fin r) (fin p) PayEnd (k + 1) i (fin c0) a b
        = (fin (-(capitalAfter r p c0 k) * r), fin (p - -(capitalAfter r p c0 k) * r)) := by
  have hend : ∀ i : Int, ¬ (PayEnd = 1 ∧ i = 1) := fun i h => absurd h.1 (by decide)
  have hcap0 : ∀ c0 : K, capitalAfter r p c0 0 = c0 := fun c0 => by simp [capitalAfter]
  induction k with
  | zero =>
    intro i c0 a b hex
    have h0 := hex 0 (le_refl 0)
    rw [hcap0] at h0
    rw [interestAndPrincipal.loop, if_neg (hend i), F64.neg_fin_any,
      F64.mul_of_representable _ _ (h0 _ (by simp [periodSteps])),
      F64.sub_of_representable _ _ (h0 _ (by simp [periodSteps])),
      F64.add_of_representable _ _ (h0 _ (by simp [periodSteps])),
      interestAndPrincipal.loop, hcap0]
  | succ k ih =>
    intro i c0 a b hex
    have h0 := hex 0 (Nat.zero_le _)
    rw [hcap0] at h0
    rw [interestAndPrincipal.loop, if_neg (hend i), F64.neg_fin_any,
      F64.mul_of_representable _ _ (h0 _ (by simp [periodSteps])),
      F64.sub_of_representable _ _ (h0 _ (by simp [periodSteps])),
      F64.add_of_representable _ _ (h0 _ (by simp [periodSteps])),
      ih _ _ _ _ (fun j hj => by
        rw [capitalAfter_succ]
        exact hex (j + 1) (Nat.succ_le_succ hj)),
      capitalAfter_succ]

/-- After at least one pass, the principal the loop of `interestAndPrincipal` returns is the
difference of the payment and the interest it returns. -/
theorem interestAndPrincipal_loop_principal [Rounding K] (rate pmt : F64 K) (paymentType : Int)
    (k : Nat) :
    ∀ (i : Int) (capital a b : F64 K),
      (interestAndPrincipal.loop rate pmt paymentType (k + 1) i capital a b).2
        = pmt - (interestAndPrincipal.loop rate pmt paymentType (k + 1) i capital a b).1 := by
  induction k with
  | zero =>
    intro i capital a b
    rw [interestAndPrincipal.loop, interestAndPrincipal.loop]
  | succ k ih =>
    intro i capital a b
    rw [interestAndPrincipal.loop]
    exact ih _ _ _ _

/-- On a non-empty series the exact product of the smallest and the largest value is not
negative exactly when the series has no strictly positive or no strictly negative value. -/
theorem minMax_prod_nonneg_iff (vs : List K) (hne : vs ≠ []) :
    0 ≤ vs.foldl min MaxFloat64 * vs.foldl max (-MaxFloat64)
      ↔ (¬ (∃ p ∈ vs, 0 < p) ∨ ¬ (∃ n ∈ vs, n < 0)) := by
  have h := signGuard_iff vs hne
  unfold signGuard at h
  rw [minMaxSlice_fin, F64.fin_mul_fin, F64.le_fin_fin, decide_eq_true_eq] at h
  exact h

theorem F64.eq_zero_of_le_of_le (y : F64 K) (h1 : F64.le (fin 0) y = true)
    (h2 : F64.le y (fin 0) = true) : y = fin 0 := by
  cases y with
  | fin a =>
    rw [F64.le_fin_fin, decide_eq_true_eq] at h1 h2
    rw [le_antisymm h2 h1]
  | pinf => exact absurd h2 (by simp [F64.le])
  | ninf => exact absurd h1 (by simp [F64.le])
  | nan => exact absurd h1 (by simp [F64.le])

/-- With a rounding that keeps the sign, on a non-empty series of finite values the guard
`min*max >= 0` holds exactly when the series has no strictly positive value, or no strictly
negative value, or the product `min*max` is computed as zero. -/
theorem signGuard_iff_of_keepsSign [Rounding K] (hs : KeepsSign K) (vs : List K)
    (hne : vs ≠ []) :
    signGuard (vs.map fin) = true
      ↔ (¬ (∃ p ∈ vs, 0 < p) ∨ ¬ (∃ n ∈ vs, n < 0)
        ∨ (minMaxSlice (vs.map fin)).1 * (minMaxSlice (vs.map fin)).2 = fin 0) := by
  have hiff := minMax_prod_nonneg_iff vs hne
  unfold signGuard
  rw [minMaxSlice_fin]
  show F64.le (fin 0) (rnd (vs.foldl min MaxFloat64 * vs.foldl max (-MaxFloat64))) = true
    ↔ (_ ∨ _ ∨ rnd (vs.foldl min MaxFloat64 * vs.foldl max (-MaxFloat64)) = fin 0)
  constructor
  · intro hg
    by_cases hp : 0 ≤ vs.foldl min MaxFloat64 * vs.foldl max (-MaxFloat64)
    · rcases hiff.1 hp with h | h
      · exact Or.inl h
      · exact Or.inr (Or.inl h)
    · exact Or.inr (Or.inr (F64.eq_zero_of_le_of_le _ hg ((hs _).2 (le_of_lt (not_le.1 hp)))))
  · rintro (h | h | h)
    · exact (hs _).1 (hiff.2 (Or.inl h))
    · exact (hs _).1 (hiff.2 (Or.inr h))
    · rw [h]
      simp [F64.le]

/-- In binary64 no operation of `Payment(1, 2, 3, 0, PayEnd)` rounds. -/
theorem paymentSteps_example :
    ∀ y ∈ paymentSteps (1 : B64) 3 0 2 0, Representable y := by
  intro y hy
  simp only [paymentSteps, List.mem_cons, List.mem_singleton, List.not_mem_nil, or_false] at hy
  rcases hy with rfl | rfl | rfl | rfl | rfl | rfl | rfl | rfl | rfl | rfl | rfl
  · exact representable_of_dyadic _ 1 1 (by norm_num) ⟨by norm_num, by norm_num⟩
      (by norm_num) ⟨by norm_num, by norm_num⟩
  · exact representable_of_dyadic _ 1 2 (by norm_num) ⟨by norm_num, by norm_num⟩
      (by norm_num) ⟨by norm_num, by norm_num⟩
  · exact representable_of_dyadic _ 3 2 (by norm_num) ⟨by norm_num, by norm_num⟩
      (by norm_num) ⟨by norm_num, by norm_num⟩
  · exact representable_of_dyadic _ (-3) 2 (by norm_num) ⟨by norm_num, by norm_num⟩
      (by norm_num) ⟨by norm_num, by norm_num⟩
  · exact representable_of_dyadic _ 0 0 (by norm_num) ⟨by norm_num, by norm_num⟩
      (by norm_num) ⟨by norm_num, by norm_num⟩
  · exact representable_of_dyadic _ 0 0 (by norm_num) ⟨by norm_num, by norm_num⟩
      (by norm_num) ⟨by norm_num, by norm_num⟩
  · exact representable_of_dyadic _ 1 0 (by norm_num) ⟨by norm_num, by norm_num⟩
      (by norm_num) ⟨by norm_num, by norm_num⟩
  · exact representable_of_dyadic _ (-3) 2 (by norm_num) ⟨by norm_num, by norm_num⟩
      (by norm_num) ⟨by norm_num, by norm_num⟩
  · exact representable_of_dyadic _ 3 0 (by norm_num) ⟨by norm_num, by norm_num⟩
      (by norm_num) ⟨by norm_num, by norm_num⟩
  · exact representable_of_dyadic _ 3 0 (by norm_num) ⟨by norm_num, by norm_num⟩
      (by norm_num) ⟨by norm_num, by norm_num⟩
  · exact representable_of_dyadic _ (-1) 2 (by norm_num) ⟨by norm_num, by norm_num⟩
      (by norm_num) ⟨by norm_num, by norm_num⟩
/-- In binary64, `Payment(1, 2, 3, 0, PayEnd) = -4`. -/
theorem payment_example : Payment (fin (1 : B64)) 2 (fin 3) (fin 0) 0 = (fin (-4), none) :=
  (payment_of_representable (1 : B64) 3 0 2 0 (by decide) (Or.inl rfl) (by norm_num)
    (by norm_num) (by norm_num) paymentSteps_example).trans (by norm_num)

/-- In binary64 no operation of the first two passes of the loop of `interestAndPrincipal`
for the loan of `payment_example` rounds: the capital is 3, then 2, then 0. -/
theorem periodSteps_example :
    ∀ j, j < 2 → ∀ y ∈ periodSteps (1 : B64) (-4) (capitalAfter 1 (-4) 3 j),
      Representable y := by
  intro j hj y hy
  have hj2 : j = 0 ∨ j = 1 := by omega
  rcases hj2 with rfl | rfl
  · have hc : capitalAfter (1 : B64) (-4) 3 0 = 3 := by norm_num [capitalAfter]
    rw [hc] at hy
    simp only [periodSteps, List.mem_cons, List.mem_singleton, List.not_mem_nil, or_false] at hy
    rcases hy with rfl | rfl | rfl
    · exact representable_of_dyadic _ (-3) 0 (by norm_num) ⟨by norm_num, by norm_num⟩
        (by norm_num) ⟨by norm_num, by norm_num⟩
    · exact representable_of_dyadic _ (-1) 0 (by norm_num) ⟨by norm_num, by norm_num⟩
        (by norm_num) ⟨by norm_num, by norm_num⟩
    · exact representable_of_dyadic _ 2 0 (by norm_num) ⟨by norm_num, by norm_num⟩
        (by norm_num) ⟨by norm_num, by norm_num⟩
  · have hc : capitalAfter (1 : B64) (-4) 3 1 = 2 := by
      norm_num [capitalAfter, Finset.sum_range_succ]
    rw [hc] at hy
    simp only [periodSteps, List.mem_cons, List.mem_singleton, List.not_mem_nil, or_false] at hy
    rcases hy with rfl | rfl | rfl
    · exact representable_of_dyadic _ (-2) 0 (by norm_num) ⟨by norm_num, by norm_num⟩
        (by norm_num) ⟨by norm_num, by norm_num⟩
    · exact representable_of_dyadic _ (-2) 0 (by norm_num) ⟨by norm_num, by norm_num⟩
        (by norm_num) ⟨by norm_num, by norm_num⟩
    · exact representable_of_dyadic _ 0 0 (by norm_num) ⟨by norm_num, by norm_num⟩
        (by norm_num) ⟨by norm_num, by norm_num⟩

/-- In binary64, the second period of the loan of `payment_example` has the interest `-2`
and the principal `-2`. -/
theorem interest_principal_example :
    InterestPayment (fin (1 : B64)) 2 2 (fin 3) (fin 0) 0 = (fin (-2), none)
      ∧ PrincipalPayment (fin (1 : B64)) 2 2 (fin 3) (fin 0) 0 = (fin (-2), none) := by
  have hl := interestAndPrincipal_loop_of_representable (1 : B64) (-4) 1 1 3 (fin 0) (fin 0)
    (fun j hj => periodSteps_example j (by omega))
  have hc : capitalAfter (1 : B64) (-4) 3 1 = 2 := by
    norm_num [capitalAfter, Finset.sum_range_succ]
  rw [hc] at hl
  have hl2 : interestAndPrincipal.loop (fin (1 : B64)) (fin (-4)) PayEnd (1 + 1) 1 (fin 3)
      (fin 0) (fin 0) = (fin (-2), fin (-2)) := hl.trans (by norm_num)
  have h2 : (2 : Int).toNat = 1 + 1 := rfl
  constructor
  · rw [interestPayment_eq (fin (1 : B64)) (fin 3) (fin 0) 2 2 0 (by decide) (Or.inl rfl),
      payment_example, h2]
    exact congrArg (fun v => (v.1, (none : Option Err))) hl2
  · rw [principalPayment_eq (fin (1 : B64)) (fin 3) (fin 0) 2 2 0 (by decide) (Or.inl rfl),
      payment_example, h2]
    exact congrArg (fun v => (v.2, (none : Option Err))) hl2

/-! ### A product that underflows -/

/-- In binary64 the product of `-2^-600` and `2^-600` is rounded to zero. -/
theorem underflow_product :
    (fin (-(2 ^ (-600 : Int))) * fin (2 ^ (-600 : Int)) : F64 B64) = fin 0 :=
  B64.mul_eq _ _ _
    (round64_cert _ _ (-1022) 0 (by norm_num) (by norm_num) (Or.inl rfl)
      ⟨by norm_num, by norm_num⟩ ⟨by norm_num, by norm_num⟩ ⟨by norm_num, by norm_num⟩)

theorem underflow_minMax :
    minMaxSlice ([-(2 ^ (-600 : Int)), (2 ^ (-600 : Int) : B64)].map fin)
      = (fin (-(2 ^ (-600 : Int))), fin (2 ^ (-600 : Int))) := by
  have ht : (0 : B64) < 2 ^ (-600 : Int) := by positivity
  have hM : (1 : B64) ≤ MaxFloat64 := by
    unfold MaxFloat64
    norm_num
  have ht1 : (2 ^ (-600 : Int) : B64) ≤ 1 := by norm_num
  rw [minMaxSlice_fin]
  simp only [List.foldl_cons, List.foldl_nil]
  rw [min_eq_right (by linarith : -(2 ^ (-600 : Int) : B64) ≤ MaxFloat64),
    min_eq_left (by linarith : -(2 ^ (-600 : Int) : B64) ≤ 2 ^ (-600 : Int)),
    max_eq_right (by linarith : -(MaxFloat64 : B64) ≤ -(2 ^ (-600 : Int))),
    max_eq_right (by linarith : -(2 ^ (-600 : Int) : B64) ≤ 2 ^ (-600 : Int))]

/-- In binary64 the series `[-2^-600, 2^-600]`, which has a sign change, does not pass the
guard `min*max >= 0`: the product underflows to zero. -/
theorem underflow_guard :
    signGuard ([-(2 ^ (-600 : Int)), (2 ^ (-600 : Int) : B64)].map fin) = true := by
  unfold signGuard
  rw [underflow_minMax]
  simp only []
  rw [underflow_product]
  rfl

/-- In binary64 the one-value series `[NaN]` passes the guard `min*max >= 0`: `minMaxSlice`
leaves `(MaxFloat64, -MaxFloat64)`, whose product overflows to `-Inf`. -/
theorem signGuard_nan : signGuard [(nan : F64 B64)] = false := by
  have hprod : (fin (MaxFloat64 : B64) * fin (-MaxFloat64) : F64 B64) = ninf := by
    show round64 _ = ninf
    refine round64_of_le _ ?_
    unfold MaxFloat64
    norm_num
  unfold signGuard minMaxSlice
  simp only [List.foldl_cons, List.foldl_nil, F64.neg_fin_any, F64.lt, Bool.false_eq_true,
    if_false]
  rw [hprod]
  rfl

/-! ### Overflow in binary64 -/

/-- In binary64 `1 + 2^600` is rounded to `2^600`. -/
theorem one_add_big : (fin 1 + fin (2 ^ (600 : Nat)) : F64 B64) = fin (2 ^ (600 : Nat)) :=
  B64.add_eq _ _ _
    (round64_cert _ _ 600 4503599627370496 (by norm_num) (by norm_num)
      (Or.inr (Or.inl (by norm_num))) ⟨by norm_num, by norm_num⟩
      ⟨by norm_num, by norm_num⟩ ⟨by norm_num, by norm_num⟩)

/-- In binary64 `2^600 - 1` is rounded to `2^600`. -/
theorem big_sub_one : (fin (2 ^ (600 : Nat)) - fin 1 : F64 B64) = fin (2 ^ (600 : Nat)) :=
  B64.sub_eq _ _ _
    (round64_cert _ _ 599 9007199254740992 (by norm_num) (by norm_num)
      (Or.inr (Or.inl (by norm_num))) ⟨by norm_num, by norm_num⟩
      ⟨by norm_num, by norm_num⟩ ⟨by norm_num, by norm_num⟩)

theorem big_pos : (0 : B64) < 2 ^ (600 : Nat) := by positivity

/-- In binary64 the product of `2^600` with itself overflows. -/
theorem big_mul_big : (fin (2 ^ (600 : Nat)) * fin (2 ^ (600 : Nat)) : F64 B64) = pinf := by
  show round64 _ = pinf
  refine round64_of_ge _ ?_
  rw [← pow_add]
  exact pow_le_pow_right₀ (by norm_num) (by norm_num)

theorem big_representable (x : B64) (hx : x = 2 ^ (600 : Nat) ∨ x = -(2 ^ (600 : Nat))) :
    round64 x = fin x := by
  rcases hx with rfl | rfl
  · exact round64_of_dyadic _ _ 1 600 rfl (by norm_num) ⟨by norm_num, by norm_num⟩
      (by norm_num) ⟨by norm_num, by norm_num⟩
  · exact round64_of_dyadic _ _ (-1) 600 rfl (by norm_num) ⟨by norm_num, by norm_num⟩
      (by norm_num) ⟨by norm_num, by norm_num⟩

theorem zero_ops :
    (F64.ofInt 0 : F64 B64) = fin 0 ∧ (-(fin 0) : F64 B64) = fin 0
      ∧ (∀ x : B64, (fin x * fin 0 : F64 B64) = fin 0)
      ∧ (∀ x : B64, (fin 0 * fin x : F64 B64) = fin 0)
      ∧ (fin 1 + fin 0 : F64 B64) = fin 1
      ∧ (fin 0 + fin 0 : F64 B64) = fin 0 := by
  refine ⟨by simpa using B64.ofInt_eq 0 (by norm_num),
    (F64.neg_fin_any _).trans (congrArg F64.fin neg_zero),
    fun x => B64.mul_eq _ _ _ (by rw [mul_zero]; exact round64_zero),
    fun x => B64.mul_eq _ _ _ (by rw [zero_mul]; exact round64_zero),
    B64.add_eq _ _ _ (round64_of_dyadic _ _ 1 0 (by norm_num) (by norm_num)
      ⟨by norm_num, by norm_num⟩ (by norm_num) ⟨by norm_num, by norm_num⟩),
    B64.add_eq _ _ _ (by rw [add_zero]; exact round64_zero)⟩

/-- In binary64, `Payment(2^600, 1, 0, 2^600, PayEnd)` is the finite number `-2^600`. -/
theorem payment_big :
    Payment (fin (2 ^ (600 : Nat) : B64)) 1 (fin 0) (fin (2 ^ (600 : Nat))) 0
      = (fin (-(2 ^ (600 : Nat))), none) := by
  have hb0 : (2 ^ (600 : Nat) : B64) ≠ 0 := ne_of_gt big_pos
  have hs0 : (fin (-(2 ^ (600 : Nat))) - fin 0 : F64 B64) = fin (-(2 ^ (600 : Nat))) :=
    B64.sub_eq _ _ _ (by rw [sub_zero]; exact big_representable _ (Or.inr rfl))
  have hd1 : (fin (-(2 ^ (600 : Nat))) / fin 1 : F64 B64) = fin (-(2 ^ (600 : Nat))) :=
    B64.div_eq _ _ _ one_ne_zero (by rw [div_one]; exact big_representable _ (Or.inr rfl))
  have hbb : (fin (2 ^ (600 : Nat)) / fin (2 ^ (600 : Nat)) : F64 B64) = fin 1 :=
    B64.div_eq _ _ _ hb0 (by
      rw [div_self hb0]
      exact round64_of_dyadic _ _ 1 0 (by norm_num) (by norm_num) ⟨by norm_num, by norm_num⟩
        (by norm_num) ⟨by norm_num, by norm_num⟩)
  simp only [Payment]
  rw [if_neg (by decide), if_neg (by decide), F64.eq_fin_zero, decide_eq_false hb0, if_pos rfl,
    F64.neg_fin_any, one_add_big, F64.powi_one, zero_ops.2.2.2.1, hs0, zero_ops.1,
    zero_ops.2.2.1, zero_ops.2.2.2.2.1, hd1, big_sub_one, hbb, hd1]

/-- In binary64, in period 2 of the loan of `payment_big` the interest overflows to `+Inf`
and the principal is `-Inf`. -/
theorem interest_principal_big :
    InterestPayment (fin (2 ^ (600 : Nat) : B64)) 2 1 (fin 0) (fin (2 ^ (600 : Nat))) 0
        = (pinf, none)
      ∧ PrincipalPayment (fin (2 ^ (600 : Nat) : B64)) 2 1 (fin 0) (fin (2 ^ (600 : Nat))) 0
        = (ninf, none) := by
  have hs0 : (fin (-(2 ^ (600 : Nat))) - fin 0 : F64 B64) = fin (-(2 ^ (600 : Nat))) :=
    B64.sub_eq _ _ _ (by rw [sub_zero]; exact big_representable _ (Or.inr rfl))
  have ha0 : (fin 0 + fin (-(2 ^ (600 : Nat))) : F64 B64) = fin (-(2 ^ (600 : Nat))) :=
    B64.add_eq _ _ _ (by rw [zero_add]; exact big_representable _ (Or.inr rfl))
  have hnn : (-(fin (-(2 ^ (600 : Nat)))) : F64 B64) = fin (2 ^ (600 : Nat)) :=
    (F64.neg_fin_any _).trans (congrArg F64.fin (neg_neg _))
  have hn : (2 : Int).toNat = 0 + 1 + 1 := rfl
  have hl : interestAndPrincipal.loop (fin (2 ^ (600 : Nat) : B64)) (fin (-(2 ^ (600 : Nat)))) 0
      (0 + 1 + 1) 1 (fin 0) (fin 0) (fin 0) = (pinf, ninf) := by
    simp only [interestAndPrincipal.loop, Int.reduceAdd, Int.reduceEq, false_and, if_false]
    rw [zero_ops.2.1, zero_ops.2.2.2.1, hs0, ha0, hnn, big_mul_big]
    rfl
  constructor
  · rw [interestPayment_eq (fin (2 ^ (600 : Nat) : B64)) (fin 0) (fin (2 ^ (600 : Nat))) 2 1 0
      (by decide) (Or.inl rfl), payment_big, hn]
    exact congrArg (fun v => (v.1, (none : Option Err))) hl
  · rw [principalPayment_eq (fin (2 ^ (600 : Nat) : B64)) (fin 0) (fin (2 ^ (600 : Nat))) 2 1 0
      (by decide) (Or.inl rfl), payment_big, hn]
    exact congrArg (fun v => (v.2, (none : Option Err))) hl

/-! ### The run of `InternalRateOfReturn` on the series of the test, in binary64 -/

/-- Update step 1 of the run of `InternalRateOfReturn` on the series of the test from the
guess `0.1`, in binary64: the net present value, its derivative and the next iterate. -/
theorem irr_test_step_0 :
    newtonStep (fun rate => NetPresentValue rate ([(-70000 : B64), 12000, 15000, 18000,
      21000].map fin))
        (fun rate => dNetPresentValue rate ([(-70000 : B64), 12000, 15000, 18000, 21000].map fin))
        (fin (3602879701896397 / 36028797018963968))
      = fin (-(1447821538555263 / 18014398509481984)) := by
  have h1 : (fin 1 + fin (3602879701896397 / 36028797018963968) : F64 B64) = fin
    (2476979795053773 / 2251799813685248) :=
    B64.add_eq _ _ _ (round64_cert _ _ (0) (4953959590107546) (by norm_num) (by norm_num) (Or.inr
      (Or.inl (by norm_num))) ⟨by norm_num, by norm_num⟩ ⟨by norm_num, by norm_num⟩ ⟨by norm_num,
      by norm_num⟩)
  have h2 : (F64.powi (fin (2476979795053773 / 2251799813685248)) 1 : F64 B64) = fin
    (2476979795053773 / 2251799813685248) :=
    F64.powi_one _
  have h3 : (fin (-70000) / fin (2476979795053773 / 2251799813685248) : F64 B64) = fin
    (-(4373057610472727 / 68719476736)) :=
    B64.div_eq _ _ _ (by norm_num) (round64_cert _ _ (15) (-8746115220945454) (by norm_num)
      (by norm_num) (Or.inr (Or.inr (by norm_num))) ⟨by norm_num, by norm_num⟩ ⟨by norm_num,
      by norm_num⟩ ⟨by norm_num, by norm_num⟩)
  have h4 : (fin 0 + fin (-(4373057610472727 / 68719476736)) : F64 B64) = fin
    (-(4373057610472727 / 68719476736)) :=
    B64.add_eq _ _ _ (round64_of_dyadic _ _ (-4373057610472727) (-36) (by norm_num) (by norm_num)
      ⟨by norm_num, by norm_num⟩ (by norm_num) ⟨by norm_num, by norm_num⟩)
  have h5 : (F64.powi (fin (2476979795053773 / 2251799813685248)) 2 : F64 B64) = fin
    (5449355549118301 / 4503599627370496) :=
    B64.powi_eq _ _ _ (by norm_num) (by norm_num) (by norm_num) (Or.inl (by norm_num))
      (round64_cert _ _ (0) (5449355549118301) (by norm_num) (by norm_num) (Or.inr (Or.inl
      (by norm_num))) ⟨by norm_num, by norm_num⟩ ⟨by norm_num, by norm_num⟩ ⟨by norm_num,
      by norm_num⟩)
  have h6 : (fin 12000 / fin (5449355549118301 / 4503599627370496) : F64 B64) = fin
    (5452123774095867 / 549755813888) :=
    B64.div_eq _ _ _ (by norm_num) (round64_cert _ _ (13) (5452123774095867) (by norm_num)
      (by norm_num) (Or.inr (Or.inl (by norm_num))) ⟨by norm_num, by norm_num⟩ ⟨by norm_num,
      by norm_num⟩ ⟨by norm_num, by norm_num⟩)
  have h7 : (fin (-(4373057610472727 / 68719476736)) + fin (5452123774095867 / 549755813888) :
    F64 B64) = fin (-(7383084277421487 / 137438953472)) :=
    B64.add_eq _ _ _ (round64_cert _ _ (15) (-7383084277421487) (by norm_num) (by norm_num)
      (Or.inr (Or.inr (by norm_num))) ⟨by norm_num, by norm_num⟩ ⟨by norm_num, by norm_num⟩
      ⟨by norm_num, by norm_num⟩)
  have h8 : (F64.powi (fin (2476979795053773 / 2251799813685248)) 3 : F64 B64) = fin
    (1498572776007533 / 1125899906842624) :=
    B64.powi_eq _ _ _ (by norm_num) (by norm_num) (by norm_num) (Or.inl (by norm_num))
      (round64_cert _ _ (0) (5994291104030132) (by norm_num) (by norm_num) (Or.inr (Or.inl
      (by norm_num))) ⟨by norm_num, by norm_num⟩ ⟨by norm_num, by norm_num⟩ ⟨by norm_num,
      by norm_num⟩)
  have h9 : (fin 15000 / fin (1498572776007533 / 1125899906842624) : F64 B64) = fin
    (6195595197836211 / 549755813888) :=
    B64.div_eq _ _ _ (by norm_num) (round64_cert _ _ (13) (6195595197836211) (by norm_num)
      (by norm_num) (Or.inr (Or.inl (by norm_num))) ⟨by norm_num, by norm_num⟩ ⟨by norm_num,
      by norm_num⟩ ⟨by norm_num, by norm_num⟩)
  have h10 : (fin (-(7383084277421487 / 137438953472)) + fin (6195595197836211 / 549755813888) :
    F64 B64) = fin (-(2917092738981217 / 68719476736)) :=
    B64.add_eq _ _ _ (round64_cert _ _ (15) (-5834185477962434) (by norm_num) (by norm_num)
      (Or.inr (Or.inr (by norm_num))) ⟨by norm_num, by norm_num⟩ ⟨by norm_num, by norm_num⟩
      ⟨by norm_num, by norm_num⟩)
  have h11 : (F64.powi (fin (2476979795053773 / 2251799813685248)) 4 : F64 B64) = fin
    (6593720214433145 / 4503599627370496) :=
    B64.powi_eq _ _ _ (by norm_num) (by norm_num) (by norm_num) (Or.inl (by norm_num))
      (round64_cert _ _ (0) (6593720214433145) (by norm_num) (by norm_num) (Or.inr (Or.inl
      (by norm_num))) ⟨by norm_num, by norm_num⟩ ⟨by norm_num, by norm_num⟩ ⟨by norm_num,
      by norm_num⟩)
  have h12 : (fin 18000 / fin (6593720214433145 / 4503599627370496) : F64 B64) = fin
    (6758831124912231 / 549755813888) :=
    B64.div_eq _ _ _ (by norm_num) (round64_cert _ _ (13) (6758831124912231) (by norm_num)
      (by norm_num) (Or.inr (Or.inl (by norm_num))) ⟨by norm_num, by norm_num⟩ ⟨by norm_num,
      by norm_num⟩ ⟨by norm_num, by norm_num⟩)
  have h13 : (fin (-(2917092738981217 / 68719476736)) + fin (6758831124912231 / 549755813888) :
    F64 B64) = fin (-(518059712091797 / 17179869184)) :=
    B64.add_eq _ _ _ (round64_cert_tie _ _ (14) (-8288955393468752) (by norm_num) (by norm_num)
      (Or.inr (Or.inr (by norm_num))) ⟨by norm_num, by norm_num⟩ (by decide) (Or.inl
      (by norm_num)) ⟨by norm_num, by norm_num⟩)
  have h14 : (F64.powi (fin (2476979795053773 / 2251799813685248)) 5 : F64 B64) = fin
    (1813273058969115 / 1125899906842624) :=
    B64.powi_eq _ _ _ (by norm_num) (by norm_num) (by norm_num) (Or.inl (by norm_num))
      (round64_cert _ _ (0) (7253092235876460) (by norm_num) (by norm_num) (Or.inr (Or.inl
      (by norm_num))) ⟨by norm_num, by norm_num⟩ ⟨by norm_num, by norm_num⟩ ⟨by norm_num,
      by norm_num⟩)
  have h15 : (fin 21000 / fin (1813273058969115 / 1125899906842624) : F64 B64) = fin
    (3584228626847395 / 274877906944) :=
    B64.div_eq _ _ _ (by norm_num) (round64_cert _ _ (13) (7168457253694790) (by norm_num)
      (by norm_num) (Or.inr (Or.inl (by norm_num))) ⟨by norm_num, by norm_num⟩ ⟨by norm_num,
      by norm_num⟩ ⟨by norm_num, by norm_num⟩)
  have h16 : (fin (-(518059712091797 / 17179869184)) + fin (3584228626847395 / 274877906944) :
    F64 B64) = fin (-(4704726766621357 / 274877906944)) :=
    B64.add_eq _ _ _ (round64_of_dyadic _ _ (-4704726766621357) (-38) (by norm_num) (by norm_num)
      ⟨by norm_num, by norm_num⟩ (by norm_num) ⟨by norm_num, by norm_num⟩)
  have h17 : (F64.ofInt (-1) : F64 B64) = fin (-1) :=
    (B64.ofInt_eq (-1) ⟨by norm_num, by norm_num⟩).trans (congrArg F64.fin (by norm_num))
  have h18 : (fin (-70000) * fin (-1) : F64 B64) = fin 70000 :=
    B64.mul_eq _ _ _ (round64_of_dyadic _ _ (4375) (4) (by norm_num) (by norm_num) ⟨by norm_num,
      by norm_num⟩ (by norm_num) ⟨by norm_num, by norm_num⟩)
  have h19 : (F64.powi (fin (2476979795053773 / 2251799813685248)) 0 : F64 B64) = fin 1 :=
    F64.powi_zero _
  have h20 : (fin 70000 * fin 1 : F64 B64) = fin 70000 :=
    B64.mul_eq _ _ _ (round64_of_dyadic _ _ (4375) (4) (by norm_num) (by norm_num) ⟨by norm_num,
      by norm_num⟩ (by norm_num) ⟨by norm_num, by norm_num⟩)
  have h21 : (fin 70000 / fin (5449355549118301 / 4503599627370496) : F64 B64) = fin
    (7951013837223139 / 137438953472) :=
    B64.div_eq _ _ _ (by norm_num) (round64_cert _ _ (15) (7951013837223139) (by norm_num)
      (by norm_num) (Or.inr (Or.inl (by norm_num))) ⟨by norm_num, by norm_num⟩ ⟨by norm_num,
      by norm_num⟩ ⟨by norm_num, by norm_num⟩)
  have h22 : (fin 0 + fin (7951013837223139 / 137438953472) : F64 B64) = fin
    (7951013837223139 / 137438953472) :=
    B64.add_eq _ _ _ (round64_of_dyadic _ _ (7951013837223139) (-37) (by norm_num) (by norm_num)
      ⟨by norm_num, by norm_num⟩ (by norm_num) ⟨by norm_num, by norm_num⟩)
  have h23 : (F64.ofInt (-2) : F64 B64) = fin (-2) :=
    (B64.ofInt_eq (-2) ⟨by norm_num, by norm_num⟩).trans (congrArg F64.fin (by norm_num))
  have h24 : (fin 12000 * fin (-2) : F64 B64) = fin (-24000) :=
    B64.mul_eq _ _ _ (round64_of_dyadic _ _ (-375) (6) (by norm_num) (by norm_num) ⟨by norm_num,
      by norm_num⟩ (by norm_num) ⟨by norm_num, by norm_num⟩)
  have h25 : (fin (-24000) * fin (2476979795053773 / 2251799813685248) : F64 B64) = fin
    (-(7256776743321601 / 274877906944)) :=
    B64.mul_eq _ _ _ (round64_cert _ _ (14) (-7256776743321601) (by norm_num) (by norm_num)
      (Or.inr (Or.inr (by norm_num))) ⟨by norm_num, by norm_num⟩ ⟨by norm_num, by norm_num⟩
      ⟨by norm_num, by norm_num⟩)
  have h26 : (fin (-(7256776743321601 / 274877906944)) / fin
    (6593720214433145 / 4503599627370496) : F64 B64) = fin (-(2478238079134485 / 137438953472)) :=
    B64.div_eq _ _ _ (by norm_num) (round64_cert _ _ (14) (-4956476158268970) (by norm_num)
      (by norm_num) (Or.inr (Or.inr (by norm_num))) ⟨by norm_num, by norm_num⟩ ⟨by norm_num,
      by norm_num⟩ ⟨by norm_num, by norm_num⟩)
  have h27 : (fin (7951013837223139 / 137438953472) + fin (-(2478238079134485 / 137438953472)) :
    F64 B64) = fin (2736387879044327 / 68719476736) :=
    B64.add_eq _ _ _ (round64_of_dyadic _ _ (2736387879044327) (-36) (by norm_num) (by norm_num)
      ⟨by norm_num, by norm_num⟩ (by norm_num) ⟨by norm_num, by norm_num⟩)
  have h28 : (F64.ofInt (-3) : F64 B64) = fin (-3) :=
    (B64.ofInt_eq (-3) ⟨by norm_num, by norm_num⟩).trans (congrArg F64.fin (by norm_num))
  have h29 : (fin 15000 * fin (-3) : F64 B64) = fin (-45000) :=
    B64.mul_eq _ _ _ (round64_of_dyadic _ _ (-5625) (3) (by norm_num) (by norm_num) ⟨by norm_num,
      by norm_num⟩ (by norm_num) ⟨by norm_num, by norm_num⟩)
  have h30 : (fin (-45000) * fin (5449355549118301 / 4503599627370496) : F64 B64) = fin
    (-(7483551016550401 / 137438953472)) :=
    B64.mul_eq _ _ _ (round64_cert _ _ (15) (-7483551016550401) (by norm_num) (by norm_num)
      (Or.inr (Or.inr (by norm_num))) ⟨by norm_num, by norm_num⟩ ⟨by norm_num, by norm_num⟩
      ⟨by norm_num, by norm_num⟩)
  have h31 : (F64.powi (fin (2476979795053773 / 2251799813685248)) 6 : F64 B64) = fin
    (7978401459464107 / 4503599627370496) :=
    B64.powi_eq _ _ _ (by norm_num) (by norm_num) (by norm_num) (Or.inl (by norm_num))
      (round64_cert _ _ (0) (7978401459464107) (by norm_num) (by norm_num) (Or.inr (Or.inl
      (by norm_num))) ⟨by norm_num, by norm_num⟩ ⟨by norm_num, by norm_num⟩ ⟨by norm_num,
      by norm_num⟩)
  have h32 : (fin (-(7483551016550401 / 137438953472)) / fin
    (7978401459464107 / 4503599627370496) : F64 B64) = fin (-(66004210204221 / 2147483648)) :=
    B64.div_eq _ _ _ (by norm_num) (round64_cert _ _ (14) (-8448538906140288) (by norm_num)
      (by norm_num) (Or.inr (Or.inr (by norm_num))) ⟨by norm_num, by norm_num⟩ ⟨by norm_num,
      by norm_num⟩ ⟨by norm_num, by norm_num⟩)
  have h33 : (fin (2736387879044327 / 68719476736) + fin (-(66004210204221 / 2147483648)) : F64
    B64) = fin (624253152509255 / 68719476736) :=
    B64.add_eq _ _ _ (round64_of_dyadic _ _ (624253152509255) (-36) (by norm_num) (by norm_num)
      ⟨by norm_num, by norm_num⟩ (by norm_num) ⟨by norm_num, by norm_num⟩)
  have h34 : (F64.ofInt (-4) : F64 B64) = fin (-4) :=
    (B64.ofInt_eq (-4) ⟨by norm_num, by norm_num⟩).trans (congrArg F64.fin (by norm_num))
  have h35 : (fin 18000 * fin (-4) : F64 B64) = fin (-72000) :=
    B64.mul_eq _ _ _ (round64_of_dyadic _ _ (-1125) (6) (by norm_num) (by norm_num) ⟨by norm_num,
      by norm_num⟩ (by norm_num) ⟨by norm_num, by norm_num⟩)
  have h36 : (fin (-72000) * fin (1498572776007533 / 1125899906842624) : F64 B64) = fin
    (-(3292762447282177 / 34359738368)) :=
    B64.mul_eq _ _ _ (round64_cert _ _ (16) (-6585524894564354) (by norm_num) (by norm_num)
      (Or.inr (Or.inr (by norm_num))) ⟨by norm_num, by norm_num⟩ ⟨by norm_num, by norm_num⟩
      ⟨by norm_num, by norm_num⟩)
  have h37 : (F64.powi (fin (2476979795053773 / 2251799813685248)) 8 : F64 B64) = fin
    (2413466441487893 / 1125899906842624) :=
    B64.powi_eq _ _ _ (by norm_num) (by norm_num) (by norm_num) (Or.inl (by norm_num))
      (round64_cert _ _ (1) (4826932882975786) (by norm_num) (by norm_num) (Or.inr (Or.inl
      (by norm_num))) ⟨by norm_num, by norm_num⟩ ⟨by norm_num, by norm_num⟩ ⟨by norm_num,
      by norm_num⟩)
  have h38 : (fin (-(3292762447282177 / 34359738368)) / fin (2413466441487893 / 1125899906842624)
    : F64 B64) = fin (-(6144391931738391 / 137438953472)) :=
    B64.div_eq _ _ _ (by norm_num) (round64_cert _ _ (15) (-6144391931738391) (by norm_num)
      (by norm_num) (Or.inr (Or.inr (by norm_num))) ⟨by norm_num, by norm_num⟩ ⟨by norm_num,
      by norm_num⟩ ⟨by norm_num, by norm_num⟩)
  have h39 : (fin (624253152509255 / 68719476736) + fin (-(6144391931738391 / 137438953472)) :
    F64 B64) = fin (-(4895885626719881 / 137438953472)) :=
    B64.add_eq _ _ _ (round64_of_dyadic _ _ (-4895885626719881) (-37) (by norm_num) (by norm_num)
      ⟨by norm_num, by norm_num⟩ (by norm_num) ⟨by norm_num, by norm_num⟩)
  have h40 : (F64.ofInt (-5) : F64 B64) = fin (-5) :=
    (B64.ofInt_eq (-5) ⟨by norm_num, by norm_num⟩).trans (congrArg F64.fin (by norm_num))
  have h41 : (fin 21000 * fin (-5) : F64 B64) = fin (-105000) :=
    B64.mul_eq _ _ _ (round64_of_dyadic _ _ (-13125) (3) (by norm_num) (by norm_num)
      ⟨by norm_num, by norm_num⟩ (by norm_num) ⟨by norm_num, by norm_num⟩)
  have h42 : (fin (-105000) * fin (6593720214433145 / 4503599627370496) : F64 B64) = fin
    (-(5282139759181825 / 34359738368)) :=
    B64.mul_eq _ _ _ (round64_cert _ _ (17) (-5282139759181825) (by norm_num) (by norm_num)
      (Or.inr (Or.inr (by norm_num))) ⟨by norm_num, by norm_num⟩ ⟨by norm_num, by norm_num⟩
      ⟨by norm_num, by norm_num⟩)
  have h43 : (F64.powi (fin (2476979795053773 / 2251799813685248)) 10 : F64 B64) = fin
    (2920294394200351 / 1125899906842624) :=
    B64.powi_eq _ _ _ (by norm_num) (by norm_num) (by norm_num) (Or.inl (by norm_num))
      (round64_cert _ _ (1) (5840588788400702) (by norm_num) (by norm_num) (Or.inr (Or.inl
      (by norm_num))) ⟨by norm_num, by norm_num⟩ ⟨by norm_num, by norm_num⟩ ⟨by norm_num,
      by norm_num⟩)
  have h44 : (fin (-(5282139759181825 / 34359738368)) / fin (2920294394200351 / 1125899906842624)
    : F64 B64) = fin (-(8145974151925895 / 137438953472)) :=
    B64.div_eq _ _ _ (by norm_num) (round64_cert _ _ (15) (-8145974151925895) (by norm_num)
      (by norm_num) (Or.inr (Or.inr (by norm_num))) ⟨by norm_num, by norm_num⟩ ⟨by norm_num,
      by norm_num⟩ ⟨by norm_num, by norm_num⟩)
  have h45 : (fin (-(4895885626719881 / 137438953472)) + fin (-(8145974151925895 / 137438953472))
    : F64 B64) = fin (-(815116236165361 / 8589934592)) :=
    B64.add_eq _ _ _ (round64_of_dyadic _ _ (-815116236165361) (-33) (by norm_num) (by norm_num)
      ⟨by norm_num, by norm_num⟩ (by norm_num) ⟨by norm_num, by norm_num⟩)
  have h46 : (fin (-(4704726766621357 / 274877906944)) / fin (-(815116236165361 / 8589934592)) :
    F64 B64) = fin (6498522779006923 / 36028797018963968) :=
    B64.div_eq _ _ _ (by norm_num) (round64_cert _ _ (-3) (6498522779006923) (by norm_num)
      (by norm_num) (Or.inr (Or.inl (by norm_num))) ⟨by norm_num, by norm_num⟩ ⟨by norm_num,
      by norm_num⟩ ⟨by norm_num, by norm_num⟩)
  have h47 : (fin (3602879701896397 / 36028797018963968) - fin
    (6498522779006923 / 36028797018963968) : F64 B64) = fin
    (-(1447821538555263 / 18014398509481984)) :=
    B64.sub_eq _ _ _ (round64_of_dyadic _ _ (-1447821538555263) (-54) (by norm_num) (by norm_num)
      ⟨by norm_num, by norm_num⟩ (by norm_num) ⟨by norm_num, by norm_num⟩)
  have hF : NetPresentValue (fin (3602879701896397 / 36028797018963968)) ([(-70000 : B64), 12000,
    15000, 18000, 21000].map fin)
      = fin (-(4704726766621357 / 274877906944)) := by
    simp only [List.map, NetPresentValue, NetPresentValue.loop, Int.reduceAdd]
    rw [h1, h2, h3, h4, h5, h6, h7, h8, h9, h10, h11, h12, h13, h14, h15, h16]
  have hD : dNetPresentValue (fin (3602879701896397 / 36028797018963968)) ([(-70000 : B64),
    12000, 15000, 18000, 21000].map fin)
      = fin (-(815116236165361 / 8589934592)) := by
    simp only [List.map, dNetPresentValue, dNetPresentValue.loop, Int.reduceAdd, Int.reduceMul,
      Int.reduceSub, Int.reduceNeg]
    rw [h17, h18, h1, h19, h20, h5, h21, h22, h23, h24, h2, h25, h11, h26, h27, h28, h29, h30,
      h31, h32, h33, h34, h35, h8, h36, h37, h38, h39, h40, h41, h42, h43, h44, h45]
  show fin (3602879701896397 / 36028797018963968) - NetPresentValue (fin
    (3602879701896397 / 36028797018963968)) ([(-70000 : B64), 12000, 15000, 18000, 21000].map fin)
      / dNetPresentValue (fin (3602879701896397 / 36028797018963968)) ([(-70000 : B64), 12000,
        15000, 18000, 21000].map fin) = _
  rw [hF, hD]
  rw [h46, h47]

/-- Update step 2 of the run of `InternalRateOfReturn` on the series of the test from the
guess `0.1`, in binary64: the net present value, its derivative and the next iterate. -/
theorem irr_test_step_1 :
    newtonStep (fun rate => NetPresentValue rate ([(-70000 : B64), 12000, 15000, 18000,
      21000].map fin))
        (fun rate => dNetPresentValue rate ([(-70000 : B64), 12000, 15000, 18000, 21000].map fin))
        (fin (-(1447821538555263 / 18014398509481984)))
      = fin (-(70314079780915 / 2251799813685248)) := by
  have h1 : (fin 1 + fin (-(1447821538555263 / 18014398509481984)) : F64 B64) = fin
    (129426382585365 / 140737488355328) :=
    B64.add_eq _ _ _ (round64_cert_tie _ _ (-1) (8283288485463360) (by norm_num) (by norm_num)
      (Or.inr (Or.inl (by norm_num))) ⟨by norm_num, by norm_num⟩ (by decide) (Or.inr
      (by norm_num)) ⟨by norm_num, by norm_num⟩)
  have h2 : (F64.powi (fin (129426382585365 / 140737488355328)) 1 : F64 B64) = fin
    (129426382585365 / 140737488355328) :=
    F64.powi_one _
  have h3 : (fin (-70000) / fin (129426382585365 / 140737488355328) : F64 B64) = fin
    (-(5230760880902071 / 68719476736)) :=
    B64.div_eq _ _ _ (by norm_num) (round64_cert _ _ (16) (-5230760880902071) (by norm_num)
      (by norm_num) (Or.inr (Or.inr (by norm_num))) ⟨by norm_num, by norm_num⟩ ⟨by norm_num,
      by norm_num⟩ ⟨by norm_num, by norm_num⟩)
  have h4 : (fin 0 + fin (-(5230760880902071 / 68719476736)) : F64 B64) = fin
    (-(5230760880902071 / 68719476736)) :=
    B64.add_eq _ _ _ (round64_of_dyadic _ _ (-5230760880902071) (-36) (by norm_num) (by norm_num)
      ⟨by norm_num, by norm_num⟩ (by norm_num) ⟨by norm_num, by norm_num⟩)
  have h5 : (F64.powi (fin (129426382585365 / 140737488355328)) 2 : F64 B64) = fin
    (3808779299364067 / 4503599627370496) :=
    B64.powi_eq _ _ _ (by norm_num) (by norm_num) (by norm_num) (Or.inl (by norm_num))
      (round64_cert _ _ (-1) (7617558598728134) (by norm_num) (by norm_num) (Or.inr (Or.inl
      (by norm_num))) ⟨by norm_num, by norm_num⟩ ⟨by norm_num, by norm_num⟩ ⟨by norm_num,
      by norm_num⟩)
  have h6 : (fin 12000 / fin (3808779299364067 / 4503599627370496) : F64 B64) = fin
    (3900273369450647 / 274877906944) :=
    B64.div_eq _ _ _ (by norm_num) (round64_cert _ _ (13) (7800546738901294) (by norm_num)
      (by norm_num) (Or.inr (Or.inl (by norm_num))) ⟨by norm_num, by norm_num⟩ ⟨by norm_num,
      by norm_num⟩ ⟨by norm_num, by norm_num⟩)
  have h7 : (fin (-(5230760880902071 / 68719476736)) + fin (3900273369450647 / 274877906944) :
    F64 B64) = fin (-(4255692538539409 / 68719476736)) :=
    B64.add_eq _ _ _ (round64_cert_tie _ _ (15) (-8511385077078818) (by norm_num) (by norm_num)
      (Or.inr (Or.inr (by norm_num))) ⟨by norm_num, by norm_num⟩ (by decide) (Or.inl
      (by norm_num)) ⟨by norm_num, by norm_num⟩)
  have h8 : (F64.powi (fin (129426382585365 / 140737488355328)) 3 : F64 B64) = fin
    (1751333395754927 / 2251799813685248) :=
    B64.powi_eq _ _ _ (by norm_num) (by norm_num) (by norm_num) (Or.inl (by norm_num))
      (round64_cert _ _ (-1) (7005333583019708) (by norm_num) (by norm_num) (Or.inr (Or.inl
      (by norm_num))) ⟨by norm_num, by norm_num⟩ ⟨by norm_num, by norm_num⟩ ⟨by norm_num,
      by norm_num⟩)
  have h9 : (fin 15000 / fin (1751333395754927 / 2251799813685248) : F64 B64) = fin
    (5301417946545905 / 274877906944) :=
    B64.div_eq _ _ _ (by norm_num) (round64_cert _ _ (14) (5301417946545905) (by norm_num)
      (by norm_num) (Or.inr (Or.inl (by norm_num))) ⟨by norm_num, by norm_num⟩ ⟨by norm_num,
      by norm_num⟩ ⟨by norm_num, by norm_num⟩)
  have h10 : (fin (-(4255692538539409 / 68719476736)) + fin (5301417946545905 / 274877906944) :
    F64 B64) = fin (-(2930338051902933 / 68719476736)) :=
    B64.add_eq _ _ _ (round64_cert_tie _ _ (15) (-5860676103805866) (by norm_num) (by norm_num)
      (Or.inr (Or.inr (by norm_num))) ⟨by norm_num, by norm_num⟩ (by decide) (Or.inr
      (by norm_num)) ⟨by norm_num, by norm_num⟩)
  have h11 : (F64.powi (fin (129426382585365 / 140737488355328)) 4 : F64 B64) = fin
    (3221156619496009 / 4503599627370496) :=
    B64.powi_eq _ _ _ (by norm_num) (by norm_num) (by norm_num) (Or.inl (by norm_num))
      (round64_cert _ _ (-1) (6442313238992018) (by norm_num) (by norm_num) (Or.inr (Or.inl
      (by norm_num))) ⟨by norm_num, by norm_num⟩ ⟨by norm_num, by norm_num⟩ ⟨by norm_num,
      by norm_num⟩)
  have h12 : (fin 18000 / fin (3221156619496009 / 4503599627370496) : F64 B64) = fin
    (6917676890428039 / 274877906944) :=
    B64.div_eq _ _ _ (by norm_num) (round64_cert _ _ (14) (6917676890428039) (by norm_num)
      (by norm_num) (Or.inr (Or.inl (by norm_num))) ⟨by norm_num, by norm_num⟩ ⟨by norm_num,
      by norm_num⟩ ⟨by norm_num, by norm_num⟩)
  have h13 : (fin (-(2930338051902933 / 68719476736)) + fin (6917676890428039 / 274877906944) :
    F64 B64) = fin (-(4803675317183693 / 274877906944)) :=
    B64.add_eq _ _ _ (round64_of_dyadic _ _ (-4803675317183693) (-38) (by norm_num) (by norm_num)
      ⟨by norm_num, by norm_num⟩ (by norm_num) ⟨by norm_num, by norm_num⟩)
  have h14 : (F64.powi (fin (129426382585365 / 140737488355328)) 5 : F64 B64) = fin
    (5924542975354135 / 9007199254740992) :=
    B64.powi_eq _ _ _ (by norm_num) (by norm_num) (by norm_num) (Or.inl (by norm_num))
      (round64_cert _ _ (-1) (5924542975354135) (by norm_num) (by norm_num) (Or.inr (Or.inl
      (by norm_num))) ⟨by norm_num, by norm_num⟩ ⟨by norm_num, by norm_num⟩ ⟨by norm_num,
      by norm_num⟩)
  have h15 : (fin 21000 / fin (5924542975354135 / 9007199254740992) : F64 B64) = fin
    (4387974048485833 / 137438953472) :=
    B64.div_eq _ _ _ (by norm_num) (round64_cert _ _ (14) (8775948096971666) (by norm_num)
      (by norm_num) (Or.inr (Or.inl (by norm_num))) ⟨by norm_num, by norm_num⟩ ⟨by norm_num,
      by norm_num⟩ ⟨by norm_num, by norm_num⟩)
  have h16 : (fin (-(4803675317183693 / 274877906944)) + fin (4387974048485833 / 137438953472) :
    F64 B64) = fin (3972272779787973 / 274877906944) :=
    B64.add_eq _ _ _ (round64_of_dyadic _ _ (3972272779787973) (-38) (by norm_num) (by norm_num)
      ⟨by norm_num, by norm_num⟩ (by norm_num) ⟨by norm_num, by norm_num⟩)
  have h17 : (F64.ofInt (-1) : F64 B64) = fin (-1) :=
    (B64.ofInt_eq (-1) ⟨by norm_num, by norm_num⟩).trans (congrArg F64.fin (by norm_num))
  have h18 : (fin (-70000) * fin (-1) : F64 B64) = fin 70000 :=
    B64.mul_eq _ _ _ (round64_of_dyadic _ _ (4375) (4) (by norm_num) (by norm_num) ⟨by norm_num,
      by norm_num⟩ (by norm_num) ⟨by norm_num, by norm_num⟩)
  have h19 : (F64.powi (fin (129426382585365 / 140737488355328)) 0 : F64 B64) = fin 1 :=
    F64.powi_zero _
  have h20 : (fin 70000 * fin 1 : F64 B64) = fin 70000 :=
    B64.mul_eq _ _ _ (round64_of_dyadic _ _ (4375) (4) (by norm_num) (by norm_num) ⟨by norm_num,
      by norm_num⟩ (by norm_num) ⟨by norm_num, by norm_num⟩)
  have h21 : (fin 70000 / fin (3808779299364067 / 4503599627370496) : F64 B64) = fin
    (5687898663782193 / 68719476736) :=
    B64.div_eq _ _ _ (by norm_num) (round64_cert _ _ (16) (5687898663782193) (by norm_num)
      (by norm_num) (Or.inr (Or.inl (by norm_num))) ⟨by norm_num, by norm_num⟩ ⟨by norm_num,
      by norm_num⟩ ⟨by norm_num, by norm_num⟩)
  have h22 : (fin 0 + fin (5687898663782193 / 68719476736) : F64 B64) = fin
    (5687898663782193 / 68719476736) :=
    B64.add_eq _ _ _ (round64_of_dyadic _ _ (5687898663782193) (-36) (by norm_num) (by norm_num)
      ⟨by norm_num, by norm_num⟩ (by norm_num) ⟨by norm_num, by norm_num⟩)
  have h23 : (F64.ofInt (-2) : F64 B64) = fin (-2) :=
    (B64.ofInt_eq (-2) ⟨by norm_num, by norm_num⟩).trans (congrArg F64.fin (by norm_num))
  have h24 : (fin 12000 * fin (-2) : F64 B64) = fin (-24000) :=
    B64.mul_eq _ _ _ (round64_of_dyadic _ _ (-375) (6) (by norm_num) (by norm_num) ⟨by norm_num,
      by norm_num⟩ (by norm_num) ⟨by norm_num, by norm_num⟩)
  have h25 : (fin (-24000) * fin (129426382585365 / 140737488355328) : F64 B64) = fin
    (-(758357710461123 / 34359738368)) :=
    B64.mul_eq _ _ _ (round64_cert _ _ (14) (-6066861683688984) (by norm_num) (by norm_num)
      (Or.inr (Or.inr (by norm_num))) ⟨by norm_num, by norm_num⟩ ⟨by norm_num, by norm_num⟩
      ⟨by norm_num, by norm_num⟩)
  have h26 : (fin (-(758357710461123 / 34359738368)) / fin (3221156619496009 / 4503599627370496)
    : F64 B64) = fin (-(1060283589309181 / 34359738368)) :=
    B64.div_eq _ _ _ (by norm_num) (round64_cert _ _ (14) (-8482268714473448) (by norm_num)
      (by norm_num) (Or.inr (Or.inr (by norm_num))) ⟨by norm_num, by norm_num⟩ ⟨by norm_num,
      by norm_num⟩ ⟨by norm_num, by norm_num⟩)
  have h27 : (fin (5687898663782193 / 68719476736) + fin (-(1060283589309181 / 34359738368)) :
    F64 B64) = fin (3567331485163831 / 68719476736) :=
    B64.add_eq _ _ _ (round64_of_dyadic _ _ (3567331485163831) (-36) (by norm_num) (by norm_num)
      ⟨by norm_num, by norm_num⟩ (by norm_num) ⟨by norm_num, by norm_num⟩)
  have h28 : (F64.ofInt (-3) : F64 B64) = fin (-3) :=
    (B64.ofInt_eq (-3) ⟨by norm_num, by norm_num⟩).trans (congrArg F64.fin (by norm_num))
  have h29 : (fin 15000 * fin (-3) : F64 B64) = fin (-45000) :=
    B64.mul_eq _ _ _ (round64_of_dyadic _ _ (-5625) (3) (by norm_num) (by norm_num) ⟨by norm_num,
      by norm_num⟩ (by norm_num) ⟨by norm_num, by norm_num⟩)
  have h30 : (fin (-45000) * fin (3808779299364067 / 4503599627370496) : F64 B64) = fin
    (-(5230562392315155 / 137438953472)) :=
    B64.mul_eq _ _ _ (round64_cert _ _ (15) (-5230562392315155) (by norm_num) (by norm_num)
      (Or.inr (Or.inr (by norm_num))) ⟨by norm_num, by norm_num⟩ ⟨by norm_num, by norm_num⟩
      ⟨by norm_num, by norm_num⟩)
  have h31 : (F64.powi (fin (129426382585365 / 140737488355328)) 6 : F64 B64) = fin
    (5448386032267799 / 9007199254740992) :=
    B64.powi_eq _ _ _ (by norm_num) (by norm_num) (by norm_num) (Or.inl (by norm_num))
      (round64_cert _ _ (-1) (5448386032267799) (by norm_num) (by norm_num) (Or.inr (Or.inl
      (by norm_num))) ⟨by norm_num, by norm_num⟩ ⟨by norm_num, by norm_num⟩ ⟨by norm_num,
      by norm_num⟩)
  have h32 : (fin (-(5230562392315155 / 137438953472)) / fin
    (5448386032267799 / 9007199254740992) : F64 B64) = fin (-(8647096113035047 / 137438953472)) :=
    B64.div_eq _ _ _ (by norm_num) (round64_cert _ _ (15) (-8647096113035047) (by norm_num)
      (by norm_num) (Or.inr (Or.inr (by norm_num))) ⟨by norm_num, by norm_num⟩ ⟨by norm_num,
      by norm_num⟩ ⟨by norm_num, by norm_num⟩)
  have h33 : (fin (3567331485163831 / 68719476736) + fin (-(8647096113035047 / 137438953472)) :
    F64 B64) = fin (-(1512433142707385 / 137438953472)) :=
    B64.add_eq _ _ _ (round64_of_dyadic _ _ (-1512433142707385) (-37) (by norm_num) (by norm_num)
      ⟨by norm_num, by norm_num⟩ (by norm_num) ⟨by norm_num, by norm_num⟩)
  have h34 : (F64.ofInt (-4) : F64 B64) = fin (-4) :=
    (B64.ofInt_eq (-4) ⟨by norm_num, by norm_num⟩).trans (congrArg F64.fin (by norm_num))
  have h35 : (fin 18000 * fin (-4) : F64 B64) = fin (-72000) :=
    B64.mul_eq _ _ _ (round64_of_dyadic _ _ (-1125) (6) (by norm_num) (by norm_num) ⟨by norm_num,
      by norm_num⟩ (by norm_num) ⟨by norm_num, by norm_num⟩)
  have h36 : (fin (-72000) * fin (1751333395754927 / 2251799813685248) : F64 B64) = fin
    (-(1924072334203411 / 34359738368)) :=
    B64.mul_eq _ _ _ (round64_cert _ _ (15) (-7696289336813644) (by norm_num) (by norm_num)
      (Or.inr (Or.inr (by norm_num))) ⟨by norm_num, by norm_num⟩ ⟨by norm_num, by norm_num⟩
      ⟨by norm_num, by norm_num⟩)
  have h37 : (F64.powi (fin (129426382585365 / 140737488355328)) 8 : F64 B64) = fin
    (2303901506755625 / 4503599627370496) :=
    B64.powi_eq _ _ _ (by norm_num) (by norm_num) (by norm_num) (Or.inl (by norm_num))
      (round64_cert _ _ (-1) (4607803013511250) (by norm_num) (by norm_num) (Or.inr (Or.inl
      (by norm_num))) ⟨by norm_num, by norm_num⟩ ⟨by norm_num, by norm_num⟩ ⟨by norm_num,
      by norm_num⟩)
  have h38 : (fin (-(1924072334203411 / 34359738368)) / fin (2303901506755625 / 4503599627370496)
    : F64 B64) = fin (-(7522241225975713 / 68719476736)) :=
    B64.div_eq _ _ _ (by norm_num) (round64_cert _ _ (16) (-7522241225975713) (by norm_num)
      (by norm_num) (Or.inr (Or.inr (by norm_num))) ⟨by norm_num, by norm_num⟩ ⟨by norm_num,
      by norm_num⟩ ⟨by norm_num, by norm_num⟩)
  have h39 : (fin (-(1512433142707385 / 137438953472)) + fin (-(7522241225975713 / 68719476736))
    : F64 B64) = fin (-(4139228898664703 / 34359738368)) :=
    B64.add_eq _ _ _ (round64_cert_tie _ _ (16) (-8278457797329406) (by norm_num) (by norm_num)
      (Or.inr (Or.inr (by norm_num))) ⟨by norm_num, by norm_num⟩ (by decide) (Or.inr
      (by norm_num)) ⟨by norm_num, by norm_num⟩)
  have h40 : (F64.ofInt (-5) : F64 B64) = fin (-5) :=
    (B64.ofInt_eq (-5) ⟨by norm_num, by norm_num⟩).trans (congrArg F64.fin (by norm_num))
  have h41 : (fin 21000 * fin (-5) : F64 B64) = fin (-105000) :=
    B64.mul_eq _ _ _ (round64_of_dyadic _ _ (-13125) (3) (by norm_num) (by norm_num)
      ⟨by norm_num, by norm_num⟩ (by norm_num) ⟨by norm_num, by norm_num⟩)
  have h42 : (fin (-105000) * fin (3221156619496009 / 4503599627370496) : F64 B64) = fin
    (-(322553105399209 / 4294967296)) :=
    B64.mul_eq _ _ _ (round64_cert _ _ (16) (-5160849686387344) (by norm_num) (by norm_num)
      (Or.inr (Or.inr (by norm_num))) ⟨by norm_num, by norm_num⟩ ⟨by norm_num, by norm_num⟩
      ⟨by norm_num, by norm_num⟩)
  have h43 : (F64.powi (fin (129426382585365 / 140737488355328)) 10 : F64 B64) = fin
    (3896906071922727 / 9007199254740992) :=
    B64.powi_eq _ _ _ (by norm_num) (by norm_num) (by norm_num) (Or.inl (by norm_num))
      (round64_cert _ _ (-2) (7793812143845454) (by norm_num) (by norm_num) (Or.inr (Or.inl
      (by norm_num))) ⟨by norm_num, by norm_num⟩ ⟨by norm_num, by norm_num⟩ ⟨by norm_num,
      by norm_num⟩)
  have h44 : (fin (-(322553105399209 / 4294967296)) / fin (3896906071922727 / 9007199254740992) :
    F64 B64) = fin (-(5964321514442205 / 34359738368)) :=
    B64.div_eq _ _ _ (by norm_num) (round64_cert _ _ (17) (-5964321514442205) (by norm_num)
      (by norm_num) (Or.inr (Or.inr (by norm_num))) ⟨by norm_num, by norm_num⟩ ⟨by norm_num,
      by norm_num⟩ ⟨by norm_num, by norm_num⟩)
  have h45 : (fin (-(4139228898664703 / 34359738368)) + fin (-(5964321514442205 / 34359738368)) :
    F64 B64) = fin (-(2525887603276727 / 8589934592)) :=
    B64.add_eq _ _ _ (round64_of_dyadic _ _ (-2525887603276727) (-33) (by norm_num) (by norm_num)
      ⟨by norm_num, by norm_num⟩ (by norm_num) ⟨by norm_num, by norm_num⟩)
  have h46 : (fin (3972272779787973 / 274877906944) / fin (-(2525887603276727 / 8589934592)) :
    F64 B64) = fin (-(885308900307943 / 18014398509481984)) :=
    B64.div_eq _ _ _ (by norm_num) (round64_cert _ _ (-5) (-7082471202463544) (by norm_num)
      (by norm_num) (Or.inr (Or.inr (by norm_num))) ⟨by norm_num, by norm_num⟩ ⟨by norm_num,
      by norm_num⟩ ⟨by norm_num, by norm_num⟩)
  have h47 : (fin (-(1447821538555263 / 18014398509481984)) - fin
    (-(885308900307943 / 18014398509481984)) : F64 B64) = fin
    (-(70314079780915 / 2251799813685248)) :=
    B64.sub_eq _ _ _ (round64_of_dyadic _ _ (-70314079780915) (-51) (by norm_num) (by norm_num)
      ⟨by norm_num, by norm_num⟩ (by norm_num) ⟨by norm_num, by norm_num⟩)
  have hF : NetPresentValue (fin (-(1447821538555263 / 18014398509481984))) ([(-70000 : B64),
    12000, 15000, 18000, 21000].map fin)
      = fin (3972272779787973 / 274877906944) := by
    simp only [List.map, NetPresentValue, NetPresentValue.loop, Int.reduceAdd]
    rw [h1, h2, h3, h4, h5, h6, h7, h8, h9, h10, h11, h12, h13, h14, h15, h16]
  have hD : dNetPresentValue (fin (-(1447821538555263 / 18014398509481984))) ([(-70000 : B64),
    12000, 15000, 18000, 21000].map fin)
      = fin (-(2525887603276727 / 8589934592)) := by
    simp only [List.map, dNetPresentValue, dNetPresentValue.loop, Int.reduceAdd, Int.reduceMul,
      Int.reduceSub, Int.reduceNeg]
    rw [h17, h18, h1, h19, h20, h5, h21, h22, h23, h24, h2, h25, h11, h26, h27, h28, h29, h30,
      h31, h32, h33, h34, h35, h8, h36, h37, h38, h39, h40, h41, h42, h43, h44, h45]
  show fin (-(1447821538555263 / 18014398509481984)) - NetPresentValue (fin
    (-(1447821538555263 / 18014398509481984))) ([(-70000 : B64), 12000, 15000, 18000, 21000].map
    fin)
      / dNetPresentValue (fin (-(1447821538555263 / 18014398509481984))) ([(-70000 : B64), 12000,
        15000, 18000, 21000].map fin) = _
  rw [hF, hD]
  rw [h46, h47]

/-- Update step 3 of the run of `InternalRateOfReturn` on the series of the test from the
guess `0.1`, in binary64: the net present value, its derivative and the next iterate. -/
theorem irr_test_step_2 :
    newtonStep (fun rate => NetPresentValue rate ([(-70000 : B64), 12000, 15000, 18000,
      21000].map fin))
        (fun rate => dNetPresentValue rate ([(-70000 : B64), 12000, 15000, 18000, 21000].map fin))
        (fin (-(70314079780915 / 2251799813685248)))
      = fin (-(1553135076554957 / 72057594037927936)) := by
  have h1 : (fin 1 + fin (-(70314079780915 / 2251799813685248)) : F64 B64) = fin
    (2181485733904333 / 2251799813685248) :=
    B64.add_eq _ _ _ (round64_of_dyadic _ _ (2181485733904333) (-51) (by norm_num) (by norm_num)
      ⟨by norm_num, by norm_num⟩ (by norm_num) ⟨by norm_num, by norm_num⟩)
  have h2 : (F64.powi (fin (2181485733904333 / 2251799813685248)) 1 : F64 B64) = fin
    (2181485733904333 / 2251799813685248) :=
    F64.powi_one _
  have h3 : (fin (-70000) / fin (2181485733904333 / 2251799813685248) : F64 B64) = fin
    (-(4965411955438487 / 68719476736)) :=
    B64.div_eq _ _ _ (by norm_num) (round64_cert _ _ (16) (-4965411955438487) (by norm_num)
      (by norm_num) (Or.inr (Or.inr (by norm_num))) ⟨by norm_num, by norm_num⟩ ⟨by norm_num,
      by norm_num⟩ ⟨by norm_num, by norm_num⟩)
  have h4 : (fin 0 + fin (-(4965411955438487 / 68719476736)) : F64 B64) = fin
    (-(4965411955438487 / 68719476736)) :=
    B64.add_eq _ _ _ (round64_of_dyadic _ _ (-4965411955438487) (-36) (by norm_num) (by norm_num)
      ⟨by norm_num, by norm_num⟩ (by norm_num) ⟨by norm_num, by norm_num⟩)
  have h5 : (F64.powi (fin (2181485733904333 / 2251799813685248)) 2 : F64 B64) = fin
    (2113367262181199 / 2251799813685248) :=
    B64.powi_eq _ _ _ (by norm_num) (by norm_num) (by norm_num) (Or.inl (by norm_num))
      (round64_cert _ _ (-1) (8453469048724796) (by norm_num) (by norm_num) (Or.inr (Or.inl
      (by norm_num))) ⟨by norm_num, by norm_num⟩ ⟨by norm_num, by norm_num⟩ ⟨by norm_num,
      by norm_num⟩)
  have h6 : (fin 12000 / fin (2113367262181199 / 2251799813685248) : F64 B64) = fin
    (7029199674500721 / 549755813888) :=
    B64.div_eq _ _ _ (by norm_num) (round64_cert _ _ (13) (7029199674500721) (by norm_num)
      (by norm_num) (Or.inr (Or.inl (by norm_num))) ⟨by norm_num, by norm_num⟩ ⟨by norm_num,
      by norm_num⟩ ⟨by norm_num, by norm_num⟩)
  have h7 : (fin (-(4965411955438487 / 68719476736)) + fin (7029199674500721 / 549755813888) :
    F64 B64) = fin (-(4086761996125897 / 68719476736)) :=
    B64.add_eq _ _ _ (round64_cert _ _ (15) (-8173523992251794) (by norm_num) (by norm_num)
      (Or.inr (Or.inr (by norm_num))) ⟨by norm_num, by norm_num⟩ ⟨by norm_num, by norm_num⟩
      ⟨by norm_num, by norm_num⟩)
  have h8 : (F64.powi (fin (2181485733904333 / 2251799813685248)) 3 : F64 B64) = fin
    (8189503356257333 / 9007199254740992) :=
    B64.powi_eq _ _ _ (by norm_num) (by norm_num) (by norm_num) (Or.inl (by norm_num))
      (round64_cert _ _ (-1) (8189503356257333) (by norm_num) (by norm_num) (Or.inr (Or.inl
      (by norm_num))) ⟨by norm_num, by norm_num⟩ ⟨by norm_num, by norm_num⟩ ⟨by norm_num,
      by norm_num⟩)
  have h9 : (fin 15000 / fin (8189503356257333 / 9007199254740992) : F64 B64) = fin
    (4534853893207739 / 274877906944) :=
    B64.div_eq _ _ _ (by norm_num) (round64_cert _ _ (14) (4534853893207739) (by norm_num)
      (by norm_num) (Or.inr (Or.inl (by norm_num))) ⟨by norm_num, by norm_num⟩ ⟨by norm_num,
      by norm_num⟩ ⟨by norm_num, by norm_num⟩)
  have h10 : (fin (-(4086761996125897 / 68719476736)) + fin (4534853893207739 / 274877906944) :
    F64 B64) = fin (-(1476524261411981 / 34359738368)) :=
    B64.add_eq _ _ _ (round64_cert_tie _ _ (15) (-5906097045647924) (by norm_num) (by norm_num)
      (Or.inr (Or.inr (by norm_num))) ⟨by norm_num, by norm_num⟩ (by decide) (Or.inl
      (by norm_num)) ⟨by norm_num, by norm_num⟩)
  have h11 : (F64.powi (fin (2181485733904333 / 2251799813685248)) 4 : F64 B64) = fin
    (3966890091841485 / 4503599627370496) :=
    B64.powi_eq _ _ _ (by norm_num) (by norm_num) (by norm_num) (Or.inl (by norm_num))
      (round64_cert _ _ (-1) (7933780183682970) (by norm_num) (by norm_num) (Or.inr (Or.inl
      (by norm_num))) ⟨by norm_num, by norm_num⟩ ⟨by norm_num, by norm_num⟩ ⟨by norm_num,
      by norm_num⟩)
  have h12 : (fin 18000 / fin (3966890091841485 / 4503599627370496) : F64 B64) = fin
    (2808613320667123 / 137438953472) :=
    B64.div_eq _ _ _ (by norm_num) (round64_cert _ _ (14) (5617226641334246) (by norm_num)
      (by norm_num) (Or.inr (Or.inl (by norm_num))) ⟨by norm_num, by norm_num⟩ ⟨by norm_num,
      by norm_num⟩ ⟨by norm_num, by norm_num⟩)
  have h13 : (fin (-(1476524261411981 / 34359738368)) + fin (2808613320667123 / 137438953472) :
    F64 B64) = fin (-(3097483724980801 / 137438953472)) :=
    B64.add_eq _ _ _ (round64_of_dyadic _ _ (-3097483724980801) (-37) (by norm_num) (by norm_num)
      ⟨by norm_num, by norm_num⟩ (by norm_num) ⟨by norm_num, by norm_num⟩)
  have h14 : (F64.powi (fin (2181485733904333 / 2251799813685248)) 5 : F64 B64) = fin
    (7686042152349381 / 9007199254740992) :=
    B64.powi_eq _ _ _ (by norm_num) (by norm_num) (by norm_num) (Or.inl (by norm_num))
      (round64_cert _ _ (-1) (7686042152349381) (by norm_num) (by norm_num) (Or.inr (Or.inl
      (by norm_num))) ⟨by norm_num, by norm_num⟩ ⟨by norm_num, by norm_num⟩ ⟨by norm_num,
      by norm_num⟩)
  have h15 : (fin 21000 / fin (7686042152349381 / 9007199254740992) : F64 B64) = fin
    (3382331284384981 / 137438953472) :=
    B64.div_eq _ _ _ (by norm_num) (round64_cert _ _ (14) (6764662568769962) (by norm_num)
      (by norm_num) (Or.inr (Or.inl (by norm_num))) ⟨by norm_num, by norm_num⟩ ⟨by norm_num,
      by norm_num⟩ ⟨by norm_num, by norm_num⟩)
  have h16 : (fin (-(3097483724980801 / 137438953472)) + fin (3382331284384981 / 137438953472) :
    F64 B64) = fin (71211889851045 / 34359738368) :=
    B64.add_eq _ _ _ (round64_of_dyadic _ _ (71211889851045) (-35) (by norm_num) (by norm_num)
      ⟨by norm_num, by norm_num⟩ (by norm_num) ⟨by norm_num, by norm_num⟩)
  have h17 : (F64.ofInt (-1) : F64 B64) = fin (-1) :=
    (B64.ofInt_eq (-1) ⟨by norm_num, by norm_num⟩).trans (congrArg F64.fin (by norm_num))
  have h18 : (fin (-70000) * fin (-1) : F64 B64) = fin 70000 :=
    B64.mul_eq _ _ _ (round64_of_dyadic _ _ (4375) (4) (by norm_num) (by norm_num) ⟨by norm_num,
      by norm_num⟩ (by norm_num) ⟨by norm_num, by norm_num⟩)
  have h19 : (F64.powi (fin (2181485733904333 / 2251799813685248)) 0 : F64 B64) = fin 1 :=
    F64.powi_zero _
  have h20 : (fin 70000 * fin 1 : F64 B64) = fin 70000 :=
    B64.mul_eq _ _ _ (round64_of_dyadic _ _ (4375) (4) (by norm_num) (by norm_num) ⟨by norm_num,
      by norm_num⟩ (by norm_num) ⟨by norm_num, by norm_num⟩)
  have h21 : (fin 70000 / fin (2113367262181199 / 2251799813685248) : F64 B64) = fin
    (5125458095990109 / 68719476736) :=
    B64.div_eq _ _ _ (by norm_num) (round64_cert _ _ (16) (5125458095990109) (by norm_num)
      (by norm_num) (Or.inr (Or.inl (by norm_num))) ⟨by norm_num, by norm_num⟩ ⟨by norm_num,
      by norm_num⟩ ⟨by norm_num, by norm_num⟩)
  have h22 : (fin 0 + fin (5125458095990109 / 68719476736) : F64 B64) = fin
    (5125458095990109 / 68719476736) :=
    B64.add_eq _ _ _ (round64_of_dyadic _ _ (5125458095990109) (-36) (by norm_num) (by norm_num)
      ⟨by norm_num, by norm_num⟩ (by norm_num) ⟨by norm_num, by norm_num⟩)
  have h23 : (F64.ofInt (-2) : F64 B64) = fin (-2) :=
    (B64.ofInt_eq (-2) ⟨by norm_num, by norm_num⟩).trans (congrArg F64.fin (by norm_num))
  have h24 : (fin 12000 * fin (-2) : F64 B64) = fin (-24000) :=
    B64.mul_eq _ _ _ (round64_of_dyadic _ _ (-375) (6) (by norm_num) (by norm_num) ⟨by norm_num,
      by norm_num⟩ (by norm_num) ⟨by norm_num, by norm_num⟩)
  have h25 : (fin (-24000) * fin (2181485733904333 / 2251799813685248) : F64 B64) = fin
    (-(6391071486047851 / 274877906944)) :=
    B64.mul_eq _ _ _ (round64_cert _ _ (14) (-6391071486047851) (by norm_num) (by norm_num)
      (Or.inr (Or.inr (by norm_num))) ⟨by norm_num, by norm_num⟩ ⟨by norm_num, by norm_num⟩
      ⟨by norm_num, by norm_num⟩)
  have h26 : (fin (-(6391071486047851 / 274877906944)) / fin
    (3966890091841485 / 4503599627370496) : F64 B64) = fin (-(7255766229132383 / 274877906944)) :=
    B64.div_eq _ _ _ (by norm_num) (round64_cert _ _ (14) (-7255766229132383) (by norm_num)
      (by norm_num) (Or.inr (Or.inr (by norm_num))) ⟨by norm_num, by norm_num⟩ ⟨by norm_num,
      by norm_num⟩ ⟨by norm_num, by norm_num⟩)
  have h27 : (fin (5125458095990109 / 68719476736) + fin (-(7255766229132383 / 274877906944)) :
    F64 B64) = fin (3311516538707013 / 68719476736) :=
    B64.add_eq _ _ _ (round64_cert_tie _ _ (15) (6623033077414026) (by norm_num) (by norm_num)
      (Or.inr (Or.inl (by norm_num))) ⟨by norm_num, by norm_num⟩ (by decide) (Or.inr
      (by norm_num)) ⟨by norm_num, by norm_num⟩)
  have h28 : (F64.ofInt (-3) : F64 B64) = fin (-3) :=
    (B64.ofInt_eq (-3) ⟨by norm_num, by norm_num⟩).trans (congrArg F64.fin (by norm_num))
  have h29 : (fin 15000 * fin (-3) : F64 B64) = fin (-45000) :=
    B64.mul_eq _ _ _ (round64_of_dyadic _ _ (-5625) (3) (by norm_num) (by norm_num) ⟨by norm_num,
      by norm_num⟩ (by norm_num) ⟨by norm_num, by norm_num⟩)
  have h30 : (fin (-45000) * fin (2113367262181199 / 2251799813685248) : F64 B64) = fin
    (-(5804536547738889 / 137438953472)) :=
    B64.mul_eq _ _ _ (round64_cert _ _ (15) (-5804536547738889) (by norm_num) (by norm_num)
      (Or.inr (Or.inr (by norm_num))) ⟨by norm_num, by norm_num⟩ ⟨by norm_num, by norm_num⟩
      ⟨by norm_num, by norm_num⟩)
  have h31 : (F64.powi (fin (2181485733904333 / 2251799813685248)) 6 : F64 B64) = fin
    (7446039920439031 / 9007199254740992) :=
    B64.powi_eq _ _ _ (by norm_num) (by norm_num) (by norm_num) (Or.inl (by norm_num))
      (round64_cert _ _ (-1) (7446039920439031) (by norm_num) (by norm_num) (Or.inr (Or.inl
      (by norm_num))) ⟨by norm_num, by norm_num⟩ ⟨by norm_num, by norm_num⟩ ⟨by norm_num,
      by norm_num⟩)
  have h32 : (fin (-(5804536547738889 / 137438953472)) / fin
    (7446039920439031 / 9007199254740992) : F64 B64) = fin (-(219422915677119 / 4294967296)) :=
    B64.div_eq _ _ _ (by norm_num) (round64_cert _ _ (15) (-7021533301667808) (by norm_num)
      (by norm_num) (Or.inr (Or.inr (by norm_num))) ⟨by norm_num, by norm_num⟩ ⟨by norm_num,
      by norm_num⟩ ⟨by norm_num, by norm_num⟩)
  have h33 : (fin (3311516538707013 / 68719476736) + fin (-(219422915677119 / 4294967296)) : F64
    B64) = fin (-(199250112126891 / 68719476736)) :=
    B64.add_eq _ _ _ (round64_of_dyadic _ _ (-199250112126891) (-36) (by norm_num) (by norm_num)
      ⟨by norm_num, by norm_num⟩ (by norm_num) ⟨by norm_num, by norm_num⟩)
  have h34 : (F64.ofInt (-4) : F64 B64) = fin (-4) :=
    (B64.ofInt_eq (-4) ⟨by norm_num, by norm_num⟩).trans (congrArg F64.fin (by norm_num))
  have h35 : (fin 18000 * fin (-4) : F64 B64) = fin (-72000) :=
    B64.mul_eq _ _ _ (round64_of_dyadic _ _ (-1125) (6) (by norm_num) (by norm_num) ⟨by norm_num,
      by norm_num⟩ (by norm_num) ⟨by norm_num, by norm_num⟩)
  have h36 : (fin (-72000) * fin (8189503356257333 / 9007199254740992) : F64 B64) = fin
    (-(8997257105263183 / 137438953472)) :=
    B64.mul_eq _ _ _ (round64_cert _ _ (15) (-8997257105263183) (by norm_num) (by norm_num)
      (Or.inr (Or.inr (by norm_num))) ⟨by norm_num, by norm_num⟩ ⟨by norm_num, by norm_num⟩
      ⟨by norm_num, by norm_num⟩)
  have h37 : (F64.powi (fin (2181485733904333 / 2251799813685248)) 8 : F64 B64) = fin
    (6988284173892255 / 9007199254740992) :=
    B64.powi_eq _ _ _ (by norm_num) (by norm_num) (by norm_num) (Or.inl (by norm_num))
      (round64_cert _ _ (-1) (6988284173892255) (by norm_num) (by norm_num) (Or.inr (Or.inl
      (by norm_num))) ⟨by norm_num, by norm_num⟩ ⟨by norm_num, by norm_num⟩ ⟨by norm_num,
      by norm_num⟩)
  have h38 : (fin (-(8997257105263183 / 137438953472)) / fin
    (6988284173892255 / 9007199254740992) : F64 B64) = fin (-(5798282201802825 / 68719476736)) :=
    B64.div_eq _ _ _ (by norm_num) (round64_cert _ _ (16) (-5798282201802825) (by norm_num)
      (by norm_num) (Or.inr (Or.inr (by norm_num))) ⟨by norm_num, by norm_num⟩ ⟨by norm_num,
      by norm_num⟩ ⟨by norm_num, by norm_num⟩)
  have h39 : (fin (-(199250112126891 / 68719476736)) + fin (-(5798282201802825 / 68719476736)) :
    F64 B64) = fin (-(1499383078482429 / 17179869184)) :=
    B64.add_eq _ _ _ (round64_of_dyadic _ _ (-1499383078482429) (-34) (by norm_num) (by norm_num)
      ⟨by norm_num, by norm_num⟩ (by norm_num) ⟨by norm_num, by norm_num⟩)
  have h40 : (F64.ofInt (-5) : F64 B64) = fin (-5) :=
    (B64.ofInt_eq (-5) ⟨by norm_num, by norm_num⟩).trans (congrArg F64.fin (by norm_num))
  have h41 : (fin 21000 * fin (-5) : F64 B64) = fin (-105000) :=
    B64.mul_eq _ _ _ (round64_of_dyadic _ _ (-13125) (3) (by norm_num) (by norm_num)
      ⟨by norm_num, by norm_num⟩ (by norm_num) ⟨by norm_num, by norm_num⟩)
  have h42 : (fin (-105000) * fin (3966890091841485 / 4503599627370496) : F64 B64) = fin
    (-(1588910902570175 / 17179869184)) :=
    B64.mul_eq _ _ _ (round64_cert _ _ (16) (-6355643610280700) (by norm_num) (by norm_num)
      (Or.inr (Or.inr (by norm_num))) ⟨by norm_num, by norm_num⟩ ⟨by norm_num, by norm_num⟩
      ⟨by norm_num, by norm_num⟩)
  have h43 : (F64.powi (fin (2181485733904333 / 2251799813685248)) 10 : F64 B64) = fin
    (3279334801913975 / 4503599627370496) :=
    B64.powi_eq _ _ _ (by norm_num) (by norm_num) (by norm_num) (Or.inl (by norm_num))
      (round64_cert _ _ (-1) (6558669603827950) (by norm_num) (by norm_num) (Or.inr (Or.inl
      (by norm_num))) ⟨by norm_num, by norm_num⟩ ⟨by norm_num, by norm_num⟩ ⟨by norm_num,
      by norm_num⟩)
  have h44 : (fin (-(1588910902570175 / 17179869184)) / fin (3279334801913975 / 4503599627370496)
    : F64 B64) = fin (-(545523633677437 / 4294967296)) :=
    B64.div_eq _ _ _ (by norm_num) (round64_cert _ _ (16) (-8728378138838992) (by norm_num)
      (by norm_num) (Or.inr (Or.inr (by norm_num))) ⟨by norm_num, by norm_num⟩ ⟨by norm_num,
      by norm_num⟩ ⟨by norm_num, by norm_num⟩)
  have h45 : (fin (-(1499383078482429 / 17179869184)) + fin (-(545523633677437 / 4294967296)) :
    F64 B64) = fin (-(3681477613192177 / 17179869184)) :=
    B64.add_eq _ _ _ (round64_of_dyadic _ _ (-3681477613192177) (-34) (by norm_num) (by norm_num)
      ⟨by norm_num, by norm_num⟩ (by norm_num) ⟨by norm_num, by norm_num⟩)
  have h46 : (fin (71211889851045 / 34359738368) / fin (-(3681477613192177 / 17179869184)) : F64
    B64) = fin (-(696915476434323 / 72057594037927936)) :=
    B64.div_eq _ _ _ (by norm_num) (round64_cert _ _ (-7) (-5575323811474584) (by norm_num)
      (by norm_num) (Or.inr (Or.inr (by norm_num))) ⟨by norm_num, by norm_num⟩ ⟨by norm_num,
      by norm_num⟩ ⟨by norm_num, by norm_num⟩)
  have h47 : (fin (-(70314079780915 / 2251799813685248)) - fin
    (-(696915476434323 / 72057594037927936)) : F64 B64) = fin
    (-(1553135076554957 / 72057594037927936)) :=
    B64.sub_eq _ _ _ (round64_of_dyadic _ _ (-1553135076554957) (-56) (by norm_num) (by norm_num)
      ⟨by norm_num, by norm_num⟩ (by norm_num) ⟨by norm_num, by norm_num⟩)
  have hF : NetPresentValue (fin (-(70314079780915 / 2251799813685248))) ([(-70000 : B64), 12000,
    15000, 18000, 21000].map fin)
      = fin (71211889851045 / 34359738368) := by
    simp only [List.map, NetPresentValue, NetPresentValue.loop, Int.reduceAdd]
    rw [h1, h2, h3, h4, h5, h6, h7, h8, h9, h10, h11, h12, h13, h14, h15, h16]
  have hD : dNetPresentValue (fin (-(70314079780915 / 2251799813685248))) ([(-70000 : B64),
    12000, 15000, 18000, 21000].map fin)
      = fin (-(3681477613192177 / 17179869184)) := by
    simp only [List.map, dNetPresentValue, dNetPresentValue.loop, Int.reduceAdd, Int.reduceMul,
      Int.reduceSub, Int.reduceNeg]
    rw [h17, h18, h1, h19, h20, h5, h21, h22, h23, h24, h2, h25, h11, h26, h27, h28, h29, h30,
      h31, h32, h33, h34, h35, h8, h36, h37, h38, h39, h40, h41, h42, h43, h44, h45]
  show fin (-(70314079780915 / 2251799813685248)) - NetPresentValue (fin
    (-(70314079780915 / 2251799813685248))) ([(-70000 : B64), 12000, 15000, 18000, 21000].map fin)
      / dNetPresentValue (fin (-(70314079780915 / 2251799813685248))) ([(-70000 : B64), 12000,
        15000, 18000, 21000].map fin) = _
  rw [hF, hD]
  rw [h46, h47]

/-- Update step 4 of the run of `InternalRateOfReturn` on the series of the test from the
guess `0.1`, in binary64: the net present value, its derivative and the next iterate. -/
theorem irr_test_step_3 :
    newtonStep (fun rate => NetPresentValue rate ([(-70000 : B64), 12000, 15000, 18000,
      21000].map fin))
        (fun rate => dNetPresentValue rate ([(-70000 : B64), 12000, 15000, 18000, 21000].map fin))
        (fin (-(1553135076554957 / 72057594037927936)))
      = fin (-(6123497648771177 / 288230376151711744)) := by
  have h1 : (fin 1 + fin (-(1553135076554957 / 72057594037927936)) : F64 B64) = fin
    (4406528685085811 / 4503599627370496) :=
    B64.add_eq _ _ _ (round64_cert _ _ (-1) (8813057370171622) (by norm_num) (by norm_num)
      (Or.inr (Or.inl (by norm_num))) ⟨by norm_num, by norm_num⟩ ⟨by norm_num, by norm_num⟩
      ⟨by norm_num, by norm_num⟩)
  have h2 : (F64.powi (fin (4406528685085811 / 4503599627370496)) 1 : F64 B64) = fin
    (4406528685085811 / 4503599627370496) :=
    F64.powi_one _
  have h3 : (fin (-70000) / fin (4406528685085811 / 4503599627370496) : F64 B64) = fin
    (-(4916330344295099 / 68719476736)) :=
    B64.div_eq _ _ _ (by norm_num) (round64_cert _ _ (16) (-4916330344295099) (by norm_num)
      (by norm_num) (Or.inr (Or.inr (by norm_num))) ⟨by norm_num, by norm_num⟩ ⟨by norm_num,
      by norm_num⟩ ⟨by norm_num, by norm_num⟩)
  have h4 : (fin 0 + fin (-(4916330344295099 / 68719476736)) : F64 B64) = fin
    (-(4916330344295099 / 68719476736)) :=
    B64.add_eq _ _ _ (round64_of_dyadic _ _ (-4916330344295099) (-36) (by norm_num) (by norm_num)
      ⟨by norm_num, by norm_num⟩ (by norm_num) ⟨by norm_num, by norm_num⟩)
  have h5 : (F64.powi (fin (4406528685085811 / 4503599627370496)) 2 : F64 B64) = fin
    (4311550017562579 / 4503599627370496) :=
    B64.powi_eq _ _ _ (by norm_num) (by norm_num) (by norm_num) (Or.inl (by norm_num))
      (round64_cert _ _ (-1) (8623100035125158) (by norm_num) (by norm_num) (Or.inr (Or.inl
      (by norm_num))) ⟨by norm_num, by norm_num⟩ ⟨by norm_num, by norm_num⟩ ⟨by norm_num,
      by norm_num⟩)
  have h6 : (fin 12000 / fin (4311550017562579 / 4503599627370496) : F64 B64) = fin
    (6890923408478793 / 549755813888) :=
    B64.div_eq _ _ _ (by norm_num) (round64_cert _ _ (13) (6890923408478793) (by norm_num)
      (by norm_num) (Or.inr (Or.inl (by norm_num))) ⟨by norm_num, by norm_num⟩ ⟨by norm_num,
      by norm_num⟩ ⟨by norm_num, by norm_num⟩)
  have h7 : (fin (-(4916330344295099 / 68719476736)) + fin (6890923408478793 / 549755813888) :
    F64 B64) = fin (-(2027482459117625 / 34359738368)) :=
    B64.add_eq _ _ _ (round64_cert _ _ (15) (-8109929836470500) (by norm_num) (by norm_num)
      (Or.inr (Or.inr (by norm_num))) ⟨by norm_num, by norm_num⟩ ⟨by norm_num, by norm_num⟩
      ⟨by norm_num, by norm_num⟩)
  have h8 : (F64.powi (fin (4406528685085811 / 4503599627370496)) 3 : F64 B64) = fin
    (4218618527745241 / 4503599627370496) :=
    B64.powi_eq _ _ _ (by norm_num) (by norm_num) (by norm_num) (Or.inl (by norm_num))
      (round64_cert _ _ (-1) (8437237055490482) (by norm_num) (by norm_num) (Or.inr (Or.inl
      (by norm_num))) ⟨by norm_num, by norm_num⟩ ⟨by norm_num, by norm_num⟩ ⟨by norm_num,
      by norm_num⟩)
  have h9 : (fin 15000 / fin (4218618527745241 / 4503599627370496) : F64 B64) = fin
    (2200850878925699 / 137438953472) :=
    B64.div_eq _ _ _ (by norm_num) (round64_cert _ _ (13) (8803403515702796) (by norm_num)
      (by norm_num) (Or.inr (Or.inl (by norm_num))) ⟨by norm_num, by norm_num⟩ ⟨by norm_num,
      by norm_num⟩ ⟨by norm_num, by norm_num⟩)
  have h10 : (fin (-(2027482459117625 / 34359738368)) + fin (2200850878925699 / 137438953472) :
    F64 B64) = fin (-(5909078957544801 / 137438953472)) :=
    B64.add_eq _ _ _ (round64_of_dyadic _ _ (-5909078957544801) (-37) (by norm_num) (by norm_num)
      ⟨by norm_num, by norm_num⟩ (by norm_num) ⟨by norm_num, by norm_num⟩)
  have h11 : (F64.powi (fin (4406528685085811 / 4503599627370496)) 4 : F64 B64) = fin
    (8255380181207473 / 9007199254740992) :=
    B64.powi_eq _ _ _ (by norm_num) (by norm_num) (by norm_num) (Or.inl (by norm_num))
      (round64_cert _ _ (-1) (8255380181207473) (by norm_num) (by norm_num) (Or.inr (Or.inl
      (by norm_num))) ⟨by norm_num, by norm_num⟩ ⟨by norm_num, by norm_num⟩ ⟨by norm_num,
      by norm_num⟩)
  have h12 : (fin 18000 / fin (8255380181207473 / 9007199254740992) : F64 B64) = fin
    (5398399641935723 / 274877906944) :=
    B64.div_eq _ _ _ (by norm_num) (round64_cert _ _ (14) (5398399641935723) (by norm_num)
      (by norm_num) (Or.inr (Or.inl (by norm_num))) ⟨by norm_num, by norm_num⟩ ⟨by norm_num,
      by norm_num⟩ ⟨by norm_num, by norm_num⟩)
  have h13 : (fin (-(5909078957544801 / 137438953472)) + fin (5398399641935723 / 274877906944) :
    F64 B64) = fin (-(6419758273153879 / 274877906944)) :=
    B64.add_eq _ _ _ (round64_of_dyadic _ _ (-6419758273153879) (-38) (by norm_num) (by norm_num)
      ⟨by norm_num, by norm_num⟩ (by norm_num) ⟨by norm_num, by norm_num⟩)
  have h14 : (F64.powi (fin (4406528685085811 / 4503599627370496)) 5 : F64 B64) = fin
    (4038721532182391 / 4503599627370496) :=
    B64.powi_eq _ _ _ (by norm_num) (by norm_num) (by norm_num) (Or.inl (by norm_num))
      (round64_cert _ _ (-1) (8077443064364782) (by norm_num) (by norm_num) (Or.inr (Or.inl
      (by norm_num))) ⟨by norm_num, by norm_num⟩ ⟨by norm_num, by norm_num⟩ ⟨by norm_num,
      by norm_num⟩)
  have h15 : (fin 21000 / fin (4038721532182391 / 4503599627370496) : F64 B64) = fin
    (6436873802226521 / 274877906944) :=
    B64.div_eq _ _ _ (by norm_num) (round64_cert _ _ (14) (6436873802226521) (by norm_num)
      (by norm_num) (Or.inr (Or.inl (by norm_num))) ⟨by norm_num, by norm_num⟩ ⟨by norm_num,
      by norm_num⟩ ⟨by norm_num, by norm_num⟩)
  have h16 : (fin (-(6419758273153879 / 274877906944)) + fin (6436873802226521 / 274877906944) :
    F64 B64) = fin (8557764536321 / 137438953472) :=
    B64.add_eq _ _ _ (round64_of_dyadic _ _ (8557764536321) (-37) (by norm_num) (by norm_num)
      ⟨by norm_num, by norm_num⟩ (by norm_num) ⟨by norm_num, by norm_num⟩)
  have h17 : (F64.ofInt (-1) : F64 B64) = fin (-1) :=
    (B64.ofInt_eq (-1) ⟨by norm_num, by norm_num⟩).trans (congrArg F64.fin (by norm_num))
  have h18 : (fin (-70000) * fin (-1) : F64 B64) = fin 70000 :=
    B64.mul_eq _ _ _ (round64_of_dyadic _ _ (4375) (4) (by norm_num) (by norm_num) ⟨by norm_num,
      by norm_num⟩ (by norm_num) ⟨by norm_num, by norm_num⟩)
  have h19 : (F64.powi (fin (4406528685085811 / 4503599627370496)) 0 : F64 B64) = fin 1 :=
    F64.powi_zero _
  have h20 : (fin 70000 * fin 1 : F64 B64) = fin 70000 :=
    B64.mul_eq _ _ _ (round64_of_dyadic _ _ (4375) (4) (by norm_num) (by norm_num) ⟨by norm_num,
      by norm_num⟩ (by norm_num) ⟨by norm_num, by norm_num⟩)
  have h21 : (fin 70000 / fin (4311550017562579 / 4503599627370496) : F64 B64) = fin
    (5024631652015787 / 68719476736) :=
    B64.div_eq _ _ _ (by norm_num) (round64_cert _ _ (16) (5024631652015787) (by norm_num)
      (by norm_num) (Or.inr (Or.inl (by norm_num))) ⟨by norm_num, by norm_num⟩ ⟨by norm_num,
      by norm_num⟩ ⟨by norm_num, by norm_num⟩)
  have h22 : (fin 0 + fin (5024631652015787 / 68719476736) : F64 B64) = fin
    (5024631652015787 / 68719476736) :=
    B64.add_eq _ _ _ (round64_of_dyadic _ _ (5024631652015787) (-36) (by norm_num) (by norm_num)
      ⟨by norm_num, by norm_num⟩ (by norm_num) ⟨by norm_num, by norm_num⟩)
  have h23 : (F64.ofInt (-2) : F64 B64) = fin (-2) :=
    (B64.ofInt_eq (-2) ⟨by norm_num, by norm_num⟩).trans (congrArg F64.fin (by norm_num))
  have h24 : (fin 12000 * fin (-2) : F64 B64) = fin (-24000) :=
    B64.mul_eq _ _ _ (round64_of_dyadic _ _ (-375) (6) (by norm_num) (by norm_num) ⟨by norm_num,
      by norm_num⟩ (by norm_num) ⟨by norm_num, by norm_num⟩)
  have h25 : (fin (-24000) * fin (4406528685085811 / 4503599627370496) : F64 B64) = fin
    (-(1613719000885917 / 68719476736)) :=
    B64.mul_eq _ _ _ (round64_cert _ _ (14) (-6454876003543668) (by norm_num) (by norm_num)
      (Or.inr (Or.inr (by norm_num))) ⟨by norm_num, by norm_num⟩ ⟨by norm_num, by norm_num⟩
      ⟨by norm_num, by norm_num⟩)
  have h26 : (fin (-(1613719000885917 / 68719476736)) / fin (8255380181207473 / 9007199254740992)
    : F64 B64) = fin (-(1760680703140559 / 68719476736)) :=
    B64.div_eq _ _ _ (by norm_num) (round64_cert _ _ (14) (-7042722812562236) (by norm_num)
      (by norm_num) (Or.inr (Or.inr (by norm_num))) ⟨by norm_num, by norm_num⟩ ⟨by norm_num,
      by norm_num⟩ ⟨by norm_num, by norm_num⟩)
  have h27 : (fin (5024631652015787 / 68719476736) + fin (-(1760680703140559 / 68719476736)) :
    F64 B64) = fin (815987737218807 / 17179869184) :=
    B64.add_eq _ _ _ (round64_of_dyadic _ _ (815987737218807) (-34) (by norm_num) (by norm_num)
      ⟨by norm_num, by norm_num⟩ (by norm_num) ⟨by norm_num, by norm_num⟩)
  have h28 : (F64.ofInt (-3) : F64 B64) = fin (-3) :=
    (B64.ofInt_eq (-3) ⟨by norm_num, by norm_num⟩).trans (congrArg F64.fin (by norm_num))
  have h29 : (fin 15000 * fin (-3) : F64 B64) = fin (-45000) :=
    B64.mul_eq _ _ _ (round64_of_dyadic _ _ (-5625) (3) (by norm_num) (by norm_num) ⟨by norm_num,
      by norm_num⟩ (by norm_num) ⟨by norm_num, by norm_num⟩)
  have h30 : (fin (-45000) * fin (4311550017562579 / 4503599627370496) : F64 B64) = fin
    (-(5921012902536501 / 137438953472)) :=
    B64.mul_eq _ _ _ (round64_cert _ _ (15) (-5921012902536501) (by norm_num) (by norm_num)
      (Or.inr (Or.inr (by norm_num))) ⟨by norm_num, by norm_num⟩ ⟨by norm_num, by norm_num⟩
      ⟨by norm_num, by norm_num⟩)
  have h31 : (F64.powi (fin (4406528685085811 / 4503599627370496)) 6 : F64 B64) = fin
    (7903341218200765 / 9007199254740992) :=
    B64.powi_eq _ _ _ (by norm_num) (by norm_num) (by norm_num) (Or.inl (by norm_num))
      (round64_cert _ _ (-1) (7903341218200765) (by norm_num) (by norm_num) (Or.inr (Or.inl
      (by norm_num))) ⟨by norm_num, by norm_num⟩ ⟨by norm_num, by norm_num⟩ ⟨by norm_num,
      by norm_num⟩)
  have h32 : (fin (-(5921012902536501 / 137438953472)) / fin
    (7903341218200765 / 9007199254740992) : F64 B64) = fin (-(6747999552419655 / 137438953472)) :=
    B64.div_eq _ _ _ (by norm_num) (round64_cert _ _ (15) (-6747999552419655) (by norm_num)
      (by norm_num) (Or.inr (Or.inr (by norm_num))) ⟨by norm_num, by norm_num⟩ ⟨by norm_num,
      by norm_num⟩ ⟨by norm_num, by norm_num⟩)
  have h33 : (fin (815987737218807 / 17179869184) + fin (-(6747999552419655 / 137438953472)) :
    F64 B64) = fin (-(220097654669199 / 137438953472)) :=
    B64.add_eq _ _ _ (round64_of_dyadic _ _ (-220097654669199) (-37) (by norm_num) (by norm_num)
      ⟨by norm_num, by norm_num⟩ (by norm_num) ⟨by norm_num, by norm_num⟩)
  have h34 : (F64.ofInt (-4) : F64 B64) = fin (-4) :=
    (B64.ofInt_eq (-4) ⟨by norm_num, by norm_num⟩).trans (congrArg F64.fin (by norm_num))
  have h35 : (fin 18000 * fin (-4) : F64 B64) = fin (-72000) :=
    B64.mul_eq _ _ _ (round64_of_dyadic _ _ (-1125) (6) (by norm_num) (by norm_num) ⟨by norm_num,
      by norm_num⟩ (by norm_num) ⟨by norm_num, by norm_num⟩)
  have h36 : (fin (-72000) * fin (4218618527745241 / 4503599627370496) : F64 B64) = fin
    (-(4634712738001363 / 68719476736)) :=
    B64.mul_eq _ _ _ (round64_cert _ _ (16) (-4634712738001363) (by norm_num) (by norm_num)
      (Or.inr (Or.inr (by norm_num))) ⟨by norm_num, by norm_num⟩ ⟨by norm_num, by norm_num⟩
      ⟨by norm_num, by norm_num⟩)
  have h37 : (F64.powi (fin (4406528685085811 / 4503599627370496)) 8 : F64 B64) = fin
    (7566314456783143 / 9007199254740992) :=
    B64.powi_eq _ _ _ (by norm_num) (by norm_num) (by norm_num) (Or.inl (by norm_num))
      (round64_cert _ _ (-1) (7566314456783143) (by norm_num) (by norm_num) (Or.inr (Or.inl
      (by norm_num))) ⟨by norm_num, by norm_num⟩ ⟨by norm_num, by norm_num⟩ ⟨by norm_num,
      by norm_num⟩)
  have h38 : (fin (-(4634712738001363 / 68719476736)) / fin (7566314456783143 / 9007199254740992)
    : F64 B64) = fin (-(2758660200954223 / 34359738368)) :=
    B64.div_eq _ _ _ (by norm_num) (round64_cert _ _ (16) (-5517320401908446) (by norm_num)
      (by norm_num) (Or.inr (Or.inr (by norm_num))) ⟨by norm_num, by norm_num⟩ ⟨by norm_num,
      by norm_num⟩ ⟨by norm_num, by norm_num⟩)
  have h39 : (fin (-(220097654669199 / 137438953472)) + fin (-(2758660200954223 / 34359738368)) :
    F64 B64) = fin (-(2813684614621523 / 34359738368)) :=
    B64.add_eq _ _ _ (round64_cert_tie _ _ (16) (-5627369229243046) (by norm_num) (by norm_num)
      (Or.inr (Or.inr (by norm_num))) ⟨by norm_num, by norm_num⟩ (by decide) (Or.inr
      (by norm_num)) ⟨by norm_num, by norm_num⟩)
  have h40 : (F64.ofInt (-5) : F64 B64) = fin (-5) :=
    (B64.ofInt_eq (-5) ⟨by norm_num, by norm_num⟩).trans (congrArg F64.fin (by norm_num))
  have h41 : (fin 21000 * fin (-5) : F64 B64) = fin (-105000) :=
    B64.mul_eq _ _ _ (round64_of_dyadic _ _ (-13125) (3) (by norm_num) (by norm_num)
      ⟨by norm_num, by norm_num⟩ (by norm_num) ⟨by norm_num, by norm_num⟩)
  have h42 : (fin (-105000) * fin (8255380181207473 / 9007199254740992) : F64 B64) = fin
    (-(3306636501414431 / 34359738368)) :=
    B64.mul_eq _ _ _ (round64_cert _ _ (16) (-6613273002828862) (by norm_num) (by norm_num)
      (Or.inr (Or.inr (by norm_num))) ⟨by norm_num, by norm_num⟩ ⟨by norm_num, by norm_num⟩
      ⟨by norm_num, by norm_num⟩)
  have h43 : (F64.powi (fin (4406528685085811 / 4503599627370496)) 10 : F64 B64) = fin
    (7243659722939135 / 9007199254740992) :=
    B64.powi_eq _ _ _ (by norm_num) (by norm_num) (by norm_num) (Or.inl (by norm_num))
      (round64_cert _ _ (-1) (7243659722939135) (by norm_num) (by norm_num) (Or.inr (Or.inl
      (by norm_num))) ⟨by norm_num, by norm_num⟩ ⟨by norm_num, by norm_num⟩ ⟨by norm_num,
      by norm_num⟩)
  have h44 : (fin (-(3306636501414431 / 34359738368)) / fin (7243659722939135 / 9007199254740992)
    : F64 B64) = fin (-(8223338745999149 / 68719476736)) :=
    B64.div_eq _ _ _ (by norm_num) (round64_cert _ _ (16) (-8223338745999149) (by norm_num)
      (by norm_num) (Or.inr (Or.inr (by norm_num))) ⟨by norm_num, by norm_num⟩ ⟨by norm_num,
      by norm_num⟩ ⟨by norm_num, by norm_num⟩)
  have h45 : (fin (-(2813684614621523 / 34359738368)) + fin (-(8223338745999149 / 68719476736)) :
    F64 B64) = fin (-(3462676993810549 / 17179869184)) :=
    B64.add_eq _ _ _ (round64_cert_tie _ _ (17) (-6925353987621098) (by norm_num) (by norm_num)
      (Or.inr (Or.inr (by norm_num))) ⟨by norm_num, by norm_num⟩ (by decide) (Or.inr
      (by norm_num)) ⟨by norm_num, by norm_num⟩)
  have h46 : (fin (8557764536321 / 137438953472) / fin (-(3462676993810549 / 17179869184)) : F64
    B64) = fin (-(5698730076713669 / 18446744073709551616)) :=
    B64.div_eq _ _ _ (by norm_num) (round64_cert _ _ (-12) (-5698730076713669) (by norm_num)
      (by norm_num) (Or.inr (Or.inr (by norm_num))) ⟨by norm_num, by norm_num⟩ ⟨by norm_num,
      by norm_num⟩ ⟨by norm_num, by norm_num⟩)
  have h47 : (fin (-(1553135076554957 / 72057594037927936)) - fin
    (-(5698730076713669 / 18446744073709551616)) : F64 B64) = fin
    (-(6123497648771177 / 288230376151711744)) :=
    B64.sub_eq _ _ _ (round64_cert _ _ (-6) (-6123497648771177) (by norm_num) (by norm_num)
      (Or.inr (Or.inr (by norm_num))) ⟨by norm_num, by norm_num⟩ ⟨by norm_num, by norm_num⟩
      ⟨by norm_num, by norm_num⟩)
  have hF : NetPresentValue (fin (-(1553135076554957 / 72057594037927936))) ([(-70000 : B64),
    12000, 15000, 18000, 21000].map fin)
      = fin (8557764536321 / 137438953472) := by
    simp only [List.map, NetPresentValue, NetPresentValue.loop, Int.reduceAdd]
    rw [h1, h2, h3, h4, h5, h6, h7, h8, h9, h10, h11, h12, h13, h14, h15, h16]
  have hD : dNetPresentValue (fin (-(1553135076554957 / 72057594037927936))) ([(-70000 : B64),
    12000, 15000, 18000, 21000].map fin)
      = fin (-(3462676993810549 / 17179869184)) := by
    simp only [List.map, dNetPresentValue, dNetPresentValue.loop, Int.reduceAdd, Int.reduceMul,
      Int.reduceSub, Int.reduceNeg]
    rw [h17, h18, h1, h19, h20, h5, h21, h22, h23, h24, h2, h25, h11, h26, h27, h28, h29, h30,
      h31, h32, h33, h34, h35, h8, h36, h37, h38, h39, h40, h41, h42, h43, h44, h45]
  show fin (-(1553135076554957 / 72057594037927936)) - NetPresentValue (fin
    (-(1553135076554957 / 72057594037927936))) ([(-70000 : B64), 12000, 15000, 18000, 21000].map
    fin)
      / dNetPresentValue (fin (-(1553135076554957 / 72057594037927936))) ([(-70000 : B64), 12000,
        15000, 18000, 21000].map fin) = _
  rw [hF, hD]
  rw [h46, h47]

/-- Update step 5 of the run of `InternalRateOfReturn` on the series of the test from the
guess `0.1`, in binary64: the net present value, its derivative and the next iterate. -/
theorem irr_test_step_4 :
    newtonStep (fun rate => NetPresentValue rate ([(-70000 : B64), 12000, 15000, 18000,
      21000].map fin))
        (fun rate => dNetPresentValue rate ([(-70000 : B64), 12000, 15000, 18000, 21000].map fin))
        (fin (-(6123497648771177 / 288230376151711744)))
      = fin (-(6123410609214361 / 288230376151711744)) := by
  have h1 : (fin 1 + fin (-(6123497648771177 / 288230376151711744)) : F64 B64) = fin
    (8815839953216893 / 9007199254740992) :=
    B64.add_eq _ _ _ (round64_cert _ _ (-1) (8815839953216893) (by norm_num) (by norm_num)
      (Or.inr (Or.inl (by norm_num))) ⟨by norm_num, by norm_num⟩ ⟨by norm_num, by norm_num⟩
      ⟨by norm_num, by norm_num⟩)
  have h2 : (F64.powi (fin (8815839953216893 / 9007199254740992)) 1 : F64 B64) = fin
    (8815839953216893 / 9007199254740992) :=
    F64.powi_one _
  have h3 : (fin (-70000) / fin (8815839953216893 / 9007199254740992) : F64 B64) = fin
    (-(4914778580931247 / 68719476736)) :=
    B64.div_eq _ _ _ (by norm_num) (round64_cert _ _ (16) (-4914778580931247) (by norm_num)
      (by norm_num) (Or.inr (Or.inr (by norm_num))) ⟨by norm_num, by norm_num⟩ ⟨by norm_num,
      by norm_num⟩ ⟨by norm_num, by norm_num⟩)
  have h4 : (fin 0 + fin (-(4914778580931247 / 68719476736)) : F64 B64) = fin
    (-(4914778580931247 / 68719476736)) :=
    B64.add_eq _ _ _ (round64_of_dyadic _ _ (-4914778580931247) (-36) (by norm_num) (by norm_num)
      ⟨by norm_num, by norm_num⟩ (by norm_num) ⟨by norm_num, by norm_num⟩)
  have h5 : (F64.powi (fin (8815839953216893 / 9007199254740992)) 2 : F64 B64) = fin
    (8628546108805949 / 9007199254740992) :=
    B64.powi_eq _ _ _ (by norm_num) (by norm_num) (by norm_num) (Or.inl (by norm_num))
      (round64_cert _ _ (-1) (8628546108805949) (by norm_num) (by norm_num) (Or.inr (Or.inl
      (by norm_num))) ⟨by norm_num, by norm_num⟩ ⟨by norm_num, by norm_num⟩ ⟨by norm_num,
      by norm_num⟩)
  have h6 : (fin 12000 / fin (8628546108805949 / 9007199254740992) : F64 B64) = fin
    (6886574068956465 / 549755813888) :=
    B64.div_eq _ _ _ (by norm_num) (round64_cert _ _ (13) (6886574068956465) (by norm_num)
      (by norm_num) (Or.inr (Or.inl (by norm_num))) ⟨by norm_num, by norm_num⟩ ⟨by norm_num,
      by norm_num⟩ ⟨by norm_num, by norm_num⟩)
  have h7 : (fin (-(4914778580931247 / 68719476736)) + fin (6886574068956465 / 549755813888) :
    F64 B64) = fin (-(4053956822311689 / 68719476736)) :=
    B64.add_eq _ _ _ (round64_cert _ _ (15) (-8107913644623378) (by norm_num) (by norm_num)
      (Or.inr (Or.inr (by norm_num))) ⟨by norm_num, by norm_num⟩ ⟨by norm_num, by norm_num⟩
      ⟨by norm_num, by norm_num⟩)
  have h8 : (F64.powi (fin (8815839953216893 / 9007199254740992)) 3 : F64 B64) = fin
    (8445231350260945 / 9007199254740992) :=
    B64.powi_eq _ _ _ (by norm_num) (by norm_num) (by norm_num) (Or.inl (by norm_num))
      (round64_cert _ _ (-1) (8445231350260945) (by norm_num) (by norm_num) (Or.inr (Or.inl
      (by norm_num))) ⟨by norm_num, by norm_num⟩ ⟨by norm_num, by norm_num⟩ ⟨by norm_num,
      by norm_num⟩)
  have h9 : (fin 15000 / fin (8445231350260945 / 9007199254740992) : F64 B64) = fin
    (4397535086758031 / 274877906944) :=
    B64.div_eq _ _ _ (by norm_num) (round64_cert _ _ (13) (8795070173516062) (by norm_num)
      (by norm_num) (Or.inr (Or.inl (by norm_num))) ⟨by norm_num, by norm_num⟩ ⟨by norm_num,
      by norm_num⟩ ⟨by norm_num, by norm_num⟩)
  have h10 : (fin (-(4053956822311689 / 68719476736)) + fin (4397535086758031 / 274877906944) :
    F64 B64) = fin (-(2954573050622181 / 68719476736)) :=
    B64.add_eq _ _ _ (round64_cert_tie _ _ (15) (-5909146101244362) (by norm_num) (by norm_num)
      (Or.inr (Or.inr (by norm_num))) ⟨by norm_num, by norm_num⟩ (by decide) (Or.inl
      (by norm_num)) ⟨by norm_num, by norm_num⟩)
  have h11 : (F64.powi (fin (8815839953216893 / 9007199254740992)) 4 : F64 B64) = fin
    (8265811141304789 / 9007199254740992) :=
    B64.powi_eq _ _ _ (by norm_num) (by norm_num) (by norm_num) (Or.inl (by norm_num))
      (round64_cert _ _ (-1) (8265811141304789) (by norm_num) (by norm_num) (Or.inr (Or.inl
      (by norm_num))) ⟨by norm_num, by norm_num⟩ ⟨by norm_num, by norm_num⟩ ⟨by norm_num,
      by norm_num⟩)
  have h12 : (fin 18000 / fin (8265811141304789 / 9007199254740992) : F64 B64) = fin
    (2695793591966753 / 137438953472) :=
    B64.div_eq _ _ _ (by norm_num) (round64_cert _ _ (14) (5391587183933506) (by norm_num)
      (by norm_num) (Or.inr (Or.inl (by norm_num))) ⟨by norm_num, by norm_num⟩ ⟨by norm_num,
      by norm_num⟩ ⟨by norm_num, by norm_num⟩)
  have h13 : (fin (-(2954573050622181 / 68719476736)) + fin (2695793591966753 / 137438953472) :
    F64 B64) = fin (-(3213352509277609 / 137438953472)) :=
    B64.add_eq _ _ _ (round64_of_dyadic _ _ (-3213352509277609) (-37) (by norm_num) (by norm_num)
      ⟨by norm_num, by norm_num⟩ (by norm_num) ⟨by norm_num, by norm_num⟩)
  have h14 : (F64.powi (fin (8815839953216893 / 9007199254740992)) 5 : F64 B64) = fin
    (2022550685411575 / 2251799813685248) :=
    B64.powi_eq _ _ _ (by norm_num) (by norm_num) (by norm_num) (Or.inl (by norm_num))
      (round64_cert _ _ (-1) (8090202741646300) (by norm_num) (by norm_num) (Or.inr (Or.inl
      (by norm_num))) ⟨by norm_num, by norm_num⟩ ⟨by norm_num, by norm_num⟩ ⟨by norm_num,
      by norm_num⟩)
  have h15 : (fin 21000 / fin (2022550685411575 / 2251799813685248) : F64 B64) = fin
    (3213360858210437 / 137438953472) :=
    B64.div_eq _ _ _ (by norm_num) (round64_cert _ _ (14) (6426721716420874) (by norm_num)
      (by norm_num) (Or.inr (Or.inl (by norm_num))) ⟨by norm_num, by norm_num⟩ ⟨by norm_num,
      by norm_num⟩ ⟨by norm_num, by norm_num⟩)
  have h16 : (fin (-(3213352509277609 / 137438953472)) + fin (3213360858210437 / 137438953472) :
    F64 B64) = fin (2087233207 / 34359738368) :=
    B64.add_eq _ _ _ (round64_of_dyadic _ _ (2087233207) (-35) (by norm_num) (by norm_num)
      ⟨by norm_num, by norm_num⟩ (by norm_num) ⟨by norm_num, by norm_num⟩)
  have h17 : (F64.ofInt (-1) : F64 B64) = fin (-1) :=
    (B64.ofInt_eq (-1) ⟨by norm_num, by norm_num⟩).trans (congrArg F64.fin (by norm_num))
  have h18 : (fin (-70000) * fin (-1) : F64 B64) = fin 70000 :=
    B64.mul_eq _ _ _ (round64_of_dyadic _ _ (4375) (4) (by norm_num) (by norm_num) ⟨by norm_num,
      by norm_num⟩ (by norm_num) ⟨by norm_num, by norm_num⟩)
  have h19 : (F64.powi (fin (8815839953216893 / 9007199254740992)) 0 : F64 B64) = fin 1 :=
    F64.powi_zero _
  have h20 : (fin 70000 * fin 1 : F64 B64) = fin 70000 :=
    B64.mul_eq _ _ _ (round64_of_dyadic _ _ (4375) (4) (by norm_num) (by norm_num) ⟨by norm_num,
      by norm_num⟩ (by norm_num) ⟨by norm_num, by norm_num⟩)
  have h21 : (fin 70000 / fin (8628546108805949 / 9007199254740992) : F64 B64) = fin
    (5021460258614089 / 68719476736) :=
    B64.div_eq _ _ _ (by norm_num) (round64_cert _ _ (16) (5021460258614089) (by norm_num)
      (by norm_num) (Or.inr (Or.inl (by norm_num))) ⟨by norm_num, by norm_num⟩ ⟨by norm_num,
      by norm_num⟩ ⟨by norm_num, by norm_num⟩)
  have h22 : (fin 0 + fin (5021460258614089 / 68719476736) : F64 B64) = fin
    (5021460258614089 / 68719476736) :=
    B64.add_eq _ _ _ (round64_of_dyadic _ _ (5021460258614089) (-36) (by norm_num) (by norm_num)
      ⟨by norm_num, by norm_num⟩ (by norm_num) ⟨by norm_num, by norm_num⟩)
  have h23 : (F64.ofInt (-2) : F64 B64) = fin (-2) :=
    (B64.ofInt_eq (-2) ⟨by norm_num, by norm_num⟩).trans (congrArg F64.fin (by norm_num))
  have h24 : (fin 12000 * fin (-2) : F64 B64) = fin (-24000) :=
    B64.mul_eq _ _ _ (round64_of_dyadic _ _ (-375) (6) (by norm_num) (by norm_num) ⟨by norm_num,
      by norm_num⟩ (by norm_num) ⟨by norm_num, by norm_num⟩)
  have h25 : (fin (-24000) * fin (8815839953216893 / 9007199254740992) : F64 B64) = fin
    (-(6456914028235029 / 274877906944)) :=
    B64.mul_eq _ _ _ (round64_cert _ _ (14) (-6456914028235029) (by norm_num) (by norm_num)
      (Or.inr (Or.inr (by norm_num))) ⟨by norm_num, by norm_num⟩ ⟨by norm_num, by norm_num⟩
      ⟨by norm_num, by norm_num⟩)
  have h26 : (fin (-(6456914028235029 / 274877906944)) / fin
    (8265811141304789 / 9007199254740992) : F64 B64) = fin (-(3518028069406425 / 137438953472)) :=
    B64.div_eq _ _ _ (by norm_num) (round64_cert _ _ (14) (-7036056138812850) (by norm_num)
      (by norm_num) (Or.inr (Or.inr (by norm_num))) ⟨by norm_num, by norm_num⟩ ⟨by norm_num,
      by norm_num⟩ ⟨by norm_num, by norm_num⟩)
  have h27 : (fin (5021460258614089 / 68719476736) + fin (-(3518028069406425 / 137438953472)) :
    F64 B64) = fin (6524892447821753 / 137438953472) :=
    B64.add_eq _ _ _ (round64_of_dyadic _ _ (6524892447821753) (-37) (by norm_num) (by norm_num)
      ⟨by norm_num, by norm_num⟩ (by norm_num) ⟨by norm_num, by norm_num⟩)
  have h28 : (F64.ofInt (-3) : F64 B64) = fin (-3) :=
    (B64.ofInt_eq (-3) ⟨by norm_num, by norm_num⟩).trans (congrArg F64.fin (by norm_num))
  have h29 : (fin 15000 * fin (-3) : F64 B64) = fin (-45000) :=
    B64.mul_eq _ _ _ (round64_of_dyadic _ _ (-5625) (3) (by norm_num) (by norm_num) ⟨by norm_num,
      by norm_num⟩ (by norm_num) ⟨by norm_num, by norm_num⟩)
  have h30 : (fin (-45000) * fin (8628546108805949 / 9007199254740992) : F64 B64) = fin
    (-(740594053070579 / 17179869184)) :=
    B64.mul_eq _ _ _ (round64_cert _ _ (15) (-5924752424564632) (by norm_num) (by norm_num)
      (Or.inr (Or.inr (by norm_num))) ⟨by norm_num, by norm_num⟩ ⟨by norm_num, by norm_num⟩
      ⟨by norm_num, by norm_num⟩)
  have h31 : (F64.powi (fin (8815839953216893 / 9007199254740992)) 6 : F64 B64) = fin
    (3959162584412107 / 4503599627370496) :=
    B64.powi_eq _ _ _ (by norm_num) (by norm_num) (by norm_num) (Or.inl (by norm_num))
      (round64_cert _ _ (-1) (7918325168824214) (by norm_num) (by norm_num) (Or.inr (Or.inl
      (by norm_num))) ⟨by norm_num, by norm_num⟩ ⟨by norm_num, by norm_num⟩ ⟨by norm_num,
      by norm_num⟩)
  have h32 : (fin (-(740594053070579 / 17179869184)) / fin (3959162584412107 / 4503599627370496)
    : F64 B64) = fin (-(6739483979916883 / 137438953472)) :=
    B64.div_eq _ _ _ (by norm_num) (round64_cert _ _ (15) (-6739483979916883) (by norm_num)
      (by norm_num) (Or.inr (Or.inr (by norm_num))) ⟨by norm_num, by norm_num⟩ ⟨by norm_num,
      by norm_num⟩ ⟨by norm_num, by norm_num⟩)
  have h33 : (fin (6524892447821753 / 137438953472) + fin (-(6739483979916883 / 137438953472)) :
    F64 B64) = fin (-(107295766047565 / 68719476736)) :=
    B64.add_eq _ _ _ (round64_of_dyadic _ _ (-107295766047565) (-36) (by norm_num) (by norm_num)
      ⟨by norm_num, by norm_num⟩ (by norm_num) ⟨by norm_num, by norm_num⟩)
  have h34 : (F64.ofInt (-4) : F64 B64) = fin (-4) :=
    (B64.ofInt_eq (-4) ⟨by norm_num, by norm_num⟩).trans (congrArg F64.fin (by norm_num))
  have h35 : (fin 18000 * fin (-4) : F64 B64) = fin (-72000) :=
    B64.mul_eq _ _ _ (round64_of_dyadic _ _ (-1125) (6) (by norm_num) (by norm_num) ⟨by norm_num,
      by norm_num⟩ (by norm_num) ⟨by norm_num, by norm_num⟩)
  have h36 : (fin (-72000) * fin (8445231350260945 / 9007199254740992) : F64 B64) = fin
    (-(4639104135275177 / 68719476736)) :=
    B64.mul_eq _ _ _ (round64_cert _ _ (16) (-4639104135275177) (by norm_num) (by norm_num)
      (Or.inr (Or.inr (by norm_num))) ⟨by norm_num, by norm_num⟩ ⟨by norm_num, by norm_num⟩
      ⟨by norm_num, by norm_num⟩)
  have h37 : (F64.powi (fin (8815839953216893 / 9007199254740992)) 8 : F64 B64) = fin
    (7585447139715027 / 9007199254740992) :=
    B64.powi_eq _ _ _ (by norm_num) (by norm_num) (by norm_num) (Or.inl (by norm_num))
      (round64_cert _ _ (-1) (7585447139715027) (by norm_num) (by norm_num) (Or.inr (Or.inl
      (by norm_num))) ⟨by norm_num, by norm_num⟩ ⟨by norm_num, by norm_num⟩ ⟨by norm_num,
      by norm_num⟩)
  have h38 : (fin (-(4639104135275177 / 68719476736)) / fin (7585447139715027 / 9007199254740992)
    : F64 B64) = fin (-(5508618614075035 / 68719476736)) :=
    B64.div_eq _ _ _ (by norm_num) (round64_cert _ _ (16) (-5508618614075035) (by norm_num)
      (by norm_num) (Or.inr (Or.inr (by norm_num))) ⟨by norm_num, by norm_num⟩ ⟨by norm_num,
      by norm_num⟩ ⟨by norm_num, by norm_num⟩)
  have h39 : (fin (-(107295766047565 / 68719476736)) + fin (-(5508618614075035 / 68719476736)) :
    F64 B64) = fin (-(701989297515325 / 8589934592)) :=
    B64.add_eq _ _ _ (round64_of_dyadic _ _ (-701989297515325) (-33) (by norm_num) (by norm_num)
      ⟨by norm_num, by norm_num⟩ (by norm_num) ⟨by norm_num, by norm_num⟩)
  have h40 : (F64.ofInt (-5) : F64 B64) = fin (-5) :=
    (B64.ofInt_eq (-5) ⟨by norm_num, by norm_num⟩).trans (congrArg F64.fin (by norm_num))
  have h41 : (fin 21000 * fin (-5) : F64 B64) = fin (-105000) :=
    B64.mul_eq _ _ _ (round64_of_dyadic _ _ (-13125) (3) (by norm_num) (by norm_num)
      ⟨by norm_num, by norm_num⟩ (by norm_num) ⟨by norm_num, by norm_num⟩)
  have h42 : (fin (-105000) * fin (8265811141304789 / 9007199254740992) : F64 B64) = fin
    (-(103462954740167 / 1073741824)) :=
    B64.mul_eq _ _ _ (round64_cert _ _ (16) (-6621629103370688) (by norm_num) (by norm_num)
      (Or.inr (Or.inr (by norm_num))) ⟨by norm_num, by norm_num⟩ ⟨by norm_num, by norm_num⟩
      ⟨by norm_num, by norm_num⟩)
  have h43 : (F64.powi (fin (8815839953216893 / 9007199254740992)) 10 : F64 B64) = fin
    (7266562951462475 / 9007199254740992) :=
    B64.powi_eq _ _ _ (by norm_num) (by norm_num) (by norm_num) (Or.inl (by norm_num))
      (round64_cert _ _ (-1) (7266562951462475) (by norm_num) (by norm_num) (Or.inr (Or.inl
      (by norm_num))) ⟨by norm_num, by norm_num⟩ ⟨by norm_num, by norm_num⟩ ⟨by norm_num,
      by norm_num⟩)
  have h44 : (fin (-(103462954740167 / 1073741824)) / fin (7266562951462475 / 9007199254740992) :
    F64 B64) = fin (-(4103888807090569 / 34359738368)) :=
    B64.div_eq _ _ _ (by norm_num) (round64_cert _ _ (16) (-8207777614181138) (by norm_num)
      (by norm_num) (Or.inr (Or.inr (by norm_num))) ⟨by norm_num, by norm_num⟩ ⟨by norm_num,
      by norm_num⟩ ⟨by norm_num, by norm_num⟩)
  have h45 : (fin (-(701989297515325 / 8589934592)) + fin (-(4103888807090569 / 34359738368)) :
    F64 B64) = fin (-(6911845997151869 / 34359738368)) :=
    B64.add_eq _ _ _ (round64_of_dyadic _ _ (-6911845997151869) (-35) (by norm_num) (by norm_num)
      ⟨by norm_num, by norm_num⟩ (by norm_num) ⟨by norm_num, by norm_num⟩)
  have h46 : (fin (2087233207 / 34359738368) / fin (-(6911845997151869 / 34359738368)) : F64 B64)
    = fin (-(5704224395468831 / 18889465931478580854784)) :=
    B64.div_eq _ _ _ (by norm_num) (round64_cert _ _ (-22) (-5704224395468831) (by norm_num)
      (by norm_num) (Or.inr (Or.inr (by norm_num))) ⟨by norm_num, by norm_num⟩ ⟨by norm_num,
      by norm_num⟩ ⟨by norm_num, by norm_num⟩)
  have h47 : (fin (-(6123497648771177 / 288230376151711744)) - fin
    (-(5704224395468831 / 18889465931478580854784)) : F64 B64) = fin
    (-(6123410609214361 / 288230376151711744)) :=
    B64.sub_eq _ _ _ (round64_cert _ _ (-6) (-6123410609214361) (by norm_num) (by norm_num)
      (Or.inr (Or.inr (by norm_num))) ⟨by norm_num, by norm_num⟩ ⟨by norm_num, by norm_num⟩
      ⟨by norm_num, by norm_num⟩)
  have hF : NetPresentValue (fin (-(6123497648771177 / 288230376151711744))) ([(-70000 : B64),
    12000, 15000, 18000, 21000].map fin)
      = fin (2087233207 / 34359738368) := by
    simp only [List.map, NetPresentValue, NetPresentValue.loop, Int.reduceAdd]
    rw [h1, h2, h3, h4, h5, h6, h7, h8, h9, h10, h11, h12, h13, h14, h15, h16]
  have hD : dNetPresentValue (fin (-(6123497648771177 / 288230376151711744))) ([(-70000 : B64),
    12000, 15000, 18000, 21000].map fin)
      = fin (-(6911845997151869 / 34359738368)) := by
    simp only [List.map, dNetPresentValue, dNetPresentValue.loop, Int.reduceAdd, Int.reduceMul,
      Int.reduceSub, Int.reduceNeg]
    rw [h17, h18, h1, h19, h20, h5, h21, h22, h23, h24, h2, h25, h11, h26, h27, h28, h29, h30,
      h31, h32, h33, h34, h35, h8, h36, h37, h38, h39, h40, h41, h42, h43, h44, h45]
  show fin (-(6123497648771177 / 288230376151711744)) - NetPresentValue (fin
    (-(6123497648771177 / 288230376151711744))) ([(-70000 : B64), 12000, 15000, 18000, 21000].map
    fin)
      / dNetPresentValue (fin (-(6123497648771177 / 288230376151711744))) ([(-70000 : B64),
        12000, 15000, 18000, 21000].map fin) = _
  rw [hF, hD]
  rw [h46, h47]

/-- The net present value of the series of the test at the rate the run returns, in
binary64. -/
theorem irr_test_residual :
    NetPresentValue (fin (-(6123410609214361 / 288230376151711744))) ([(-70000 : B64), 12000,
      15000, 18000, 21000].map fin)
      = fin (15939 / 274877906944) := by
  have h1 : (fin 1 + fin (-(6123410609214361 / 288230376151711744)) : F64 B64) = fin
    (8815842673203043 / 9007199254740992) :=
    B64.add_eq _ _ _ (round64_cert _ _ (-1) (8815842673203043) (by norm_num) (by norm_num)
      (Or.inr (Or.inl (by norm_num))) ⟨by norm_num, by norm_num⟩ ⟨by norm_num, by norm_num⟩
      ⟨by norm_num, by norm_num⟩)
  have h2 : (F64.powi (fin (8815842673203043 / 9007199254740992)) 1 : F64 B64) = fin
    (8815842673203043 / 9007199254740992) :=
    F64.powi_one _
  have h3 : (fin (-70000) / fin (8815842673203043 / 9007199254740992) : F64 B64) = fin
    (-(4914777064555539 / 68719476736)) :=
    B64.div_eq _ _ _ (by norm_num) (round64_cert _ _ (16) (-4914777064555539) (by norm_num)
      (by norm_num) (Or.inr (Or.inr (by norm_num))) ⟨by norm_num, by norm_num⟩ ⟨by norm_num,
      by norm_num⟩ ⟨by norm_num, by norm_num⟩)
  have h4 : (fin 0 + fin (-(4914777064555539 / 68719476736)) : F64 B64) = fin
    (-(4914777064555539 / 68719476736)) :=
    B64.add_eq _ _ _ (round64_of_dyadic _ _ (-4914777064555539) (-36) (by norm_num) (by norm_num)
      ⟨by norm_num, by norm_num⟩ (by norm_num) ⟨by norm_num, by norm_num⟩)
  have h5 : (F64.powi (fin (8815842673203043 / 9007199254740992)) 2 : F64 B64) = fin
    (8628551433206041 / 9007199254740992) :=
    B64.powi_eq _ _ _ (by norm_num) (by norm_num) (by norm_num) (Or.inl (by norm_num))
      (round64_cert _ _ (-1) (8628551433206041) (by norm_num) (by norm_num) (Or.inr (Or.inl
      (by norm_num))) ⟨by norm_num, by norm_num⟩ ⟨by norm_num, by norm_num⟩ ⟨by norm_num,
      by norm_num⟩)
  have h6 : (fin 12000 / fin (8628551433206041 / 9007199254740992) : F64 B64) = fin
    (6886569819474279 / 549755813888) :=
    B64.div_eq _ _ _ (by norm_num) (round64_cert _ _ (13) (6886569819474279) (by norm_num)
      (by norm_num) (Or.inr (Or.inl (by norm_num))) ⟨by norm_num, by norm_num⟩ ⟨by norm_num,
      by norm_num⟩ ⟨by norm_num, by norm_num⟩)
  have h7 : (fin (-(4914777064555539 / 68719476736)) + fin (6886569819474279 / 549755813888) :
    F64 B64) = fin (-(2026977918560627 / 34359738368)) :=
    B64.add_eq _ _ _ (round64_cert _ _ (15) (-8107911674242508) (by norm_num) (by norm_num)
      (Or.inr (Or.inr (by norm_num))) ⟨by norm_num, by norm_num⟩ ⟨by norm_num, by norm_num⟩
      ⟨by norm_num, by norm_num⟩)
  have h8 : (F64.powi (fin (8815842673203043 / 9007199254740992)) 3 : F64 B64) = fin
    (8445239167185769 / 9007199254740992) :=
    B64.powi_eq _ _ _ (by norm_num) (by norm_num) (by norm_num) (Or.inl (by norm_num))
      (round64_cert _ _ (-1) (8445239167185769) (by norm_num) (by norm_num) (Or.inr (Or.inl
      (by norm_num))) ⟨by norm_num, by norm_num⟩ ⟨by norm_num, by norm_num⟩ ⟨by norm_num,
      by norm_num⟩)
  have h9 : (fin 15000 / fin (8445239167185769 / 9007199254740992) : F64 B64) = fin
    (549691377049199 / 34359738368) :=
    B64.div_eq _ _ _ (by norm_num) (round64_cert _ _ (13) (8795062032787184) (by norm_num)
      (by norm_num) (Or.inr (Or.inl (by norm_num))) ⟨by norm_num, by norm_num⟩ ⟨by norm_num,
      by norm_num⟩ ⟨by norm_num, by norm_num⟩)
  have h10 : (fin (-(2026977918560627 / 34359738368)) + fin (549691377049199 / 34359738368) : F64
    B64) = fin (-(369321635377857 / 8589934592)) :=
    B64.add_eq _ _ _ (round64_of_dyadic _ _ (-369321635377857) (-33) (by norm_num) (by norm_num)
      ⟨by norm_num, by norm_num⟩ (by norm_num) ⟨by norm_num, by norm_num⟩)
  have h11 : (F64.powi (fin (8815842673203043 / 9007199254740992)) 4 : F64 B64) = fin
    (4132910671221903 / 4503599627370496) :=
    B64.powi_eq _ _ _ (by norm_num) (by norm_num) (by norm_num) (Or.inl (by norm_num))
      (round64_cert _ _ (-1) (8265821342443806) (by norm_num) (by norm_num) (Or.inr (Or.inl
      (by norm_num))) ⟨by norm_num, by norm_num⟩ ⟨by norm_num, by norm_num⟩ ⟨by norm_num,
      by norm_num⟩)
  have h12 : (fin 18000 / fin (4132910671221903 / 4503599627370496) : F64 B64) = fin
    (2695790264993661 / 137438953472) :=
    B64.div_eq _ _ _ (by norm_num) (round64_cert _ _ (14) (5391580529987322) (by norm_num)
      (by norm_num) (Or.inr (Or.inl (by norm_num))) ⟨by norm_num, by norm_num⟩ ⟨by norm_num,
      by norm_num⟩ ⟨by norm_num, by norm_num⟩)
  have h13 : (fin (-(369321635377857 / 8589934592)) + fin (2695790264993661 / 137438953472) : F64
    B64) = fin (-(3213355901052051 / 137438953472)) :=
    B64.add_eq _ _ _ (round64_of_dyadic _ _ (-3213355901052051) (-37) (by norm_num) (by norm_num)
      ⟨by norm_num, by norm_num⟩ (by norm_num) ⟨by norm_num, by norm_num⟩)
  have h14 : (F64.powi (fin (8815842673203043 / 9007199254740992)) 5 : F64 B64) = fin
    (4045107611083041 / 4503599627370496) :=
    B64.powi_eq _ _ _ (by norm_num) (by norm_num) (by norm_num) (Or.inl (by norm_num))
      (round64_cert _ _ (-1) (8090215222166082) (by norm_num) (by norm_num) (Or.inr (Or.inl
      (by norm_num))) ⟨by norm_num, by norm_num⟩ ⟨by norm_num, by norm_num⟩ ⟨by norm_num,
      by norm_num⟩)
  have h15 : (fin 21000 / fin (4045107611083041 / 4503599627370496) : F64 B64) = fin
    (6426711802120041 / 274877906944) :=
    B64.div_eq _ _ _ (by norm_num) (round64_cert _ _ (14) (6426711802120041) (by norm_num)
      (by norm_num) (Or.inr (Or.inl (by norm_num))) ⟨by norm_num, by norm_num⟩ ⟨by norm_num,
      by norm_num⟩ ⟨by norm_num, by norm_num⟩)
  have h16 : (fin (-(3213355901052051 / 137438953472)) + fin (6426711802120041 / 274877906944) :
    F64 B64) = fin (15939 / 274877906944) :=
    B64.add_eq _ _ _ (round64_of_dyadic _ _ (15939) (-38) (by norm_num) (by norm_num)
      ⟨by norm_num, by norm_num⟩ (by norm_num) ⟨by norm_num, by norm_num⟩)
  simp only [List.map, NetPresentValue, NetPresentValue.loop, Int.reduceAdd]
  rw [h1, h2, h3, h4, h5, h6, h7, h8, h9, h10, h11, h12, h13, h14, h15, h16]

theorem irr_test_seq_0 :
    newtonSeq (fun rate => NetPresentValue rate ([(-70000 : B64), 12000, 15000, 18000, 21000].map
      fin))
        (fun rate => dNetPresentValue rate ([(-70000 : B64), 12000, 15000, 18000, 21000].map fin))
        (fin (3602879701896397 / 36028797018963968)) 0
      = fin (3602879701896397 / 36028797018963968) := rfl

theorem irr_test_seq_1 :
    newtonSeq (fun rate => NetPresentValue rate ([(-70000 : B64), 12000, 15000, 18000, 21000].map
      fin))
        (fun rate => dNetPresentValue rate ([(-70000 : B64), 12000, 15000, 18000, 21000].map fin))
        (fin (3602879701896397 / 36028797018963968)) 1
      = fin (-(1447821538555263 / 18014398509481984)) := by
  rw [newtonSeq, irr_test_seq_0, irr_test_step_0]

theorem irr_test_seq_2 :
    newtonSeq (fun rate => NetPresentValue rate ([(-70000 : B64), 12000, 15000, 18000, 21000].map
      fin))
        (fun rate => dNetPresentValue rate ([(-70000 : B64), 12000, 15000, 18000, 21000].map fin))
        (fin (3602879701896397 / 36028797018963968)) 2
      = fin (-(70314079780915 / 2251799813685248)) := by
  rw [newtonSeq, irr_test_seq_1, irr_test_step_1]

theorem irr_test_seq_3 :
    newtonSeq (fun rate => NetPresentValue rate ([(-70000 : B64), 12000, 15000, 18000, 21000].map
      fin))
        (fun rate => dNetPresentValue rate ([(-70000 : B64), 12000, 15000, 18000, 21000].map fin))
        (fin (3602879701896397 / 36028797018963968)) 3
      = fin (-(1553135076554957 / 72057594037927936)) := by
  rw [newtonSeq, irr_test_seq_2, irr_test_step_2]

theorem irr_test_seq_4 :
    newtonSeq (fun rate => NetPresentValue rate ([(-70000 : B64), 12000, 15000, 18000, 21000].map
      fin))
        (fun rate => dNetPresentValue rate ([(-70000 : B64), 12000, 15000, 18000, 21000].map fin))
        (fin (3602879701896397 / 36028797018963968)) 4
      = fin (-(6123497648771177 / 288230376151711744)) := by
  rw [newtonSeq, irr_test_seq_3, irr_test_step_3]

theorem irr_test_seq_5 :
    newtonSeq (fun rate => NetPresentValue rate ([(-70000 : B64), 12000, 15000, 18000, 21000].map
      fin))
        (fun rate => dNetPresentValue rate ([(-70000 : B64), 12000, 15000, 18000, 21000].map fin))
        (fin (3602879701896397 / 36028797018963968)) 5
      = fin (-(6123410609214361 / 288230376151711744)) := by
  rw [newtonSeq, irr_test_seq_4, irr_test_step_4]

/-- The constant `Precision` in binary64: the `float64` nearest to `1e-6`. -/
theorem precision_B64 :
    (Precision : F64 B64) = fin (4722366482869645 / 4722366482869645213696) :=
  B64.ofRat_eq _ _ (round64_cert _ _ (-20) (4722366482869645) (by norm_num) (by norm_num) (Or.inr
    (Or.inl (by norm_num))) ⟨by norm_num, by norm_num⟩ ⟨by norm_num, by norm_num⟩ ⟨by norm_num,
    by norm_num⟩)

theorem irr_test_conv_0 :
    ¬ stepConverges (fun rate => NetPresentValue rate ([(-70000 : B64), 12000, 15000, 18000,
      21000].map fin))
        (fun rate => dNetPresentValue rate ([(-70000 : B64), 12000, 15000, 18000, 21000].map fin))
        (fin (3602879701896397 / 36028797018963968)) 0 := by
  have hd : (fin (-(1447821538555263 / 18014398509481984)) - fin
    (3602879701896397 / 36028797018963968) : F64 B64)
      = fin (-(6498522779006923 / 36028797018963968)) :=
    B64.sub_eq _ _ _ (round64_of_dyadic _ _ (-6498522779006923) (-55) (by norm_num) (by norm_num)
      ⟨by norm_num, by norm_num⟩ (by norm_num) ⟨by norm_num, by norm_num⟩)
  unfold stepConverges
  rw [irr_test_seq_1, irr_test_seq_0, hd, F64.abs_fin, precision_B64, F64.lt_fin_fin,
    abs_of_neg (by norm_num), decide_eq_true_eq]
  norm_num

theorem irr_test_conv_1 :
    ¬ stepConverges (fun rate => NetPresentValue rate ([(-70000 : B64), 12000, 15000, 18000,
      21000].map fin))
        (fun rate => dNetPresentValue rate ([(-70000 : B64), 12000, 15000, 18000, 21000].map fin))
        (fin (3602879701896397 / 36028797018963968)) 1 := by
  have hd : (fin (-(70314079780915 / 2251799813685248)) - fin
    (-(1447821538555263 / 18014398509481984)) : F64 B64)
      = fin (885308900307943 / 18014398509481984) :=
    B64.sub_eq _ _ _ (round64_of_dyadic _ _ (885308900307943) (-54) (by norm_num) (by norm_num)
      ⟨by norm_num, by norm_num⟩ (by norm_num) ⟨by norm_num, by norm_num⟩)
  unfold stepConverges
  rw [irr_test_seq_2, irr_test_seq_1, hd, F64.abs_fin, precision_B64, F64.lt_fin_fin,
    abs_of_nonneg (by norm_num), decide_eq_true_eq]
  norm_num

theorem irr_test_conv_2 :
    ¬ stepConverges (fun rate => NetPresentValue rate ([(-70000 : B64), 12000, 15000, 18000,
      21000].map fin))
        (fun rate => dNetPresentValue rate ([(-70000 : B64), 12000, 15000, 18000, 21000].map fin))
        (fin (3602879701896397 / 36028797018963968)) 2 := by
  have hd : (fin (-(1553135076554957 / 72057594037927936)) - fin
    (-(70314079780915 / 2251799813685248)) : F64 B64)
      = fin (696915476434323 / 72057594037927936) :=
    B64.sub_eq _ _ _ (round64_of_dyadic _ _ (696915476434323) (-56) (by norm_num) (by norm_num)
      ⟨by norm_num, by norm_num⟩ (by norm_num) ⟨by norm_num, by norm_num⟩)
  unfold stepConverges
  rw [irr_test_seq_3, irr_test_seq_2, hd, F64.abs_fin, precision_B64, F64.lt_fin_fin,
    abs_of_nonneg (by norm_num), decide_eq_true_eq]
  norm_num

theorem irr_test_conv_3 :
    ¬ stepConverges (fun rate => NetPresentValue rate ([(-70000 : B64), 12000, 15000, 18000,
      21000].map fin))
        (fun rate => dNetPresentValue rate ([(-70000 : B64), 12000, 15000, 18000, 21000].map fin))
        (fin (3602879701896397 / 36028797018963968)) 3 := by
  have hd : (fin (-(6123497648771177 / 288230376151711744)) - fin
    (-(1553135076554957 / 72057594037927936)) : F64 B64)
      = fin (89042657448651 / 288230376151711744) :=
    B64.sub_eq _ _ _ (round64_of_dyadic _ _ (89042657448651) (-58) (by norm_num) (by norm_num)
      ⟨by norm_num, by norm_num⟩ (by norm_num) ⟨by norm_num, by norm_num⟩)
  unfold stepConverges
  rw [irr_test_seq_4, irr_test_seq_3, hd, F64.abs_fin, precision_B64, F64.lt_fin_fin,
    abs_of_nonneg (by norm_num), decide_eq_true_eq]
  norm_num

theorem irr_test_conv_4 :
    stepConverges (fun rate => NetPresentValue rate ([(-70000 : B64), 12000, 15000, 18000,
      21000].map fin))
        (fun rate => dNetPresentValue rate ([(-70000 : B64), 12000, 15000, 18000, 21000].map fin))
        (fin (3602879701896397 / 36028797018963968)) 4 := by
  have hd : (fin (-(6123410609214361 / 288230376151711744)) - fin
    (-(6123497648771177 / 288230376151711744)) : F64 B64)
      = fin (5439972301 / 18014398509481984) :=
    B64.sub_eq _ _ _ (round64_of_dyadic _ _ (5439972301) (-54) (by norm_num) (by norm_num)
      ⟨by norm_num, by norm_num⟩ (by norm_num) ⟨by norm_num, by norm_num⟩)
  unfold stepConverges
  rw [irr_test_seq_5, irr_test_seq_4, hd, F64.abs_fin, precision_B64, F64.lt_fin_fin,
    abs_of_nonneg (by norm_num), decide_eq_true_eq]
  norm_num

/-- In binary64, with a correctly rounded `math.Pow`, `InternalRateOfReturn` on the series of
the test and the guess `0.1` returns after 5 update steps the rate
`-0.02124484827369919`. -/
theorem irr_test_value :
    InternalRateOfReturn ([(-70000 : B64), 12000, 15000, 18000, 21000].map fin)
        (fin (3602879701896397 / 36028797018963968))
      = .ok (fin (-(6123410609214361 / 288230376151711744))) := by
  have hmm : minMaxSlice ([(-70000 : B64), 12000, 15000, 18000, 21000].map fin) = (fin (-70000),
    fin 21000) := by
    rw [minMaxSlice_fin]
    simp only [List.foldl_cons, List.foldl_nil, MaxFloat64]
    norm_num
  have hprod : (fin (-70000) * fin 21000 : F64 B64) = fin (-1470000000) :=
    B64.mul_eq _ _ _ (round64_of_dyadic _ _ (-1470000000) 0 (by norm_num) (by norm_num)
      ⟨by norm_num, by norm_num⟩ (by norm_num) ⟨by norm_num, by norm_num⟩)
  have hg : signGuard ([(-70000 : B64), 12000, 15000, 18000, 21000].map fin) = false := by
    unfold signGuard
    rw [hmm]
    simp only []
    rw [hprod, F64.le_fin_fin]
    simp only [decide_eq_false_iff_not, not_le]
    norm_num
  rw [irr_unfold, hg]
  simp only [Bool.false_eq_true, if_false]
  rw [newton_ok_of_first _ _ 4 _ 0 (by decide)
    (fun j hj => by
      have hj2 : j = 0 ∨ j = 1 ∨ j = 2 ∨ j = 3 := by omega
      rcases hj2 with rfl | rfl | rfl | rfl
      · exact irr_test_conv_0
      · exact irr_test_conv_1
      · exact irr_test_conv_2
      · exact irr_test_conv_3)
    irr_test_conv_4, irr_test_seq_5]

/-! ### Two runs of `InternalRateOfReturn` in binary64 that do not reach a root -/

/-- In binary64 the derivative of the net present value of `[-1, 1]` vanishes at the rate 1. -/
theorem dnpv_pm_one_B64 : dNetPresentValue (fin (1 : B64)) ([(-1 : B64), 1].map fin) = fin 0 := by
  have h1 : (F64.ofInt (-1) : F64 B64) = fin (-1) :=
    (B64.ofInt_eq (-1) ⟨by norm_num, by norm_num⟩).trans (congrArg F64.fin (by norm_num))
  have h2 : (fin (-1) * fin (-1) : F64 B64) = fin 1 :=
    B64.mul_eq _ _ _ (round64_of_dyadic _ _ (1) (0) (by norm_num) (by norm_num) ⟨by norm_num,
      by norm_num⟩ (by norm_num) ⟨by norm_num, by norm_num⟩)
  have h3 : (fin 1 + fin 1 : F64 B64) = fin 2 :=
    B64.add_eq _ _ _ (round64_of_dyadic _ _ (1) (1) (by norm_num) (by norm_num) ⟨by norm_num,
      by norm_num⟩ (by norm_num) ⟨by norm_num, by norm_num⟩)
  have h4 : (F64.powi (fin 2) 0 : F64 B64) = fin 1 :=
    F64.powi_zero _
  have h5 : (fin 1 * fin 1 : F64 B64) = fin 1 :=
    B64.mul_eq _ _ _ (round64_of_dyadic _ _ (1) (0) (by norm_num) (by norm_num) ⟨by norm_num,
      by norm_num⟩ (by norm_num) ⟨by norm_num, by norm_num⟩)
  have h6 : (F64.powi (fin 2) 2 : F64 B64) = fin 4 :=
    B64.powi_eq _ _ _ (by norm_num) (by norm_num) (by norm_num) (Or.inl (by norm_num))
      (round64_of_dyadic _ _ (1) (2) (by norm_num) (by norm_num) ⟨by norm_num, by norm_num⟩
      (by norm_num) ⟨by norm_num, by norm_num⟩)
  have h7 : (fin 1 / fin 4 : F64 B64) = fin (1 / 4) :=
    B64.div_eq _ _ _ (by norm_num) (round64_of_dyadic _ _ (1) (-2) (by norm_num) (by norm_num)
      ⟨by norm_num, by norm_num⟩ (by norm_num) ⟨by norm_num, by norm_num⟩)
  have h8 : (fin 0 + fin (1 / 4) : F64 B64) = fin (1 / 4) :=
    B64.add_eq _ _ _ (round64_of_dyadic _ _ (1) (-2) (by norm_num) (by norm_num) ⟨by norm_num,
      by norm_num⟩ (by norm_num) ⟨by norm_num, by norm_num⟩)
  have h9 : (F64.ofInt (-2) : F64 B64) = fin (-2) :=
    (B64.ofInt_eq (-2) ⟨by norm_num, by norm_num⟩).trans (congrArg F64.fin (by norm_num))
  have h10 : (fin 1 * fin (-2) : F64 B64) = fin (-2) :=
    B64.mul_eq _ _ _ (round64_of_dyadic _ _ (-1) (1) (by norm_num) (by norm_num) ⟨by norm_num,
      by norm_num⟩ (by norm_num) ⟨by norm_num, by norm_num⟩)
  have h11 : (F64.powi (fin 2) 1 : F64 B64) = fin 2 :=
    F64.powi_one _
  have h12 : (fin (-2) * fin 2 : F64 B64) = fin (-4) :=
    B64.mul_eq _ _ _ (round64_of_dyadic _ _ (-1) (2) (by norm_num) (by norm_num) ⟨by norm_num,
      by norm_num⟩ (by norm_num) ⟨by norm_num, by norm_num⟩)
  have h13 : (F64.powi (fin 2) 4 : F64 B64) = fin 16 :=
    B64.powi_eq _ _ _ (by norm_num) (by norm_num) (by norm_num) (Or.inl (by norm_num))
      (round64_of_dyadic _ _ (1) (4) (by norm_num) (by norm_num) ⟨by norm_num, by norm_num⟩
      (by norm_num) ⟨by norm_num, by norm_num⟩)
  have h14 : (fin (-4) / fin 16 : F64 B64) = fin (-(1 / 4)) :=
    B64.div_eq _ _ _ (by norm_num) (round64_of_dyadic _ _ (-1) (-2) (by norm_num) (by norm_num)
      ⟨by norm_num, by norm_num⟩ (by norm_num) ⟨by norm_num, by norm_num⟩)
  have h15 : (fin (1 / 4) + fin (-(1 / 4)) : F64 B64) = fin 0 :=
    B64.add_eq _ _ _ (round64_of_dyadic _ _ (0) (0) (by norm_num) (by norm_num) ⟨by norm_num,
      by norm_num⟩ (by norm_num) ⟨by norm_num, by norm_num⟩)
  simp only [List.map, dNetPresentValue, dNetPresentValue.loop, Int.reduceAdd, Int.reduceMul,
    Int.reduceSub, Int.reduceNeg]
  rw [h1, h2, h3, h4, h5, h6, h7, h8, h9, h10, h11, h12, h13, h14, h15]

theorem signGuard_pm_one_B64 : signGuard ([(-1 : B64), 1].map fin) = false := by
  have hmm : minMaxSlice ([(-1 : B64), 1].map fin) = (fin (-1), fin 1) := by
    rw [minMaxSlice_fin]
    simp only [List.foldl_cons, List.foldl_nil, MaxFloat64]
    norm_num
  have hprod : (fin (-1) * fin 1 : F64 B64) = fin (-1) :=
    B64.mul_eq _ _ _ (round64_of_dyadic _ _ (-1) 0 (by norm_num) (by norm_num)
      ⟨by norm_num, by norm_num⟩ (by norm_num) ⟨by norm_num, by norm_num⟩)
  unfold signGuard
  rw [hmm]
  simp only []
  rw [hprod, F64.le_fin_fin]
  simp only [decide_eq_false_iff_not, not_le]
  norm_num

/-- In binary64 `InternalRateOfReturn` on `[-1, 1]` with the guess 1 divides by a zero
derivative and returns the convergence error. -/
theorem irr_pm_one_B64 :
    InternalRateOfReturn ([(-1 : B64), 1].map fin) (fin 1) = .error .didNotConverge := by
  rw [irr_unfold, signGuard_pm_one_B64]
  exact newton_error_of_zero _ _ (fin 1) 0 0 (fun j hj => absurd hj (Nat.not_lt_zero j))
    dnpv_pm_one_B64

/-- The first update step of `InternalRateOfReturn` on `[-10000000, 10000000]` from the guess
`5e-7`, in binary64. -/
theorem irr_residual_step :
    newtonStep (fun rate => NetPresentValue rate ([(-10000000 : B64), 10000000].map fin))
        (fun rate => dNetPresentValue rate ([(-10000000 : B64), 10000000].map fin))
        (fin (4722366482869645 / 9444732965739290427392))
      = fin (-(2361494527 / 4722366482869645213696)) := by
  have h1 : (fin 1 + fin (4722366482869645 / 9444732965739290427392) : F64 B64) = fin
    (2251800939585155 / 2251799813685248) :=
    B64.add_eq _ _ _ (round64_cert _ _ (0) (4503601879170310) (by norm_num) (by norm_num) (Or.inr
      (Or.inl (by norm_num))) ⟨by norm_num, by norm_num⟩ ⟨by norm_num, by norm_num⟩ ⟨by norm_num,
      by norm_num⟩)
  have h2 : (F64.powi (fin (2251800939585155 / 2251799813685248)) 1 : F64 B64) = fin
    (2251800939585155 / 2251799813685248) :=
    F64.powi_one _
  have h3 : (fin (-10000000) / fin (2251800939585155 / 2251799813685248) : F64 B64) = fin
    (-(2684353217823391 / 268435456)) :=
    B64.div_eq _ _ _ (by norm_num) (round64_cert _ _ (23) (-5368706435646782) (by norm_num)
      (by norm_num) (Or.inr (Or.inr (by norm_num))) ⟨by norm_num, by norm_num⟩ ⟨by norm_num,
      by norm_num⟩ ⟨by norm_num, by norm_num⟩)
  have h4 : (fin 0 + fin (-(2684353217823391 / 268435456)) : F64 B64) = fin
    (-(2684353217823391 / 268435456)) :=
    B64.add_eq _ _ _ (round64_of_dyadic _ _ (-2684353217823391) (-28) (by norm_num) (by norm_num)
      ⟨by norm_num, by norm_num⟩ (by norm_num) ⟨by norm_num, by norm_num⟩)
  have h5 : (F64.powi (fin (2251800939585155 / 2251799813685248)) 2 : F64 B64) = fin
    (2251802065485625 / 2251799813685248) :=
    B64.powi_eq _ _ _ (by norm_num) (by norm_num) (by norm_num) (Or.inl (by norm_num))
      (round64_cert _ _ (0) (4503604130971250) (by norm_num) (by norm_num) (Or.inr (Or.inl
      (by norm_num))) ⟨by norm_num, by norm_num⟩ ⟨by norm_num, by norm_num⟩ ⟨by norm_num,
      by norm_num⟩)
  have h6 : (fin 10000000 / fin (2251802065485625 / 2251799813685248) : F64 B64) = fin
    (2684351875647453 / 268435456) :=
    B64.div_eq _ _ _ (by norm_num) (round64_cert _ _ (23) (5368703751294906) (by norm_num)
      (by norm_num) (Or.inr (Or.inl (by norm_num))) ⟨by norm_num, by norm_num⟩ ⟨by norm_num,
      by norm_num⟩ ⟨by norm_num, by norm_num⟩)
  have h7 : (fin (-(2684353217823391 / 268435456)) + fin (2684351875647453 / 268435456) : F64
    B64) = fin (-(671087969 / 134217728)) :=
    B64.add_eq _ _ _ (round64_of_dyadic _ _ (-671087969) (-27) (by norm_num) (by norm_num)
      ⟨by norm_num, by norm_num⟩ (by norm_num) ⟨by norm_num, by norm_num⟩)
  have h8 : (F64.ofInt (-1) : F64 B64) = fin (-1) :=
    (B64.ofInt_eq (-1) ⟨by norm_num, by norm_num⟩).trans (congrArg F64.fin (by norm_num))
  have h9 : (fin (-10000000) * fin (-1) : F64 B64) = fin 10000000 :=
    B64.mul_eq _ _ _ (round64_of_dyadic _ _ (78125) (7) (by norm_num) (by norm_num) ⟨by norm_num,
      by norm_num⟩ (by norm_num) ⟨by norm_num, by norm_num⟩)
  have h10 : (F64.powi (fin (2251800939585155 / 2251799813685248)) 0 : F64 B64) = fin 1 :=
    F64.powi_zero _
  have h11 : (fin 10000000 * fin 1 : F64 B64) = fin 10000000 :=
    B64.mul_eq _ _ _ (round64_of_dyadic _ _ (78125) (7) (by norm_num) (by norm_num) ⟨by norm_num,
      by norm_num⟩ (by norm_num) ⟨by norm_num, by norm_num⟩)
  have h12 : (fin 0 + fin (2684351875647453 / 268435456) : F64 B64) = fin
    (2684351875647453 / 268435456) :=
    B64.add_eq _ _ _ (round64_of_dyadic _ _ (2684351875647453) (-28) (by norm_num) (by norm_num)
      ⟨by norm_num, by norm_num⟩ (by norm_num) ⟨by norm_num, by norm_num⟩)
  have h13 : (F64.ofInt (-2) : F64 B64) = fin (-2) :=
    (B64.ofInt_eq (-2) ⟨by norm_num, by norm_num⟩).trans (congrArg F64.fin (by norm_num))
  have h14 : (fin 10000000 * fin (-2) : F64 B64) = fin (-20000000) :=
    B64.mul_eq _ _ _ (round64_of_dyadic _ _ (-78125) (8) (by norm_num) (by norm_num)
      ⟨by norm_num, by norm_num⟩ (by norm_num) ⟨by norm_num, by norm_num⟩)
  have h15 : (fin (-20000000) * fin (2251800939585155 / 2251799813685248) : F64 B64) = fin
    (-20000010) :=
    B64.mul_eq _ _ _ (round64_cert _ _ (24) (-5368711804354560) (by norm_num) (by norm_num)
      (Or.inr (Or.inr (by norm_num))) ⟨by norm_num, by norm_num⟩ ⟨by norm_num, by norm_num⟩
      ⟨by norm_num, by norm_num⟩)
  have h16 : (F64.powi (fin (2251800939585155 / 2251799813685248)) 4 : F64 B64) = fin
    (4503608634576507 / 4503599627370496) :=
    B64.powi_eq _ _ _ (by norm_num) (by norm_num) (by norm_num) (Or.inl (by norm_num))
      (round64_cert _ _ (0) (4503608634576507) (by norm_num) (by norm_num) (Or.inr (Or.inl
      (by norm_num))) ⟨by norm_num, by norm_num⟩ ⟨by norm_num, by norm_num⟩ ⟨by norm_num,
      by norm_num⟩)
  have h17 : (fin (-20000010) / fin (4503608634576507 / 4503599627370496) : F64 B64) = fin
    (-(1342175266736093 / 67108864)) :=
    B64.div_eq _ _ _ (by norm_num) (round64_cert _ _ (24) (-5368701066944372) (by norm_num)
      (by norm_num) (Or.inr (Or.inr (by norm_num))) ⟨by norm_num, by norm_num⟩ ⟨by norm_num,
      by norm_num⟩ ⟨by norm_num, by norm_num⟩)
  have h18 : (fin (2684351875647453 / 268435456) + fin (-(1342175266736093 / 67108864)) : F64
    B64) = fin (-(2684349191296919 / 268435456)) :=
    B64.add_eq _ _ _ (round64_of_dyadic _ _ (-2684349191296919) (-28) (by norm_num) (by norm_num)
      ⟨by norm_num, by norm_num⟩ (by norm_num) ⟨by norm_num, by norm_num⟩)
  have h19 : (fin (-(671087969 / 134217728)) / fin (-(2684349191296919 / 268435456)) : F64 B64)
    = fin (4722371205858699 / 9444732965739290427392) :=
    B64.div_eq _ _ _ (by norm_num) (round64_cert _ _ (-21) (4722371205858699) (by norm_num)
      (by norm_num) (Or.inr (Or.inl (by norm_num))) ⟨by norm_num, by norm_num⟩ ⟨by norm_num,
      by norm_num⟩ ⟨by norm_num, by norm_num⟩)
  have h20 : (fin (4722366482869645 / 9444732965739290427392) - fin
    (4722371205858699 / 9444732965739290427392) : F64 B64) = fin
    (-(2361494527 / 4722366482869645213696)) :=
    B64.sub_eq _ _ _ (round64_of_dyadic _ _ (-2361494527) (-72) (by norm_num) (by norm_num)
      ⟨by norm_num, by norm_num⟩ (by norm_num) ⟨by norm_num, by norm_num⟩)
  have hF : NetPresentValue (fin (4722366482869645 / 9444732965739290427392)) ([(-10000000 :
    B64), 10000000].map fin)
      = fin (-(671087969 / 134217728)) := by
    simp only [List.map, NetPresentValue, NetPresentValue.loop, Int.reduceAdd]
    rw [h1, h2, h3, h4, h5, h6, h7]
  have hD : dNetPresentValue (fin (4722366482869645 / 9444732965739290427392)) ([(-10000000 :
    B64), 10000000].map fin)
      = fin (-(2684349191296919 / 268435456)) := by
    simp only [List.map, dNetPresentValue, dNetPresentValue.loop, Int.reduceAdd, Int.reduceMul,
      Int.reduceSub, Int.reduceNeg]
    rw [h8, h9, h1, h10, h11, h5, h6, h12, h13, h14, h2, h15, h16, h17, h18]
  show fin (4722366482869645 / 9444732965739290427392) - NetPresentValue (fin
    (4722366482869645 / 9444732965739290427392)) ([(-10000000 : B64), 10000000].map fin)
      / dNetPresentValue (fin (4722366482869645 / 9444732965739290427392)) ([(-10000000 : B64),
        10000000].map fin) = _
  rw [hF, hD]
  rw [h19, h20]

/-- In binary64 `InternalRateOfReturn` on `[-10000000, 10000000]` with the guess `5e-7`
returns after one update step. -/
theorem irr_residual_value :
    InternalRateOfReturn ([(-10000000 : B64), 10000000].map fin)
        (fin (4722366482869645 / 9444732965739290427392))
      = .ok (fin (-(2361494527 / 4722366482869645213696))) := by
  have hmm : minMaxSlice ([(-10000000 : B64), 10000000].map fin) = (fin (-10000000), fin
    10000000) := by
    rw [minMaxSlice_fin]
    simp only [List.foldl_cons, List.foldl_nil, MaxFloat64]
    norm_num
  have hprod : (fin (-10000000) * fin 10000000 : F64 B64) = fin (-100000000000000) :=
    B64.mul_eq _ _ _ (round64_of_dyadic _ _ (-100000000000000) 0 (by norm_num) (by norm_num)
      ⟨by norm_num, by norm_num⟩ (by norm_num) ⟨by norm_num, by norm_num⟩)
  have hg : signGuard ([(-10000000 : B64), 10000000].map fin) = false := by
    unfold signGuard
    rw [hmm]
    simp only []
    rw [hprod, F64.le_fin_fin]
    simp only [decide_eq_false_iff_not, not_le]
    norm_num
  have hd : (fin (-(2361494527 / 4722366482869645213696)) - fin
    (4722366482869645 / 9444732965739290427392) : F64 B64)
      = fin (-(4722371205858699 / 9444732965739290427392)) :=
    B64.sub_eq _ _ _ (round64_of_dyadic _ _ (-4722371205858699) (-73) (by norm_num) (by norm_num)
      ⟨by norm_num, by norm_num⟩ (by norm_num) ⟨by norm_num, by norm_num⟩)
  have hconv : stepConverges (fun rate => NetPresentValue rate ([(-10000000 : B64), 10000000].map
    fin))
      (fun rate => dNetPresentValue rate ([(-10000000 : B64), 10000000].map fin))
      (fin (4722366482869645 / 9444732965739290427392)) 0 := by
    rw [stepConverges_zero, irr_residual_step, hd, F64.abs_fin, precision_B64, F64.lt_fin_fin,
      abs_of_neg (by norm_num), decide_eq_true_eq]
    norm_num
  rw [irr_unfold, hg]
  simp only [Bool.false_eq_true, if_false]
  rw [newton_ok_of_first _ _ 0 _ 0 (Nat.zero_le _) (fun j hj => absurd hj (Nat.not_lt_zero j))
    hconv]
  show Except.ok (newtonStep _ _ (fin _)) = _
  rw [irr_residual_step]

/-- The net present value of `[-10000000, 10000000]` at the rate `irr_residual_value`
returns, in binary64: about `5e-6`. -/
theorem irr_residual_npv :
    NetPresentValue (fin (-(2361494527 / 4722366482869645213696))) ([(-10000000 : B64),
      10000000].map fin)
      = fin (671 / 134217728) := by
  have h1 : (fin 1 + fin (-(2361494527 / 4722366482869645213696)) : F64 B64) = fin
    (1125899906842061 / 1125899906842624) :=
    B64.add_eq _ _ _ (round64_cert _ _ (-1) (9007199254736488) (by norm_num) (by norm_num)
      (Or.inr (Or.inl (by norm_num))) ⟨by norm_num, by norm_num⟩ ⟨by norm_num, by norm_num⟩
      ⟨by norm_num, by norm_num⟩)
  have h2 : (F64.powi (fin (1125899906842061 / 1125899906842624)) 1 : F64 B64) = fin
    (1125899906842061 / 1125899906842624) :=
    F64.powi_one _
  have h3 : (fin (-10000000) / fin (1125899906842061 / 1125899906842624) : F64 B64) = fin
    (-(5368709120002685 / 536870912)) :=
    B64.div_eq _ _ _ (by norm_num) (round64_cert _ _ (23) (-5368709120002685) (by norm_num)
      (by norm_num) (Or.inr (Or.inr (by norm_num))) ⟨by norm_num, by norm_num⟩ ⟨by norm_num,
      by norm_num⟩ ⟨by norm_num, by norm_num⟩)
  have h4 : (fin 0 + fin (-(5368709120002685 / 536870912)) : F64 B64) = fin
    (-(5368709120002685 / 536870912)) :=
    B64.add_eq _ _ _ (round64_of_dyadic _ _ (-5368709120002685) (-29) (by norm_num) (by norm_num)
      ⟨by norm_num, by norm_num⟩ (by norm_num) ⟨by norm_num, by norm_num⟩)
  have h5 : (F64.powi (fin (1125899906842061 / 1125899906842624)) 2 : F64 B64) = fin
    (562949953420749 / 562949953421312) :=
    B64.powi_eq _ _ _ (by norm_num) (by norm_num) (by norm_num) (Or.inl (by norm_num))
      (round64_cert _ _ (-1) (9007199254731984) (by norm_num) (by norm_num) (Or.inr (Or.inl
      (by norm_num))) ⟨by norm_num, by norm_num⟩ ⟨by norm_num, by norm_num⟩ ⟨by norm_num,
      by norm_num⟩)
  have h6 : (fin 10000000 / fin (562949953420749 / 562949953421312) : F64 B64) = fin
    (5368709120005369 / 536870912) :=
    B64.div_eq _ _ _ (by norm_num) (round64_cert _ _ (23) (5368709120005369) (by norm_num)
      (by norm_num) (Or.inr (Or.inl (by norm_num))) ⟨by norm_num, by norm_num⟩ ⟨by norm_num,
      by norm_num⟩ ⟨by norm_num, by norm_num⟩)
  have h7 : (fin (-(5368709120002685 / 536870912)) + fin (5368709120005369 / 536870912) : F64
    B64) = fin (671 / 134217728) :=
    B64.add_eq _ _ _ (round64_of_dyadic _ _ (671) (-27) (by norm_num) (by norm_num) ⟨by norm_num,
      by norm_num⟩ (by norm_num) ⟨by norm_num, by norm_num⟩)
  simp only [List.map, NetPresentValue, NetPresentValue.loop, Int.reduceAdd]
  rw [h1, h2, h3, h4, h5, h6, h7]

/-! ### Evaluations of the functions of `tvm.go` in binary64 -/

/-- In binary64, with a correctly rounded `math.Pow`, `Payment(0.1/12, 36, 8000, 0, PayEnd)`. -/
theorem payment_loan_test :
    Payment (fin ((4803839602528529 / 576460752303423488) : B64)) 36 (fin 8000) (fin 0) 0
      = (fin (-(4541202881951905 / 17592186044416)), none) := by
  have h1 : (-(fin 0) : F64 B64) = fin 0 :=
    (F64.neg_fin_any _).trans (congrArg F64.fin (by norm_num))
  have h2 : (fin 1 + fin (4803839602528529 / 576460752303423488) : F64 B64) = fin
    (2270564812132625 / 2251799813685248) :=
    B64.add_eq _ _ _ (round64_cert _ _ (0) (4541129624265250) (by norm_num) (by norm_num) (Or.inr
      (Or.inl (by norm_num))) ⟨by norm_num, by norm_num⟩ ⟨by norm_num, by norm_num⟩ ⟨by norm_num,
      by norm_num⟩)
  have h3 : (F64.powi (fin (2270564812132625 / 2251799813685248)) 36 : F64 B64) = fin
    (1517917810786275 / 1125899906842624) :=
    B64.powi_eq _ _ _ (by norm_num) (by norm_num) (by norm_num) (Or.inl (by norm_num))
      (round64_cert _ _ (0) (6071671243145100) (by norm_num) (by norm_num) (Or.inr (Or.inl
      (by norm_num))) ⟨by norm_num, by norm_num⟩ ⟨by norm_num, by norm_num⟩ ⟨by norm_num,
      by norm_num⟩)
  have h4 : (fin 8000 * fin (1517917810786275 / 1125899906842624) : F64 B64) = fin
    (5929366448383887 / 549755813888) :=
    B64.mul_eq _ _ _ (round64_cert _ _ (13) (5929366448383887) (by norm_num) (by norm_num)
      (Or.inr (Or.inl (by norm_num))) ⟨by norm_num, by norm_num⟩ ⟨by norm_num, by norm_num⟩
      ⟨by norm_num, by norm_num⟩)
  have h5 : (fin 0 - fin (5929366448383887 / 549755813888) : F64 B64) = fin
    (-(5929366448383887 / 549755813888)) :=
    B64.sub_eq _ _ _ (round64_of_dyadic _ _ (-5929366448383887) (-39) (by norm_num) (by norm_num)
      ⟨by norm_num, by norm_num⟩ (by norm_num) ⟨by norm_num, by norm_num⟩)
  have h6 : (F64.ofInt 0 : F64 B64) = fin 0 :=
    (B64.ofInt_eq 0 ⟨by norm_num, by norm_num⟩).trans (congrArg F64.fin (by norm_num))
  have h7 : (fin (4803839602528529 / 576460752303423488) * fin 0 : F64 B64) = fin 0 :=
    B64.mul_eq _ _ _ (round64_of_dyadic _ _ (0) (0) (by norm_num) (by norm_num) ⟨by norm_num,
      by norm_num⟩ (by norm_num) ⟨by norm_num, by norm_num⟩)
  have h8 : (fin 1 + fin 0 : F64 B64) = fin 1 :=
    B64.add_eq _ _ _ (round64_of_dyadic _ _ (1) (0) (by norm_num) (by norm_num) ⟨by norm_num,
      by norm_num⟩ (by norm_num) ⟨by norm_num, by norm_num⟩)
  have h9 : (fin (-(5929366448383887 / 549755813888)) / fin 1 : F64 B64) = fin
    (-(5929366448383887 / 549755813888)) :=
    B64.div_eq _ _ _ (by norm_num) (round64_of_dyadic _ _ (-5929366448383887) (-39) (by norm_num)
      (by norm_num) ⟨by norm_num, by norm_num⟩ (by norm_num) ⟨by norm_num, by norm_num⟩)
  have h10 : (fin (1517917810786275 / 1125899906842624) - fin 1 : F64 B64) = fin
    (392017903943651 / 1125899906842624) :=
    B64.sub_eq _ _ _ (round64_of_dyadic _ _ (392017903943651) (-50) (by norm_num) (by norm_num)
      ⟨by norm_num, by norm_num⟩ (by norm_num) ⟨by norm_num, by norm_num⟩)
  have h11 : (fin (392017903943651 / 1125899906842624) / fin
    (4803839602528529 / 576460752303423488) : F64 B64) = fin (5880268559154765 / 140737488355328)
    :=
    B64.div_eq _ _ _ (by norm_num) (round64_cert _ _ (5) (5880268559154765) (by norm_num)
      (by norm_num) (Or.inr (Or.inl (by norm_num))) ⟨by norm_num, by norm_num⟩ ⟨by norm_num,
      by norm_num⟩ ⟨by norm_num, by norm_num⟩)
  have h12 : (fin (-(5929366448383887 / 549755813888)) / fin (5880268559154765 / 140737488355328)
    : F64 B64) = fin (-(4541202881951905 / 17592186044416)) :=
    B64.div_eq _ _ _ (by norm_num) (round64_cert _ _ (8) (-4541202881951905) (by norm_num)
      (by norm_num) (Or.inr (Or.inr (by norm_num))) ⟨by norm_num, by norm_num⟩ ⟨by norm_num,
      by norm_num⟩ ⟨by norm_num, by norm_num⟩)
  simp only [Payment]
  rw [if_neg (by decide), if_neg (by decide), F64.eq_fin_zero, decide_eq_false (by norm_num),
    if_pos rfl]
  rw [h1, h2, h3, h4, h5, h6, h7, h8, h9, h10, h11, h12]

/-- In binary64, the interest and the principal of period 3 of the loan of `payment_loan_test`. -/
theorem interest_principal_loan_test :
    InterestPayment (fin ((4803839602528529 / 576460752303423488) : B64)) 3 36 (fin 8000) (fin 0)
      0
        = (fin (-(8931509165112539 / 140737488355328)), none)
      ∧ PrincipalPayment (fin ((4803839602528529 / 576460752303423488) : B64)) 3 36 (fin 8000)
        (fin 0) 0
        = (fin (-(6849528472625675 / 35184372088832)), none) := by
  have h1 : (-(fin 8000) : F64 B64) = fin (-8000) :=
    (F64.neg_fin_any _).trans (congrArg F64.fin (by norm_num))
  have h2 : (fin (-8000) * fin (4803839602528529 / 576460752303423488) : F64 B64) = fin
    (-(4691249611844267 / 70368744177664)) :=
    B64.mul_eq _ _ _ (round64_cert _ _ (6) (-4691249611844267) (by norm_num) (by norm_num)
      (Or.inr (Or.inr (by norm_num))) ⟨by norm_num, by norm_num⟩ ⟨by norm_num, by norm_num⟩
      ⟨by norm_num, by norm_num⟩)
  have h3 : (fin (-(4541202881951905 / 17592186044416)) - fin
    (-(4691249611844267 / 70368744177664)) : F64 B64) = fin (-(1684195239495419 / 8796093022208))
    :=
    B64.sub_eq _ _ _ (round64_cert_tie _ _ (7) (-6736780957981676) (by norm_num) (by norm_num)
      (Or.inr (Or.inr (by norm_num))) ⟨by norm_num, by norm_num⟩ (by decide) (Or.inl
      (by norm_num)) ⟨by norm_num, by norm_num⟩)
  have h4 : (fin 8000 + fin (-(1684195239495419 / 8796093022208)) : F64 B64) = fin
    (8585568617271073 / 1099511627776) :=
    B64.add_eq _ _ _ (round64_cert _ _ (12) (8585568617271073) (by norm_num) (by norm_num)
      (Or.inr (Or.inl (by norm_num))) ⟨by norm_num, by norm_num⟩ ⟨by norm_num, by norm_num⟩
      ⟨by norm_num, by norm_num⟩)
  have h5 : (-(fin (8585568617271073 / 1099511627776)) : F64 B64) = fin
    (-(8585568617271073 / 1099511627776)) :=
    (F64.neg_fin_any _).trans (congrArg F64.fin (by norm_num))
  have h6 : (fin (-(8585568617271073 / 1099511627776)) * fin
    (4803839602528529 / 576460752303423488) : F64 B64) = fin
    (-(4578969929211239 / 70368744177664)) :=
    B64.mul_eq _ _ _ (round64_cert _ _ (6) (-4578969929211239) (by norm_num) (by norm_num)
      (Or.inr (Or.inr (by norm_num))) ⟨by norm_num, by norm_num⟩ ⟨by norm_num, by norm_num⟩
      ⟨by norm_num, by norm_num⟩)
  have h7 : (fin (-(4541202881951905 / 17592186044416)) - fin
    (-(4578969929211239 / 70368744177664)) : F64 B64) = fin
    (-(3396460399649095 / 17592186044416)) :=
    B64.sub_eq _ _ _ (round64_cert_tie _ _ (7) (-6792920799298190) (by norm_num) (by norm_num)
      (Or.inr (Or.inr (by norm_num))) ⟨by norm_num, by norm_num⟩ (by decide) (Or.inl
      (by norm_num)) ⟨by norm_num, by norm_num⟩)
  have h8 : (fin (8585568617271073 / 1099511627776) + fin (-(3396460399649095 / 17592186044416))
    : F64 B64) = fin (8373289842293005 / 1099511627776) :=
    B64.add_eq _ _ _ (round64_cert _ _ (12) (8373289842293005) (by norm_num) (by norm_num)
      (Or.inr (Or.inl (by norm_num))) ⟨by norm_num, by norm_num⟩ ⟨by norm_num, by norm_num⟩
      ⟨by norm_num, by norm_num⟩)
  have h9 : (-(fin (8373289842293005 / 1099511627776)) : F64 B64) = fin
    (-(8373289842293005 / 1099511627776)) :=
    (F64.neg_fin_any _).trans (congrArg F64.fin (by norm_num))
  have h10 : (fin (-(8373289842293005 / 1099511627776)) * fin
    (4803839602528529 / 576460752303423488) : F64 B64) = fin
    (-(8931509165112539 / 140737488355328)) :=
    B64.mul_eq _ _ _ (round64_cert _ _ (5) (-8931509165112539) (by norm_num) (by norm_num)
      (Or.inr (Or.inr (by norm_num))) ⟨by norm_num, by norm_num⟩ ⟨by norm_num, by norm_num⟩
      ⟨by norm_num, by norm_num⟩)
  have h11 : (fin (-(4541202881951905 / 17592186044416)) - fin
    (-(8931509165112539 / 140737488355328)) : F64 B64) = fin
    (-(6849528472625675 / 35184372088832)) :=
    B64.sub_eq _ _ _ (round64_cert _ _ (7) (-6849528472625675) (by norm_num) (by norm_num)
      (Or.inr (Or.inr (by norm_num))) ⟨by norm_num, by norm_num⟩ ⟨by norm_num, by norm_num⟩
      ⟨by norm_num, by norm_num⟩)
  have hn : (3 : Int).toNat = 0 + 1 + 1 + 1 := rfl
  have hl : interestAndPrincipal.loop (fin ((4803839602528529 / 576460752303423488) : B64))
      (fin (-(4541202881951905 / 17592186044416))) 0 (0 + 1 + 1 + 1) 1 (fin 8000) (fin 0) (fin 0)
      = (fin (-(8931509165112539 / 140737488355328)),
          fin (-(6849528472625675 / 35184372088832))) := by
    simp only [interestAndPrincipal.loop, Int.reduceAdd, Int.reduceEq, false_and, if_false]
    rw [h1, h2, h3, h4, h5, h6, h7, h8, h9, h10, h11]
  constructor
  · rw [interestPayment_eq (fin ((4803839602528529 / 576460752303423488) : B64)) (fin 8000) (fin
    0) 3 36 0
      (by decide) (Or.inl rfl), payment_loan_test, hn]
    exact congrArg (fun v => (v.1, (none : Option Err))) hl
  · rw [principalPayment_eq (fin ((4803839602528529 / 576460752303423488) : B64)) (fin 8000) (fin
    0) 3 36 0
      (by decide) (Or.inl rfl), payment_loan_test, hn]
    exact congrArg (fun v => (v.2, (none : Option Err))) hl

/-- In binary64, `Payment(0.5, 2, 1, 0, PayEnd)`, the `float64` `-0.9`. -/
theorem payment_half :
    Payment (fin ((1 / 2) : B64)) 2 (fin 1) (fin 0) 0
      = (fin (-(8106479329266893 / 9007199254740992)), none) := by
  have h1 : (-(fin 0) : F64 B64) = fin 0 :=
    (F64.neg_fin_any _).trans (congrArg F64.fin (by norm_num))
  have h2 : (fin 1 + fin (1 / 2) : F64 B64) = fin (3 / 2) :=
    B64.add_eq _ _ _ (round64_of_dyadic _ _ (3) (-1) (by norm_num) (by norm_num) ⟨by norm_num,
      by norm_num⟩ (by norm_num) ⟨by norm_num, by norm_num⟩)
  have h3 : (F64.powi (fin (3 / 2)) 2 : F64 B64) = fin (9 / 4) :=
    B64.powi_eq _ _ _ (by norm_num) (by norm_num) (by norm_num) (Or.inl (by norm_num))
      (round64_of_dyadic _ _ (9) (-2) (by norm_num) (by norm_num) ⟨by norm_num, by norm_num⟩
      (by norm_num) ⟨by norm_num, by norm_num⟩)
  have h4 : (fin 1 * fin (9 / 4) : F64 B64) = fin (9 / 4) :=
    B64.mul_eq _ _ _ (round64_of_dyadic _ _ (9) (-2) (by norm_num) (by norm_num) ⟨by norm_num,
      by norm_num⟩ (by norm_num) ⟨by norm_num, by norm_num⟩)
  have h5 : (fin 0 - fin (9 / 4) : F64 B64) = fin (-(9 / 4)) :=
    B64.sub_eq _ _ _ (round64_of_dyadic _ _ (-9) (-2) (by norm_num) (by norm_num) ⟨by norm_num,
      by norm_num⟩ (by norm_num) ⟨by norm_num, by norm_num⟩)
  have h6 : (F64.ofInt 0 : F64 B64) = fin 0 :=
    (B64.ofInt_eq 0 ⟨by norm_num, by norm_num⟩).trans (congrArg F64.fin (by norm_num))
  have h7 : (fin (1 / 2) * fin 0 : F64 B64) = fin 0 :=
    B64.mul_eq _ _ _ (round64_of_dyadic _ _ (0) (0) (by norm_num) (by norm_num) ⟨by norm_num,
      by norm_num⟩ (by norm_num) ⟨by norm_num, by norm_num⟩)
  have h8 : (fin 1 + fin 0 : F64 B64) = fin 1 :=
    B64.add_eq _ _ _ (round64_of_dyadic _ _ (1) (0) (by norm_num) (by norm_num) ⟨by norm_num,
      by norm_num⟩ (by norm_num) ⟨by norm_num, by norm_num⟩)
  have h9 : (fin (-(9 / 4)) / fin 1 : F64 B64) = fin (-(9 / 4)) :=
    B64.div_eq _ _ _ (by norm_num) (round64_of_dyadic _ _ (-9) (-2) (by norm_num) (by norm_num)
      ⟨by norm_num, by norm_num⟩ (by norm_num) ⟨by norm_num, by norm_num⟩)
  have h10 : (fin (9 / 4) - fin 1 : F64 B64) = fin (5 / 4) :=
    B64.sub_eq _ _ _ (round64_of_dyadic _ _ (5) (-2) (by norm_num) (by norm_num) ⟨by norm_num,
      by norm_num⟩ (by norm_num) ⟨by norm_num, by norm_num⟩)
  have h11 : (fin (5 / 4) / fin (1 / 2) : F64 B64) = fin (5 / 2) :=
    B64.div_eq _ _ _ (by norm_num) (round64_of_dyadic _ _ (5) (-1) (by norm_num) (by norm_num)
      ⟨by norm_num, by norm_num⟩ (by norm_num) ⟨by norm_num, by norm_num⟩)
  have h12 : (fin (-(9 / 4)) / fin (5 / 2) : F64 B64) = fin
    (-(8106479329266893 / 9007199254740992)) :=
    B64.div_eq _ _ _ (by norm_num) (round64_cert _ _ (-1) (-8106479329266893) (by norm_num)
      (by norm_num) (Or.inr (Or.inr (by norm_num))) ⟨by norm_num, by norm_num⟩ ⟨by norm_num,
      by norm_num⟩ ⟨by norm_num, by norm_num⟩)
  simp only [Payment]
  rw [if_neg (by decide), if_neg (by decide), F64.eq_fin_zero, decide_eq_false (by norm_num),
    if_pos rfl]
  rw [h1, h2, h3, h4, h5, h6, h7, h8, h9, h10, h11, h12]

/-- In binary64, the interest and the principal of period 2 of the loan of `payment_half`: the
  `float64` numbers `-0.3` and `-0.6000000000000001`. -/
theorem interest_principal_half :
    InterestPayment (fin ((1 / 2) : B64)) 2 2 (fin 1) (fin 0) 0
        = (fin (-(5404319552844595 / 18014398509481984)), none)
      ∧ PrincipalPayment (fin ((1 / 2) : B64)) 2 2 (fin 1) (fin 0) 0
        = (fin (-(1351079888211149 / 2251799813685248)), none) := by
  have h1 : (-(fin 1) : F64 B64) = fin (-1) :=
    (F64.neg_fin_any _).trans (congrArg F64.fin (by norm_num))
  have h2 : (fin (-1) * fin (1 / 2) : F64 B64) = fin (-(1 / 2)) :=
    B64.mul_eq _ _ _ (round64_of_dyadic _ _ (-1) (-1) (by norm_num) (by norm_num) ⟨by norm_num,
      by norm_num⟩ (by norm_num) ⟨by norm_num, by norm_num⟩)
  have h3 : (fin (-(8106479329266893 / 9007199254740992)) - fin (-(1 / 2)) : F64 B64) = fin
    (-(3602879701896397 / 9007199254740992)) :=
    B64.sub_eq _ _ _ (round64_of_dyadic _ _ (-3602879701896397) (-53) (by norm_num) (by norm_num)
      ⟨by norm_num, by norm_num⟩ (by norm_num) ⟨by norm_num, by norm_num⟩)
  have h4 : (fin 1 + fin (-(3602879701896397 / 9007199254740992)) : F64 B64) = fin
    (5404319552844595 / 9007199254740992) :=
    B64.add_eq _ _ _ (round64_of_dyadic _ _ (5404319552844595) (-53) (by norm_num) (by norm_num)
      ⟨by norm_num, by norm_num⟩ (by norm_num) ⟨by norm_num, by norm_num⟩)
  have h5 : (-(fin (5404319552844595 / 9007199254740992)) : F64 B64) = fin
    (-(5404319552844595 / 9007199254740992)) :=
    (F64.neg_fin_any _).trans (congrArg F64.fin (by norm_num))
  have h6 : (fin (-(5404319552844595 / 9007199254740992)) * fin (1 / 2) : F64 B64) = fin
    (-(5404319552844595 / 18014398509481984)) :=
    B64.mul_eq _ _ _ (round64_of_dyadic _ _ (-5404319552844595) (-54) (by norm_num) (by norm_num)
      ⟨by norm_num, by norm_num⟩ (by norm_num) ⟨by norm_num, by norm_num⟩)
  have h7 : (fin (-(8106479329266893 / 9007199254740992)) - fin
    (-(5404319552844595 / 18014398509481984)) : F64 B64) = fin
    (-(1351079888211149 / 2251799813685248)) :=
    B64.sub_eq _ _ _ (round64_cert_tie _ _ (-1) (-5404319552844596) (by norm_num) (by norm_num)
      (Or.inr (Or.inr (by norm_num))) ⟨by norm_num, by norm_num⟩ (by decide) (Or.inr
      (by norm_num)) ⟨by norm_num, by norm_num⟩)
  have hn : (2 : Int).toNat = 0 + 1 + 1 := rfl
  have hl : interestAndPrincipal.loop (fin ((1 / 2) : B64))
      (fin (-(8106479329266893 / 9007199254740992))) 0 (0 + 1 + 1) 1 (fin 1) (fin 0) (fin 0)
      = (fin (-(5404319552844595 / 18014398509481984)),
          fin (-(1351079888211149 / 2251799813685248))) := by
    simp only [interestAndPrincipal.loop, Int.reduceAdd, Int.reduceEq, false_and, if_false]
    rw [h1, h2, h3, h4, h5, h6, h7]
  constructor
  · rw [interestPayment_eq (fin ((1 / 2) : B64)) (fin 1) (fin 0) 2 2 0
      (by decide) (Or.inl rfl), payment_half, hn]
    exact congrArg (fun v => (v.1, (none : Option Err))) hl
  · rw [principalPayment_eq (fin ((1 / 2) : B64)) (fin 1) (fin 0) 2 2 0
      (by decide) (Or.inl rfl), payment_half, hn]
    exact congrArg (fun v => (v.2, (none : Option Err))) hl

/-- In binary64 the interest and the principal of `interest_principal_half` add up to the
`float64` `-0.9000000000000001`, not to the payment. -/
theorem interest_plus_principal_half :
    (fin (-(5404319552844595 / 18014398509481984)) + fin (-(1351079888211149 / 2251799813685248))
      : F64 B64)
      = fin (-(4053239664633447 / 4503599627370496)) :=
  B64.add_eq _ _ _ (round64_cert_tie _ _ (-1) (-8106479329266894) (by norm_num) (by norm_num)
    (Or.inr (Or.inr (by norm_num))) ⟨by norm_num, by norm_num⟩ (by decide) (Or.inr (by norm_num))
    ⟨by norm_num, by norm_num⟩)

/-! ### Evaluations of `DepreciationFixedDeclining` in binary64 -/

/-- In binary64, for `cost = 8`, `salvage = 2`, `life = 2` and `math.Pow(0.25, 0.5) = 0.5`, the
  rate is `round(0.5, 3) = 0.5`. -/
theorem dfd_rate_dyadic :
    (round (fin 1 - ((fun b e => if b = fin (1 / 4) ∧ e = fin (1 / 2) then fin (1 / 2) else nan)
      : F64 B64 → F64 B64 → F64 B64)
        (fin 2 / fin 8) (fin 1 / ofInt 2)) 3 : F64 B64) = fin (1 / 2) := by
  have h1 : (fin 2 / fin 8 : F64 B64) = fin (1 / 4) :=
    B64.div_eq _ _ _ (by norm_num) (round64_of_dyadic _ _ (1) (-2) (by norm_num) (by norm_num)
      ⟨by norm_num, by norm_num⟩ (by norm_num) ⟨by norm_num, by norm_num⟩)
  have h2 : (F64.ofInt 2 : F64 B64) = fin 2 :=
    (B64.ofInt_eq 2 ⟨by norm_num, by norm_num⟩).trans (congrArg F64.fin (by norm_num))
  have h3 : (fin 1 / fin 2 : F64 B64) = fin (1 / 2) :=
    B64.div_eq _ _ _ (by norm_num) (round64_of_dyadic _ _ (1) (-1) (by norm_num) (by norm_num)
      ⟨by norm_num, by norm_num⟩ (by norm_num) ⟨by norm_num, by norm_num⟩)
  have h4 : (fin 1 - fin (1 / 2) : F64 B64) = fin (1 / 2) :=
    B64.sub_eq _ _ _ (round64_of_dyadic _ _ (1) (-1) (by norm_num) (by norm_num) ⟨by norm_num,
      by norm_num⟩ (by norm_num) ⟨by norm_num, by norm_num⟩)
  have h5 : (F64.powi (fin 10) 3 : F64 B64) = fin 1000 :=
    B64.powi_eq _ _ _ (by norm_num) (by norm_num) (by norm_num) (Or.inl (by norm_num))
      (round64_of_dyadic _ _ (125) (3) (by norm_num) (by norm_num) ⟨by norm_num, by norm_num⟩
      (by norm_num) ⟨by norm_num, by norm_num⟩)
  have h6 : (fin (1 / 2) * fin 1000 : F64 B64) = fin 500 :=
    B64.mul_eq _ _ _ (round64_of_dyadic _ _ (125) (2) (by norm_num) (by norm_num) ⟨by norm_num,
      by norm_num⟩ (by norm_num) ⟨by norm_num, by norm_num⟩)
  have h7 : (F64.modfFrac (fin 500) : F64 B64) = fin 0 :=
    (B64.modfFrac_nonneg _ 500 (by norm_num) (by norm_num) (by norm_num)).trans (congrArg F64.fin
      (by norm_num))
  have h8 : (F64.floor (fin 500) : F64 B64) = fin 500 :=
    (B64.floor_eq _ 500 (by norm_num) (by norm_num)).trans (congrArg F64.fin (by norm_num))
  have h9 : (fin 500 / fin 1000 : F64 B64) = fin (1 / 2) :=
    B64.div_eq _ _ _ (by norm_num) (round64_of_dyadic _ _ (1) (-1) (by norm_num) (by norm_num)
      ⟨by norm_num, by norm_num⟩ (by norm_num) ⟨by norm_num, by norm_num⟩)
  have h10 : (fin (1 / 2) * fin 1 : F64 B64) = fin (1 / 2) :=
    B64.mul_eq _ _ _ (round64_of_dyadic _ _ (1) (-1) (by norm_num) (by norm_num) ⟨by norm_num,
      by norm_num⟩ (by norm_num) ⟨by norm_num, by norm_num⟩)
  rw [h1, h2, h3]
  simp only [and_self, if_true]
  rw [h4]
  unfold round
  simp only [if_neg (not_lt.2 (by norm_num : (0 : B64) ≤ (1 / 2)))]
  rw [h5, h6, h7, F64.le_fin_fin,
    if_neg (by rw [decide_eq_true_eq]; norm_num), h8, h9, h10]

/-- The depreciation of period 1 for `(8, 2, 2, 1, 6)`, in binary64. -/
theorem dfd_value_dyadic_1 :
    DepreciationFixedDeclining (fun b e => if b = fin (1 / 4) ∧ e = fin (1 / 2) then fin (1 / 2)
      else nan)
        (fin (8 : B64)) (fin 2) 2 1 6
      = (fin 2, none) := by
  have h1 : (fin 8 * fin (1 / 2) : F64 B64) = fin 4 :=
    B64.mul_eq _ _ _ (round64_of_dyadic _ _ (1) (2) (by norm_num) (by norm_num) ⟨by norm_num,
      by norm_num⟩ (by norm_num) ⟨by norm_num, by norm_num⟩)
  have h2 : (F64.ofInt 6 : F64 B64) = fin 6 :=
    (B64.ofInt_eq 6 ⟨by norm_num, by norm_num⟩).trans (congrArg F64.fin (by norm_num))
  have h3 : (fin 4 * fin 6 : F64 B64) = fin 24 :=
    B64.mul_eq _ _ _ (round64_of_dyadic _ _ (3) (3) (by norm_num) (by norm_num) ⟨by norm_num,
      by norm_num⟩ (by norm_num) ⟨by norm_num, by norm_num⟩)
  have h4 : (fin 24 / fin 12 : F64 B64) = fin 2 :=
    B64.div_eq _ _ _ (by norm_num) (round64_of_dyadic _ _ (1) (1) (by norm_num) (by norm_num)
      ⟨by norm_num, by norm_num⟩ (by norm_num) ⟨by norm_num, by norm_num⟩)
  have hc : ¬ (F64.lt (fin (8 : B64)) (fin 0) = true ∨ (2 : Int) < 0) := by
    rintro (h | h)
    · rw [F64.lt_fin_fin, decide_eq_true_eq] at h
      norm_num at h
    · exact absurd h (by decide)
  have hn : (1 : Int).toNat = 0 + 1 := rfl
  simp only [DepreciationFixedDeclining]
  rw [if_neg hc, if_neg (by decide), dfd_rate_dyadic, hn]
  simp only [DepreciationFixedDeclining.loop, Int.reduceAdd, Int.reduceEq, if_true, if_false]
  rw [h1, h2, h3, h4]

/-- The depreciation of period 2 for `(8, 2, 2, 2, 6)`, in binary64. -/
theorem dfd_value_dyadic_2 :
    DepreciationFixedDeclining (fun b e => if b = fin (1 / 4) ∧ e = fin (1 / 2) then fin (1 / 2)
      else nan)
        (fin (8 : B64)) (fin 2) 2 2 6
      = (fin 3, none) := by
  have h1 : (fin 8 * fin (1 / 2) : F64 B64) = fin 4 :=
    B64.mul_eq _ _ _ (round64_of_dyadic _ _ (1) (2) (by norm_num) (by norm_num) ⟨by norm_num,
      by norm_num⟩ (by norm_num) ⟨by norm_num, by norm_num⟩)
  have h2 : (F64.ofInt 6 : F64 B64) = fin 6 :=
    (B64.ofInt_eq 6 ⟨by norm_num, by norm_num⟩).trans (congrArg F64.fin (by norm_num))
  have h3 : (fin 4 * fin 6 : F64 B64) = fin 24 :=
    B64.mul_eq _ _ _ (round64_of_dyadic _ _ (3) (3) (by norm_num) (by norm_num) ⟨by norm_num,
      by norm_num⟩ (by norm_num) ⟨by norm_num, by norm_num⟩)
  have h4 : (fin 24 / fin 12 : F64 B64) = fin 2 :=
    B64.div_eq _ _ _ (by norm_num) (round64_of_dyadic _ _ (1) (1) (by norm_num) (by norm_num)
      ⟨by norm_num, by norm_num⟩ (by norm_num) ⟨by norm_num, by norm_num⟩)
  have h5 : (fin 0 + fin 2 : F64 B64) = fin 2 :=
    B64.add_eq _ _ _ (round64_of_dyadic _ _ (1) (1) (by norm_num) (by norm_num) ⟨by norm_num,
      by norm_num⟩ (by norm_num) ⟨by norm_num, by norm_num⟩)
  have h6 : (fin 8 - fin 2 : F64 B64) = fin 6 :=
    B64.sub_eq _ _ _ (round64_of_dyadic _ _ (3) (1) (by norm_num) (by norm_num) ⟨by norm_num,
      by norm_num⟩ (by norm_num) ⟨by norm_num, by norm_num⟩)
  have h7 : (fin 6 * fin (1 / 2) : F64 B64) = fin 3 :=
    B64.mul_eq _ _ _ (round64_of_dyadic _ _ (3) (0) (by norm_num) (by norm_num) ⟨by norm_num,
      by norm_num⟩ (by norm_num) ⟨by norm_num, by norm_num⟩)
  have hc : ¬ (F64.lt (fin (8 : B64)) (fin 0) = true ∨ (2 : Int) < 0) := by
    rintro (h | h)
    · rw [F64.lt_fin_fin, decide_eq_true_eq] at h
      norm_num at h
    · exact absurd h (by decide)
  have hn : (2 : Int).toNat = 0 + 1 + 1 := rfl
  simp only [DepreciationFixedDeclining]
  rw [if_neg hc, if_neg (by decide), dfd_rate_dyadic, hn]
  simp only [DepreciationFixedDeclining.loop, Int.reduceAdd, Int.reduceEq, if_true, if_false]
  rw [h1, h2, h3, h4, h5, h6, h7]

/-- The depreciation of period 3 for `(8, 2, 2, 3, 6)`, in binary64. -/
theorem dfd_value_dyadic_3 :
    DepreciationFixedDeclining (fun b e => if b = fin (1 / 4) ∧ e = fin (1 / 2) then fin (1 / 2)
      else nan)
        (fin (8 : B64)) (fin 2) 2 3 6
      = (fin (3 / 4), none) := by
  have h1 : (fin 8 * fin (1 / 2) : F64 B64) = fin 4 :=
    B64.mul_eq _ _ _ (round64_of_dyadic _ _ (1) (2) (by norm_num) (by norm_num) ⟨by norm_num,
      by norm_num⟩ (by norm_num) ⟨by norm_num, by norm_num⟩)
  have h2 : (F64.ofInt 6 : F64 B64) = fin 6 :=
    (B64.ofInt_eq 6 ⟨by norm_num, by norm_num⟩).trans (congrArg F64.fin (by norm_num))
  have h3 : (fin 4 * fin 6 : F64 B64) = fin 24 :=
    B64.mul_eq _ _ _ (round64_of_dyadic _ _ (3) (3) (by norm_num) (by norm_num) ⟨by norm_num,
      by norm_num⟩ (by norm_num) ⟨by norm_num, by norm_num⟩)
  have h4 : (fin 24 / fin 12 : F64 B64) = fin 2 :=
    B64.div_eq _ _ _ (by norm_num) (round64_of_dyadic _ _ (1) (1) (by norm_num) (by norm_num)
      ⟨by norm_num, by norm_num⟩ (by norm_num) ⟨by norm_num, by norm_num⟩)
  have h5 : (fin 0 + fin 2 : F64 B64) = fin 2 :=
    B64.add_eq _ _ _ (round64_of_dyadic _ _ (1) (1) (by norm_num) (by norm_num) ⟨by norm_num,
      by norm_num⟩ (by norm_num) ⟨by norm_num, by norm_num⟩)
  have h6 : (fin 8 - fin 2 : F64 B64) = fin 6 :=
    B64.sub_eq _ _ _ (round64_of_dyadic _ _ (3) (1) (by norm_num) (by norm_num) ⟨by norm_num,
      by norm_num⟩ (by norm_num) ⟨by norm_num, by norm_num⟩)
  have h7 : (fin 6 * fin (1 / 2) : F64 B64) = fin 3 :=
    B64.mul_eq _ _ _ (round64_of_dyadic _ _ (3) (0) (by norm_num) (by norm_num) ⟨by norm_num,
      by norm_num⟩ (by norm_num) ⟨by norm_num, by norm_num⟩)
  have h8 : (fin 2 + fin 3 : F64 B64) = fin 5 :=
    B64.add_eq _ _ _ (round64_of_dyadic _ _ (5) (0) (by norm_num) (by norm_num) ⟨by norm_num,
      by norm_num⟩ (by norm_num) ⟨by norm_num, by norm_num⟩)
  have h9 : (fin 8 - fin 5 : F64 B64) = fin 3 :=
    B64.sub_eq _ _ _ (round64_of_dyadic _ _ (3) (0) (by norm_num) (by norm_num) ⟨by norm_num,
      by norm_num⟩ (by norm_num) ⟨by norm_num, by norm_num⟩)
  have h10 : (fin 3 * fin (1 / 2) : F64 B64) = fin (3 / 2) :=
    B64.mul_eq _ _ _ (round64_of_dyadic _ _ (3) (-1) (by norm_num) (by norm_num) ⟨by norm_num,
      by norm_num⟩ (by norm_num) ⟨by norm_num, by norm_num⟩)
  have h11 : (fin 12 - fin 6 : F64 B64) = fin 6 :=
    B64.sub_eq _ _ _ (round64_of_dyadic _ _ (3) (1) (by norm_num) (by norm_num) ⟨by norm_num,
      by norm_num⟩ (by norm_num) ⟨by norm_num, by norm_num⟩)
  have h12 : (fin (3 / 2) * fin 6 : F64 B64) = fin 9 :=
    B64.mul_eq _ _ _ (round64_of_dyadic _ _ (9) (0) (by norm_num) (by norm_num) ⟨by norm_num,
      by norm_num⟩ (by norm_num) ⟨by norm_num, by norm_num⟩)
  have h13 : (fin 9 / fin 12 : F64 B64) = fin (3 / 4) :=
    B64.div_eq _ _ _ (by norm_num) (round64_of_dyadic _ _ (3) (-2) (by norm_num) (by norm_num)
      ⟨by norm_num, by norm_num⟩ (by norm_num) ⟨by norm_num, by norm_num⟩)
  have hc : ¬ (F64.lt (fin (8 : B64)) (fin 0) = true ∨ (2 : Int) < 0) := by
    rintro (h | h)
    · rw [F64.lt_fin_fin, decide_eq_true_eq] at h
      norm_num at h
    · exact absurd h (by decide)
  have hn : (3 : Int).toNat = 0 + 1 + 1 + 1 := rfl
  simp only [DepreciationFixedDeclining]
  rw [if_neg hc, if_neg (by decide), dfd_rate_dyadic, hn]
  simp only [DepreciationFixedDeclining.loop, Int.reduceAdd, Int.reduceEq, if_true, if_false]
  rw [h1, h2, h3, h4, h5, h6, h7, h8, h9, h10, h11, h12, h13]

/-- C1 (evaluation at the failing input): for `slowFunction`, `slowDerivative` and guess 0,
none of the first 30 update steps passes the precision test, and yet `newton` started at
counter 0 returns the value 30 and no error: it performs a 31st update step (the one at
counter value 30), which passes. -/
theorem C1_newton_thirty_first_step :
    (∀ k, k < 30 → ¬ stepConverges slowFunction slowDerivative (fin 0) k)
      ∧ newton (fin 0) slowFunction slowDerivative 0 = .ok (fin 30) := by
  exact ⟨slow_not_converges, slow_newton⟩

/-- C2: whenever `newton`, started at a counter `numIt ≤ MaxIterations`, returns a value
without error, that value is the iterate `x_(k+1)` of the Newton sequence for the first step
`k` with `|x_(k+1) - x_k| < Precision`; no earlier step passes that test (and `k` is at most
`MaxIterations - numIt`). -/
theorem C2_newton_returns_first_converged [Rounding K] (function derivative : F64 K → F64 K)
    (guess : F64 K) (numIt : Int) (v : F64 K) (hIt : numIt ≤ MaxIterations)
    (hv : newton guess function derivative numIt = .ok v) :
    ∃ k : Nat, (k : Int) ≤ MaxIterations - numIt
      ∧ v = newtonSeq function derivative guess (k + 1)
      ∧ stepConverges function derivative guess k
      ∧ ∀ j, j < k → ¬ stepConverges function derivative guess j := by
  obtain ⟨k, hk, h1, h2, h3⟩ :=
    newton_ok_inv function derivative _ guess numIt v rfl hv
  exact ⟨k, by omega, h1, h2, h3⟩

/-- C2, at a concrete input: the slow sequence from 0, started at counter 0. -/
theorem C2_newton_returns_first_converged_witness :
    (0 : Int) ≤ MaxIterations
      ∧ newton (fin 0) slowFunction slowDerivative 0 = .ok (fin 30)
      ∧ ∃ k : Nat, (k : Int) ≤ MaxIterations - 0
          ∧ (fin 30 : F64 ℚ) = newtonSeq slowFunction slowDerivative (fin 0) (k + 1)
          ∧ stepConverges slowFunction slowDerivative (fin 0) k
          ∧ ∀ j, j < k → ¬ stepConverges slowFunction slowDerivative (fin 0) j :=
  ⟨by decide, slow_newton,
    C2_newton_returns_first_converged slowFunction slowDerivative (fin 0) 0 (fin 30)
      (by decide) slow_newton⟩

/-- C3: if the derivative is zero at an iterate `x_k` that `newton` reaches (no earlier step
passed the precision test), then `newton` started at counter 0 returns the convergence
error: the quotient by zero is an infinity or NaN, and from then on no step passes the
precision test. -/
theorem C3_newton_zero_derivative_errors [Rounding K] (function derivative : F64 K → F64 K)
    (guess : F64 K) (k : Nat)
    (hreach : ∀ j, j < k → ¬ stepConverges function derivative guess j)
    (hzero : derivative (newtonSeq function derivative guess k) = fin 0) :
    newton guess function derivative 0 = .error .didNotConverge := by
  exact newton_error_of_zero function derivative guess k 0 hreach hzero

/-- C3, at a concrete input: the derivative of the net present value of `[-1, 1]` is zero at
the guess 1 itself. -/
theorem C3_newton_zero_derivative_errors_witness :
    dNetPresentValue (fin (1 : ℚ)) ([(-1 : ℚ), 1].map fin) = fin 0
      ∧ newton (fin (1 : ℚ)) (fun rate => NetPresentValue rate ([(-1 : ℚ), 1].map fin))
          (fun rate => dNetPresentValue rate ([(-1 : ℚ), 1].map fin)) 0
        = .error .didNotConverge :=
  ⟨dnpv_pm_one,
    C3_newton_zero_derivative_errors _ _ (fin 1) 0
      (fun j hj => absurd hj (Nat.not_lt_zero j)) dnpv_pm_one⟩

/-- C4 (evaluation at the failing input): for the empty series the sign guard does not fire
(`minMaxSlice` returns its initial `MaxFloat64` and `-MaxFloat64`, whose product is
negative); the solver is entered, its first update is `guess - 0/0`, which is NaN, and the
result is the convergence error, not the cash-flow error. -/
theorem C4_irr_empty_series_enters_solver (guess : F64 ℚ) :
    signGuard ([] : List (F64 ℚ)) = false
      ∧ newtonStep (fun rate => NetPresentValue rate ([] : List (F64 ℚ)))
          (fun rate => dNetPresentValue rate []) guess = nan
      ∧ InternalRateOfReturn [] guess = .error .didNotConverge := by
  refine ⟨signGuard_nil, ?_, ?_⟩
  · show F64.add guess (F64.neg (F64.div (fin 0) (fin 0))) = nan
    cases guess <;> simp [F64.div, F64.neg, F64.add]
  · rw [irr_unfold, signGuard_nil]
    exact newton_error_of_zero _ _ guess 0 0 (fun j hj => absurd hj (Nat.not_lt_zero j)) rfl

/-- C5 (counterexample, binary64): the series `[-1, 1]`, `[-10000000, 10000000]` and
`[-2^-600, 2^-600]` all have a sign change.  With the first and the guess 1,
`InternalRateOfReturn` returns no rate but the convergence error.  With the second and the
guess `5e-7` it returns a rate after one step, and the net present value at that rate,
`671 / 2^27` (about `5e-6`), is larger than `1e-6`.  With the third it returns the cash-flow
error, whatever the guess: the product `min*max` underflows to zero. -/
theorem C5_irr_residual_counterexample :
    InternalRateOfReturn ([(-1 : B64), 1].map fin) (fin 1) = .error .didNotConverge
      ∧ InternalRateOfReturn ([(-10000000 : B64), 10000000].map fin)
          (fin (4722366482869645 / 9444732965739290427392))
          = .ok (fin (-(2361494527 / 4722366482869645213696)))
      ∧ F64.le (F64.abs (NetPresentValue (fin (-(2361494527 / 4722366482869645213696)))
          ([(-10000000 : B64), 10000000].map fin))) Precision = false
      ∧ InternalRateOfReturn ([-(2 ^ (-600 : Int)), (2 ^ (-600 : Int) : B64)].map fin)
          (fin (3602879701896397 / 36028797018963968)) = .error .cashFlowSign := by
  refine ⟨irr_pm_one_B64, irr_residual_value, ?_, ?_⟩
  · rw [irr_residual_npv, F64.abs_fin, precision_B64, F64.le_fin_fin, abs_of_nonneg (by norm_num),
      decide_eq_false_iff_not]
    norm_num
  · rw [irr_unfold, underflow_guard]
    rfl

/-- C5 (amended): for a series of finite values with a sign change whose product `min*max`
is not computed as zero, a rounding that keeps the sign, and every guess,
`InternalRateOfReturn` is the result of `newton` on the net present value and its derivative
from counter 0: either the convergence error, or the iterate `x_(k+1)` of the first step
`k ≤ MaxIterations` of the Newton sequence with `|x_(k+1) - x_k| < Precision`. -/
theorem C5_irr_returns_first_converged [Rounding K] (hs : KeepsSign K) (vs : List K)
    (guess : F64 K) (hpos : ∃ p ∈ vs, 0 < p) (hneg : ∃ n ∈ vs, n < 0)
    (hprod : (minMaxSlice (vs.map fin)).1 * (minMaxSlice (vs.map fin)).2 ≠ fin 0) :
    InternalRateOfReturn (vs.map fin) guess = .error .didNotConverge
      ∨ ∃ k : Nat, (k : Int) ≤ MaxIterations
          ∧ InternalRateOfReturn (vs.map fin) guess
              = .ok (newtonSeq (fun rate => NetPresentValue rate (vs.map fin))
                  (fun rate => dNetPresentValue rate (vs.map fin)) guess (k + 1))
          ∧ stepConverges (fun rate => NetPresentValue rate (vs.map fin))
              (fun rate => dNetPresentValue rate (vs.map fin)) guess k
          ∧ ∀ j, j < k → ¬ stepConverges (fun rate => NetPresentValue rate (vs.map fin))
              (fun rate => dNetPresentValue rate (vs.map fin)) guess j := by
  have hne : vs ≠ [] := by
    obtain ⟨p, hp, _⟩ := hpos
    exact List.ne_nil_of_mem hp
  have hg : ¬ signGuard (vs.map fin) = true := by
    rw [signGuard_iff_of_keepsSign hs vs hne]
    exact fun h => h.elim (fun h1 => h1 hpos) (fun h1 => h1.elim (fun h2 => h2 hneg) hprod)
  rw [irr_unfold, if_neg hg]
  rcases newton_cases (fun rate => NetPresentValue rate (vs.map fin))
      (fun rate => dNetPresentValue rate (vs.map fin)) guess 0 with h | ⟨k, hk, h⟩
  · exact Or.inl h
  · exact Or.inr ⟨k, by simp only [MaxIterations] at hk ⊢; omega, h⟩

/-- C5 (amended), in binary64 at the input of the test, the series
`[-70000, 12000, 15000, 18000, 21000]` with the guess `0.1`: the run converges at its fifth
update step and returns the rate `-0.02124484827369919`, which is within `1e-6` of
`-0.02124485`, and the net present value at that rate, `15939 / 2^38` (about `5.8e-8`), is
below `1e-6`. -/
theorem C5_irr_returns_first_converged_witness :
    (∃ p ∈ [(-70000 : B64), 12000, 15000, 18000, 21000], 0 < p)
      ∧ (∃ n ∈ [(-70000 : B64), 12000, 15000, 18000, 21000], n < 0)
      ∧ (minMaxSlice ([(-70000 : B64), 12000, 15000, 18000, 21000].map fin)).1
          * (minMaxSlice ([(-70000 : B64), 12000, 15000, 18000, 21000].map fin)).2 ≠ fin 0
      ∧ (∃ k : Nat, (k : Int) ≤ MaxIterations
          ∧ InternalRateOfReturn ([(-70000 : B64), 12000, 15000, 18000, 21000].map fin)
              (fin (3602879701896397 / 36028797018963968))
            = .ok (newtonSeq
                (fun rate => NetPresentValue rate
                  ([(-70000 : B64), 12000, 15000, 18000, 21000].map fin))
                (fun rate => dNetPresentValue rate
                  ([(-70000 : B64), 12000, 15000, 18000, 21000].map fin))
                (fin (3602879701896397 / 36028797018963968)) (k + 1)))
      ∧ InternalRateOfReturn ([(-70000 : B64), 12000, 15000, 18000, 21000].map fin)
          (fin (3602879701896397 / 36028797018963968))
        = .ok (fin (-(6123410609214361 / 288230376151711744)))
      ∧ |(-(6123410609214361 / 288230376151711744)) - (-2124485 / 100000000 : B64)| ≤ 1 / 1000000
      ∧ F64.le (F64.abs (NetPresentValue (fin (-(6123410609214361 / 288230376151711744)))
          ([(-70000 : B64), 12000, 15000, 18000, 21000].map fin))) Precision = true := by
  have hmm : minMaxSlice ([(-70000 : B64), 12000, 15000, 18000, 21000].map fin)
      = (fin (-70000), fin 21000) := by
    rw [minMaxSlice_fin]
    simp only [List.foldl_cons, List.foldl_nil, MaxFloat64]
    norm_num
  have hprod : (fin (-70000) * fin 21000 : F64 B64) = fin (-1470000000) :=
    B64.mul_eq _ _ _ (round64_of_dyadic _ _ (-1470000000) 0 (by norm_num) (by norm_num)
      ⟨by norm_num, by norm_num⟩ (by norm_num) ⟨by norm_num, by norm_num⟩)
  have hne0 : (minMaxSlice ([(-70000 : B64), 12000, 15000, 18000, 21000].map fin)).1
      * (minMaxSlice ([(-70000 : B64), 12000, 15000, 18000, 21000].map fin)).2 ≠ fin 0 := by
    rw [hmm]
    simp only []
    rw [hprod]
    intro h
    have h2 := F64.fin.inj h
    norm_num at h2
  have hpos : ∃ p ∈ [(-70000 : B64), 12000, 15000, 18000, 21000], 0 < p :=
    ⟨12000, by simp, by norm_num⟩
  have hneg : ∃ n ∈ [(-70000 : B64), 12000, 15000, 18000, 21000], n < 0 :=
    ⟨-70000, by simp, by norm_num⟩
  have h := C5_irr_returns_first_converged keepsSign_B64
    [(-70000 : B64), 12000, 15000, 18000, 21000]
    (fin (3602879701896397 / 36028797018963968)) hpos hneg hne0
  refine ⟨hpos, hneg, hne0, ?_, irr_test_value, ?_, ?_⟩
  · rcases h with h | ⟨k, hk, h1, _⟩
    · rw [irr_test_value] at h
      cases h
    · exact ⟨k, hk, h1⟩
  · rw [abs_le]
    constructor <;> norm_num
  · rw [irr_test_residual, F64.abs_fin, precision_B64, F64.le_fin_fin,
      abs_of_nonneg (by norm_num), decide_eq_true_eq]
    norm_num

/-- C6 (counterexample, binary64): the one-value series `[NaN]` has no strictly positive and
no strictly negative value, yet it passes the guard (`minMaxSlice` leaves
`(MaxFloat64, -MaxFloat64)`, whose product is `-Inf`) and `ModifiedInternalRateOfReturn`
returns NaN with no error; the series `[-2^-600, 2^-600]` has a strictly positive and a
strictly negative value, yet `ModifiedInternalRateOfReturn` returns the cash-flow error (the
product `min*max` underflows to zero). -/
theorem C6_mirr_error_iff_no_sign_change_counterexample :
    F64.lt (fin 0) (nan : F64 B64) = false ∧ F64.lt (nan : F64 B64) (fin 0) = false
      ∧ signGuard [(nan : F64 B64)] = false
      ∧ ModifiedInternalRateOfReturn (fun x _ => x) [(nan : F64 B64)] (fin 1) (fin 1) = .ok nan
      ∧ (0 : B64) < 2 ^ (-600 : Int) ∧ -(2 ^ (-600 : Int) : B64) < 0
      ∧ ModifiedInternalRateOfReturn (fun x _ => x)
          ([-(2 ^ (-600 : Int)), (2 ^ (-600 : Int) : B64)].map fin) (fin 1) (fin 1)
          = .error .cashFlowSign := by
  have hg : signGuard [(nan : F64 B64)] = false := signGuard_nan
  have h2 : (fin 1 + fin 1 : F64 B64) = fin 2 :=
    B64.add_eq _ _ _ (round64_of_dyadic _ _ 2 0 (by norm_num) (by norm_num)
      ⟨by norm_num, by norm_num⟩ (by norm_num) ⟨by norm_num, by norm_num⟩)
  have ht : (0 : B64) < 2 ^ (-600 : Int) := by positivity
  refine ⟨rfl, rfl, hg, ?_, ht, neg_neg_of_pos ht, ?_⟩
  · have h02 : (fin 0 / fin 2 : F64 B64) = fin 0 :=
      B64.div_eq _ _ _ (by norm_num) (by rw [zero_div]; exact round64_zero)
    have h00 : (fin 0 + fin 0 : F64 B64) = fin 0 :=
      B64.add_eq _ _ _ (by rw [add_zero]; exact round64_zero)
    have hn0 : (-(fin 0) : F64 B64) = fin 0 :=
      (F64.neg_fin_any _).trans (congrArg F64.fin neg_zero)
    have hm : (fin 0 * fin 2 : F64 B64) = fin 0 :=
      B64.mul_eq _ _ _ (by rw [zero_mul]; exact round64_zero)
    have hlen : (([(nan : F64 B64)].length : Nat) : Int) = 1 := rfl
    rw [mirr_unfold, hg]
    simp only [Bool.false_eq_true, if_false, List.map, F64.le, NetPresentValue,
      NetPresentValue.loop]
    rw [h2, hlen, F64.powi_one, h02, h00, hn0, hm]
    rfl
  · rw [mirr_unfold, underflow_guard]
    rfl

/-- C6 (amended): for every non-empty series of finite values, a rounding that keeps the
sign, and all rates, `ModifiedInternalRateOfReturn` returns an error (the cash-flow error) if
and only if the series has no strictly positive value, or no strictly negative value, or the
product `min*max` over `minMaxSlice` is computed as zero; the guard `min*max >= 0` holds
exactly for those series. -/
theorem C6_mirr_error_iff_no_sign_change [Rounding K] (hs : KeepsSign K)
    (rpow : F64 K → F64 K → F64 K) (vs : List K)
    (financeRate reinvestRate : F64 K) (hne : vs ≠ []) :
    (signGuard (vs.map fin) = true
        ↔ (¬ (∃ p ∈ vs, 0 < p) ∨ ¬ (∃ n ∈ vs, n < 0)
          ∨ (minMaxSlice (vs.map fin)).1 * (minMaxSlice (vs.map fin)).2 = fin 0))
      ∧ ((∃ e, ModifiedInternalRateOfReturn rpow (vs.map fin) financeRate reinvestRate
            = .error e)
        ↔ (¬ (∃ p ∈ vs, 0 < p) ∨ ¬ (∃ n ∈ vs, n < 0)
          ∨ (minMaxSlice (vs.map fin)).1 * (minMaxSlice (vs.map fin)).2 = fin 0))
      ∧ (ModifiedInternalRateOfReturn rpow (vs.map fin) financeRate reinvestRate
            = .error .cashFlowSign
        ↔ (¬ (∃ p ∈ vs, 0 < p) ∨ ¬ (∃ n ∈ vs, n < 0)
          ∨ (minMaxSlice (vs.map fin)).1 * (minMaxSlice (vs.map fin)).2 = fin 0)) := by
  have hiff := signGuard_iff_of_keepsSign hs vs hne
  refine ⟨hiff, ?_, ?_⟩
  · rw [← hiff, mirr_unfold]
    constructor
    · rintro ⟨e, he⟩
      by_contra hg
      rw [if_neg hg] at he
      cases he
    · intro hg
      exact ⟨.cashFlowSign, by rw [if_pos hg]⟩
  · rw [← hiff, mirr_unfold]
    constructor
    · intro he
      by_contra hg
      rw [if_neg hg] at he
      cases he
    · intro hg
      rw [if_pos hg]

/-- C6 (amended), in binary64 at the series of the tests with both rates `0.1`: the
all-positive `[70000, 12000, 15000, 18000, 21000]` is rejected, and
`[-70000, 12000, 15000, 18000, 21000]`, whose product `min*max` is `-1470000000`, is not. -/
theorem C6_mirr_error_iff_no_sign_change_witness :
    [(70000 : B64), 12000, 15000, 18000, 21000] ≠ []
      ∧ ModifiedInternalRateOfReturn (fun x _ => x)
          ([(70000 : B64), 12000, 15000, 18000, 21000].map fin)
          (fin (3602879701896397 / 36028797018963968)) (fin (3602879701896397 / 36028797018963968))
        = .error .cashFlowSign
      ∧ ¬ ∃ e, ModifiedInternalRateOfReturn (fun x _ => x)
          ([(-70000 : B64), 12000, 15000, 18000, 21000].map fin)
          (fin (3602879701896397 / 36028797018963968)) (fin (3602879701896397 / 36028797018963968))
        = .error e := by
  have hmm : minMaxSlice ([(-70000 : B64), 12000, 15000, 18000, 21000].map fin)
      = (fin (-70000), fin 21000) := by
    rw [minMaxSlice_fin]
    simp only [List.foldl_cons, List.foldl_nil, MaxFloat64]
    norm_num
  have hprod : (fin (-70000) * fin 21000 : F64 B64) = fin (-1470000000) :=
    B64.mul_eq _ _ _ (round64_of_dyadic _ _ (-1470000000) 0 (by norm_num) (by norm_num)
      ⟨by norm_num, by norm_num⟩ (by norm_num) ⟨by norm_num, by norm_num⟩)
  refine ⟨by simp,
    (C6_mirr_error_iff_no_sign_change keepsSign_B64 (fun x _ => x)
      [(70000 : B64), 12000, 15000, 18000, 21000]
      (fin (3602879701896397 / 36028797018963968)) (fin (3602879701896397 / 36028797018963968)) (by simp)).2.2.2
      (Or.inr (Or.inl (by
        rintro ⟨n, hn, hlt⟩
        simp only [List.mem_cons, List.mem_singleton, List.not_mem_nil, or_false] at hn
        rcases hn with rfl | rfl | rfl | rfl | rfl <;> norm_num at hlt))), ?_⟩
  rw [(C6_mirr_error_iff_no_sign_change keepsSign_B64 (fun x _ => x)
      [(-70000 : B64), 12000, 15000, 18000, 21000]
      (fin (3602879701896397 / 36028797018963968)) (fin (3602879701896397 / 36028797018963968)) (by simp)).2.1]
  rintro (h | h | h)
  · exact h ⟨12000, by simp, by norm_num⟩
  · exact h ⟨-70000, by simp, by norm_num⟩
  · rw [hmm] at h
    simp only [] at h
    rw [hprod] at h
    have h2 := F64.fin.inj h
    norm_num at h2

/-- C7 (evaluation at the failing input): for the empty series, whatever the rates,
`ModifiedInternalRateOfReturn` returns no error but a value, the outer power of the NaN
`-0*1/0/(1+financeRate)` to the exponent `1/(0-1) = -1`, minus 1. -/
theorem C7_mirr_empty_series_returns_value (rpow : F64 K → F64 K → F64 K)
    (financeRate reinvestRate : F64 K) :
    ModifiedInternalRateOfReturn rpow [] financeRate reinvestRate
      = .ok (rpow nan (fin (-1)) - fin 1) := by
  rw [mirr_unfold, signGuard_nil]
  have hbase : (-(NetPresentValue reinvestRate ([] : List (F64 K)))
      * powi (fin 1 + reinvestRate) (([] : List (F64 K)).length : Int)
      / NetPresentValue financeRate ([] : List (F64 K)) / (fin 1 + financeRate) : F64 K) = nan := by
    have h1 : NetPresentValue reinvestRate ([] : List (F64 K)) = fin 0 := rfl
    have h2 : NetPresentValue financeRate ([] : List (F64 K)) = fin 0 := rfl
    have h3 : powi (fin 1 + reinvestRate) (([] : List (F64 K)).length : Int) = fin 1 := by
      simp [F64.powi]
    rw [h1, h2, h3, F64.neg_fin, F64.fin_mul_fin]
    have h4 : (fin (-0 * 1) / fin 0 : F64 K) = nan := by
      show F64.div (fin (-0 * 1)) (fin 0) = nan
      simp [F64.div]
    rw [h4, F64.nan_div]
  have hexp : (fin 1 / ofInt ((([] : List (F64 K)).length : Int) - 1) : F64 K) = fin (-1) := by
    simp only [List.length_nil, F64.ofInt, rnd_exact]
    rw [F64.fin_div_fin _ _ (by norm_num)]
    norm_num
  simp only [List.map_nil, Bool.false_eq_true, if_false]
  rw [hbase, hexp]

/-- C8: `Rate` returns the payment-type error if and only if `paymentType` is neither
`PayEnd` nor `PayBegin`, and for a valid `paymentType` its result, value or error, is that of
`newton` from counter 0 on `f` and `df` with the other arguments fixed. -/
theorem C8_rate_error_and_delegation [Rounding K]
    (numPeriods : Int) (pmt pv fv : F64 K) (paymentType : Int)
    (guess : F64 K) :
    (Rate numPeriods pmt pv fv paymentType guess = .error .paymentType
        ↔ (paymentType ≠ PayEnd ∧ paymentType ≠ PayBegin))
      ∧ Rate numPeriods pmt pv fv paymentType guess
          = if paymentType = PayEnd ∨ paymentType = PayBegin then
              newton guess (fun rate => f rate numPeriods pmt pv fv paymentType)
                (fun rate => df rate numPeriods pmt pv fv paymentType) 0
            else .error .paymentType := by
  constructor
  · constructor
    · intro he
      by_contra hv
      unfold Rate at he
      rw [if_neg hv] at he
      rcases newton_cases (fun rate => f rate numPeriods pmt pv fv paymentType)
          (fun rate => df rate numPeriods pmt pv fv paymentType) guess 0 with h | ⟨k, _, h, _⟩
      · rw [h] at he
        cases he
      · rw [h] at he
        cases he
    · intro hv
      unfold Rate
      rw [if_pos hv]
  · unfold Rate
    by_cases hv : paymentType ≠ PayEnd ∧ paymentType ≠ PayBegin
    · rw [if_pos hv, if_neg (fun h => h.elim hv.1 hv.2)]
    · rw [if_neg hv, if_pos (by
        by_contra hc
        exact hv ⟨fun h => hc (Or.inl h), fun h => hc (Or.inr h)⟩)]

/-- C9: for every integer `numPeriods`, all `pmt`, `pv`, `fv`, `paymentType` in `{0, 1}` and
every rate `r` with `r ≠ 0` and `1 + r > 0`, `f` is
`pv*(1+r)^n + pmt*(1 + r*type)*((1+r)^n - 1)/r + fv` at `r`, the value of `df` at `r` is
finite, and it is the derivative at `r` of `f` as a function of the rate. -/
theorem C9_df_is_derivative_of_f (numPeriods : Int) (pmt pv fv : ℝ) (paymentType : Int)
    (r : ℝ) (_ht : paymentType = PayEnd ∨ paymentType = PayBegin) (hr : r ≠ 0)
    (h1 : 0 < 1 + r) :
    f (fin r) numPeriods (fin pmt) (fin pv) (fin fv) paymentType
        = fin (pv * (1 + r) ^ numPeriods
            + pmt * (1 + r * (paymentType : ℝ)) * ((1 + r) ^ numPeriods - 1) / r + fv)
      ∧ ∃ d : ℝ, df (fin r) numPeriods (fin pmt) (fin pv) (fin fv) paymentType = fin d
          ∧ HasDerivAt
              (fun x => F64.toK (f (fin x) numPeriods (fin pmt) (fin pv) (fin fv) paymentType))
              d r := by
  have h : 1 + r ≠ 0 := ne_of_gt h1
  refine ⟨?_, _, df_fin r numPeriods pmt pv fv paymentType hr h, ?_⟩
  · rw [f_fin r numPeriods pmt pv fv paymentType hr h, mul_div_assoc]
  · have hc := hasDerivAt_one_add_zpow numPeriods r h
    have hlin : HasDerivAt (fun x : ℝ => 1 + x * (paymentType : ℝ)) (paymentType : ℝ) r := by
      have := ((hasDerivAt_id r).mul_const (paymentType : ℝ)).const_add 1
      simpa using this
    have hquot := (hc.sub_const 1).div (hasDerivAt_id r) hr
    have hG := (((hc.const_mul pv).add ((hlin.const_mul pmt).mul hquot)).add_const fv)
    have hG2 : HasDerivAt
        (fun x : ℝ => pv * (1 + x) ^ numPeriods
          + pmt * (1 + x * (paymentType : ℝ)) * (((1 + x) ^ numPeriods - 1) / x) + fv)
        ((numPeriods : ℝ) * pv * (1 + r) ^ (numPeriods - 1)
          + pmt * ((paymentType : ℝ) * ((1 + r) ^ numPeriods - 1) / r
              + (1 + r * (paymentType : ℝ))
                  * ((numPeriods : ℝ) * r * (1 + r) ^ (numPeriods - 1)
                      - (1 + r) ^ numPeriods + 1) / r ^ (2 : Int))) r := by
      convert hG using 1
      simp only [id, Pi.sub_apply, Pi.mul_apply, Pi.add_apply]
      have hz : r ^ (2 : Int) = r ^ 2 := by norm_cast
      rw [hz]
      field_simp
      ring
    apply hG2.congr_of_eventuallyEq
    filter_upwards [eventually_one_add_ne r h,
      ContinuousAt.eventually_ne continuous_id.continuousAt hr] with x hx hx0
    rw [f_fin x numPeriods pmt pv fv paymentType hx0 hx]
    rfl

/-- C9, at a concrete input: two periods, all amounts 1, payments at the end, rate 1. -/
theorem C9_df_is_derivative_of_f_witness :
    ((0 : Int) = PayEnd ∨ (0 : Int) = PayBegin) ∧ (1 : ℝ) ≠ 0 ∧ (0 : ℝ) < 1 + 1
      ∧ (f (fin (1 : ℝ)) 2 (fin 1) (fin 1) (fin 1) 0
          = fin (1 * (1 + 1) ^ (2 : Int)
              + 1 * (1 + 1 * ((0 : Int) : ℝ)) * ((1 + 1) ^ (2 : Int) - 1) / 1 + 1)
        ∧ ∃ d : ℝ, df (fin (1 : ℝ)) 2 (fin 1) (fin 1) (fin 1) 0 = fin d
          ∧ HasDerivAt (fun x => F64.toK (f (fin x) 2 (fin 1) (fin 1) (fin 1) 0)) d 1) :=
  ⟨Or.inl rfl, one_ne_zero, by norm_num,
    C9_df_is_derivative_of_f 2 1 1 1 0 1 (Or.inl rfl) one_ne_zero (by norm_num)⟩

/-- C10: for every series of finite values and every rate `r` with `1 + r ≠ 0`,
`dNetPresentValue(r, values)` equals the sum over 0-based `i` of
`values[i] * (-(i+1)) * (1+r)^(-(i+2))`, and that sum is the derivative at `r` of
`NetPresentValue(., values)`. -/
theorem C10_dnpv_is_derivative (values : List ℝ) (r : ℝ) (h : 1 + r ≠ 0) :
    dNetPresentValue (fin r) (values.map fin)
        = fin (∑ i ∈ Finset.range values.length,
            values.getD i 0 * (-((i : ℝ) + 1)) * (1 + r) ^ (-((i : Int) + 2)))
      ∧ HasDerivAt (fun x => F64.toK (NetPresentValue (fin x) (values.map fin)))
          (∑ i ∈ Finset.range values.length,
            values.getD i 0 * (-((i : ℝ) + 1)) * (1 + r) ^ (-((i : Int) + 2))) r := by
  constructor
  · rw [dNetPresentValue, dnpv_loop_fin r h, zero_add]
    congr 1
    apply Finset.sum_congr rfl
    intro j _
    congr 2
    · push_cast; ring
    · congr 1; ring
  · have hG : HasDerivAt
        (fun x : ℝ => ∑ i ∈ Finset.range values.length,
          values.getD i 0 * (1 + x) ^ (-(1 + (i : Int))))
        (∑ i ∈ Finset.range values.length,
          values.getD i 0 * (-((i : ℝ) + 1)) * (1 + r) ^ (-((i : Int) + 2))) r := by
      apply HasDerivAt.sum
      intro i _
      have hi := (hasDerivAt_one_add_zpow (-(1 + (i : Int))) r h).const_mul (values.getD i 0)
      convert hi using 1
      have he : -(1 + (i : Int)) - 1 = -((i : Int) + 2) := by ring
      rw [he]
      push_cast
      ring
    apply hG.congr_of_eventuallyEq
    filter_upwards [eventually_one_add_ne r h] with x hx
    rw [NetPresentValue, npv_loop_fin x hx, zero_add]
    show (∑ j ∈ Finset.range values.length, values.getD j 0 / (1 + x) ^ (1 + (j : Int))) = _
    apply Finset.sum_congr rfl
    intro j _
    rw [zpow_neg, div_eq_mul_inv]

/-- C10, at a concrete input: the series of the net-present-value test at the rate 1/10. -/
theorem C10_dnpv_is_derivative_witness :
    (1 : ℝ) + 1 / 10 ≠ 0
      ∧ (dNetPresentValue (fin (1 / 10 : ℝ)) ([(-10000 : ℝ), 3000, 4200, 6800].map fin)
          = fin (∑ i ∈ Finset.range [(-10000 : ℝ), 3000, 4200, 6800].length,
              [(-10000 : ℝ), 3000, 4200, 6800].getD i 0 * (-((i : ℝ) + 1))
                * (1 + 1 / 10) ^ (-((i : Int) + 2)))
        ∧ HasDerivAt
            (fun x => F64.toK
              (NetPresentValue (fin x) ([(-10000 : ℝ), 3000, 4200, 6800].map fin)))
            (∑ i ∈ Finset.range [(-10000 : ℝ), 3000, 4200, 6800].length,
              [(-10000 : ℝ), 3000, 4200, 6800].getD i 0 * (-((i : ℝ) + 1))
                * (1 + 1 / 10) ^ (-((i : Int) + 2))) (1 / 10)) :=
  ⟨by norm_num,
    C10_dnpv_is_derivative [(-10000 : ℝ), 3000, 4200, 6800] (1 / 10) (by norm_num)⟩

/-- C11: `NetPresentValue(rate, values)` is the sum, taken from left to right and starting
from 0, of `values[i] / (1+rate)^(i+1)` over the 0-based `i`, for every rate and series (the
division and the power being those of `float64`, so also at the rate `-1`); the empty series
gives 0; and for finite values and a rate `r` other than `-1` it is the finite number
`Σ values[i] / (1+r)^(i+1)`. -/
theorem C11_npv_is_discounted_sum (rate : F64 K) (values : List (F64 K)) (r : K) (vs : List K) :
    NetPresentValue rate values
        = (List.range values.length).foldl
            (fun a i => a + values.getD i (fin 0) / powi (fin 1 + rate) ((i : Int) + 1)) (fin 0)
      ∧ NetPresentValue rate [] = fin 0
      ∧ (1 + r ≠ 0 → NetPresentValue (fin r) (vs.map fin)
          = fin (∑ i ∈ Finset.range vs.length, vs.getD i 0 / (1 + r) ^ (i + 1))) := by
  refine ⟨?_, rfl, ?_⟩
  · rw [NetPresentValue, npv_loop_foldl]
    congr 1
    funext a i
    congr 3
    ring
  · intro h
    rw [NetPresentValue, npv_loop_fin r h, zero_add]
    congr 1
    apply Finset.sum_congr rfl
    intro j _
    congr 1
    rw [← zpow_natCast]
    congr 1
    push_cast
    ring

/-- C11, at the input of the test: `NetPresentValue(0.1, [-10000, 3000, 4200, 6800])` is
within `1e-6` of `1188.443412`. -/
theorem C11_npv_is_discounted_sum_witness :
    (1 : ℚ) + 1 / 10 ≠ 0
      ∧ ∃ q : ℚ, NetPresentValue (fin (1 / 10)) ([(-10000 : ℚ), 3000, 4200, 6800].map fin) = fin q
          ∧ |q - 1188443412 / 1000000| ≤ 1 / 1000000 :=
  ⟨by norm_num, _,
    (C11_npv_is_discounted_sum (fin (1 / 10 : ℚ)) [] (1 / 10) [(-10000 : ℚ), 3000, 4200, 6800]).2.2
      (by norm_num),
    by
      simp only [List.length_cons, List.length_nil, Finset.sum_range_succ, Finset.sum_range_zero,
        List.getD_cons_zero, List.getD_cons_succ]
      rw [abs_le]
      constructor <;> norm_num⟩

/-- C15: each of `PresentValue`, `FutureValue` and `Payment` returns an error if and only if
`numPeriods < 0` or `paymentType` is neither `PayEnd` nor `PayBegin` (a condition in which
`rate`, `pmt`, `pv` and `fv` do not occur), and the value returned with an error is 0. -/
theorem C15_tvm_errors [Rounding K] (rate pmt pv fv : F64 K) (numPeriods paymentType : Int) :
    (((PresentValue rate numPeriods pmt fv paymentType).2 ≠ none
          ↔ (numPeriods < 0 ∨ (paymentType ≠ PayEnd ∧ paymentType ≠ PayBegin)))
        ∧ ((PresentValue rate numPeriods pmt fv paymentType).2 ≠ none
          → (PresentValue rate numPeriods pmt fv paymentType).1 = fin 0))
      ∧ (((FutureValue rate numPeriods pmt pv paymentType).2 ≠ none
          ↔ (numPeriods < 0 ∨ (paymentType ≠ PayEnd ∧ paymentType ≠ PayBegin)))
        ∧ ((FutureValue rate numPeriods pmt pv paymentType).2 ≠ none
          → (FutureValue rate numPeriods pmt pv paymentType).1 = fin 0))
      ∧ (((Payment rate numPeriods pv fv paymentType).2 ≠ none
          ↔ (numPeriods < 0 ∨ (paymentType ≠ PayEnd ∧ paymentType ≠ PayBegin)))
        ∧ ((Payment rate numPeriods pv fv paymentType).2 ≠ none
          → (Payment rate numPeriods pv fv paymentType).1 = fin 0)) := by
  refine ⟨⟨?_, ?_⟩, ⟨?_, ?_⟩, ⟨?_, ?_⟩⟩
  all_goals
    simp only [PresentValue, FutureValue, Payment]
    split_ifs <;> simp_all <;> assumption

/-- C16: `Periods` returns an error if and only if `paymentType` is invalid, or `rate != 0`
and `pmt == 0` and `pv == 0`, or `rate == 0` and `pmt == 0` (the comparisons being those of
`float64`); and for a valid `paymentType`, when `rate == 0` and `pmt != 0`, it returns
`(-pv - fv)/pmt` and no error. -/
theorem C16_periods_errors [Rounding K]
    (log : F64 K → F64 K) (rate pmt pv fv : F64 K) (paymentType : Int) :
    ((Periods log rate pmt pv fv paymentType).2 ≠ none
        ↔ ((paymentType ≠ PayEnd ∧ paymentType ≠ PayBegin)
          ∨ (F64.eq rate (fin 0) = false ∧ F64.eq pmt (fin 0) = true ∧ F64.eq pv (fin 0) = true)
          ∨ (F64.eq rate (fin 0) = true ∧ F64.eq pmt (fin 0) = true)))
      ∧ ((paymentType = PayEnd ∨ paymentType = PayBegin) → F64.eq rate (fin 0) = true
          → F64.eq pmt (fin 0) = false
          → Periods log rate pmt pv fv paymentType = (((-pv) - fv) / pmt, none)) := by
  constructor
  · simp only [Periods]
    split_ifs <;> simp_all <;> assumption
  · intro ht hr hp
    simp only [Periods]
    rw [if_neg ((t_valid_cases paymentType).2 ht)]
    simp [hr, hp]

/-- C17 (counterexample): with `numPeriods = 0` at the rate `1/10`, `pv = 1`, `fv = 0`,
payments at the end, `Payment` divides by `((1+rate)^0 - 1)/rate = 0` and returns `-Inf`; in
period 2 the interest is `+Inf` and the principal `-Inf`, whose sum is NaN, not the
payment.  In binary64, for one period at the rate `2^600` with `pv = 0` and `fv = 2^600`,
the payment is the finite number `-2^600`, but in period 2 the interest overflows to `+Inf`
and the principal is `-Inf`, whose sum is NaN; and for 2 periods at the rate `0.5` with
`pv = 1` and `fv = 0`, the payment is the `float64` `-0.9`, and in period 2 the interest
`-0.3` and the principal `-0.6000000000000001` add up to `-0.9000000000000001`, not to the
payment. -/
theorem C17_interest_plus_principal_counterexample :
    (Payment (fin (1 / 10 : ℚ)) 0 (fin 1) (fin 0) PayEnd = (ninf, none)
      ∧ InterestPayment (fin (1 / 10 : ℚ)) 2 0 (fin 1) (fin 0) PayEnd = (pinf, none)
      ∧ PrincipalPayment (fin (1 / 10 : ℚ)) 2 0 (fin 1) (fin 0) PayEnd = (ninf, none)
      ∧ (pinf + ninf : F64 ℚ) = nan)
      ∧ (Payment (fin (2 ^ (600 : Nat) : B64)) 1 (fin 0) (fin (2 ^ (600 : Nat))) 0
          = (fin (-(2 ^ (600 : Nat))), none)
        ∧ InterestPayment (fin (2 ^ (600 : Nat) : B64)) 2 1 (fin 0) (fin (2 ^ (600 : Nat))) 0
          = (pinf, none)
        ∧ PrincipalPayment (fin (2 ^ (600 : Nat) : B64)) 2 1 (fin 0) (fin (2 ^ (600 : Nat))) 0
          = (ninf, none)
        ∧ (pinf + ninf : F64 B64) = nan)
      ∧ (Payment (fin (1 / 2 : B64)) 2 (fin 1) (fin 0) 0
          = (fin (-(8106479329266893 / 9007199254740992)), none)
        ∧ (InterestPayment (fin (1 / 2 : B64)) 2 2 (fin 1) (fin 0) 0).1
            + (PrincipalPayment (fin (1 / 2 : B64)) 2 2 (fin 1) (fin 0) 0).1
          = fin (-(4053239664633447 / 4503599627370496))
        ∧ ((-(4053239664633447 / 4503599627370496)) : B64)
          ≠ (-(8106479329266893 / 9007199254740992))) := by
  have hpay : Payment (fin (1 / 10 : ℚ)) 0 (fin 1) (fin 0) PayEnd = (ninf, none) := by
    norm_num [Payment, PayEnd, PayBegin, F64.ofInt, rnd_exact, F64.powi, F64.eq, F64.add_def,
      F64.sub_def, F64.mul_def, F64.div_def, F64.neg_def, F64.add, F64.neg, F64.mul, F64.div]
  refine ⟨⟨hpay, ?_, ?_, rfl⟩,
    ⟨payment_big, interest_principal_big.1, interest_principal_big.2, rfl⟩,
    ⟨payment_half, ?_, by norm_num⟩⟩
  · rw [interestPayment_eq _ _ _ _ _ _ (le_refl 0) (Or.inl rfl), hpay]
    norm_num [interestAndPrincipal.loop, PayEnd, F64.add_def, F64.sub_def,
      F64.mul_def, F64.neg_def, F64.add, F64.neg, F64.mul, F64.infTimes]
  · rw [principalPayment_eq _ _ _ _ _ _ (le_refl 0) (Or.inl rfl), hpay]
    norm_num [interestAndPrincipal.loop, PayEnd, F64.add_def, F64.sub_def,
      F64.mul_def, F64.neg_def, F64.add, F64.neg, F64.mul, F64.infTimes]
  · rw [interest_principal_half.1, interest_principal_half.2]
    exact interest_plus_principal_half

/-- C17 (amended): for every rate, `pv` and `fv`, `numPeriods ≥ 0`, a valid `paymentType` and
every `period ≥ 1`, `InterestPayment` and `PrincipalPayment` return no error and the principal
is the `float64` difference of `Payment(rate, numPeriods, pv, fv, type)` and the interest;
when the payment and the interest are finite and neither that difference nor the sum of the
interest and the principal is rounded, the interest and the principal add up to the
payment. -/
theorem C17_interest_plus_principal [Rounding K] (rate pv fv : F64 K)
    (period numPeriods paymentType : Int)
    (hn : 0 ≤ numPeriods) (ht : paymentType = PayEnd ∨ paymentType = PayBegin)
    (hper : 1 ≤ period) :
    (InterestPayment rate period numPeriods pv fv paymentType).2 = none
      ∧ (PrincipalPayment rate period numPeriods pv fv paymentType).2 = none
      ∧ (PrincipalPayment rate period numPeriods pv fv paymentType).1
          = (Payment rate numPeriods pv fv paymentType).1
            - (InterestPayment rate period numPeriods pv fv paymentType).1
      ∧ ∀ i p : K, (InterestPayment rate period numPeriods pv fv paymentType).1 = fin i →
          (Payment rate numPeriods pv fv paymentType).1 = fin p →
          Representable (p - i) → Representable (i + (p - i)) →
          (InterestPayment rate period numPeriods pv fv paymentType).1
              + (PrincipalPayment rate period numPeriods pv fv paymentType).1
            = (Payment rate numPeriods pv fv paymentType).1 := by
  have hk : period.toNat = (period.toNat - 1) + 1 := by omega
  have hprin : (PrincipalPayment rate period numPeriods pv fv paymentType).1
      = (Payment rate numPeriods pv fv paymentType).1
        - (InterestPayment rate period numPeriods pv fv paymentType).1 := by
    rw [interestPayment_eq _ _ _ _ _ _ hn ht, principalPayment_eq _ _ _ _ _ _ hn ht, hk]
    exact interestAndPrincipal_loop_principal _ _ _ _ _ _ _ _
  refine ⟨?_, ?_, hprin, ?_⟩
  · rw [interestPayment_eq _ _ _ _ _ _ hn ht]
  · rw [principalPayment_eq _ _ _ _ _ _ hn ht]
  · intro i p hi hp h1 h2
    rw [hprin, hi, hp, F64.sub_of_representable _ _ h1, F64.add_of_representable _ _ h2]
    congr 1
    ring

/-- C17 (amended), in binary64 for period 2 of the loan of 3 at the rate 1 over 2 periods,
where nothing rounds: the interest `-2` and the principal `-2` add up to the payment `-4`;
and, in binary64 at the input of the tests, with a correctly rounded `math.Pow`: period 3
of 36 at the rate `0.1/12` on 8000, payments at the end; the payment is within `1e-6` of
`-258.137498`, the interest of `-63.462189` and the principal of `-194.675308`, and the
`float64` sum of the interest and the principal is the payment. -/
theorem C17_interest_plus_principal_witness :
    ((0 : Int) ≤ 2 ∧ ((0 : Int) = PayEnd ∨ (0 : Int) = PayBegin) ∧ (1 : Int) ≤ 2
      ∧ InterestPayment (fin (1 : B64)) 2 2 (fin 3) (fin 0) 0 = (fin (-2), none)
      ∧ PrincipalPayment (fin (1 : B64)) 2 2 (fin 3) (fin 0) 0 = (fin (-2), none)
      ∧ Payment (fin (1 : B64)) 2 (fin 3) (fin 0) 0 = (fin (-4), none)
      ∧ (InterestPayment (fin (1 : B64)) 2 2 (fin 3) (fin 0) 0).1
          + (PrincipalPayment (fin (1 : B64)) 2 2 (fin 3) (fin 0) 0).1
        = (Payment (fin (1 : B64)) 2 (fin 3) (fin 0) 0).1)
      ∧ (∃ p : B64, Payment (fin ((4803839602528529 / 576460752303423488) : B64)) 36
            (fin 8000) (fin 0) 0 = (fin p, none)
          ∧ |p - (-258137498 / 1000000)| ≤ 1 / 1000000)
      ∧ (∃ i q : B64,
          InterestPayment (fin ((4803839602528529 / 576460752303423488) : B64)) 3 36
              (fin 8000) (fin 0) 0 = (fin i, none)
          ∧ PrincipalPayment (fin ((4803839602528529 / 576460752303423488) : B64)) 3 36
              (fin 8000) (fin 0) 0 = (fin q, none)
          ∧ |i - (-63462189 / 1000000)| ≤ 1 / 1000000
          ∧ |q - (-194675308 / 1000000)| ≤ 1 / 1000000)
      ∧ (InterestPayment (fin ((4803839602528529 / 576460752303423488) : B64)) 3 36
            (fin 8000) (fin 0) 0).1
          + (PrincipalPayment (fin ((4803839602528529 / 576460752303423488) : B64)) 3 36
              (fin 8000) (fin 0) 0).1
        = (Payment (fin ((4803839602528529 / 576460752303423488) : B64)) 36 (fin 8000)
            (fin 0) 0).1 := by
  have hb := C17_interest_plus_principal (fin (1 : B64)) (fin 3) (fin 0) 2 2 0 (by decide)
    (Or.inl rfl) (by decide)
  refine ⟨⟨by decide, Or.inl rfl, by decide, interest_principal_example.1,
      interest_principal_example.2, payment_example, ?_⟩,
    ⟨_, payment_loan_test, ?_⟩,
    ⟨_, _, interest_principal_loan_test.1, interest_principal_loan_test.2, ?_, ?_⟩, ?_⟩
  · exact hb.2.2.2 (-2) (-4) (congrArg Prod.fst interest_principal_example.1)
      (congrArg Prod.fst payment_example)
      (representable_of_dyadic _ (-2) 0 (by norm_num) ⟨by norm_num, by norm_num⟩
        (by norm_num) ⟨by norm_num, by norm_num⟩)
      (representable_of_dyadic _ (-4) 0 (by norm_num) ⟨by norm_num, by norm_num⟩
        (by norm_num) ⟨by norm_num, by norm_num⟩)
  · rw [abs_le]
    constructor <;> norm_num
  · rw [abs_le]
    constructor <;> norm_num
  · rw [abs_le]
    constructor <;> norm_num
  · rw [interest_principal_loan_test.1, interest_principal_loan_test.2, payment_loan_test]
    exact B64.add_eq _ _ _
      (round64_cert _ _ (8) (-4541202881951905) (by norm_num) (by norm_num) (Or.inr (Or.inr
        (by norm_num))) ⟨by norm_num, by norm_num⟩ ⟨by norm_num, by norm_num⟩ ⟨by norm_num,
        by norm_num⟩)

/-- C18: for every rate, `pv`, `fv` and `numPeriods ≥ 0`, in period 1 with
`paymentType = PayBegin`, `InterestPayment` returns 0 and `PrincipalPayment` returns the whole
`Payment(rate, numPeriods, pv, fv, PayBegin)`; with `paymentType = PayEnd` the interest of
period 1 is `-pv*rate`. -/
theorem C18_first_period (rate pv fv : F64 K) (numPeriods : Int) (hn : 0 ≤ numPeriods) :
    InterestPayment rate 1 numPeriods pv fv PayBegin = (fin 0, none)
      ∧ PrincipalPayment rate 1 numPeriods pv fv PayBegin
          = ((Payment rate numPeriods pv fv PayBegin).1, none)
      ∧ InterestPayment rate 1 numPeriods pv fv PayEnd = ((-pv) * rate, none) := by
  refine ⟨?_, ?_, ?_⟩
  · rw [interestPayment_eq rate pv fv 1 numPeriods PayBegin hn (Or.inr rfl)]
    simp [interestAndPrincipal.loop, PayBegin]
  · rw [principalPayment_eq rate pv fv 1 numPeriods PayBegin hn (Or.inr rfl)]
    simp [interestAndPrincipal.loop, PayBegin, F64.sub_fin_zero]
  · rw [interestPayment_eq rate pv fv 1 numPeriods PayEnd hn (Or.inl rfl)]
    simp [interestAndPrincipal.loop, PayEnd]

/-- C18, at a concrete input: 36 periods at the rate `0.1/12` on 8000. -/
theorem C18_first_period_witness :
    (0 : Int) ≤ 36
      ∧ InterestPayment (fin (1 / 120 : ℚ)) 1 36 (fin 8000) (fin 0) PayBegin = (fin 0, none)
      ∧ PrincipalPayment (fin (1 / 120 : ℚ)) 1 36 (fin 8000) (fin 0) PayBegin
          = ((Payment (fin (1 / 120 : ℚ)) 36 (fin 8000) (fin 0) PayBegin).1, none)
      ∧ InterestPayment (fin (1 / 120 : ℚ)) 1 36 (fin 8000) (fin 0) PayEnd
          = ((-(fin 8000)) * fin (1 / 120), none) :=
  ⟨by decide, C18_first_period (fin (1 / 120 : ℚ)) (fin 8000) (fin 0) 36 (by decide)⟩

/-- C20: `TBillEquivalentYield` returns an error if and only if `settlement >= maturity`, or
the whole-day count `dsm` exceeds 365 and it is not the case `dsm = 366` with (settlement
month `<= 2` and settlement year leap) or (settlement month `> 2` and maturity year leap);
`dsm` is the `int64` difference `maturity - settlement` divided by 86400 and truncated; in
particular every count above 366 is rejected. -/
theorem C20_tbill_equivalent_yield (date : Int → Int × Int × Int) (sqrt : F64 K → F64 K)
    (settlement maturity : Int) (discount : F64 K) :
    ((TBillEquivalentYield date sqrt settlement maturity discount).2 ≠ none
        ↔ (settlement ≥ maturity
          ∨ (365 < DaysDifference date settlement maturity CountActual365
            ∧ ¬ (DaysDifference date settlement maturity CountActual365 = 366
              ∧ (((date settlement).2.1 ≤ 2 ∧ isLeap (date settlement).1 = true)
                ∨ ((date settlement).2.1 > 2 ∧ isLeap (date maturity).1 = true))))))
      ∧ DaysDifference date settlement maturity CountActual365
          = Int.tdiv (wrapInt64 (maturity - settlement)) 86400
      ∧ (settlement < maturity
          → 366 < DaysDifference date settlement maturity CountActual365
          → TBillEquivalentYield date sqrt settlement maturity discount
            = (fin 0, some .moreThanOneYear)) := by
  have h182 : (fin 182 : F64 K) = fin ((182 : Int) : K) := by norm_num
  have h366 : (fin 366 : F64 K) = fin ((366 : Int) : K) := by norm_num
  have h365 : (fin 365 : F64 K) = fin ((365 : Int) : K) := by norm_num
  refine ⟨?_, ?_, ?_⟩
  · simp only [TBillEquivalentYield]
    by_cases h1 : settlement ≥ maturity
    · simp [h1]
    · rw [if_neg h1]
      rw [h182, h366, h365, ofInt_le_fin, ofInt_eq_fin, ofInt_lt_fin]
      simp only [decide_eq_true_eq]
      split_ifs with ha hb hc
      · simp only [ne_eq, not_true_eq_false, false_iff]
        rintro (h | ⟨h, _⟩)
        · exact h1 h
        · omega
      · simp only [ne_eq, not_true_eq_false, false_iff]
        rintro (h | ⟨_, h⟩)
        · exact h1 h
        · exact h hb
      · simp only [ne_eq, reduceCtorEq, not_false_eq_true, true_iff]
        exact Or.inr ⟨hc, hb⟩
      · simp only [ne_eq, not_true_eq_false, false_iff]
        rintro (h | ⟨h, _⟩)
        · exact h1 h
        · exact hc h
  · simp [DaysDifference, CountActual365, CountNasd, CountActualActual, CountActual360]
  · intro h1 h2
    simp only [TBillEquivalentYield]
    rw [if_neg (not_le.2 h1), h182, h366, h365, ofInt_le_fin, ofInt_eq_fin, ofInt_lt_fin]
    simp only [decide_eq_true_eq]
    rw [if_neg (by omega), if_neg (by rintro ⟨h, _⟩; omega), if_pos (by omega)]

/-- C20, at the dates of the tests (UTC): 2000-01-10 to 2001-01-10 is 366 days and
accepted; 2008-06-01 to 2010-03-31 is rejected. -/
theorem C20_tbill_equivalent_yield_witness :
    utcDate 947462400 = (2000, 1, 10) ∧ utcDate 979084800 = (2001, 1, 10)
      ∧ DaysDifference utcDate 947462400 979084800 CountActual365 = 366
      ∧ (TBillEquivalentYield utcDate (fun x : F64 ℚ => x) 947462400 979084800
          (fin (914 / 10000))).2 = none
      ∧ utcDate 1212278400 = (2008, 6, 1) ∧ utcDate 1269993600 = (2010, 3, 31)
      ∧ (TBillEquivalentYield utcDate (fun x : F64 ℚ => x) 1212278400 1269993600
          (fin (914 / 10000))).2 ≠ none := by
  have hd : DaysDifference utcDate 947462400 979084800 CountActual365 = 366 := by decide
  refine ⟨by decide, by decide, hd, ?_, by decide, by decide, ?_⟩
  · by_contra hne
    rcases (C20_tbill_equivalent_yield utcDate (fun x : F64 ℚ => x) 947462400 979084800
      (fin (914 / 10000))).1.1 hne with h | ⟨_, h⟩
    · exact absurd h (by decide)
    · exact h ⟨hd, Or.inl ⟨by decide, by decide⟩⟩
  · exact (C20_tbill_equivalent_yield utcDate (fun x : F64 ℚ => x) 1212278400 1269993600
      (fin (914 / 10000))).1.2 (Or.inr ⟨by decide, fun h => absurd h.1 (by decide)⟩)

/-- C21: for the bases `CountActualActual`, `CountActual360` and `CountActual365` and all
timestamps, in either order and whatever the calendar lookup, `DaysDifference` is the `int64`
difference `date2 - date1` divided by 86400 and truncated toward zero; that difference is the
exact one whenever the exact one fits in `int64`; a negative span of less than a day gives 0
(flooring would give -1). -/
theorem C21_days_difference_actual (date : Int → Int × Int × Int) (date1 date2 basis : Int) :
    ((basis = CountActualActual ∨ basis = CountActual360 ∨ basis = CountActual365)
        → DaysDifference date date1 date2 basis = Int.tdiv (wrapInt64 (date2 - date1)) 86400)
      ∧ (-2 ^ 63 ≤ date2 - date1 → date2 - date1 < 2 ^ 63
        → wrapInt64 (date2 - date1) = date2 - date1)
      ∧ Int.tdiv (wrapInt64 (0 - 1)) 86400 = 0 ∧ (0 - 1 : Int) / 86400 = -1 := by
  refine ⟨daysDifference_actual date date1 date2 basis, wrapInt64_of_fits _, ?_, ?_⟩
  · decide
  · decide

/-- C21, at the dates of the test (UTC): from 2005-07-01 to 2005-09-01 the count is 62, and
-62 in the other order, for each of the three bases. -/
theorem C21_days_difference_actual_witness :
    DaysDifference utcDate 1120176000 1125532800 CountActual365 = 62
      ∧ DaysDifference utcDate 1125532800 1120176000 CountActual365 = -62
      ∧ DaysDifference utcDate 1120176000 1125532800 CountActual360 = 62
      ∧ DaysDifference utcDate 1120176000 1125532800 CountActualActual = 62 := by
  rw [(C21_days_difference_actual utcDate 1120176000 1125532800 CountActual365).1
      (Or.inr (Or.inr rfl)),
    (C21_days_difference_actual utcDate 1125532800 1120176000 CountActual365).1
      (Or.inr (Or.inr rfl)),
    (C21_days_difference_actual utcDate 1120176000 1125532800 CountActual360).1
      (Or.inr (Or.inl rfl)),
    (C21_days_difference_actual utcDate 1120176000 1125532800 CountActualActual).1
      (Or.inl rfl)]
  decide

/-- C22 (counterexample), with the UTC calendar: for `CountNasd`, from 2008-01-15 the count to
2008-03-31 is 76 and to 2008-03-30 is 75, so replacing the day 31 of `date2` by 30 changes
the result when the day of `date1` is below 30; for `CountEuropean` no day is adjusted: from
2008-01-31 and from 2008-01-30 to 2008-03-15 the counts are 44 and 45, and from 2008-01-15 to
2008-03-31 and to 2008-03-30 they are 76 and 75. -/
theorem C22_day31_adjustment_counterexample :
    utcDate 1200355200 = (2008, 1, 15) ∧ utcDate 1206921600 = (2008, 3, 31)
      ∧ utcDate 1206835200 = (2008, 3, 30)
      ∧ DaysDifference utcDate 1200355200 1206921600 CountNasd = 76
      ∧ DaysDifference utcDate 1200355200 1206835200 CountNasd = 75
      ∧ utcDate 1201737600 = (2008, 1, 31) ∧ utcDate 1201651200 = (2008, 1, 30)
      ∧ utcDate 1205539200 = (2008, 3, 15)
      ∧ DaysDifference utcDate 1201737600 1205539200 CountEuropean = 44
      ∧ DaysDifference utcDate 1201651200 1205539200 CountEuropean = 45
      ∧ DaysDifference utcDate 1200355200 1206921600 CountEuropean = 76
      ∧ DaysDifference utcDate 1200355200 1206835200 CountEuropean = 75 := by
  decide

/-- C22 (amended): for `CountNasd` and every calendar lookup, replacing a day-of-month of 31
by 30 in `date1` leaves the result unchanged; replacing a day-of-month of 31 by 30 in `date2`
leaves it unchanged when the day-of-month of `date1` is 30 or 31; and the result is
`(y2-y1)*360 + (m2-m1)*30 + (d2-d1)` on the day numbers adjusted that way: a 31 in `date1`
counts as 30, a 31 in `date2` counts as 30 when the day of `date1` is 30 or 31. -/
theorem C22_nasd_day31_adjustment (date : Int → Int × Int × Int) (t1 s1 t2 s2 : Int) :
    ((date t1).1 = (date s1).1 → (date t1).2.1 = (date s1).2.1
        → (date t1).2.2 = 31 → (date s1).2.2 = 30
        → DaysDifference date t1 t2 CountNasd = DaysDifference date s1 t2 CountNasd)
      ∧ ((date t2).1 = (date s2).1 → (date t2).2.1 = (date s2).2.1
        → (date t2).2.2 = 31 → (date s2).2.2 = 30
        → ((date t1).2.2 = 30 ∨ (date t1).2.2 = 31)
        → DaysDifference date t1 t2 CountNasd = DaysDifference date t1 s2 CountNasd)
      ∧ DaysDifference date t1 t2 CountNasd
          = ((date t2).1 - (date t1).1) * 360 + ((date t2).2.1 - (date t1).2.1) * 30
            + ((if (date t2).2.2 = 31 ∧ ((date t1).2.2 = 30 ∨ (date t1).2.2 = 31) then 30
                else (date t2).2.2)
              - (if (date t1).2.2 = 31 then 30 else (date t1).2.2)) := by
  refine ⟨?_, ?_, ?_⟩
  · intro hy hm hd hd'
    simp only [DaysDifference, if_true, hy, hm, hd, hd']
    norm_num
  · intro hy hm hd hd' h1
    simp only [DaysDifference, if_true, hy, hm, hd, hd']
    rcases h1 with h | h <;> simp [h]
  · simp only [DaysDifference, if_true]
    ring

/-- C22 (amended), with the UTC calendar: from 2008-01-31 and from 2008-01-30 the counts to
2008-03-15 agree, and from 2008-01-30 the counts to 2008-03-31 and to 2008-03-30 agree. -/
theorem C22_nasd_day31_adjustment_witness :
    DaysDifference utcDate 1201737600 1205539200 CountNasd
        = DaysDifference utcDate 1201651200 1205539200 CountNasd
      ∧ DaysDifference utcDate 1201651200 1206921600 CountNasd
        = DaysDifference utcDate 1201651200 1206835200 CountNasd :=
  ⟨(C22_nasd_day31_adjustment utcDate 1201737600 1201651200 1205539200 1205539200).1
      (by decide) (by decide) (by decide) (by decide),
    (C22_nasd_day31_adjustment utcDate 1201651200 1201651200 1206921600 1206835200).2.1
      (by decide) (by decide) (by decide) (by decide) (Or.inl (by decide))⟩

/-- C25 (evaluation at the failing input): with `numPeriods = 0`, whatever the nominal rate,
`EffectiveRate` returns no error but the value `Pow(1 + nominal/0, 0) - 1 = 0`; the guard is
`numPeriods < 0`.  For the inputs of the tests, `EffectiveRate(0.4, 2)` is `0.44` and
`EffectiveRate(0.40, -13)` is an error. -/
theorem C25_effective_rate_zero_periods (nominal : F64 K) :
    EffectiveRate nominal 0 = (fin 0, none)
      ∧ EffectiveRate (fin (2 / 5 : ℚ)) 2 = (fin (11 / 25), none)
      ∧ EffectiveRate (fin (2 / 5 : ℚ)) (-13) = (fin 0, some .numPeriodsNotStrictlyPositive) := by
  refine ⟨?_, ?_, ?_⟩
  · simp only [EffectiveRate, F64.powi]
    norm_num [F64.fin_sub_fin]
  · norm_num [EffectiveRate, F64.ofInt, rnd_exact, F64.fin_div_fin, F64.fin_add_fin, F64.powi_fin,
      F64.fin_sub_fin]
  · simp [EffectiveRate]

/-- C26: `ScheduledNetPresentValue` returns an error if and only if `len(values)` differs
from `len(dates)`, and otherwise returns the sum, from left to right, of
`values[i] / (1+rate)^(days_i/365)` with `days_i` the elapsed days from `dates[0]` to
`dates[i]`. -/
theorem C26_scheduled_npv (rpow : F64 K → F64 K → F64 K) (days : Int → Int → F64 K)
    (rate : F64 K) (values : List (F64 K)) (dates : List Int) :
    ((ScheduledNetPresentValue rpow days rate values dates).2 ≠ none
        ↔ values.length ≠ dates.length)
      ∧ (values.length = dates.length
        → ScheduledNetPresentValue rpow days rate values dates
          = ((List.range values.length).foldl
              (fun acc i =>
                acc + values.getD i (fin 0)
                  / rpow (fin 1 + rate) (days (dates.getD 0 0) (dates.getD i 0) / fin 365))
              (fin 0), none)) := by
  constructor
  · simp only [ScheduledNetPresentValue]
    split_ifs with h
    · exact ⟨fun _ => h, fun _ => by simp⟩
    · exact ⟨fun hc => absurd rfl hc, fun hc => absurd hc h⟩
  · intro h
    simp only [ScheduledNetPresentValue]
    rw [if_neg (not_not.2 h)]

/-- C26, at the input of the test: one value with an empty date list is an error. -/
theorem C26_scheduled_npv_witness :
    (ScheduledNetPresentValue (fun x _ => x) (fun _ _ => fin 0) (fin (1 / 10 : ℚ))
        [fin (-10000)] []).2 ≠ none :=
  (C26_scheduled_npv (fun x _ => x) (fun _ _ => fin 0) (fin (1 / 10 : ℚ))
    [fin (-10000)] []).1.2 (by decide)

/-- C27: in the general branch of `TBillEquivalentYield`, reached when
`settlement < maturity` and the whole-day count `dsm` satisfies `182 < dsm <= 365`, the result
is `(-dsm + sqrt(dsm^2 - (2*dsm - 365)*discount*dsm*365/(discount*dsm - 360))) / (dsm - 182)`
with no error: the constant `365/2` is the integer 182, so the final divisor is the whole
number `dsm - 182`, at least 1 and not zero. -/
theorem C27_general_branch (date : Int → Int × Int × Int) (sqrt : F64 K → F64 K)
    (settlement maturity : Int) (discount : F64 K) (hsm : settlement < maturity)
    (h1 : 182 < DaysDifference date settlement maturity CountActual365)
    (h2 : DaysDifference date settlement maturity CountActual365 ≤ 365) :
    TBillEquivalentYield date sqrt settlement maturity discount
        = (((-(ofInt (DaysDifference date settlement maturity CountActual365)))
              + sqrt (powi (ofInt (DaysDifference date settlement maturity CountActual365)) 2
                - (fin 2 * ofInt (DaysDifference date settlement maturity CountActual365)
                    - fin 365) * discount
                  * ofInt (DaysDifference date settlement maturity CountActual365) * fin 365
                  / (discount * ofInt (DaysDifference date settlement maturity CountActual365)
                    - fin 360)))
            / (ofInt (DaysDifference date settlement maturity CountActual365) - fin 182), none)
      ∧ (ofInt (DaysDifference date settlement maturity CountActual365) - fin 182 : F64 K)
          = fin (((DaysDifference date settlement maturity CountActual365 - 182 : Int)) : K)
      ∧ 1 ≤ DaysDifference date settlement maturity CountActual365 - 182
      ∧ (((DaysDifference date settlement maturity CountActual365 - 182 : Int)) : K) ≠ 0 := by
  have h182 : (fin 182 : F64 K) = fin ((182 : Int) : K) := by norm_num
  have h366 : (fin 366 : F64 K) = fin ((366 : Int) : K) := by norm_num
  have h365 : (fin 365 : F64 K) = fin ((365 : Int) : K) := by norm_num
  refine ⟨?_, ?_, by omega, ?_⟩
  · simp only [TBillEquivalentYield]
    rw [if_neg (not_le.2 hsm)]
    have e1 : F64.le (ofInt (DaysDifference date settlement maturity CountActual365) : F64 K)
        (fin 182) = false := by
      rw [h182, ofInt_le_fin, decide_eq_false_iff_not]
      omega
    have e2 : F64.eq (ofInt (DaysDifference date settlement maturity CountActual365) : F64 K)
        (fin 366) = false := by
      rw [h366, ofInt_eq_fin, decide_eq_false_iff_not]
      omega
    have e3 : F64.lt (fin 365 : F64 K)
        (ofInt (DaysDifference date settlement maturity CountActual365)) = false := by
      rw [h365, ofInt_lt_fin, decide_eq_false_iff_not]
      omega
    rw [e1, e2, e3]
    simp
  · rw [h182, F64.ofInt, rnd_exact, F64.fin_sub_fin]
    congr 1
    push_cast
    ring
  · have : (0 : K) < ((DaysDifference date settlement maturity CountActual365 - 182 : Int) : K) := by
      exact_mod_cast (by omega : (0 : Int) < DaysDifference date settlement maturity CountActual365 - 182)
    exact ne_of_gt this

/-- C27, at the dates of the test (UTC) with the real square root: from 2008-03-20 to
2008-12-01 the count is 256, and at the discount 0.0914 the yield is within `1e-6` of
`0.097079`. -/
theorem C27_general_branch_witness :
    (1205971200 : Int) < 1228089600
      ∧ DaysDifference utcDate 1205971200 1228089600 CountActual365 = 256
      ∧ ∃ q : ℝ,
          TBillEquivalentYield utcDate
              (fun y : F64 ℝ => match y with
                | fin a => if 0 ≤ a then fin (Real.sqrt a) else nan
                | _ => y)
              1205971200 1228089600 (fin (914 / 10000)) = (fin q, none)
            ∧ |q - 97079 / 1000000| ≤ 1 / 1000000 := by
  have hd : DaysDifference utcDate 1205971200 1228089600 CountActual365 = 256 := by decide
  refine ⟨by decide, hd, (-256 + Real.sqrt (1821481532 / 26297)) / 74, ?_, ?_⟩
  · rw [(C27_general_branch utcDate _ 1205971200 1228089600 (fin (914 / 10000 : ℝ))
      (by decide) (by rw [hd]; decide) (by rw [hd]; decide)).1, hd]
    have hne : ((256 : Int) : ℝ) ≠ 0 := by norm_num
    simp only [F64.ofInt, rnd_exact, F64.powi_fin _ _ hne]
    norm_num [F64.fin_mul_fin, F64.fin_sub_fin, F64.fin_div_fin, F64.fin_add_fin, F64.neg_fin]
  · have hlo : (256 + 74 * (97078 / 1000000) : ℝ) ≤ Real.sqrt (1821481532 / 26297) := by
      rw [Real.le_sqrt' (by norm_num)]
      norm_num
    have hhi : Real.sqrt (1821481532 / 26297) ≤ (256 + 74 * (97080 / 1000000) : ℝ) := by
      rw [Real.sqrt_le_iff]
      constructor <;> norm_num
    rw [abs_le]
    constructor
    · linarith
    · linarith

/-- C28: `newton` is total, and for every starting counter `numIt` it returns after at least
one and at most `max(1, MaxIterations + 1 - numIt)` update steps (the recursion decreases
`MaxIterations - numIt`); in particular the solver calls of `Rate` and
`InternalRateOfReturn`, which start at counter 0, make at most 31 update steps. -/
theorem C28_newton_terminates [Rounding K] (guess : F64 K) (function derivative : F64 K → F64 K)
    (numIt : Int) (numPeriods paymentType : Int) (pmt pv fv : F64 K) (values : List (F64 K)) :
    (newtonCounted guess function derivative numIt).1 = newton guess function derivative numIt
      ∧ 1 ≤ (newtonCounted guess function derivative numIt).2
      ∧ ((newtonCounted guess function derivative numIt).2 : Int)
          ≤ max 1 (MaxIterations + 1 - numIt)
      ∧ (newtonCounted guess (fun rate => f rate numPeriods pmt pv fv paymentType)
          (fun rate => df rate numPeriods pmt pv fv paymentType) 0).2 ≤ 31
      ∧ (newtonCounted guess (fun rate => NetPresentValue rate values)
          (fun rate => dNetPresentValue rate values) 0).2 ≤ 31 := by
  obtain ⟨h1, h2, h3⟩ := newtonCounted_spec function derivative _ guess numIt rfl
  refine ⟨h1, h2, ?_, ?_, ?_⟩
  · have : ((newtonCounted guess function derivative numIt).2 : Int)
        ≤ ((MaxIterations - numIt).toNat : Int) + 1 := by exact_mod_cast h3
    rcases le_total 0 (MaxIterations - numIt) with h | h
    · rw [Int.toNat_of_nonneg h] at this
      exact le_trans this (le_trans (by omega) (le_max_right _ _))
    · rw [Int.toNat_eq_zero.2 h] at this
      exact le_trans this (le_max_left _ _)
  · exact (newtonCounted_spec _ _ _ guess 0 rfl).2.2
  · exact (newtonCounted_spec _ _ _ guess 0 rfl).2.2

/-- C29: the legacy and the migrated `TBillEquivalentYield` return the same value for all
arguments (whatever the calendar lookup and the square root) and agree on whether an error
is returned; the helpers they call, `DaysDifference` and `isLeap`, agree as well. -/
theorem C29_legacy_equivalent [Rounding K] (date : Int → Int × Int × Int) (sqrt : F64 K → F64 K)
    (settlement maturity basis year : Int) (discount : F64 K) :
    (Legacy.TBillEquivalentYield date sqrt settlement maturity discount).1
        = (TBillEquivalentYield date sqrt settlement maturity discount).1
      ∧ ((Legacy.TBillEquivalentYield date sqrt settlement maturity discount).2 = none
        ↔ (TBillEquivalentYield date sqrt settlement maturity discount).2 = none)
      ∧ Legacy.DaysDifference date settlement maturity basis
          = DaysDifference date settlement maturity basis
      ∧ Legacy.isLeap year = isLeap year := by
  refine ⟨?_, ?_, rfl, rfl⟩
  · simp only [Legacy.TBillEquivalentYield, TBillEquivalentYield]
    have hd : Legacy.DaysDifference date settlement maturity Legacy.COUNT_ACTUAL_365
        = DaysDifference date settlement maturity CountActual365 := rfl
    have hl : ∀ y, Legacy.isLeap y = isLeap y := fun _ => rfl
    rw [hd, hl, hl]
    split_ifs <;> rfl
  · simp only [Legacy.TBillEquivalentYield, TBillEquivalentYield]
    have hd : Legacy.DaysDifference date settlement maturity Legacy.COUNT_ACTUAL_365
        = DaysDifference date settlement maturity CountActual365 := rfl
    have hl : ∀ y, Legacy.isLeap y = isLeap y := fun _ => rfl
    rw [hd, hl, hl]
    split_ifs <;> simp

/-- C32: for a finite guess `g` with `f(g) = 0` and a derivative value `df(g)` that is
neither zero nor NaN, `newton` returns exactly `g` with no error, whatever the counter
(also at or above `MaxIterations`), after a single update step. -/
theorem C32_root_is_fixed_point (function derivative : F64 K → F64 K) (g : K) (numIt : Int)
    (hf : function (fin g) = fin 0) (hd : derivative (fin g) ≠ fin 0)
    (hnan : derivative (fin g) ≠ nan) :
    newton (fin g) function derivative numIt = .ok (fin g)
      ∧ newtonCounted (fin g) function derivative numIt = (.ok (fin g), 1) := by
  have hstep : newtonStep function derivative (fin g) = fin g := by
    unfold newtonStep
    rw [hf]
    have hq : (fin 0 / derivative (fin g) : F64 K) = fin 0 := by
      show F64.div (fin 0) (derivative (fin g)) = fin 0
      cases hdv : derivative (fin g) with
      | fin d =>
        have hd0 : d ≠ 0 := fun h => hd (by rw [hdv, h])
        simp [F64.div, hd0, rnd_exact]
      | pinf => rfl
      | ninf => rfl
      | nan => exact absurd hdv hnan
    rw [hq, F64.fin_sub_fin, sub_zero]
  have hconv : F64.lt (F64.abs (newtonStep function derivative (fin g) - fin g))
      (Precision : F64 K) = true := by
    rw [hstep, F64.fin_sub_fin, F64.abs_fin]
    simp only [Precision, rnd_exact, F64.lt_fin_fin, sub_self, abs_zero, decide_eq_true_eq]
    norm_num
  constructor
  · rw [newton_unfold, if_pos hconv, hstep]
  · rw [newtonCounted_unfold, if_pos hconv, hstep]

/-- C32, at a concrete input: the root 2 of `x*x - 4` with derivative `2*x`, at the counter
100. -/
theorem C32_root_is_fixed_point_witness :
    (fun x : F64 ℚ => x * x - fin 4) (fin 2) = fin 0
      ∧ (fun x : F64 ℚ => fin 2 * x) (fin 2) ≠ fin 0
      ∧ (fun x : F64 ℚ => fin 2 * x) (fin 2) ≠ nan
      ∧ newton (fin (2 : ℚ)) (fun x => x * x - fin 4) (fun x => fin 2 * x) 100 = .ok (fin 2)
      ∧ newtonCounted (fin (2 : ℚ)) (fun x => x * x - fin 4) (fun x => fin 2 * x) 100
          = (.ok (fin 2), 1) :=
  have hf : (fun x : F64 ℚ => x * x - fin 4) (fin 2) = fin 0 := by
    norm_num [F64.fin_mul_fin, F64.fin_sub_fin]
  have hd : (fun x : F64 ℚ => fin 2 * x) (fin 2) ≠ fin 0 := by
    norm_num [F64.fin_mul_fin]
  have hn : (fun x : F64 ℚ => fin 2 * x) (fin 2) ≠ nan := by
    simp only [F64.fin_mul_fin]
    exact fun h => F64.noConfusion h
  ⟨hf, hd, hn, C32_root_is_fixed_point _ _ 2 100 hf hd hn⟩

end GoFinance
